import Mathlib

/-!
Display session manager (composer/hwc_session.cpp).

A shallow embedding of the parts of `HWCSession` that own the display slot
table, the virtual-display reuse cache, the pluggable-display hotplug
reconciliation, the secure-session handling, the bounded waits, the
trusted-UI hand-off, the set-up of the slot tables and the lock order of the
operations, followed by theorems about them.

Conventions of the embedding.

* The session object is a record `HWCSession`; every member function becomes a
  function that takes the record and returns the new record next to its C++
  return value.
* The state functions do not represent the per-display locks, the
  pluggable-handler lock and the command mutex: each function is modelled as
  one uninterrupted run. The lock operations of a run are a separate list
  (section "Lock traces"), given by functions named after the operation with
  the suffix `_locks` that follow the same branches on the same states.
* Calls that leave the session (client callbacks, display factories, the
  engine-side `Abort`/`Destroy`) are appended to `HWCSession.trace` in call
  order, so that "is not invoked" and "is notified" are statements about the
  trace.
* What the display engine answers (hardware list, factory results, the
  outcome of waits) is read from an `Env` record.
* `hwc_display_` is the array of display-object pointers, modelled as a total
  map from index to `Option HWCDisplay` (`none` is the null pointer).
-/

namespace sdm

/-- Client-visible display identifier (`Display`, an unsigned 64-bit id). -/
abbrev Display := Nat

/-- Static limits declared in `HWCCallbacks` (hwc_callbacks.h is not part of the
sources, so the values are parameters of the development). -/
structure HWCCallbacks where
  kNumDisplays : Nat
  kNumRealDisplays : Nat
  kNumPluggable : Nat
  kNumBuiltIn : Nat
  kNumVirtual : Nat
deriving DecidableEq, Repr

/-- Linux errno values used by the session code. -/
def EAGAIN : Int := 11

/-- Linux errno value `ENODEV`. -/
def ENODEV : Int := 19

/-- Linux errno value `EINVAL`. -/
def EINVAL : Int := 22

/-- Linux errno value `EPERM`. -/
def EPERM : Int := 1

/-- Linux errno value `EBUSY`. -/
def EBUSY : Int := 16

/-- Linux errno value `ENOTSUP`. -/
def ENOTSUP : Int := 95

/-- Linux errno value `ETIMEDOUT`. -/
def ETIMEDOUT : Int := 110

/-- The `HWC3::Error` status set returned by the composer-facing operations. -/
inductive HWC3Error where
  | None
  | BadConfig
  | BadDisplay
  | BadLayer
  | BadParameter
  | NoResources
  | NotValidated
  | Unsupported
  | SeamlessNotAllowed
  | SeamlessNotPossible
deriving DecidableEq, Repr

/-- The composer `PowerMode` enumeration. -/
inductive PowerMode where
  | OFF
  | DOZE
  | ON
  | DOZE_SUSPEND
  | ON_SUSPEND
deriving DecidableEq, Repr

/-- Numeric value of a power mode (`INT32(PowerMode::...)`). -/
def PowerMode.toInt : PowerMode → Int
  | .OFF => 0
  | .DOZE => 1
  | .ON => 2
  | .DOZE_SUSPEND => 3
  | .ON_SUSPEND => 4

/-- The `static_cast<PowerMode>(int_mode)` of a value already checked to lie in
`[OFF, ON_SUSPEND]`. -/
def PowerMode.ofInt (i : Int) : PowerMode :=
  if i = 0 then .OFF
  else if i = 1 then .DOZE
  else if i = 2 then .ON
  else if i = 3 then .DOZE_SUSPEND
  else .ON_SUSPEND

/-- The engine display type `sdm::DisplayType`; `kDisplayTypeMax` is the value of an
unused descriptor. -/
inductive DisplayType where
  | kBuiltIn
  | kPluggable
  | kVirtual
  | kDisplayTypeMax
deriving DecidableEq, Repr

/-- Result of `HWCDisplay::GetDisplayClass`. -/
inductive DisplayClass where
  | DISPLAY_CLASS_BUILTIN
  | DISPLAY_CLASS_PLUGGABLE
  | DISPLAY_CLASS_VIRTUAL
  | DISPLAY_CLASS_NULL
deriving DecidableEq, Repr

/-- The `std::bitset<kSecureMax>` reported by `GetActiveSecureSession`: the two bits the
session code names, and one flag for every further bit of the set. -/
structure SecureSessions where
  kSecureDisplay : Bool := false
  kSecureCamera : Bool := false
  kSecureOther : Bool := false
deriving DecidableEq, Repr

/-- The `bitset::any` test. -/
def SecureSessions.any (b : SecureSessions) : Bool :=
  b.kSecureDisplay || b.kSecureCamera || b.kSecureOther

/-- The engine status `DisplayError`; `kErrorUndefined` stands for every code other than
the two the session code names. -/
inductive DisplayError where
  | kErrorNone
  | kErrorPermission
  | kErrorUndefined
deriving DecidableEq, Repr

/-- The secure events of the trusted-UI hand-off (`SecureEvent`). -/
inductive SecureEvent where
  | kTUITransitionPrepare
  | kTUITransitionStart
  | kTUITransitionEnd
  | kTUITransitionUnPrepare
deriving DecidableEq, Repr

/-- The adaptive-sync mode (`QSyncMode`). -/
inductive QSyncMode where
  | kQSyncModeNone
  | kQSyncModeContinuous
  | kQSyncModeOneShot
deriving DecidableEq, Repr

/-- The event kinds of `TUIEventHandler` (`TUIEventType`); `unknown` stands for a value
outside the three the switch names. -/
inductive TUIEventType where
  | PREPARE_TUI_TRANSITION
  | START_TUI_TRANSITION
  | END_TUI_TRANSITION
  | unknown
deriving DecidableEq, Repr

/-- Modelled from the spec: the display object `HWCDisplay` (hwc_display.cpp is not in
the sources). The record holds what the session reads from the object (power modes,
secure-session bits, first-commit flag, active configuration, HDR support, refresh
rate) and what the engine will answer to the calls the session makes on it. -/
structure HWCDisplay where
  display_class : DisplayClass := .DISPLAY_CLASS_BUILTIN
  current_power_mode : PowerMode := .OFF
  pending_power_mode : PowerMode := .OFF
  secure_sessions : SecureSessions := {}
  first_commit_done : Bool := false
  hdr_support : Bool := false
  max_refresh_rate : Nat := 60
  active_config : Nat := 0
  alt_config_status : Int := 0
  alt_config_on : Nat := 0
  alt_config_off : Nat := 0
  attributes_error : Int := 0
  power_mode_status : HWC3Error := .None
  /-- Whether `GetDisplayType` reports `DisplayBasicType::kPhysical`. -/
  physical : Bool := true
  /-- The value `GetDisplayAttribute(config, VSYNC_PERIOD, ...)` leaves in `vsync_period`
  for the cached active configuration (an `int32_t`, in nanoseconds). -/
  vsync_period : Int := 0
  /-- The `vsync_period_ns` of the active configuration (`uint32_t`). -/
  vsync_period_ns : Nat := 0
deriving DecidableEq, Repr

/-- Modelled from the spec: `HWCDisplay::SetPowerMode(mode, teardown)`, the engine call
`SetPowerMode(handle, mode, teardown) -> error`; on success the current power mode is
the requested one. -/
def HWCDisplay.SetPowerMode (d : HWCDisplay) (mode : PowerMode) : HWC3Error × HWCDisplay :=
  if d.power_mode_status = .None then (.None, { d with current_power_mode := mode })
  else (d.power_mode_status, d)

/-- Modelled from the spec: `HWCDisplay::SetPendingPowerMode`, which captures a deferred
power transition on the display object. -/
def HWCDisplay.SetPendingPowerMode (d : HWCDisplay) (mode : PowerMode) : HWCDisplay :=
  { d with pending_power_mode := mode }

/-- Modelled from the spec: `HWCDisplay::SetAlternateDisplayConfig(set)`; on success the
active configuration is the alternate (`set`) or the regular one. -/
def HWCDisplay.SetAlternateDisplayConfig (d : HWCDisplay) (set : Bool) : Int × HWCDisplay :=
  if d.alt_config_status = 0 then
    (0, { d with active_config := if set then d.alt_config_on else d.alt_config_off })
  else (d.alt_config_status, d)

/-- One entry of the slot table (`DisplayMapInfo`). -/
structure DisplayMapInfo where
  client_id : Display
  sdm_id : Int := -1
  disp_type : DisplayType := .kDisplayTypeMax
  test_pattern : Bool := false
deriving DecidableEq, Repr

instance : Inhabited DisplayMapInfo := ⟨{ client_id := 0 }⟩

/-- Modelled from the spec: `DisplayMapInfo::Reset` (declared in hwc_session.h, not in the
sources): the hardware id goes back to -1 and the kind to unused; the client id
stays. -/
def DisplayMapInfo.Reset (m : DisplayMapInfo) : DisplayMapInfo :=
  { m with sdm_id := -1, disp_type := .kDisplayTypeMax, test_pattern := false }

/-- A pointer to a slot descriptor (`DisplayMapInfo *`): which table and which index. -/
inductive MapInfoRef where
  | primary
  | builtin (i : Nat)
  | pluggable (i : Nat)
  | virt (i : Nat)
deriving DecidableEq, Repr

/-- One entry of the hardware display list (`HWDisplayInfo`). -/
structure HWDisplayInfo where
  display_id : Int
  display_type : DisplayType := .kPluggable
  is_connected : Bool := true
  is_primary : Bool := false
deriving DecidableEq, Repr

/-- One entry of the virtual-display reuse cache (`VirtualDisplayData`). -/
structure VirtualDisplayData where
  width : Nat
  height : Nat
  format : Int
  in_use : Bool := false
deriving DecidableEq, Repr

/-- The hotplug state (`pending_hotplug_event_`). -/
inductive HotPlugEvent where
  | kHotPlugNone
  | kHotPlugEvent
  | kHotPlugProcessing
deriving DecidableEq, Repr

/-- Calls that leave the session, in the order they are made. -/
inductive Event where
  | Hotplug (display : Display) (connected : Bool)
  | Refresh (display : Display)
  | NotifyResolutionChange (display : Display) (config : Nat)
  | Abort (display : Display)
  | RequestVirtualDisplayId
  | VirtualCreate (client_id : Display) (sdm_id : Int) (width height : Nat) (format : Int)
  | PluggableCreate (client_id : Display) (sdm_id : Int) (test_pattern : Bool)
  | PluggableDestroy (client_id : Display) (test_pattern : Bool)
  | BuiltInDestroy (client_id : Display)
  | VirtualDestroy (client_id : Display)
  | SetThrottlingRefreshRate (rate : Nat)
  | HandleSecureEvent (display : Display) (event : SecureEvent) (target : Bool)
  | PostHandleSecureEvent (display : Display) (event : SecureEvent)
  | SetIdleTimeoutMs (display : Display) (active_ms inactive_ms : Nat)
  | SetQSyncMode (display : Display) (mode : QSyncMode)
  | TeardownConcurrentWriteback (display : Display)
  | WaitFinite (display : Display) (timeout_ms : Int)
  | VmReleaseWaitFinite (display : Display) (timeout_ms : Int)
  | FenceWait (timeout_ms : Int)
  | HandlePluggableDisplaysThread (delay_hotplug : Bool)
  | AsyncTUIEvent (event_type : TUIEventType) (disp_id : Int)
  | AsyncNotifyTUIEventDone (disp_id : Int) (event_type : TUIEventType)
deriving DecidableEq, Repr

/-- Modelled from the spec: outcome of a display factory (`HWCDisplayPluggable::Create`,
`HWCDisplayPluggableTest::Create`, `HWCVirtualDisplayFactory::Create`; none of them is in
the sources). The engine interface is `CreateDisplay(...) -> handle|error`: either a
display object is stored through the out pointer and the status is 0, or the pointer is
left alone and the status is not 0. -/
inductive CreateOutcome where
  | created (d : HWCDisplay)
  | failed (status : { e : Int // e ≠ 0 })
deriving DecidableEq

/-- The integer status of a factory call. -/
def CreateOutcome.status : CreateOutcome → Int
  | .created _ => 0
  | .failed e => e.val

/-- The object stored through the out pointer, if any. -/
def CreateOutcome.display : CreateOutcome → Option HWCDisplay
  | .created d => some d
  | .failed _ => none

/-- One round of the resource wait in `WaitForResources`: the condition variable times
out, or it is signalled and `CheckResourceState` then answers `res_wait` and
`needs_active_builtin_reconfig`. -/
inductive WaitStep where
  | timeout
  | signalled (res_wait : Bool) (needs_active_builtin_reconfig : Bool)
deriving DecidableEq, Repr

/-- What the collaborators of the session answer during one operation. -/
structure Env where
  /-- Result of `core_intf_->GetDisplaysStatus`, `none` when it reports an error. -/
  displays_status : Option (List HWDisplayInfo) := some []
  /-- Outcome of the pluggable factories for `(client_id, sdm_id, test_pattern)`. -/
  pluggable_create : Display → Int → Bool → CreateOutcome
  /-- Outcome of `virtual_display_factory_.Create` for `(client_id, sdm_id, width,
  height, format)`, with the value it leaves in `*format`. -/
  virtual_create : Display → Int → Nat → Nat → Int → CreateOutcome × Int
  /-- Answer of `virtual_display_factory_.IsGPUColorConvertSupported`. -/
  gpu_color_convert : Bool := false
  /-- Result of `core_intf_->RequestVirtualDisplayId`: `none` on error, else the id. -/
  request_virtual_display_id : Option Int := none
  /-- First answer of `CheckResourceState` in `WaitForResources`. -/
  first_check : Bool × Bool := (false, false)
  /-- The rounds of the resource wait; when the list is used up nobody signals any more
  and the wait times out. -/
  wait_script : List WaitStep := []
  /-- Modelled from the spec: `HWCDisplay::HandleSecureSession(secure_sessions,
  &pending_power_mode_[display], is_active_secure_display)` for the display bound at an
  index: the display object afterwards and the value left in the pending flag. -/
  handle_secure_session : Display → HWCDisplay → SecureSessions → Bool → Bool → HWCDisplay × Bool :=
    fun _ d _ pending _ => (d, pending)
  /-- Modelled from the spec: `HandleSecureEvent(handle, event, target) -> (needs_refresh,
  error)` for the display bound at an index: the status and the value left in
  `needs_refresh` (which is `false` before the call). -/
  handle_secure_event : Display → SecureEvent → Bool → DisplayError × Bool :=
    fun _ _ _ => (.kErrorNone, false)
  /-- Status of `HWCDisplay::PostHandleSecureEvent(event)` for the display bound at an
  index. -/
  post_handle_secure_event : Display → SecureEvent → DisplayError := fun _ _ => .kErrorNone
  /-- The rounds of `vm_release_locker_[display].WaitFinite` in `WaitForVmRelease`: `true`
  when `VmReleaseDone` signals in time; when the list is used up nobody signals. -/
  vm_release_script : List Bool := []
  /-- What a commit publishes for the waiter in `WaitForCommitDone` before it signals
  (`commit_error_[display]` and `retire_fence_[display]`); `none` when no commit
  completion is signalled before the wait times out. -/
  commit_signal : Option (Int × Option Nat) := none
  /-- Result of `Fence::Wait(retire_fence, timeout)` in `WaitForCommitDone`. -/
  fence_wait_status : Int := 0
  /-- Whether a notification task that is still running completes within the 1000 ms
  `wait_for` of `TUIEventHandler`. -/
  tui_callback_completes : Bool := false
  /-- Result of `pluggable_handler_lock_.TryLock()` in `HandlePendingHotplug` (0 when the
  lock was free). -/
  pluggable_handler_try_lock : Int := 0

/-- A task started with `std::async` and the future that holds it: the call it runs, and
whether it has completed. -/
structure AsyncTask where
  work : Event
  ready : Bool := false
deriving DecidableEq, Repr

/-- The session state (`HWCSession` members used by the modelled functions). -/
structure HWCSession where
  map_info_primary_ : DisplayMapInfo := { client_id := 0 }
  map_info_builtin_ : List DisplayMapInfo := []
  map_info_pluggable_ : List DisplayMapInfo := []
  map_info_virtual_ : List DisplayMapInfo := []
  hwc_display_ : Display → Option HWCDisplay := fun _ => none
  map_active_displays_ : List (Display × MapInfoRef) := []
  active_displays_ : List Display := []
  pending_hotplugs_ : List Display := []
  pending_hotplug_event_ : HotPlugEvent := .kHotPlugNone
  pending_power_mode_ : Display → Bool := fun _ => false
  pending_refresh_ : Display → Bool := fun _ => false
  display_ready_ : Display → Bool := fun _ => false
  is_hdr_display_ : Display → Bool := fun _ => false
  virtual_id_map_ : List (Display × VirtualDisplayData) := []
  virtual_display_list_ : List HWDisplayInfo := []
  secure_session_active_ : Bool := false
  disable_hotplug_bwcheck_ : Int := 0
  enable_primary_reconfig_req_ : Int := 0
  hpd_bpp_ : Int := 0
  hpd_pattern_ : Int := 0
  client_connected_ : Bool := false
  callbacks_client_connected : Bool := false
  idle_pc_ref_cnt_ : Nat := 0
  throttling_refresh_rate_ : Nat := 60
  resource_ready_ : Bool := false
  cached_retire_fence_ : Option Nat := none
  clients_waiting_for_commit_ : Display → List Nat := fun _ => []
  retire_fence_ : Display → Option Nat := fun _ => none
  commit_error_ : Display → Int := fun _ => 0
  clients_waiting_for_vm_release_ : Display → Bool := fun _ => false
  idle_time_active_ms_ : Nat := 0
  idle_time_inactive_ms_ : Nat := 0
  hwc_display_qsync_ : Display → QSyncMode := fun _ => .kQSyncModeNone
  tui_event_handler_future_ : Option AsyncTask := none
  tui_callback_handler_future_ : Option AsyncTask := none
  trace : List Event := []

/-! ## Containers

`std::map` and `std::set` members are association lists and lists without
repeated keys; list order stands for iteration order. -/

/-- The `std::map::insert` of a pair: an existing key keeps its value. -/
def mapInsert {α : Type} (m : List (Display × α)) (k : Display) (v : α) : List (Display × α) :=
  if m.any (fun e => e.1 == k) then m else m ++ [(k, v)]

/-- The `std::map::erase` of a key; keys are unique in a map, so erasing the entry that
`find` returns removes every binding of the key. -/
def mapErase {α : Type} (m : List (Display × α)) (k : Display) : List (Display × α) :=
  m.filter (fun e => e.1 != k)

/-- The `std::set::insert`. -/
def setInsert (m : List Display) (k : Display) : List Display :=
  if k ∈ m then m else m ++ [k]

/-- The `std::set::erase` of a key. -/
def setErase (m : List Display) (k : Display) : List Display :=
  m.filter (fun e => e != k)

/-- Dereference of a descriptor pointer. -/
def HWCSession.mapInfo (s : HWCSession) : MapInfoRef → DisplayMapInfo
  | .primary => s.map_info_primary_
  | .builtin i => s.map_info_builtin_.getD i default
  | .pluggable i => s.map_info_pluggable_.getD i default
  | .virt i => s.map_info_virtual_.getD i default

/-- Store through a descriptor pointer. -/
def HWCSession.setMapInfo (s : HWCSession) (r : MapInfoRef) (m : DisplayMapInfo) : HWCSession :=
  match r with
  | .primary => { s with map_info_primary_ := m }
  | .builtin i => { s with map_info_builtin_ := s.map_info_builtin_.set i m }
  | .pluggable i => { s with map_info_pluggable_ := s.map_info_pluggable_.set i m }
  | .virt i => { s with map_info_virtual_ := s.map_info_virtual_.set i m }

/-- Append one outgoing call to the trace. -/
def HWCSession.emit (s : HWCSession) (e : Event) : HWCSession :=
  { s with trace := s.trace ++ [e] }

/-- Store a pointer in `hwc_display_[display]`. -/
def HWCSession.setDisplay (s : HWCSession) (display : Display) (d : Option HWCDisplay) :
    HWCSession :=
  { s with hwc_display_ := Function.update s.hwc_display_ display d }

/-! ## Queries on the slot table -/

/-- `HWCSession::GetActiveBuiltinDisplay`: the first primary or built-in slot whose
display is bound and not powered off, else `kNumDisplays`. -/
def GetActiveBuiltinDisplay (K : HWCCallbacks) (s : HWCSession) : Display :=
  match (s.map_info_primary_ :: s.map_info_builtin_).find? (fun info =>
      match s.hwc_display_ info.client_id with
      | some d => d.current_power_mode != PowerMode.OFF
      | none => false) with
  | some info => info.client_id
  | none => K.kNumDisplays

/-- `HWCSession::IsPluggableDisplayConnected`. -/
def IsPluggableDisplayConnected (s : HWCSession) : Bool :=
  s.map_info_pluggable_.any (fun map_info => (s.hwc_display_ map_info.client_id).isSome)

/-- `HWCSession::IsVirtualDisplayConnected`: the conjunction over all virtual slots. -/
def IsVirtualDisplayConnected (s : HWCSession) : Bool :=
  s.map_info_virtual_.all (fun map_info => (s.hwc_display_ map_info.client_id).isSome)

/-- `HWCSession::GetVirtualDisplayId`. -/
def GetVirtualDisplayId (s : HWCSession) (info : HWDisplayInfo) : Int :=
  if s.map_info_virtual_.any (fun map_info => map_info.sdm_id == info.display_id) then -1
  else info.display_id

/-- The symbolic display numbers of `qdutils` that `GetDisplayIndex` switches on. -/
inductive QdutilsDisplay where
  | DISPLAY_PRIMARY
  | DISPLAY_EXTERNAL
  | DISPLAY_EXTERNAL_2
  | DISPLAY_VIRTUAL
  | DISPLAY_VIRTUAL_2
  | DISPLAY_BUILTIN_2
  | unknown
deriving DecidableEq, Repr

/-- The `INT(...)` cast of a 64-bit id to a 32-bit signed integer. -/
def INT (n : Nat) : Int := Int.bmod (n : Int) (2 ^ 32)

/-- The cast of an `int` to `hwc2_display_t` (unsigned 64 bit). -/
def toDisplay (i : Int) : Display := (i % 2 ^ 64).toNat

/-- `HWCSession::GetDisplayIndex`. -/
def GetDisplayIndex (s : HWCSession) (dpy : QdutilsDisplay) : Int :=
  let map_info : Option DisplayMapInfo :=
    match dpy with
    | .DISPLAY_PRIMARY => some s.map_info_primary_
    | .DISPLAY_EXTERNAL => s.map_info_pluggable_[0]?
    | .DISPLAY_EXTERNAL_2 => s.map_info_pluggable_[1]?
    | .DISPLAY_VIRTUAL => s.map_info_virtual_[0]?
    | .DISPLAY_VIRTUAL_2 => s.map_info_virtual_[1]?
    | .DISPLAY_BUILTIN_2 => s.map_info_builtin_[0]?
    | .unknown => none
  match map_info with
  | none => -1
  | some m => INT m.client_id

/-- `HWCSession::IsHWDisplayConnected`. -/
def IsHWDisplayConnected (env : Env) (s : HWCSession) (client_id : Display) : Bool :=
  match env.displays_status with
  | none => false
  | some hw_displays_info =>
    match s.map_info_pluggable_.find? (fun i => client_id == i.client_id) with
    | none => true
    | some itr_map =>
      match hw_displays_info.find? (fun info => itr_map.sdm_id == info.display_id) with
      | none => false
      | some itr_hw => itr_hw.is_connected

/-- `HWCSession::NotifyDisplayAttributes`: the client is told about the new resolution
when the attributes of the configuration can be read. -/
def NotifyDisplayAttributes (s : HWCSession) (display : Display) (config : Nat) : HWCSession :=
  match s.hwc_display_ display with
  | some d => if d.attributes_error = 0 then s.emit (.NotifyResolutionChange display config) else s
  | none => s

/-! ## Virtual displays -/

/-- Result of `CreateVirtualDisplayObj`: the status, the value written to
`*out_display_id` (if any), the value left in `*format`, and the new state. -/
structure VdsResult where
  status : HWC3Error
  out_display_id : Option Display
  format : Int
  state : HWCSession

/-- The cache walk at the head of `CreateVirtualDisplayObj`: the first entry with the
requested size and format that is not in use is marked in use and its key returned. -/
def cacheLookup (width height : Nat) (format : Int) :
    List (Display × VirtualDisplayData) → Option (Display × List (Display × VirtualDisplayData))
  | [] => none
  | vds_map :: rest =>
    if vds_map.2.width = width ∧ vds_map.2.height = height ∧ vds_map.2.format = format ∧
        vds_map.2.in_use = false then
      some (vds_map.1, (vds_map.1, { vds_map.2 with in_use := true }) :: rest)
    else
      match cacheLookup width height format rest with
      | some (id, rest1) => some (id, vds_map :: rest1)
      | none => none

/-- The walk over `virtual_display_list_` that picks the hardware id of the new virtual
display (GPU colour-convert case); -1 when every listed id is taken. -/
def pickVirtualDisplayId (s : HWCSession) : List HWDisplayInfo → Int
  | [] => -1
  | vdl :: rest =>
    if GetVirtualDisplayId s vdl = -1 then pickVirtualDisplayId s rest
    else GetVirtualDisplayId s vdl

/-- The loop over `map_info_virtual_` at the end of `CreateVirtualDisplayObj`, from slot
index `i` on: the first slot without a display object gets the new display. -/
def createVirtualInSlots (env : Env) (width height : Nat) (format : Int) (display_id : Int)
    (s : HWCSession) : Nat → List DisplayMapInfo → VdsResult
  | _, [] => ⟨.NoResources, none, format, s⟩
  | i, map_info :: rest =>
    let client_id := map_info.client_id
    match s.hwc_display_ client_id with
    | some _ => createVirtualInSlots env width height format display_id s (i + 1) rest
    | none =>
      let out := env.virtual_create client_id display_id width height format
      let s1 := s.emit (.VirtualCreate client_id display_id width height format)
      match out.1 with
      | .failed _ => ⟨.NoResources, none, out.2, s1⟩
      | .created d =>
        let s2 := s1.setDisplay client_id (some d)
        if display_id = -1 then ⟨.NoResources, none, out.2, s2⟩
        else
          let hdr := Function.update s2.is_hdr_display_ client_id d.hdr_support
          let s3 := { s2 with is_hdr_display_ := hdr }
          let s4 := s3.setMapInfo (.virt i)
            { map_info with disp_type := DisplayType.kVirtual, sdm_id := display_id }
          let s5 := { s4 with
            map_active_displays_ := mapInsert s4.map_active_displays_ client_id (.virt i) }
          let vds_data : VirtualDisplayData := { width := width, height := height, format := out.2 }
          let s6 := { s5 with virtual_id_map_ := mapInsert s5.virtual_id_map_ client_id vds_data }
          ⟨.None, some client_id, out.2, s6⟩

/-- `HWCSession::CreateVirtualDisplayObj`. -/
def CreateVirtualDisplayObj (K : HWCCallbacks) (env : Env) (s : HWCSession)
    (width height : Nat) (format : Int) : VdsResult :=
  match cacheLookup width height format s.virtual_id_map_ with
  | some (id, cache) => ⟨.None, some id, format, { s with virtual_id_map_ := cache }⟩
  | none =>
    let active_builtin_disp_id := GetActiveBuiltinDisplay K s
    let secure_sessions : SecureSessions :=
      match s.hwc_display_ active_builtin_disp_id with
      | some d => d.secure_sessions
      | none => {}
    if active_builtin_disp_id < K.kNumDisplays ∧ secure_sessions.any then
      ⟨.Unsupported, none, format, s⟩
    else if active_builtin_disp_id < K.kNumDisplays ∧ IsVirtualDisplayConnected s then
      ⟨.Unsupported, none, format, s⟩
    else if active_builtin_disp_id < K.kNumDisplays ∧ IsPluggableDisplayConnected s then
      ⟨.Unsupported, none, format, s⟩
    else if env.gpu_color_convert = false then
      let s1 := s.emit .RequestVirtualDisplayId
      match env.request_virtual_display_id with
      | none => ⟨.NoResources, none, format, s1⟩
      | some display_id =>
        if display_id = -1 then ⟨.NoResources, none, format, s1⟩
        else createVirtualInSlots env width height format display_id s1 0 s1.map_info_virtual_
    else
      createVirtualInSlots env width height format
        (pickVirtualDisplayId s s.virtual_display_list_) s 0 s.map_info_virtual_

/-- `HWCSession::CreateVirtualDisplay`; the pointer arguments are given as options
(`none` is the null pointer). -/
def CreateVirtualDisplay (K : HWCCallbacks) (env : Env) (s : HWCSession)
    (width height : Nat) (format : Option Int) (out_display_id : Bool) : VdsResult :=
  match format with
  | none => ⟨.BadParameter, none, 0, s⟩
  | some f =>
    if out_display_id = false ∨ width = 0 ∨ height = 0 then ⟨.BadParameter, none, f, s⟩
    else CreateVirtualDisplayObj K env s width height f

/-- Whether an outgoing call is an invocation of the virtual-display factory. -/
def Event.isVirtualCreate : Event → Bool
  | .VirtualCreate _ _ _ _ _ => true
  | _ => false

/-- Number of invocations of `virtual_display_factory_.Create` recorded in a trace. -/
def factoryCalls (t : List Event) : Nat := t.countP Event.isVirtualCreate

/-- The reuse cache holds an idle entry with the requested size and format. -/
def CacheHit (s : HWCSession) (width height : Nat) (format : Int) : Prop :=
  ∃ e ∈ s.virtual_id_map_, e.2.width = width ∧ e.2.height = height ∧ e.2.format = format ∧
    e.2.in_use = false

/-- The call handed back a cached display: it returned `None` with the client id of an
entry of the cache that had the requested size and format and was idle before the call,
the cache afterwards is the old one with exactly that entry marked in use, the factory was
not called and no slot binding changed. -/
def ReusedFromCache (s : HWCSession) (width height : Nat) (format : Int) (r : VdsResult) : Prop :=
  r.status = HWC3Error.None ∧
  (∃ pre e post, s.virtual_id_map_ = pre ++ e :: post ∧
    e.2.width = width ∧ e.2.height = height ∧ e.2.format = format ∧ e.2.in_use = false ∧
    r.out_display_id = some e.1 ∧
    r.state.virtual_id_map_ = pre ++ (e.1, { e.2 with in_use := true }) :: post) ∧
  factoryCalls r.state.trace = factoryCalls s.trace ∧
  r.state.hwc_display_ = s.hwc_display_

/-! ## Power mode -/

/-- `HWCSession::GetDozeSupport` (with a non-null `out_support`): the status and the value
stored in `*out_support`. -/
def GetDozeSupport (K : HWCCallbacks) (s : HWCSession) (display : Display) : HWC3Error × Int :=
  if display ≥ K.kNumDisplays then (.BadDisplay, 0)
  else
    match s.hwc_display_ display with
    | none => (.BadDisplay, 0)
    | some d => if d.display_class = DisplayClass.DISPLAY_CLASS_BUILTIN then (.None, 1) else (.None, 0)

/-- `HWCSession::SetNewThrottlingRate`. -/
def SetNewThrottlingRate (s : HWCSession) (new_rate : Nat) : HWCSession :=
  if new_rate ≠ 0 ∧ s.throttling_refresh_rate_ ≠ new_rate then
    { s.emit (.SetThrottlingRefreshRate new_rate) with throttling_refresh_rate_ := new_rate }
  else s

/-- `HWCSession::UpdateThrottlingRate`: the smallest maximum refresh rate over the bound
displays that are not powered off. -/
def UpdateThrottlingRate (K : HWCCallbacks) (s : HWCSession) : HWCSession :=
  let new_min := (List.range K.kNumDisplays).foldl (fun new_min i =>
    match s.hwc_display_ i with
    | none => new_min
    | some display =>
      if display.current_power_mode ≠ PowerMode.OFF then
        (if new_min = 0 then display.max_refresh_rate else min new_min display.max_refresh_rate)
      else new_min) 0
  SetNewThrottlingRate s new_min

/-- Modelled from the spec: the `CallDisplayFunction` template of hwc_session.h (not in the
sources) applied to `HWCDisplay::SetPowerMode`: the operation is forwarded to the display
object bound to the slot, and an unknown or unbound slot gives `BadDisplay`. -/
def CallDisplayFunction_SetPowerMode (K : HWCCallbacks) (s : HWCSession) (display : Display)
    (mode : PowerMode) : HWC3Error × HWCSession :=
  if display ≥ K.kNumDisplays then (.BadDisplay, s)
  else
    match s.hwc_display_ display with
    | none => (.BadDisplay, s)
    | some d => ((d.SetPowerMode mode).1, s.setDisplay display (some (d.SetPowerMode mode).2))

/-- The mode `SetPowerMode` works with: the cast of `int_mode`, with `ON_SUSPEND` treated
as `ON`. -/
def normalizePowerMode (int_mode : Int) : PowerMode :=
  if PowerMode.ofInt int_mode = .ON_SUSPEND then PowerMode.ON else PowerMode.ofInt int_mode

/-- The update of `active_displays_` in `SetPowerMode`. -/
def updateActiveDisplays (s : HWCSession) (display : Display) (mode : PowerMode) : HWCSession :=
  if mode = .OFF ∨ mode = .DOZE_SUSPEND then
    { s with active_displays_ := setErase s.active_displays_ display }
  else { s with active_displays_ := setInsert s.active_displays_ display }

/-- The end of `SetPowerMode` after a successful engine call: the idle power-collapse
count is reset on `OFF`, the throttling rate is updated, and `DOZE` asks for one more
refresh. -/
def finishPowerMode (K : HWCCallbacks) (s : HWCSession) (display : Display) (mode : PowerMode) :
    HWCSession :=
  if mode = .DOZE then
    { UpdateThrottlingRate K s with
      pending_refresh_ := Function.update (UpdateThrottlingRate K s).pending_refresh_ display true }
  else if mode = .OFF then UpdateThrottlingRate K { s with idle_pc_ref_cnt_ := 0 }
  else UpdateThrottlingRate K s

/-- The part of `SetPowerMode` that applies a mode different from the current one. -/
def applyPowerMode (K : HWCCallbacks) (s : HWCSession) (display : Display) (mode : PowerMode) :
    HWC3Error × HWCSession :=
  if (CallDisplayFunction_SetPowerMode K (updateActiveDisplays s display mode) display mode).1
      ≠ .None then
    CallDisplayFunction_SetPowerMode K (updateActiveDisplays s display mode) display mode
  else
    (.None, finishPowerMode K
      (CallDisplayFunction_SetPowerMode K (updateActiveDisplays s display mode) display mode).2
      display mode)

/-- `HWCSession::SetPowerMode`. -/
def SetPowerMode (K : HWCCallbacks) (env : Env) (s : HWCSession) (display : Display)
    (int_mode : Int) : HWC3Error × HWCSession :=
  match s.hwc_display_ display with
  | none => (.BadDisplay, s)
  | some d =>
    if display ≥ K.kNumDisplays then (.BadDisplay, s)
    else if int_mode < PowerMode.OFF.toInt ∨ int_mode > PowerMode.ON_SUSPEND.toInt then
      (.BadParameter, s)
    else if normalizePowerMode int_mode = .ON ∧ IsHWDisplayConnected env s display = false then
      (.BadDisplay, s)
    else if s.secure_session_active_ = true ∧
        d.display_class = DisplayClass.DISPLAY_CLASS_BUILTIN ∧
        d.current_power_mode = PowerMode.OFF ∧
        GetActiveBuiltinDisplay K s ≠ K.kNumDisplays then
      (.None, s.setDisplay display (some (d.SetPendingPowerMode (normalizePowerMode int_mode))))
    else if s.pending_power_mode_ display = true then (.Unsupported, s)
    else if (GetDozeSupport K s display).1 ≠ .None then ((GetDozeSupport K s display).1, s)
    else if (GetDozeSupport K s display).2 = 0 ∧
        (normalizePowerMode int_mode = .DOZE ∨ normalizePowerMode int_mode = .DOZE_SUSPEND) then
      (.Unsupported, s)
    else if d.current_power_mode = normalizePowerMode int_mode then (.None, s)
    else applyPowerMode K s display (normalizePowerMode int_mode)

/-! ## Destroying displays -/

/-- `HWCSession::DestroyPluggableDisplayLocked`. -/
def DestroyPluggableDisplayLocked (s : HWCSession) (map_info : MapInfoRef) : HWCSession :=
  let client_id := (s.mapInfo map_info).client_id
  match s.hwc_display_ client_id with
  | none => s
  | some _ =>
    let s1 := s.emit (.PluggableDestroy client_id (s.mapInfo map_info).test_pattern)
    let s2 := { s1 with
      is_hdr_display_ := Function.update s1.is_hdr_display_ client_id false
      map_active_displays_ := mapErase s1.map_active_displays_ client_id
      active_displays_ := setErase s1.active_displays_ client_id
      display_ready_ := Function.update s1.display_ready_ client_id false
      pending_power_mode_ := Function.update s1.pending_power_mode_ client_id false
      hwc_display_ := Function.update s1.hwc_display_ client_id none }
    s2.setMapInfo map_info (s2.mapInfo map_info).Reset

/-- `HWCSession::DestroyPluggableDisplay` (the locked variant under the slot lock). -/
def DestroyPluggableDisplay (s : HWCSession) (map_info : MapInfoRef) : HWCSession :=
  DestroyPluggableDisplayLocked s map_info

/-- `HWCSession::DestroyNonPluggableDisplayLocked`. -/
def DestroyNonPluggableDisplayLocked (s : HWCSession) (map_info : MapInfoRef) : HWCSession :=
  let client_id := (s.mapInfo map_info).client_id
  match s.hwc_display_ client_id with
  | none => s
  | some _ =>
    let s1 := s.emit (match (s.mapInfo map_info).disp_type with
      | .kBuiltIn => Event.BuiltInDestroy client_id
      | _ => Event.VirtualDestroy client_id)
    let s2 := { s1 with
      is_hdr_display_ := Function.update s1.is_hdr_display_ client_id false
      map_active_displays_ := mapErase s1.map_active_displays_ client_id
      active_displays_ := setErase s1.active_displays_ client_id
      pending_power_mode_ := Function.update s1.pending_power_mode_ client_id false
      hwc_display_ := Function.update s1.hwc_display_ client_id none
      display_ready_ := Function.update s1.display_ready_ client_id false }
    s2.setMapInfo map_info (s2.mapInfo map_info).Reset

/-- `HWCSession::DestroyNonPluggableDisplay` (the locked variant under the slot lock). -/
def DestroyNonPluggableDisplay (s : HWCSession) (map_info : MapInfoRef) : HWCSession :=
  DestroyNonPluggableDisplayLocked s map_info

/-- `HWCSession::DestroyDisplay`. -/
def DestroyDisplay (K : HWCCallbacks) (env : Env) (s : HWCSession) (map_info : MapInfoRef) :
    HWCSession :=
  match (s.mapInfo map_info).disp_type with
  | .kPluggable =>
    let s1 := s.emit (.Hotplug (s.mapInfo map_info).client_id false)
    let s2 := (SetPowerMode K env s1 (s1.mapInfo map_info).client_id PowerMode.OFF.toInt).2
    DestroyPluggableDisplay s2 map_info
  | _ => DestroyNonPluggableDisplay s map_info

/-- The loop of `DestroyVirtualDisplay` over `map_info_virtual_`, from slot index `i` on:
the first slot with the given client id is destroyed. -/
def destroyVirtualSlot (K : HWCCallbacks) (env : Env) (s : HWCSession) (display : Display) :
    Nat → List DisplayMapInfo → HWCSession
  | _, [] => s
  | i, map_info :: rest =>
    if map_info.client_id = display then DestroyDisplay K env s (.virt i)
    else destroyVirtualSlot K env s display (i + 1) rest

/-- `HWCSession::DestroyVirtualDisplay`. -/
def DestroyVirtualDisplay (K : HWCCallbacks) (env : Env) (s : HWCSession) (display : Display) :
    HWC3Error × HWCSession :=
  if display ≥ K.kNumDisplays then (.BadDisplay, s)
  else
    let s1 := destroyVirtualSlot K env s display 0 s.map_info_virtual_
    (.None, { s1 with virtual_id_map_ := mapErase s1.virtual_id_map_ display })

/-- The four descriptor tables of the session. -/
def descriptors (s : HWCSession) :
    DisplayMapInfo × List DisplayMapInfo × List DisplayMapInfo × List DisplayMapInfo :=
  (s.map_info_primary_, s.map_info_builtin_, s.map_info_pluggable_, s.map_info_virtual_)

/-- What the two `Destroy...DisplayLocked` functions and `DestroyDisplay` may change, and
how: the descriptor is reset if its slot was bound (no other descriptor changes), the slot
ends unbound, no other slot changes its display object, only the slot's own pending flag
can change (it is cleared if the slot was bound), and the two active-display containers
only shrink (losing the slot's id if it was bound). -/
def DestroyEffect (s t : HWCSession) (r : MapInfoRef) : Prop :=
  ∃ mip mib mipl miv hd mad ad ppm pr dr hdr n thr tr,
    t = { s with map_info_primary_ := mip, map_info_builtin_ := mib, map_info_pluggable_ := mipl,
                 map_info_virtual_ := miv, hwc_display_ := hd, map_active_displays_ := mad,
                 active_displays_ := ad, pending_power_mode_ := ppm, pending_refresh_ := pr,
                 display_ready_ := dr, is_hdr_display_ := hdr, idle_pc_ref_cnt_ := n,
                 throttling_refresh_rate_ := thr, trace := tr } ∧
    (mip, mib, mipl, miv) =
      (if (s.hwc_display_ (s.mapInfo r).client_id).isSome = true then
        descriptors (s.setMapInfo r (s.mapInfo r).Reset) else descriptors s) ∧
    hd (s.mapInfo r).client_id = none ∧
    (∀ c, c ≠ (s.mapInfo r).client_id → hd c = s.hwc_display_ c) ∧
    (∀ c, c ≠ (s.mapInfo r).client_id → ppm c = s.pending_power_mode_ c) ∧
    ((s.hwc_display_ (s.mapInfo r).client_id).isSome = true →
      ppm (s.mapInfo r).client_id = false) ∧
    (∀ x ∈ mad, x ∈ s.map_active_displays_) ∧
    ((s.hwc_display_ (s.mapInfo r).client_id).isSome = true →
      ∀ x ∈ mad, x.1 ≠ (s.mapInfo r).client_id) ∧
    (∀ x ∈ ad, x ∈ s.active_displays_) ∧
    ((s.hwc_display_ (s.mapInfo r).client_id).isSome = true →
      (s.mapInfo r).client_id ∉ ad)

/-! ## Concrete sessions used as witnesses and counterexamples -/

/-- Limits of a small configuration: eight display indices. -/
def exLimits : HWCCallbacks :=
  { kNumDisplays := 8, kNumRealDisplays := 6, kNumPluggable := 2, kNumBuiltIn := 1,
    kNumVirtual := 2 }

/-- An engine whose factories always succeed and whose hardware list is empty. -/
def exEnv : Env :=
  { pluggable_create := fun _ _ _ => .created { display_class := .DISPLAY_CLASS_PLUGGABLE },
    virtual_create := fun _ _ _ _ f => (.created { display_class := .DISPLAY_CLASS_VIRTUAL }, f),
    request_virtual_display_id := some 2 }

/-- A primary display that is powered on. -/
def exPrimaryOn : HWCDisplay := { current_power_mode := .ON }

/-- A primary display that is powered on and reports an active secure-display session. -/
def exPrimarySecure : HWCDisplay :=
  { current_power_mode := .ON, secure_sessions := { kSecureDisplay := true } }

/-- A session with one bound virtual display (client id 3) whose cache entry is in use. -/
def exVirtualBound : HWCSession :=
  { map_info_virtual_ := [{ client_id := 3, sdm_id := 2, disp_type := .kVirtual }],
    hwc_display_ := fun i =>
      if i = 0 then some exPrimaryOn
      else if i = 3 then some { display_class := .DISPLAY_CLASS_VIRTUAL } else none,
    map_active_displays_ := [(0, .primary), (3, .virt 0)],
    virtual_id_map_ := [(3, { width := 1920, height := 1080, format := 1, in_use := true })] }

/-- A session under a secure-display session on the primary, with an idle cache entry for
a 1920x1080 virtual display of format 1 (client id 3). -/
def exSecureWithIdleEntry : HWCSession :=
  { map_info_virtual_ := [{ client_id := 3, sdm_id := 2, disp_type := .kVirtual }],
    hwc_display_ := fun i =>
      if i = 0 then some exPrimarySecure
      else if i = 3 then some { display_class := .DISPLAY_CLASS_VIRTUAL } else none,
    map_active_displays_ := [(0, .primary), (3, .virt 0)],
    virtual_id_map_ := [(3, { width := 1920, height := 1080, format := 1 })] }

/-- A session under a secure-display session on the primary, with a free virtual slot and
an empty cache. -/
def exSecureNoEntry : HWCSession :=
  { map_info_virtual_ := [{ client_id := 3 }],
    hwc_display_ := fun i => if i = 0 then some exPrimarySecure else none,
    map_active_displays_ := [(0, .primary)] }

/-- A session whose active built-in display (the primary) reports no secure session while
a second, powered-on built-in display (client id 2) reports a secure-camera session. -/
def exSecureOnSecondBuiltin : HWCSession :=
  { map_info_builtin_ := [{ client_id := 2, sdm_id := 1, disp_type := .kBuiltIn }],
    map_info_virtual_ := [{ client_id := 3 }],
    hwc_display_ := fun i =>
      if i = 0 then some exPrimaryOn
      else if i = 2 then
        some { current_power_mode := .ON, secure_sessions := { kSecureCamera := true } }
      else none,
    map_active_displays_ := [(0, .primary), (2, .builtin 0)] }

/-! ## Hotplug: tearing down a pluggable display -/

/-- The id `HWC_DISPLAY_PRIMARY`. -/
def HWC_DISPLAY_PRIMARY : Display := 0

/-- The head of `DisconnectPluggableDisplays`: a bound display is aborted first. -/
def abortIfBound (s : HWCSession) (client_id : Display) : HWCSession :=
  match s.hwc_display_ client_id with
  | some _ => s.emit (.Abort client_id)
  | none => s

/-- The reconfiguration block of `DisconnectPluggableDisplays`: the active built-in
display goes back to its regular configuration and the client is told when the active
configuration changed. -/
def restorePrimaryConfig (K : HWCCallbacks) (s : HWCSession) : HWCSession :=
  if GetActiveBuiltinDisplay K s < K.kNumDisplays then
    match s.hwc_display_ (GetActiveBuiltinDisplay K s) with
    | none => s
    | some d =>
      if (d.SetAlternateDisplayConfig false).2.active_config ≠ d.active_config then
        NotifyDisplayAttributes
          (s.setDisplay (GetActiveBuiltinDisplay K s) (some (d.SetAlternateDisplayConfig false).2))
          (GetActiveBuiltinDisplay K s) (d.SetAlternateDisplayConfig false).2.active_config
      else s.setDisplay (GetActiveBuiltinDisplay K s) (some (d.SetAlternateDisplayConfig false).2)
  else s

/-- The guard of the reconfiguration block: it runs when primary reconfiguration is
enabled and the slot held a display. -/
def reconfigAfterDisconnect (K : HWCCallbacks) (s : HWCSession) (is_valid_pluggable_display : Bool) :
    HWCSession :=
  if s.enable_primary_reconfig_req_ ≠ 0 ∧ is_valid_pluggable_display = true then
    restorePrimaryConfig K s
  else s

/-- The tail of `DisconnectPluggableDisplays`: `std::find` on `pending_hotplugs_` and
`erase` of the element found (the first occurrence). -/
def erasePendingHotplug (s : HWCSession) (client_id : Display) : HWCSession :=
  { s with pending_hotplugs_ := s.pending_hotplugs_.erase client_id }

/-- `HWCSession::DisconnectPluggableDisplays`. -/
def DisconnectPluggableDisplays (K : HWCCallbacks) (env : Env) (s : HWCSession)
    (map_info : MapInfoRef) : Int × HWCSession :=
  (0, erasePendingHotplug
    (reconfigAfterDisconnect K
      (DestroyDisplay K env (abortIfBound s (s.mapInfo map_info).client_id) map_info)
      (s.hwc_display_ (s.mapInfo map_info).client_id).isSome)
    (s.mapInfo map_info).client_id)

/-! ## Hotplug: disconnect pass -/

/-- The inner loop of `HandleDisconnectedDisplays`: the value of `disconnect` after the
scan of the hardware list for one slot; the scan stops at the first entry with the slot's
hardware id. -/
def disconnectFlag : List HWDisplayInfo → Int → Bool
  | [], _ => true
  | info :: rest, sdm_id =>
    if info.display_id ≠ sdm_id then disconnectFlag rest sdm_id else !info.is_connected

/-- One round of the outer loop of `HandleDisconnectedDisplays`, for the pluggable slot at
index `i`. -/
def disconnectStep (K : HWCCallbacks) (env : Env) (hw_displays_info : List HWDisplayInfo)
    (s : HWCSession) (i : Nat) : HWCSession :=
  if disconnectFlag hw_displays_info (s.mapInfo (.pluggable i)).sdm_id = true then
    (DisconnectPluggableDisplays K env s (.pluggable i)).2
  else s

/-- `HWCSession::HandleDisconnectedDisplays`. -/
def HandleDisconnectedDisplays (K : HWCCallbacks) (env : Env) (s : HWCSession)
    (hw_displays_info : List HWDisplayInfo) : Int × HWCSession :=
  (0, (List.range s.map_info_pluggable_.length).foldl (disconnectStep K env hw_displays_info) s)

/-! ## Hotplug: waiting for resources -/

/-- The head of one round of the wait loop: the refresh request and `resource_ready_ =
false`. -/
def armResourceWait (s : HWCSession) (active_builtin_id : Display) : HWCSession :=
  if s.client_connected_ = true then
    { s.emit (.Refresh active_builtin_id) with resource_ready_ := false }
  else { s with resource_ready_ := false }

/-- The state after a round of the wait loop was signalled: the signalling commit has set
`resource_ready_`, and the cached retire fence has been waited for and dropped. -/
def resourceSignalled (s : HWCSession) (active_builtin_id : Display) : HWCSession :=
  { armResourceWait s active_builtin_id with resource_ready_ := true, cached_retire_fence_ := none }

/-- The `do ... while (res_wait || needs_active_builtin_reconfig)` loop of
`WaitForResources`, driven by the rounds the engine provides. -/
def waitLoop (active_builtin_id display_id : Display) :
    List WaitStep → HWCSession → HWC3Error × HWCSession
  | [], s => (.NoResources, armResourceWait s active_builtin_id)
  | .timeout :: _, s => (.NoResources, armResourceWait s active_builtin_id)
  | .signalled res_wait needs :: rest, s =>
    match s.hwc_display_ display_id with
    | none => (.BadDisplay, resourceSignalled s active_builtin_id)
    | some _ =>
      if res_wait = true ∨ (needs = true ∧ s.enable_primary_reconfig_req_ ≠ 0) then
        waitLoop active_builtin_id display_id rest (resourceSignalled s active_builtin_id)
      else (.None, resourceSignalled s active_builtin_id)

/-- The notification after `SetAlternateDisplayConfig` when the active configuration
changed. -/
def notifyIfConfigChanged (s : HWCSession) (display : Display) (current_config new_config : Nat) :
    HWCSession :=
  if new_config ≠ current_config then NotifyDisplayAttributes s display new_config else s

/-- `HWCSession::WaitForResources`. A failing `SetAlternateDisplayConfig` leaves the display
object as it was. -/
def WaitForResources (env : Env) (s : HWCSession) (wait_for_resources : Bool)
    (active_builtin_id display_id : Display) : HWC3Error × HWCSession :=
  if wait_for_resources = false then (.None, s)
  else if s.enable_primary_reconfig_req_ = 0 then
    waitLoop active_builtin_id display_id env.wait_script s
  else
    match s.hwc_display_ display_id with
    | none => (.BadDisplay, s)
    | some _ =>
      if env.first_check.2 = false then waitLoop active_builtin_id display_id env.wait_script s
      else
        match s.hwc_display_ active_builtin_id with
        | none => (.BadDisplay, s)
        | some d =>
          if (d.SetAlternateDisplayConfig true).1 ≠ 0 then (.Unsupported, s)
          else
            waitLoop active_builtin_id display_id env.wait_script
              (notifyIfConfigChanged
                (s.setDisplay active_builtin_id (some (d.SetAlternateDisplayConfig true).2))
                active_builtin_id d.active_config
                (d.SetAlternateDisplayConfig true).2.active_config)

/-! ## Hotplug: connect pass -/

/-- The locals of `HandleConnectedDisplays` that live across its loops. -/
structure ConnectAcc where
  state : HWCSession
  status : Int
  client_id : Display

/-- The `for_each` over the pluggable slots that looks for a bound display whose first
commit is still pending. -/
def firstCommitPending (s : HWCSession) : Bool :=
  s.map_info_pluggable_.any (fun p =>
    match s.hwc_display_ p.client_id with
    | some d => !d.first_commit_done
    | none => false)

/-- The refresh request made when display creation is deferred. -/
def deferConnect (K : HWCCallbacks) (s : HWCSession) : HWCSession :=
  if s.callbacks_client_connected = true then
    s.emit (.Refresh (if GetActiveBuiltinDisplay K s ≥ K.kNumDisplays then HWC_DISPLAY_PRIMARY
      else GetActiveBuiltinDisplay K s))
  else s

/-- The value stored in `map_info.test_pattern`. -/
def testPattern (s : HWCSession) : Bool :=
  decide (s.hpd_bpp_ > 0) && decide (s.hpd_pattern_ > 0)

/-- The bookkeeping after a pluggable display object was created in slot `i`. -/
def bindPluggable (s : HWCSession) (i : Nat) (map_info : DisplayMapInfo) (info : HWDisplayInfo)
    (d : HWCDisplay) : HWCSession :=
  { s with
    hwc_display_ := Function.update s.hwc_display_ map_info.client_id (some d)
    is_hdr_display_ := Function.update s.is_hdr_display_ map_info.client_id d.hdr_support
    map_info_pluggable_ := s.map_info_pluggable_.set i
      { map_info with test_pattern := testPattern s, disp_type := info.display_type,
                      sdm_id := info.display_id }
    map_active_displays_ := mapInsert s.map_active_displays_ map_info.client_id (.pluggable i)
    pending_hotplugs_ := s.pending_hotplugs_ ++ [map_info.client_id] }

/-- The body of the slot loop of `HandleConnectedDisplays` for an unbound slot `i`: the
factory is called, and on success the slot is bound and queued for notification. -/
def createPluggableAt (env : Env) (info : HWDisplayInfo) (s : HWCSession) (status : Int)
    (i : Nat) (map_info : DisplayMapInfo) : ConnectAcc :=
  match env.pluggable_create map_info.client_id info.display_id (testPattern s) with
  | .failed e =>
    ⟨(s.setMapInfo (.pluggable i) { map_info with test_pattern := testPattern s }).emit
      (.PluggableCreate map_info.client_id info.display_id (testPattern s)), e.val,
      map_info.client_id⟩
  | .created d =>
    ⟨bindPluggable (s.emit (.PluggableCreate map_info.client_id info.display_id (testPattern s)))
      i map_info info d, status, map_info.client_id⟩

/-- The slot loop of `HandleConnectedDisplays` ("find an empty slot to create display"),
from slot index `i` on. -/
def createPluggableInSlots (env : Env) (info : HWDisplayInfo) :
    Nat → List DisplayMapInfo → ConnectAcc → ConnectAcc
  | _, [], acc => acc
  | i, map_info :: rest, acc =>
    match acc.state.hwc_display_ map_info.client_id with
    | some _ =>
      createPluggableInSlots env info (i + 1) rest { acc with client_id := map_info.client_id }
    | none => createPluggableAt env info acc.state acc.status i map_info

/-- The loop of `HandleConnectedDisplays` over the hardware list. -/
def connectLoop (K : HWCCallbacks) (env : Env) : List HWDisplayInfo → ConnectAcc → ConnectAcc
  | [], acc => acc
  | info :: rest, acc =>
    if info.is_primary = true ∨ info.display_type ≠ DisplayType.kPluggable ∨
        info.is_connected = false then
      connectLoop K env rest acc
    else if acc.state.map_info_pluggable_.any (fun p => p.sdm_id == info.display_id) = true then
      connectLoop K env rest acc
    else if acc.state.disable_hotplug_bwcheck_ = 0 ∧ firstCommitPending acc.state = true then
      ⟨deferConnect K acc.state, -EAGAIN, acc.client_id⟩
    else
      connectLoop K env rest
        (createPluggableInSlots env info 0 acc.state.map_info_pluggable_ acc)

/-- The delivery of the queued connect notifications. -/
def notifyPendingHotplugs (s : HWCSession) : HWCSession :=
  { s with
    trace := s.trace ++ s.pending_hotplugs_.map (fun client_id => Event.Hotplug client_id true)
    pending_hotplugs_ := [] }

/-- The end of `HandleConnectedDisplays`, after the loop over the hardware list. -/
def finishConnect (K : HWCCallbacks) (env : Env) (acc : ConnectAcc) (delay_hotplug : Bool) :
    Int × HWCSession :=
  if acc.state.pending_hotplugs_ = [] then (acc.status, acc.state)
  else if GetActiveBuiltinDisplay K acc.state < K.kNumDisplays then
    if (WaitForResources env acc.state delay_hotplug (GetActiveBuiltinDisplay K acc.state)
        acc.client_id).1 ≠ .None then
      (-EAGAIN, (WaitForResources env acc.state delay_hotplug (GetActiveBuiltinDisplay K acc.state)
        acc.client_id).2)
    else
      (acc.status, notifyPendingHotplugs (WaitForResources env acc.state delay_hotplug
        (GetActiveBuiltinDisplay K acc.state) acc.client_id).2)
  else (acc.status, notifyPendingHotplugs acc.state)

/-- `HWCSession::HandleConnectedDisplays`. -/
def HandleConnectedDisplays (K : HWCCallbacks) (env : Env) (s : HWCSession)
    (hw_displays_info : List HWDisplayInfo) (delay_hotplug : Bool) : Int × HWCSession :=
  finishConnect K env (connectLoop K env hw_displays_info ⟨s, 0, 0⟩) delay_hotplug

/-! ## Hotplug: the top-level entry -/

/-- The secure sessions `HandlePluggableDisplays` reads from the active built-in display. -/
def activeSecureSessions (K : HWCCallbacks) (s : HWCSession) : SecureSessions :=
  if GetActiveBuiltinDisplay K s < K.kNumDisplays then
    match s.hwc_display_ (GetActiveBuiltinDisplay K s) with
    | some d => d.secure_sessions
    | none => {}
  else {}

/-- The index `virtual_display_index` of `HandlePluggableDisplays`. -/
def virtualDisplayIndex (s : HWCSession) : Display :=
  toDisplay (GetDisplayIndex s .DISPLAY_VIRTUAL)

/-- The deferral branch: hotplug handling is marked pending. -/
def deferHotplug (s : HWCSession) : Int × HWCSession :=
  (-EAGAIN, { s with pending_hotplug_event_ := .kHotPlugEvent })

/-- The status switch at the end of `HandlePluggableDisplays`, applied to the result of
the connect pass. -/
def hotplugOutcome (K : HWCCallbacks) (active_builtin_disp_id : Display) (r : Int × HWCSession) :
    Int × HWCSession :=
  if r.1 = 0 then (0, { r.2 with pending_hotplug_event_ := .kHotPlugNone })
  else if r.1 = -EAGAIN ∨ r.1 = -ENODEV then
    if active_builtin_disp_id < K.kNumDisplays then
      (0, { r.2 with pending_hotplug_event_ := .kHotPlugEvent }.emit
        (.Refresh active_builtin_disp_id))
    else (0, { r.2 with pending_hotplug_event_ := .kHotPlugEvent })
  else (r.1, { r.2 with pending_hotplug_event_ := .kHotPlugNone })

/-- The two passes of `HandlePluggableDisplays` on a hardware list. -/
def reconcile (K : HWCCallbacks) (env : Env) (s : HWCSession)
    (hw_displays_info : List HWDisplayInfo) (delay_hotplug : Bool) : Int × HWCSession :=
  if (HandleDisconnectedDisplays K env s hw_displays_info).1 ≠ 0 then
    HandleDisconnectedDisplays K env s hw_displays_info
  else
    hotplugOutcome K (GetActiveBuiltinDisplay K s)
      (HandleConnectedDisplays K env (HandleDisconnectedDisplays K env s hw_displays_info).2
        hw_displays_info delay_hotplug)

/-- `HWCSession::HandlePluggableDisplays`. The result is `none` when the function reads
`hwc_display_` at an index that is not below `kNumDisplays` (undefined behaviour). -/
def HandlePluggableDisplays (K : HWCCallbacks) (env : Env) (s : HWCSession)
    (delay_hotplug : Bool) : Option (Int × HWCSession) :=
  if (activeSecureSessions K s).any = true then some (deferHotplug s)
  else if virtualDisplayIndex s ≥ K.kNumDisplays then none
  else if (s.hwc_display_ (virtualDisplayIndex s)).isSome = true then some (deferHotplug s)
  else
    match env.displays_status with
    | none => some (-EINVAL, s)
    | some hw_displays_info => some (reconcile K env s hw_displays_info delay_hotplug)

/-- An engine like `exEnv` whose hardware list reports the pluggable display 5 as
connected. -/
def exEnvPlug5 : Env :=
  { exEnv with displays_status := some [{ display_id := 5 }] }

/-- An engine like `exEnvPlug5` whose pluggable factory fails with `-ENODEV`. -/
def exEnvNoDevice : Env :=
  { exEnvPlug5 with pluggable_create := fun _ _ _ => .failed ⟨-ENODEV, by decide⟩ }

/-- An engine like `exEnvPlug5` whose pluggable factory fails with `-EINVAL`. -/
def exEnvCreateFails : Env :=
  { exEnvPlug5 with pluggable_create := fun _ _ _ => .failed ⟨-EINVAL, by decide⟩ }

/-- A session with the primary powered on, two free pluggable slots (1, 2) and two
virtual slots (3, 4), none of them bound. -/
def exIdle : HWCSession :=
  { map_info_pluggable_ := [{ client_id := 1 }, { client_id := 2 }],
    map_info_virtual_ := [{ client_id := 3 }, { client_id := 4 }],
    hwc_display_ := fun i => if i = 0 then some exPrimaryOn else none,
    map_active_displays_ := [(0, .primary)],
    active_displays_ := [0],
    client_connected_ := true,
    callbacks_client_connected := true }

/-- Whether an outgoing call is an invocation of a pluggable display factory. -/
def Event.isPluggableCreate : Event → Bool
  | .PluggableCreate _ _ _ => true
  | _ => false

/-- Number of pluggable factory invocations recorded in a trace. -/
def pluggableCreateCalls (t : List Event) : Nat := t.countP Event.isPluggableCreate

/-- Whether an outgoing call is a refresh request or a resolution-change notice, the two
calls `WaitForResources` makes. -/
def Event.isRefreshOrNotice : Event → Bool
  | .Refresh _ => true
  | .NotifyResolutionChange _ _ => true
  | _ => false

/-- What `WaitForResources` may change: the display object of the active built-in display
(which stays bound), the two members of the wait handshake, and the trace, which only
grows by refresh requests and resolution-change notices. -/
def WaitEffect (s t : HWCSession) (active_builtin_id : Display) : Prop :=
  ∃ hd rr crf tr ev,
    t = { s with hwc_display_ := hd, resource_ready_ := rr, cached_retire_fence_ := crf,
                 trace := tr } ∧
    tr = s.trace ++ ev ∧
    (∀ c, (hd c).isSome = (s.hwc_display_ c).isSome) ∧
    (∀ c, c ≠ active_builtin_id → hd c = s.hwc_display_ c) ∧
    (∀ e ∈ ev, e.isRefreshOrNotice = true)

/-- The client ids of the primary and built-in slots. -/
def builtinIds (s : HWCSession) : List Display :=
  (s.map_info_primary_ :: s.map_info_builtin_).map (fun m => m.client_id)

/-- The client ids of the pluggable slots. -/
def pluggableIds (s : HWCSession) : List Display :=
  s.map_info_pluggable_.map (fun m => m.client_id)

/-- What `DisconnectPluggableDisplays` does to the session when called on the pluggable
slot at index `i`. -/
def DisconnectEffect (s t : HWCSession) (i : Nat) : Prop :=
  t.pending_hotplugs_ = s.pending_hotplugs_.erase (s.mapInfo (.pluggable i)).client_id ∧
  t.hwc_display_ (s.mapInfo (.pluggable i)).client_id = none ∧
  (∀ c, c ≠ (s.mapInfo (.pluggable i)).client_id →
    (t.hwc_display_ c).isSome = (s.hwc_display_ c).isSome) ∧
  (∀ c, c ≠ (s.mapInfo (.pluggable i)).client_id → c ∉ builtinIds s →
    t.hwc_display_ c = s.hwc_display_ c) ∧
  t.map_info_pluggable_ =
    (if (s.hwc_display_ (s.mapInfo (.pluggable i)).client_id).isSome = true then
      s.map_info_pluggable_.set i (s.mapInfo (.pluggable i)).Reset
    else s.map_info_pluggable_) ∧
  t.map_info_primary_ = s.map_info_primary_ ∧
  t.map_info_builtin_ = s.map_info_builtin_ ∧
  t.map_info_virtual_ = s.map_info_virtual_ ∧
  (∀ c, c ≠ (s.mapInfo (.pluggable i)).client_id →
    t.pending_power_mode_ c = s.pending_power_mode_ c) ∧
  ((s.hwc_display_ (s.mapInfo (.pluggable i)).client_id).isSome = true →
    t.pending_power_mode_ (s.mapInfo (.pluggable i)).client_id = false) ∧
  (∀ x ∈ t.map_active_displays_, x ∈ s.map_active_displays_) ∧
  ((s.hwc_display_ (s.mapInfo (.pluggable i)).client_id).isSome = true →
    ∀ x ∈ t.map_active_displays_, x.1 ≠ (s.mapInfo (.pluggable i)).client_id) ∧
  (∀ x ∈ t.active_displays_, x ∈ s.active_displays_) ∧
  ((s.hwc_display_ (s.mapInfo (.pluggable i)).client_id).isSome = true →
    (s.mapInfo (.pluggable i)).client_id ∉ t.active_displays_)

/-- An engine like `exEnv` whose hardware list reports the pluggable display 5 as
disconnected. -/
def exEnvUnplug5 : Env :=
  { exEnv with displays_status := some [{ display_id := 5, is_connected := false }] }

/-- The session `exIdle` after hardware id 5 was connected into pluggable slot 1 and its
connect notification is still queued. -/
def exQueued : HWCSession :=
  { exIdle with
    map_info_pluggable_ := [{ client_id := 1, sdm_id := 5, disp_type := .kPluggable },
      { client_id := 2 }],
    hwc_display_ := fun c =>
      if c = 0 then some exPrimaryOn
      else if c = 1 then some { display_class := .DISPLAY_CLASS_PLUGGABLE } else none,
    map_active_displays_ := [(0, .primary), (1, .pluggable 0)],
    pending_hotplugs_ := [1] }

/-- The pluggable slot `j` still has descriptor `m` and a bound display object. -/
def SlotIntact (s : HWCSession) (j : Nat) (m : DisplayMapInfo) : Prop :=
  s.map_info_pluggable_[j]? = some m ∧ (s.hwc_display_ m.client_id).isSome = true

/-- The pluggable slot `j`, which had descriptor `m`, has been torn down: the descriptor is
reset, the `hwc_display_` entry is null, the pending-power flag is clear and the client id
is in neither active-display container. -/
def SlotGone (s : HWCSession) (j : Nat) (m : DisplayMapInfo) : Prop :=
  s.map_info_pluggable_[j]? = some m.Reset ∧
  s.hwc_display_ m.client_id = none ∧
  s.pending_power_mode_ m.client_id = false ∧
  (∀ x ∈ s.map_active_displays_, x.1 ≠ m.client_id) ∧
  m.client_id ∉ s.active_displays_

/-- The pluggable slot `j` has descriptor `m` and display object (or null pointer) `d`. -/
def SlotKept (s : HWCSession) (j : Nat) (m : DisplayMapInfo) (d : Option HWCDisplay) : Prop :=
  s.map_info_pluggable_[j]? = some m ∧ s.hwc_display_ m.client_id = d

/-- The hardware list reports `sdm_id` as a connected, non-primary pluggable display. -/
def Eligible (hw : List HWDisplayInfo) (sdm_id : Int) : Prop :=
  ∃ info ∈ hw, info.display_id = sdm_id ∧ info.is_primary = false ∧
    info.display_type = DisplayType.kPluggable ∧ info.is_connected = true

/-- The relation between the session `s0` at the start of the connect pass and the session
`s` at a later point of the pass: the client ids of the slots are the same, every pluggable
slot bound at the start still has its descriptor and display object, and every pluggable
slot bound since then carries the id of a connected pluggable display of the hardware
list which no other pluggable slot records. -/
def ConnInv (s0 : HWCSession) (hw : List HWDisplayInfo) (s : HWCSession) : Prop :=
  pluggableIds s = pluggableIds s0 ∧
  builtinIds s = builtinIds s0 ∧
  (∀ (j : Nat) (m : DisplayMapInfo), s0.map_info_pluggable_[j]? = some m →
    (s0.hwc_display_ m.client_id).isSome = true →
    s.map_info_pluggable_[j]? = some m ∧
    s.hwc_display_ m.client_id = s0.hwc_display_ m.client_id) ∧
  (∀ (j : Nat) (m : DisplayMapInfo), s.map_info_pluggable_[j]? = some m →
    (s.hwc_display_ m.client_id).isSome = true →
    s0.hwc_display_ m.client_id = none →
    Eligible hw m.sdm_id ∧
    ∀ (k : Nat) (p : DisplayMapInfo), k ≠ j → s.map_info_pluggable_[k]? = some p →
      p.sdm_id ≠ m.sdm_id)

/-- The bound pluggable slots of the session record pairwise distinct hardware ids. -/
def BoundIdsDistinct (s : HWCSession) : Prop :=
  ∀ (i j : Nat) (mi mj : DisplayMapInfo), i ≠ j →
    s.map_info_pluggable_[i]? = some mi → s.map_info_pluggable_[j]? = some mj →
    (s.hwc_display_ mi.client_id).isSome = true → (s.hwc_display_ mj.client_id).isSome = true →
    mi.sdm_id ≠ mj.sdm_id

/-- An engine like `exEnv` whose hardware list reports the pluggable displays 5 and 6 as
connected. -/
def exEnvPlug56 : Env :=
  { exEnv with displays_status := some [{ display_id := 5 }, { display_id := 6 }] }

/-- The session `exQueued` after the connect notification of slot 1 was delivered and the
first commit of its display completed. -/
def exConnected : HWCSession :=
  { exQueued with
    hwc_display_ := fun c =>
      if c = 0 then some exPrimaryOn
      else if c = 1 then
        some { display_class := .DISPLAY_CLASS_PLUGGABLE, current_power_mode := .ON,
               first_commit_done := true }
      else none,
    pending_hotplugs_ := [] }

/-- The invariant of the pending-notification queue: no client id is queued twice, and
every queued id belongs to a bound slot. The queue is empty at start-up, the connect pass
queues an id only when it binds a slot that was unbound, and a teardown removes the id. -/
def QueueInv (s : HWCSession) : Prop :=
  s.pending_hotplugs_.Nodup ∧ ∀ c ∈ s.pending_hotplugs_, (s.hwc_display_ c).isSome = true

/-! ## Connect notifications -/

/-- The displays for which `callbacks_.Hotplug(id, true)` was issued, in call order. -/
def connectNotices (t : List Event) : List Display :=
  t.filterMap (fun e =>
    match e with
    | .Hotplug client_id true => some client_id
    | _ => none)

/-- A session like `exIdle` whose primary display is powered off, so that no built-in
display is active. -/
def exAllOff : HWCSession :=
  { exIdle with hwc_display_ := fun i => if i = 0 then some {} else none }
/-- The locals of `HandleConnectedDisplays` when its loop over the hardware list is done. -/
def afterConnectLoop (K : HWCCallbacks) (env : Env) (s : HWCSession)
    (hw_displays_info : List HWDisplayInfo) : ConnectAcc :=
  connectLoop K env hw_displays_info ⟨s, 0, 0⟩

/-- The call `WaitForResources(delay_hotplug, active_builtin_disp_id, client_id)` that
`HandleConnectedDisplays` makes after its loop. -/
def readinessWait (K : HWCCallbacks) (env : Env) (acc : ConnectAcc) (delay_hotplug : Bool) :
    HWC3Error × HWCSession :=
  WaitForResources env acc.state delay_hotplug (GetActiveBuiltinDisplay K acc.state) acc.client_id

/-- The connect notifications `callbacks_.Hotplug(id, true)` for a list of client ids. -/
def hotplugCalls (ids : List Display) : List Event :=
  ids.map (fun client_id => Event.Hotplug client_id true)

/-- An engine like `exEnvPlug5` in which nobody ever signals the resource wait. -/
def exEnvNoSignal : Env :=
  { exEnvPlug5 with wait_script := [.timeout] }

/-- An engine like `exEnvPlug5` in which the first round of the resource wait is signalled
with nothing left to wait for. -/
def exEnvSignalled : Env :=
  { exEnvPlug5 with wait_script := [.signalled false false] }

/-- A session under a secure session: the primary is powered on, a second built-in display
(client id 2) is bound and powered off. -/
def exSecureSecondOff : HWCSession :=
  { map_info_builtin_ := [{ client_id := 2, sdm_id := 1, disp_type := .kBuiltIn }],
    hwc_display_ := fun i =>
      if i = 0 then some exPrimarySecure else if i = 2 then some {} else none,
    map_active_displays_ := [(0, .primary), (2, .builtin 0)],
    active_displays_ := [0],
    secure_session_active_ := true }

/-- An engine whose `GetDisplaysStatus` reports an error. -/
def exEnvStatusError : Env :=
  { exEnv with displays_status := none }

/-! ## Secure sessions -/

/-- The loop of `HandleSecureSession` over `map_info_virtual_`: the client id of the last
slot whose descriptor says `kVirtual`, if there is one (`is_active_virtual_display` and
`client_id`). -/
def activeVirtualDisplay : List DisplayMapInfo → Option Display → Option Display
  | [], found => found
  | map_info :: rest, found =>
    if map_info.disp_type = DisplayType.kVirtual then
      activeVirtualDisplay rest (some map_info.client_id)
    else activeVirtualDisplay rest found

/-- The last loop of `HandleSecureSession`, over the display indices in `displays`: every
bound display is told about the secure sessions; the first built-in display that is not
powered off is the active secure display. -/
def notifySecureSession (env : Env) (secure_sessions : SecureSessions) :
    List Display → Bool → HWCSession → HWCSession
  | [], _, s => s
  | display :: rest, found_active_secure_display, s =>
    match s.hwc_display_ display with
    | none => notifySecureSession env secure_sessions rest found_active_secure_display s
    | some hwc_display =>
      let is_active_secure_display : Bool :=
        !found_active_secure_display &&
          decide (hwc_display.display_class = DisplayClass.DISPLAY_CLASS_BUILTIN) &&
          decide (hwc_display.current_power_mode ≠ PowerMode.OFF)
      let r := env.handle_secure_session display hwc_display secure_sessions
        (s.pending_power_mode_ display) is_active_secure_display
      notifySecureSession env secure_sessions rest
        (found_active_secure_display || is_active_secure_display)
        { s with
          hwc_display_ := Function.update s.hwc_display_ display (some r.1)
          pending_power_mode_ := Function.update s.pending_power_mode_ display r.2 }

/-- The part of `HandleSecureSession` after the secure-session test: the virtual display
found by the slot walk is destroyed and the displays are notified. -/
def teardownForSecureSession (K : HWCCallbacks) (env : Env) (secure_sessions : SecureSessions)
    (s : HWCSession) : HWCSession :=
  notifySecureSession env secure_sessions (List.range K.kNumRealDisplays) false
    (match activeVirtualDisplay s.map_info_virtual_ none with
     | some client_id => (DestroyVirtualDisplay K env s client_id).2
     | none => s)

/-- `HWCSession::HandleSecureSession`. The active built-in display is bound whenever its
index is below `kNumDisplays`, so the read of its secure sessions never meets a null
pointer. -/
def HandleSecureSession (K : HWCCallbacks) (env : Env) (s : HWCSession) : HWCSession :=
  if GetActiveBuiltinDisplay K s ≥ K.kNumDisplays then s
  else if (activeSecureSessions K s).kSecureDisplay = true ∨
      (activeSecureSessions K s).kSecureCamera = true then
    teardownForSecureSession K env (activeSecureSessions K s) { s with secure_session_active_ := true }
  else if s.secure_session_active_ = false then s
  else teardownForSecureSession K env (activeSecureSessions K s) s

/-- The session `exIdle` after two virtual displays of different sizes were created; they
sit in the virtual slots with client ids 3 and 4. -/
def exTwoVirtual : HWCSession :=
  (CreateVirtualDisplay exLimits exEnv
    (CreateVirtualDisplay exLimits exEnv exIdle 1920 1080 (some 1) true).state
    1280 720 (some 1) true).state

/-- The session `exTwoVirtual` once a secure-display session has started on the primary. -/
def exTwoVirtualSecure : HWCSession :=
  { exTwoVirtual with
    hwc_display_ := Function.update exTwoVirtual.hwc_display_ 0 (some exPrimarySecure) }

/-- Modelled from the spec: `HWCDisplay::ClearPendingPowerMode` (hwc_display.h is not in
the sources): the display object no longer carries a deferred transition, its pending
power mode is the current one. -/
def HWCDisplay.ClearPendingPowerMode (d : HWCDisplay) : HWCDisplay :=
  { d with pending_power_mode := d.current_power_mode }

/-- The display indices `HWC_DISPLAY_PRIMARY + 1 .. kNumDisplays - 1` that the two loops of
`HandlePendingPowerMode` walk. -/
def nonPrimaryDisplays (K : HWCCallbacks) : List Display :=
  List.range' 1 (K.kNumDisplays - 1)

/-- The first loop of `HandlePendingPowerMode`: whether a display other than the active
built-in one has its `pending_power_mode_` flag set. -/
def anyPendingPowerMode (K : HWCCallbacks) (s : HWCSession) (active_builtin_disp_id : Display) :
    Bool :=
  (nonPrimaryDisplays K).any (fun display =>
    display != active_builtin_disp_id && s.pending_power_mode_ display)

/-- The walk over `map_info_pluggable_` in the second loop, from slot index `i` on: the
first pluggable slot with the client id `display` (`disp_map_info`), if any. -/
def findPluggableSlot (display : Display) : Nat → List DisplayMapInfo → Option (Nat × DisplayMapInfo)
  | _, [] => none
  | i, map_info :: rest =>
    if display ≠ map_info.client_id then findPluggableSlot display (i + 1) rest
    else some (i, map_info)

/-- The flag `disconnected`: the display sits in a pluggable slot whose hardware id the
hardware list reports as not connected. -/
def pendingDisconnected (hw_displays_info : List HWDisplayInfo) (s : HWCSession)
    (display : Display) : Bool :=
  match findPluggableSlot display 0 s.map_info_pluggable_ with
  | none => false
  | some slot =>
    hw_displays_info.any (fun info => info.display_id == slot.2.sdm_id && !info.is_connected)

/-- The update of the two active-display containers for a pending mode; `none` when the
display is in no pluggable slot and the mode is neither `OFF` nor `DOZE_SUSPEND`, where the
code goes through the null pointer `disp_map_info`. -/
def activatePending (s : HWCSession) (display : Display) (pending_mode : PowerMode) :
    Option HWCSession :=
  if pending_mode = PowerMode.OFF ∨ pending_mode = PowerMode.DOZE_SUSPEND then
    some { s with
      map_active_displays_ := mapErase s.map_active_displays_ display
      active_displays_ := setErase s.active_displays_ display }
  else
    match findPluggableSlot display 0 s.map_info_pluggable_ with
    | none => none
    | some slot =>
      some { s with
        map_active_displays_ := mapInsert s.map_active_displays_ slot.2.client_id (.pluggable slot.1)
        active_displays_ := setInsert s.active_displays_ display }

/-- The engine call at the end of one round of the second loop: on success the pending flag
is cleared and one more refresh of the primary is scheduled. -/
def setPendingMode (s : HWCSession) (display : Display) (d : HWCDisplay) : HWCSession :=
  if (d.SetPowerMode d.pending_power_mode).1 = HWC3Error.None then
    { s with
      pending_power_mode_ := Function.update s.pending_power_mode_ display false
      hwc_display_ := Function.update s.hwc_display_ display
        (some (d.SetPowerMode d.pending_power_mode).2.ClearPendingPowerMode)
      pending_refresh_ := Function.update s.pending_refresh_ HWC_DISPLAY_PRIMARY true }
  else s

/-- One round of the second loop of `HandlePendingPowerMode`. -/
def applyPendingPowerMode (hw_displays_info : List HWDisplayInfo)
    (active_builtin_disp_id : Display) (s : HWCSession) (display : Display) : Option HWCSession :=
  if display = active_builtin_disp_id then some s
  else if s.pending_power_mode_ display = false then some s
  else
    match s.hwc_display_ display with
    | none => some s
    | some d =>
      if pendingDisconnected hw_displays_info s display = true then some s
      else
        match activatePending s display d.pending_power_mode with
        | none => none
        | some s1 => some (setPendingMode s1 display d)

/-- The second loop of `HandlePendingPowerMode` over the given display indices. -/
def applyPendingPowerModes (hw_displays_info : List HWDisplayInfo)
    (active_builtin_disp_id : Display) : List Display → HWCSession → Option HWCSession
  | [], s => some s
  | display :: rest, s =>
    match applyPendingPowerMode hw_displays_info active_builtin_disp_id s display with
    | none => none
    | some s1 => applyPendingPowerModes hw_displays_info active_builtin_disp_id rest s1

/-- `HWCSession::HandlePendingPowerMode`; `retire_fence` is `none` for the null pointer. The
result is `none` when the code reads `hwc_display_` at the index `kNumDisplays` or goes
through a null `disp_map_info`. -/
def HandlePendingPowerMode (K : HWCCallbacks) (env : Env) (s : HWCSession) (disp_id : Display)
    (retire_fence : Option Nat) : Option HWCSession :=
  if s.secure_session_active_ = false then some s
  else if disp_id ≠ GetActiveBuiltinDisplay K s then some s
  else if GetActiveBuiltinDisplay K s ≥ K.kNumDisplays then none
  else if anyPendingPowerMode K s (GetActiveBuiltinDisplay K s) = false then
    if (activeSecureSessions K s).any = false then some { s with secure_session_active_ := false }
    else some s
  else if retire_fence = none then some s
  else
    match env.displays_status with
    | none => some s
    | some hw_displays_info =>
      match applyPendingPowerModes hw_displays_info (GetActiveBuiltinDisplay K s)
          (nonPrimaryDisplays K) s with
      | none => none
      | some s1 => some { s1 with secure_session_active_ := false }

/-- A display index whose deferred power mode the second loop of `HandlePendingPowerMode`
does not resolve: the slot is unbound, or it is a pluggable slot whose hardware id is
reported disconnected, or the display object refuses the power-mode change. -/
def PendingStuck (hw_displays_info : List HWDisplayInfo) (s : HWCSession) (display : Display) :
    Prop :=
  s.hwc_display_ display = none ∨
  pendingDisconnected hw_displays_info s display = true ∨
  ∃ d, s.hwc_display_ display = some d ∧ (d.SetPowerMode d.pending_power_mode).1 ≠ HWC3Error.None

/-- The session `exQueued` during the wind-down of a secure session: the display of
pluggable slot 1 (hardware id 5) carries a deferred power mode. -/
def exPendingPluggable : HWCSession :=
  { exQueued with
    secure_session_active_ := true
    pending_power_mode_ := fun c => decide (c = 1) }

/-! ## Bounded waits -/

/-- Constants of hwc_session.h used by the waits (the header is not part of the sources, so
the values are parameters of the development). -/
structure HWCSessionConstants where
  kNumDrawCycles : Int
  kDenomNstoMs : Int
  kCommitDoneTimeoutMs : Int
  kVmReleaseTimeoutMs : Int
  kVmReleaseRetry : Nat
  kClientTrustedUI : Nat
deriving DecidableEq, Repr

/-- The value of `timeout_ms` in `WaitForCommitDone` when the wait starts: computed from the
vsync period of the cached active configuration when the display is bound, else the
initial -1. The division is the truncating division of C++. -/
def commitTimeoutMs (C : HWCSessionConstants) (s : HWCSession) (display : Display) : Int :=
  match s.hwc_display_ display with
  | some d => C.kNumDrawCycles * (Int.tdiv d.vsync_period C.kDenomNstoMs) + 100
  | none => -1

/-- The head of `WaitForCommitDone` up to the call of `WaitFinite`: the refresh request, the
registration of the waiter and the wait itself. -/
def beginCommitWait (C : HWCSessionConstants) (s : HWCSession) (display : Display)
    (client_id : Nat) : HWCSession :=
  let waiters := Function.update s.clients_waiting_for_commit_ display
    (setInsert (s.clients_waiting_for_commit_ display) client_id)
  { s with
    clients_waiting_for_commit_ := waiters
    trace := s.trace ++ [.Refresh display, .WaitFinite display (commitTimeoutMs C s display)] }

/-- What a commit does for the waiters before it signals (`PostCommitLocked`, or the error
path of `PresentDisplay`): it publishes the retire fence and the commit error and clears
the waiter bits. -/
def publishCommit (s : HWCSession) (display : Display) (commit_error : Int)
    (retire_fence : Option Nat) : HWCSession :=
  { s with
    retire_fence_ := Function.update s.retire_fence_ display retire_fence
    commit_error_ := Function.update s.commit_error_ display commit_error
    clients_waiting_for_commit_ := Function.update s.clients_waiting_for_commit_ display [] }

/-- The tail of `WaitForCommitDone` after a signalled wait. -/
def finishCommitWait (C : HWCSessionConstants) (env : Env) (s : HWCSession) (display : Display)
    (timeout_ms : Int) : Int × HWCSession :=
  if s.commit_error_ display ≠ 0 then
    (-EINVAL, { s with commit_error_ := Function.update s.commit_error_ display 0 })
  else
    (env.fence_wait_status,
      { s with
        retire_fence_ := Function.update s.retire_fence_ display none
        trace := s.trace ++ [.FenceWait (timeout_ms + C.kCommitDoneTimeoutMs)] })

/-- `HWCSession::WaitForCommitDone`. Modelled from the spec: `Locker::WaitFinite` returns 0
when the lock is signalled and the timeout status `ETIMEDOUT` when the time is up. The
result is `none` when the wait times out on an unbound display, where the code calls
`GetCurrentPowerMode` through the null pointer. -/
def WaitForCommitDone (C : HWCSessionConstants) (env : Env) (s : HWCSession) (display : Display)
    (client_id : Nat) : Option (Int × HWCSession) :=
  match env.commit_signal with
  | none =>
    match s.hwc_display_ display with
    | none => none
    | some _ => some (ETIMEDOUT, beginCommitWait C s display client_id)
  | some published =>
    some (finishCommitWait C env
      (publishCommit (beginCommitWait C s display client_id) display published.1 published.2)
      display (commitTimeoutMs C s display))

/-- The state after a round of `WaitFinite` on `vm_release_locker_[display]`. -/
def vmReleaseWaited (C : HWCSessionConstants) (s : HWCSession) (display : Display)
    (timeout_ms : Int) : HWCSession :=
  s.emit (.VmReleaseWaitFinite display (timeout_ms + C.kVmReleaseTimeoutMs))

/-- The state after a round of the wait was signalled: `VmReleaseDone` clears the waiter bit
before it signals. -/
def vmReleaseSignalled (C : HWCSessionConstants) (s : HWCSession) (display : Display)
    (timeout_ms : Int) : HWCSession :=
  { vmReleaseWaited C s display timeout_ms with
    clients_waiting_for_vm_release_ :=
      Function.update s.clients_waiting_for_vm_release_ display false }

/-- The `do ... while (re_try--)` loop of `WaitForVmRelease`, by the value of `re_try`;
`script` lists whether each round of `WaitFinite` is signalled. Modelled from the spec:
`Locker::WaitFinite` returns 0 when the lock is signalled and the timeout status
`ETIMEDOUT` when the time is up. The result is `none` when the display is unbound and the
code calls `GetCurrentPowerMode` through the null pointer. -/
def vmReleaseLoop (C : HWCSessionConstants) (display : Display) (timeout_ms : Int) :
    Nat → List Bool → HWCSession → Option (Int × HWCSession)
  | 0, script, s =>
    match s.hwc_display_ display with
    | none => none
    | some d =>
      if d.current_power_mode = PowerMode.OFF then some (-ENODEV, s)
      else if script.headD false = true then some (0, vmReleaseSignalled C s display timeout_ms)
      else some (ETIMEDOUT, vmReleaseWaited C s display timeout_ms)
  | re_try + 1, script, s =>
    match s.hwc_display_ display with
    | none => none
    | some d =>
      if d.current_power_mode = PowerMode.OFF then some (-ENODEV, s)
      else if script.headD false = true then some (0, vmReleaseSignalled C s display timeout_ms)
      else
        vmReleaseLoop C display timeout_ms re_try script.tail
          (vmReleaseWaited C s display timeout_ms)

/-- `HWCSession::WaitForVmRelease`. -/
def WaitForVmRelease (C : HWCSessionConstants) (env : Env) (s : HWCSession) (display : Display)
    (timeout_ms : Int) : Option (Int × HWCSession) :=
  vmReleaseLoop C display timeout_ms C.kVmReleaseRetry env.vm_release_script
    { s with clients_waiting_for_vm_release_ :=
        Function.update s.clients_waiting_for_vm_release_ display true }

/-- Example values of the wait constants: three draw cycles, nanoseconds to milliseconds,
100 ms margins and three retries. -/
def exConstants : HWCSessionConstants :=
  { kNumDrawCycles := 3, kDenomNstoMs := 1000000, kCommitDoneTimeoutMs := 100,
    kVmReleaseTimeoutMs := 100, kVmReleaseRetry := 3, kClientTrustedUI := 1 }

/-- Whether an outgoing call is a wait with a negative timeout. -/
def Event.isNegativeWait : Event → Bool
  | .WaitFinite _ timeout_ms => decide (timeout_ms < 0)
  | .VmReleaseWaitFinite _ timeout_ms => decide (timeout_ms < 0)
  | .FenceWait timeout_ms => decide (timeout_ms < 0)
  | _ => false

/-- A display object that is powered on with a vsync period of 16666666 ns. -/
def exVsyncDisplay : HWCDisplay :=
  { current_power_mode := .ON, vsync_period := 16666666, vsync_period_ns := 16666666 }

/-- The session `exIdle` whose primary display is `exVsyncDisplay`. -/
def exVsync : HWCSession :=
  { exIdle with hwc_display_ := fun i => if i = 0 then some exVsyncDisplay else none }

/-! ## Trusted-UI hand-off -/

/-- The values of the `qdutils` display numbers (the header that declares them is not part
of the sources, so they are parameters of the development). -/
structure Qdutils where
  DISPLAY_PRIMARY : Int
  DISPLAY_EXTERNAL : Int
  DISPLAY_EXTERNAL_2 : Int
  DISPLAY_VIRTUAL : Int
  DISPLAY_VIRTUAL_2 : Int
  DISPLAY_BUILTIN_2 : Int
deriving DecidableEq, Repr

/-- The case of the `switch (dpy)` in `GetDisplayIndex` that an integer selects. -/
def Qdutils.select (Q : Qdutils) (dpy : Int) : QdutilsDisplay :=
  if dpy = Q.DISPLAY_PRIMARY then .DISPLAY_PRIMARY
  else if dpy = Q.DISPLAY_EXTERNAL then .DISPLAY_EXTERNAL
  else if dpy = Q.DISPLAY_EXTERNAL_2 then .DISPLAY_EXTERNAL_2
  else if dpy = Q.DISPLAY_VIRTUAL then .DISPLAY_VIRTUAL
  else if dpy = Q.DISPLAY_VIRTUAL_2 then .DISPLAY_VIRTUAL_2
  else if dpy = Q.DISPLAY_BUILTIN_2 then .DISPLAY_BUILTIN_2
  else .unknown

/-- The target display of the Prepare, End and UnPrepare phases: `GetDisplayIndex(disp_id)`
as a `Display`, replaced by the active built-in display when it is -1. -/
def tuiTargetDisplay (Q : Qdutils) (K : HWCCallbacks) (s : HWCSession) (disp_id : Int) : Display :=
  if toDisplay (GetDisplayIndex s (Q.select disp_id)) = toDisplay (-1) then
    GetActiveBuiltinDisplay K s
  else toDisplay (GetDisplayIndex s (Q.select disp_id))

/-- The test `target_display != DISPLAY_PRIMARY && target_display != DISPLAY_BUILTIN_2`. -/
def tuiUnsupported (Q : Qdutils) (target_display : Display) : Bool :=
  target_display != toDisplay Q.DISPLAY_PRIMARY && target_display != toDisplay Q.DISPLAY_BUILTIN_2

/-- The vector `map_info` of the Prepare and UnPrepare phases: the primary, the built-in and
the virtual descriptors. -/
def tuiDisplays (s : HWCSession) : List DisplayMapInfo :=
  s.map_info_primary_ :: (s.map_info_builtin_ ++ s.map_info_virtual_)

/-- The loop over `map_info` that sends a secure event to every bound display: whether
every display accepted it, the accumulated `needs_refresh` answers, and the state. The
loop stops at the first display that reports an error. -/
def sendSecureEvent (env : Env) (event : SecureEvent) (target_display : Display) :
    List DisplayMapInfo → Bool → HWCSession → Bool × Bool × HWCSession
  | [], trigger_refresh, s => (true, trigger_refresh, s)
  | info :: rest, trigger_refresh, s =>
    match s.hwc_display_ info.client_id with
    | none => sendSecureEvent env event target_display rest trigger_refresh s
    | some _ =>
      if (env.handle_secure_event info.client_id event
          (decide (info.client_id = target_display))).1 ≠ DisplayError.kErrorNone then
        (false, trigger_refresh,
          s.emit (.HandleSecureEvent info.client_id event (decide (info.client_id = target_display))))
      else
        sendSecureEvent env event target_display rest
          (trigger_refresh || (env.handle_secure_event info.client_id event
            (decide (info.client_id = target_display))).2)
          (s.emit (.HandleSecureEvent info.client_id event (decide (info.client_id = target_display))))

/-- The `while (true)` loop of `TeardownPluggableDisplays`, with a bound on the number of
rounds; `none` when the bound is used up. -/
def teardownLoop (K : HWCCallbacks) (env : Env) : Nat → Bool → HWCSession → Option (Bool × HWCSession)
  | 0, _, _ => none
  | fuel + 1, hpd_teardown_handled, s =>
    match s.map_active_displays_.find? (fun disp =>
        (s.mapInfo disp.2).disp_type == DisplayType.kPluggable) with
    | none => some (hpd_teardown_handled, s)
    | some it =>
      teardownLoop K env fuel
        (hpd_teardown_handled || decide ((DisconnectPluggableDisplays K env s it.2).1 = 0))
        (DisconnectPluggableDisplays K env s it.2).2

/-- `HWCSession::TeardownPluggableDisplays`. Every round that finds a bound display resets
its descriptor, so the loop needs at most one round per entry of `map_active_displays_`;
the result is `none` when the loop does not end (an entry of a pluggable descriptor whose
display is unbound is found again and again). -/
def TeardownPluggableDisplays (K : HWCCallbacks) (env : Env) (s : HWCSession) :
    Option (Bool × HWCSession) :=
  teardownLoop K env (s.map_active_displays_.length + 1) false s

/-- The secure sessions `TUITransitionPrepare` reads from the target display. -/
def targetSecureSessions (s : HWCSession) (target_display : Display) : SecureSessions :=
  match s.hwc_display_ target_display with
  | some d => d.secure_sessions
  | none => {}

/-- The end of `TUITransitionPrepare`: the pluggable displays are torn down and a hotplug
event is armed when one was. -/
def prepareTeardown (K : HWCCallbacks) (env : Env) (s : HWCSession) : Option (Int × HWCSession) :=
  match TeardownPluggableDisplays K env s with
  | none => none
  | some r =>
    if r.1 = true then some (0, { r.2 with pending_hotplug_event_ := .kHotPlugEvent })
    else some (0, r.2)

/-- `HWCSession::TUITransitionPrepare`. -/
def TUITransitionPrepare (Q : Qdutils) (K : HWCCallbacks) (env : Env) (s : HWCSession)
    (disp_id : Int) : Option (Int × HWCSession) :=
  if tuiUnsupported Q (tuiTargetDisplay Q K s disp_id) = true then some (-ENOTSUP, s)
  else if (targetSecureSessions s (tuiTargetDisplay Q K s disp_id)).kSecureCamera = true then
    some (-ENOTSUP, s)
  else if (sendSecureEvent env .kTUITransitionPrepare (tuiTargetDisplay Q K s disp_id)
      (tuiDisplays s) false s).1 = false then
    some (-EINVAL, (sendSecureEvent env .kTUITransitionPrepare (tuiTargetDisplay Q K s disp_id)
      (tuiDisplays s) false s).2.2)
  else
    prepareTeardown K env (sendSecureEvent env .kTUITransitionPrepare
      (tuiTargetDisplay Q K s disp_id) (tuiDisplays s) false s).2.2

/-- The end of `TUITransitionUnPrepare`: an armed hotplug event is handed to a detached
`HandlePluggableDisplays(true)` thread, and the refresh is issued when a display asked for
it. -/
def finishUnPrepare (s : HWCSession) (target_display : Display) (trigger_refresh : Bool) :
    HWCSession :=
  let s1 :=
    if s.pending_hotplug_event_ = HotPlugEvent.kHotPlugEvent then
      { s with pending_hotplug_event_ := .kHotPlugProcessing }.emit
        (.HandlePluggableDisplaysThread true)
    else s
  if trigger_refresh = true then s1.emit (.Refresh target_display) else s1

/-- `HWCSession::TUITransitionUnPrepare`. -/
def TUITransitionUnPrepare (Q : Qdutils) (K : HWCCallbacks) (env : Env) (s : HWCSession)
    (disp_id : Int) : Int × HWCSession :=
  if tuiUnsupported Q (tuiTargetDisplay Q K s disp_id) = true then (-ENOTSUP, s)
  else if (sendSecureEvent env .kTUITransitionUnPrepare (tuiTargetDisplay Q K s disp_id)
      (tuiDisplays s) false s).1 = false then
    (-EINVAL, (sendSecureEvent env .kTUITransitionUnPrepare (tuiTargetDisplay Q K s disp_id)
      (tuiDisplays s) false s).2.2)
  else
    (0, finishUnPrepare
      (sendSecureEvent env .kTUITransitionUnPrepare (tuiTargetDisplay Q K s disp_id)
        (tuiDisplays s) false s).2.2
      (tuiTargetDisplay Q K s disp_id)
      (sendSecureEvent env .kTUITransitionUnPrepare (tuiTargetDisplay Q K s disp_id)
        (tuiDisplays s) false s).2.1)
/-- The last block of `TUITransitionEndLocked`: the post-end step on the target, then
`TUITransitionUnPrepare`. -/
def endPostEvent (Q : Qdutils) (K : HWCCallbacks) (env : Env) (s : HWCSession)
    (target_display : Display) (disp_id : Int) : Int × HWCSession :=
  match s.hwc_display_ target_display with
  | none => (-ENODEV, s)
  | some _ =>
    if env.post_handle_secure_event target_display .kTUITransitionEnd ≠ DisplayError.kErrorNone then
      (-EINVAL, s.emit (.PostHandleSecureEvent target_display .kTUITransitionEnd))
    else
      TUITransitionUnPrepare Q K env
        (s.emit (.PostHandleSecureEvent target_display .kTUITransitionEnd)) disp_id

/-- The calls `TUITransitionEndLocked` makes on the target display before it looks at the
answer of the end event. -/
def endEventCalls (s : HWCSession) (target_display : Display) : HWCSession :=
  { s with trace := s.trace ++
      [.SetIdleTimeoutMs target_display s.idle_time_active_ms_ s.idle_time_inactive_ms_,
       .SetQSyncMode target_display (s.hwc_display_qsync_ target_display),
       .HandleSecureEvent target_display .kTUITransitionEnd false] }

/-- The wait of `TUITransitionEndLocked` for the commit to drain and what follows it. -/
def endDrain (Q : Qdutils) (K : HWCCallbacks) (C : HWCSessionConstants) (env : Env)
    (s : HWCSession) (target_display : Display) (disp_id : Int) : Option (Int × HWCSession) :=
  match WaitForCommitDone C env s target_display C.kClientTrustedUI with
  | none => none
  | some w =>
    if w.1 ≠ 0 then some (0, (TUITransitionUnPrepare Q K env w.2 disp_id).2)
    else some (endPostEvent Q K env w.2 target_display disp_id)

/-- `HWCSession::TUITransitionEndLocked`. The result is `none` when the target display is
unbound, where the code calls `SetIdleTimeoutMs` through the null pointer. -/
def TUITransitionEndLocked (Q : Qdutils) (K : HWCCallbacks) (C : HWCSessionConstants) (env : Env)
    (s : HWCSession) (disp_id : Int) : Option (Int × HWCSession) :=
  if tuiUnsupported Q (tuiTargetDisplay Q K s disp_id) = true then some (-ENOTSUP, s)
  else
    match s.hwc_display_ (tuiTargetDisplay Q K s disp_id) with
    | none => none
    | some _ =>
      if (env.handle_secure_event (tuiTargetDisplay Q K s disp_id) .kTUITransitionEnd false).1
          ≠ DisplayError.kErrorNone then
        some (-EINVAL, endEventCalls s (tuiTargetDisplay Q K s disp_id))
      else if (env.handle_secure_event (tuiTargetDisplay Q K s disp_id) .kTUITransitionEnd
          false).2 = true then
        endDrain Q K C env (endEventCalls s (tuiTargetDisplay Q K s disp_id))
          (tuiTargetDisplay Q K s disp_id) disp_id
      else
        some (endPostEvent Q K env (endEventCalls s (tuiTargetDisplay Q K s disp_id))
          (tuiTargetDisplay Q K s disp_id) disp_id)

/-- `HWCSession::TUITransitionEnd` (the locked variant under the pluggable-handler lock). -/
def TUITransitionEnd (Q : Qdutils) (K : HWCCallbacks) (C : HWCSessionConstants) (env : Env)
    (s : HWCSession) (disp_id : Int) : Option (Int × HWCSession) :=
  TUITransitionEndLocked Q K C env s disp_id

/-- `HWCSession::TeardownConcurrentWriteback`; the argument `display` only decides whether a
warning is logged. -/
def TeardownConcurrentWriteback (K : HWCCallbacks) (s : HWCSession) (_display : Display) :
    HWC3Error × HWCSession :=
  (.None, (List.range K.kNumRealDisplays).foldl (fun st id =>
    match st.hwc_display_ id with
    | none => st
    | some disp => if disp.physical = true then st.emit (.TeardownConcurrentWriteback id) else st) s)

/-- The last block of `TUITransitionStart`: the post-start step on the target. -/
def startPostEvent (env : Env) (s : HWCSession) (target_display : Display) : Int × HWCSession :=
  match s.hwc_display_ target_display with
  | none => (-ENODEV, s)
  | some _ =>
    if env.post_handle_secure_event target_display .kTUITransitionStart ≠ DisplayError.kErrorNone then
      (-EINVAL, s.emit (.PostHandleSecureEvent target_display .kTUITransitionStart))
    else (0, s.emit (.PostHandleSecureEvent target_display .kTUITransitionStart))

/-- The value of `timeout_ms` in `TUITransitionStart`. -/
def handoffTimeoutMs (C : HWCSessionConstants) (d : HWCDisplay) : Int :=
  C.kNumDrawCycles * (Int.tdiv (d.vsync_period_ns : Int) C.kDenomNstoMs)

/-- The `needs_refresh` block of `TUITransitionStart`: the refresh request and the wait for
the hand-off release. `TUITransitionEndLocked` is called with the target display index as
its `disp_id`. -/
def startHandoff (Q : Qdutils) (K : HWCCallbacks) (C : HWCSessionConstants) (env : Env)
    (s : HWCSession) (target_display : Display) (timeout_ms : Int) : Option (Int × HWCSession) :=
  match WaitForVmRelease C env (s.emit (.Refresh target_display)) target_display timeout_ms with
  | none => none
  | some w =>
    if w.1 = -ENODEV then
      match TUITransitionEndLocked Q K C env w.2 (INT target_display) with
      | none => none
      | some e => some (w.1, e.2)
    else if w.1 ≠ 0 then some (-EINVAL, w.2)
    else some (startPostEvent env w.2 target_display)

/-- The calls `TUITransitionStart` makes on the target display before it looks at the answer
of the start event. -/
def startEventCalls (s : HWCSession) (target_display : Display) : HWCSession :=
  { s with trace := s.trace ++
      [.SetIdleTimeoutMs target_display 0 0,
       .SetQSyncMode target_display .kQSyncModeNone,
       .HandleSecureEvent target_display .kTUITransitionStart false] }

/-- The target display of `TUITransitionStart`: `GetDisplayIndex(disp_id)` as a `Display`
(this phase has no fallback to the active built-in display). -/
def startTargetDisplay (Q : Qdutils) (s : HWCSession) (disp_id : Int) : Display :=
  toDisplay (GetDisplayIndex s (Q.select disp_id))

/-- The part of `TUITransitionStart` after `TUITransitionPrepare` returned 0. The result
is `none` when `GetDisplayIndex(disp_id)` is no index of `hwc_display_` or the target is
unbound (the code reads the array, or calls `SetIdleTimeoutMs`, all the same). -/
def startAfterPrepare (Q : Qdutils) (K : HWCCallbacks) (C : HWCSessionConstants) (env : Env)
    (s : HWCSession) (disp_id : Int) : Option (Int × HWCSession) :=
  if startTargetDisplay Q s disp_id ≥ K.kNumDisplays then none
  else if (TeardownConcurrentWriteback K s (startTargetDisplay Q s disp_id)).1 ≠ HWC3Error.None then
    some (-ENODEV, (TeardownConcurrentWriteback K s (startTargetDisplay Q s disp_id)).2)
  else
    match (TeardownConcurrentWriteback K s (startTargetDisplay Q s disp_id)).2.hwc_display_
        (startTargetDisplay Q s disp_id) with
    | none => none
    | some d =>
      if (env.handle_secure_event (startTargetDisplay Q s disp_id)
          .kTUITransitionStart false).1 = DisplayError.kErrorPermission then
        some (-EPERM, (TUITransitionUnPrepare Q K env
          (startEventCalls (TeardownConcurrentWriteback K s (startTargetDisplay Q s disp_id)).2
            (startTargetDisplay Q s disp_id)) disp_id).2)
      else if (env.handle_secure_event (startTargetDisplay Q s disp_id)
          .kTUITransitionStart false).1 ≠ DisplayError.kErrorNone then
        some (-EINVAL, startEventCalls (TeardownConcurrentWriteback K s (startTargetDisplay Q s disp_id)).2
          (startTargetDisplay Q s disp_id))
      else if (env.handle_secure_event (startTargetDisplay Q s disp_id)
          .kTUITransitionStart false).2 = true then
        startHandoff Q K C env
          (startEventCalls (TeardownConcurrentWriteback K s (startTargetDisplay Q s disp_id)).2
            (startTargetDisplay Q s disp_id))
          (startTargetDisplay Q s disp_id) (handoffTimeoutMs C d)
      else
        some (startPostEvent env
          (startEventCalls (TeardownConcurrentWriteback K s (startTargetDisplay Q s disp_id)).2
            (startTargetDisplay Q s disp_id))
          (startTargetDisplay Q s disp_id))

/-- `HWCSession::TUITransitionStart`. -/
def TUITransitionStart (Q : Qdutils) (K : HWCCallbacks) (C : HWCSessionConstants) (env : Env)
    (s : HWCSession) (disp_id : Int) : Option (Int × HWCSession) :=
  match TUITransitionPrepare Q K env s disp_id with
  | none => none
  | some p =>
    if p.1 ≠ 0 then some (-EINVAL, p.2)
    else startAfterPrepare Q K C env p.2 disp_id

/-- Whether a future holds a task that has not completed (`valid()` and `wait_for(0)` not
`ready`). -/
def futureBusy (f : Option AsyncTask) : Bool :=
  match f with
  | some task => !task.ready
  | none => false

/-- Whether the notification future holds a task that does not complete within the
1000 ms `wait_for`. -/
def callbackBusy (env : Env) (f : Option AsyncTask) : Bool :=
  match f with
  | some task => !(task.ready || env.tui_callback_completes)
  | none => false

/-- `HWCSession::TUIEventHandler`. A task started with `std::async` is recorded in the
trace and stored, not yet completed, in its future. -/
def TUIEventHandler (env : Env) (s : HWCSession) (disp_id : Int) (event_type : TUIEventType) :
    Int × HWCSession :=
  if futureBusy s.tui_event_handler_future_ = true then (-EBUSY, s)
  else if event_type = TUIEventType.unknown then (-EINVAL, s)
  else if callbackBusy env s.tui_callback_handler_future_ = true then
    (-EBUSY,
      { s with
        tui_event_handler_future_ := some { work := .AsyncTUIEvent event_type disp_id }
        trace := s.trace ++ [.AsyncTUIEvent event_type disp_id] })
  else
    (0,
      { s with
        tui_event_handler_future_ := some { work := .AsyncTUIEvent event_type disp_id }
        tui_callback_handler_future_ := some { work := .AsyncNotifyTUIEventDone disp_id event_type }
        trace := s.trace ++
          [.AsyncTUIEvent event_type disp_id, .AsyncNotifyTUIEventDone disp_id event_type] })
/-- Example values of the `qdutils` display numbers. -/
def exQdutils : Qdutils :=
  { DISPLAY_PRIMARY := 0, DISPLAY_EXTERNAL := 1, DISPLAY_VIRTUAL := 2, DISPLAY_BUILTIN_2 := 3,
    DISPLAY_EXTERNAL_2 := 4, DISPLAY_VIRTUAL_2 := 5 }

/-- The session `exIdle` while a Start task of the trusted-UI handler is still running. -/
def exTuiBusy : HWCSession :=
  { exIdle with
    tui_event_handler_future_ :=
      some { work := .AsyncTUIEvent .START_TUI_TRANSITION 0, ready := false } }

/-- The session `exIdle` after a Start task has completed while its notification task is
still running. -/
def exTuiNotifying : HWCSession :=
  { exIdle with
    tui_event_handler_future_ :=
      some { work := .AsyncTUIEvent .START_TUI_TRANSITION 0, ready := true }
    tui_callback_handler_future_ :=
      some { work := .AsyncNotifyTUIEventDone 0 .START_TUI_TRANSITION, ready := false } }

/-- A session whose primary display reports an active secure-camera session. -/
def exCameraSecure : HWCSession :=
  { exIdle with
    hwc_display_ := fun i =>
      if i = 0 then some { current_power_mode := .ON, secure_sessions := { kSecureCamera := true } }
      else none }
/-- The state `TUITransitionPrepare` leaves behind (the session itself when the call does
not return). -/
def preparedState (Q : Qdutils) (K : HWCCallbacks) (env : Env) (s : HWCSession) (disp_id : Int) :
    HWCSession :=
  match TUITransitionPrepare Q K env s disp_id with
  | some p => p.2
  | none => s

/-- The state of `TUITransitionStart` when the answer of the start event is looked at:
`TUITransitionPrepare` and `TeardownConcurrentWriteback` have run and the target display
has been sent the start event. -/
def startEventState (Q : Qdutils) (K : HWCCallbacks) (env : Env) (s : HWCSession) (disp_id : Int) :
    HWCSession :=
  startEventCalls
    (TeardownConcurrentWriteback K (preparedState Q K env s disp_id)
      (startTargetDisplay Q (preparedState Q K env s disp_id) disp_id)).2
    (startTargetDisplay Q (preparedState Q K env s disp_id) disp_id)

/-- Whether an outgoing call is one of those `TUITransitionUnPrepare` makes: the unprepare
event for a display, the hand-over of an armed hotplug event to a detached thread, or a
refresh request. -/
def Event.isUnPrepareCall : Event → Bool
  | .HandleSecureEvent _ .kTUITransitionUnPrepare _ => true
  | .HandlePluggableDisplaysThread _ => true
  | .Refresh _ => true
  | _ => false

/-- Whether an outgoing call belongs to the End phase proper: the end event or its post
step on a display. -/
def Event.isEndCall : Event → Bool
  | .HandleSecureEvent _ .kTUITransitionEnd _ => true
  | .PostHandleSecureEvent _ .kTUITransitionEnd => true
  | _ => false

/-- An engine whose displays answer the start event with `kErrorPermission`. -/
def exEnvPermission : Env :=
  { exEnv with
    handle_secure_event := fun _ event _ =>
      if event = SecureEvent.kTUITransitionStart then (.kErrorPermission, false)
      else (.kErrorNone, false) }

/-- An engine whose displays ask for a hand-off on the start and end events, and in which
nobody signals the hand-off release or a commit. -/
def exEnvHandoff : Env :=
  { exEnv with
    handle_secure_event := fun _ event _ =>
      (.kErrorNone, decide (event = SecureEvent.kTUITransitionStart ∨
        event = SecureEvent.kTUITransitionEnd)) }

/-- An engine like `exEnvHandoff` in which the commit drains (no error, retire fence 7) and
the post step of the end event fails. -/
def exEnvPostFails : Env :=
  { exEnvHandoff with
    commit_signal := some (0, some 7)
    post_handle_secure_event := fun _ event =>
      if event = SecureEvent.kTUITransitionEnd then .kErrorUndefined else .kErrorNone }

/-- The session `exVsync` with the primary display powered off. -/
def exVsyncOff : HWCSession :=
  { exIdle with
    hwc_display_ := fun i =>
      if i = 0 then some { exVsyncDisplay with current_power_mode := .OFF } else none }

/-- The call `vm_release_locker_[display].WaitFinite(timeout_ms + kVmReleaseTimeoutMs)` of
`WaitForVmRelease`. -/
def vmReleaseWaitCall (C : HWCSessionConstants) (display : Display) (timeout_ms : Int) : Event :=
  .VmReleaseWaitFinite display (timeout_ms + C.kVmReleaseTimeoutMs)

/-- An engine in which the hand-off release is signalled in the third round of the wait. -/
def exEnvThirdRound : Env :=
  { exEnv with vm_release_script := [false, false, true] }

/-- An engine in which a commit reports the error `-EINVAL` to the waiter. -/
def exEnvCommitError : Env :=
  { exEnv with commit_signal := some (-EINVAL, none) }

/-! ## Deferred hotplug handling -/

/-- The block of `HandlePendingHotplug` that hands a deferred hotplug event to a detached
`HandlePluggableDisplays(true)` thread when the pluggable-handler lock is free. -/
def startDeferredHotplug (env : Env) (s : HWCSession) : HWCSession :=
  if env.pluggable_handler_try_lock = 0 then
    { s with pending_hotplug_event_ := .kHotPlugProcessing }.emit
      (.HandlePluggableDisplaysThread true)
  else s

/-- `HWCSession::HandlePendingHotplug`. The result is `none` when the function reads
`hwc_display_` at an index that is not below `kNumDisplays`. -/
def HandlePendingHotplug (K : HWCCallbacks) (env : Env) (s : HWCSession) (disp_id : Display)
    (_retire_fence : Option Nat) : Option HWCSession :=
  if disp_id ≠ GetActiveBuiltinDisplay K s ∨
      s.pending_hotplug_event_ = HotPlugEvent.kHotPlugNone then some s
  else if (activeSecureSessions K s).any = true ∨ GetActiveBuiltinDisplay K s ≥ K.kNumDisplays then
    some s
  else if s.pending_hotplug_event_ = HotPlugEvent.kHotPlugEvent then
    if virtualDisplayIndex s ≥ K.kNumDisplays then none
    else if (s.hwc_display_ (virtualDisplayIndex s)).isSome = true then some s
    else some (startDeferredHotplug env s)
  else some s

/-- A session on hardware without virtual displays: the primary is powered on, there are
two free pluggable slots and no virtual slot, and a hotplug event is pending. -/
def exNoVirtual : HWCSession :=
  { exIdle with
    map_info_virtual_ := []
    pending_hotplug_event_ := .kHotPlugEvent }

/-- A session with a second built-in slot (client id 3) next to the pluggable slots 1 and 2
and the virtual slots 4 and 5; only the primary is bound. -/
def exSecondBuiltinFree : HWCSession :=
  { exIdle with
    map_info_builtin_ := [{ client_id := 3 }]
    map_info_virtual_ := [{ client_id := 4 }, { client_id := 5 }] }

/-- The session `exSecondBuiltinFree` at the end of a secure session: the second built-in
display is bound, powered off, and carries the deferred power mode `ON` with its pending
flag set. -/
def exBuiltinPending : HWCSession :=
  { exSecondBuiltinFree with
    map_info_builtin_ := [{ client_id := 3, sdm_id := 1, disp_type := .kBuiltIn }]
    hwc_display_ := fun i =>
      if i = 0 then some exPrimaryOn
      else if i = 3 then some { pending_power_mode := .ON }
      else none
    secure_session_active_ := true
    pending_power_mode_ := fun c => decide (c = 3) }

/-- The session `exBuiltinPending` in which the display of pluggable slot 1 (hardware id 5)
carries a deferred `ON` as well. -/
def exBothPending : HWCSession :=
  { exBuiltinPending with
    map_info_pluggable_ := [{ client_id := 1, sdm_id := 5, disp_type := .kPluggable },
      { client_id := 2 }]
    hwc_display_ := fun i =>
      if i = 0 then some exPrimaryOn
      else if i = 1 then
        some { display_class := .DISPLAY_CLASS_PLUGGABLE, pending_power_mode := .ON,
               first_commit_done := true }
      else if i = 3 then some { pending_power_mode := .ON }
      else none
    pending_power_mode_ := fun c => decide (c = 1 ∨ c = 3) }

/-! ## The active-display set -/

/-- A bound display whose current power mode is neither `OFF` nor `DOZE_SUSPEND`. -/
def ActiveDisplay (s : HWCSession) (c : Display) : Prop :=
  ∃ d, s.hwc_display_ c = some d ∧ d.current_power_mode ≠ PowerMode.OFF ∧
    d.current_power_mode ≠ PowerMode.DOZE_SUSPEND

/-- The set `active_displays_` holds exactly the ids of the bound displays that are neither
off nor in doze-suspend. -/
def ActiveSetInv (s : HWCSession) : Prop :=
  ∀ c, c ∈ s.active_displays_ ↔ ActiveDisplay s c

/-- No bound display object refuses a power-mode change. -/
def EngineAccepts (s : HWCSession) : Prop :=
  ∀ c d, s.hwc_display_ c = some d → d.power_mode_status = HWC3Error.None

/-- The session `exIdle` with a primary display that refuses power-mode changes. -/
def exRefusing : HWCSession :=
  { exIdle with
    hwc_display_ := fun i =>
      if i = 0 then some { current_power_mode := .ON, power_mode_status := .BadParameter }
      else none }

/-! ## Slot table set-up -/

/-- What the display core answers during `InitSupportedDisplaySlots`: the status of
`CoreInterface::CreateCore`, and for `GetFirstDisplayInterfaceType` and the three
`GetMaxDisplaysSupported` calls the status and the value written on success. -/
structure CoreAnswers where
  create_core : DisplayError := .kErrorNone
  first_display_interface : DisplayError × DisplayType := (.kErrorNone, .kBuiltIn)
  max_builtin : DisplayError × Int := (.kErrorNone, 0)
  max_pluggable : DisplayError × Int := (.kErrorNone, 0)
  max_virtual : DisplayError × Int := (.kErrorNone, 0)
deriving DecidableEq, Repr

/-- The `UINT32(...)` cast of an `int`. -/
def UINT32 (x : Int) : Nat := (x % 4294967296).toNat

/-- The `std::vector::resize` of a slot table: the first `n` entries stay, missing entries
are value-initialised (their client id is overwritten by the loop that follows). -/
def resizeSlots (n : Nat) (l : List DisplayMapInfo) : List DisplayMapInfo :=
  l.take n ++ List.replicate (n - l.length) default

/-- The loop `for (auto &map_info : table) map_info.client_id = base_id++;`: the table
afterwards and the value of `base_id` after the loop. -/
def assignClientIds : Display → List DisplayMapInfo → List DisplayMapInfo × Display
  | base_id, [] => ([], base_id)
  | base_id, map_info :: rest =>
    ({ map_info with client_id := base_id } ::
        (assignClientIds ((base_id + 1) % 2 ^ 64) rest).1,
      (assignClientIds ((base_id + 1) % 2 ^ 64) rest).2)

/-- The value of `max_virtual` after the check for write-back through the GPU. -/
def adjustedMaxVirtual (env : Env) (max_virtual : Int) : Int :=
  if max_virtual = 0 then max_virtual + (if env.gpu_color_convert = true then 1 else 0)
  else max_virtual

/-- The value of `max_pluggable` after the interface of the primary is taken off. -/
def adjustedMaxPluggable (primary_type : DisplayType) (max_pluggable : Int) : Int :=
  if primary_type = .kPluggable then max_pluggable - 1 else max_pluggable

/-- The value of `max_builtin` after the interface of the primary is taken off. -/
def adjustedMaxBuiltin (primary_type : DisplayType) (max_builtin : Int) : Int :=
  if primary_type = .kPluggable then max_builtin else max_builtin - 1

/-- The tail of `InitSupportedDisplaySlots` after the queries: the three tables are resized
and numbered, and `is_hdr_display_` is resized; the second component is the size of
`is_hdr_display_` afterwards. -/
def initSlots (K : HWCCallbacks) (Q : Qdutils) (s : HWCSession)
    (max_builtin max_pluggable max_virtual : Int) : HWCSession × Nat :=
  let pluggable := assignClientIds (toDisplay Q.DISPLAY_EXTERNAL)
    (resizeSlots (UINT32 (min max_pluggable K.kNumPluggable)) s.map_info_pluggable_)
  let builtin := assignClientIds pluggable.2
    (resizeSlots (UINT32 (min max_builtin K.kNumBuiltIn)) s.map_info_builtin_)
  let virt := assignClientIds builtin.2
    (resizeSlots (UINT32 (min max_virtual K.kNumVirtual)) s.map_info_virtual_)
  ({ s with
      map_info_pluggable_ := pluggable.1
      map_info_builtin_ := builtin.1
      map_info_virtual_ := virt.1
      is_hdr_display_ := fun c => decide (c < virt.2 % 4294967296) && s.is_hdr_display_ c },
    virt.2 % 4294967296)

/-- `HWCSession::InitSupportedDisplaySlots`; `hdr_size` is the size of `is_hdr_display_`
before the call, the second component of the result its size afterwards. The maxima are
`int` values; the calls on the core interface are not recorded in the trace. -/
def InitSupportedDisplaySlots (K : HWCCallbacks) (Q : Qdutils) (env : Env) (core : CoreAnswers)
    (s : HWCSession) (hdr_size : Nat) : HWCSession × Nat :=
  let s0 := { s with
    map_info_primary_ := { s.map_info_primary_ with client_id := toDisplay Q.DISPLAY_PRIMARY } }
  if core.create_core ≠ .kErrorNone then (s0, hdr_size)
  else if core.first_display_interface.1 ≠ .kErrorNone then (s0, hdr_size)
  else if core.max_builtin.1 ≠ .kErrorNone then (s0, hdr_size)
  else if core.max_pluggable.1 ≠ .kErrorNone then (s0, hdr_size)
  else if core.max_virtual.1 ≠ .kErrorNone then (s0, hdr_size)
  else
    initSlots K Q s0
      (adjustedMaxBuiltin core.first_display_interface.2 core.max_builtin.2)
      (adjustedMaxPluggable core.first_display_interface.2 core.max_pluggable.2)
      (adjustedMaxVirtual env core.max_virtual.2)

/-- A core with a built-in primary that reports no built-in display, two pluggable displays
and one virtual display. -/
def exCoreNoBuiltin : CoreAnswers :=
  { first_display_interface := (.kErrorNone, .kBuiltIn),
    max_builtin := (.kErrorNone, 0),
    max_pluggable := (.kErrorNone, 2),
    max_virtual := (.kErrorNone, 1) }

/-- A core with a built-in primary that reports two built-in displays, two pluggable
displays and one virtual display. -/
def exCore : CoreAnswers :=
  { first_display_interface := (.kErrorNone, .kBuiltIn),
    max_builtin := (.kErrorNone, 2),
    max_pluggable := (.kErrorNone, 2),
    max_virtual := (.kErrorNone, 1) }

/-! ## Lock traces

The locks of the session and the order in which an operation acquires and releases them.
A lock trace is the list of lock operations one thread performs during a call; the state
arguments are the ones of the state functions above, which the traces follow. -/

/-- The mutexes of `HWCSession` that the operations below take. -/
inductive Lock where
  /-- The per-display lock `locker_[display]`. -/
  | locker (display : Display)
  /-- The lock `hdr_locker_[display]`. -/
  | hdr_locker (display : Display)
  /-- The lock `vm_release_locker_[display]`. -/
  | vm_release_locker (display : Display)
  | pluggable_handler_lock
  | command_seq_mutex
  | hotplug_mutex
deriving DecidableEq, Repr

/-- One lock operation of a thread. -/
inductive LockOp where
  | acquire (l : Lock)
  | release (l : Lock)
deriving DecidableEq, Repr

/-- A scoped lock (`SCOPE_LOCK`, `Locker::ScopeLock`, `SEQUENCE_WAIT_SCOPE_LOCK`,
`std::lock_guard`): acquired at the declaration, released when the scope is left. -/
def scopeLock (l : Lock) (body : List LockOp) : List LockOp :=
  LockOp.acquire l :: body ++ [LockOp.release l]

/-- The loop of `GetActiveBuiltinDisplay` over the primary and built-in descriptors: each
round holds `locker_[target_display]`, and the loop stops at the first active display. -/
def activeBuiltinScan_locks (s : HWCSession) : List DisplayMapInfo → List LockOp
  | [] => []
  | info :: rest =>
    scopeLock (.locker info.client_id) [] ++
      (match s.hwc_display_ info.client_id with
       | some d =>
         if d.current_power_mode ≠ PowerMode.OFF then [] else activeBuiltinScan_locks s rest
       | none => activeBuiltinScan_locks s rest)

/-- Lock trace of `HWCSession::GetActiveBuiltinDisplay`. -/
def GetActiveBuiltinDisplay_locks (s : HWCSession) : List LockOp :=
  activeBuiltinScan_locks s (s.map_info_primary_ :: s.map_info_builtin_)

/-- Modelled from the spec: lock trace of the `CallDisplayFunction` template of
hwc_session.h (not in the sources): an operation on a display object is invoked while the
lock of its slot is held; an index outside the table returns before the lock. -/
def CallDisplayFunction_locks (K : HWCCallbacks) (display : Display) : List LockOp :=
  if display ≥ K.kNumDisplays then [] else scopeLock (.locker display) []

/-- The part of `SetPowerMode` after the deferral block: the lock operations of the engine
call, which is reached when no check before it returns. -/
def powerModeCall_locks (K : HWCCallbacks) (s : HWCSession) (display : Display) (d : HWCDisplay)
    (mode : PowerMode) : List LockOp :=
  if s.pending_power_mode_ display = true then []
  else if (GetDozeSupport K s display).1 ≠ .None then []
  else if (GetDozeSupport K s display).2 = 0 ∧ (mode = .DOZE ∨ mode = .DOZE_SUSPEND) then []
  else if d.current_power_mode = mode then []
  else CallDisplayFunction_locks K display

/-- The deferral block of `SetPowerMode`: with a secure session active on a powered-off
built-in display the active built-in display is looked up, and when there is one the slot
lock is taken for `SetPendingPowerMode`. -/
def deferPowerMode_locks (K : HWCCallbacks) (s : HWCSession) (display : Display) (d : HWCDisplay) :
    List LockOp :=
  if s.secure_session_active_ = true ∧
      d.display_class = DisplayClass.DISPLAY_CLASS_BUILTIN ∧
      d.current_power_mode = PowerMode.OFF then
    GetActiveBuiltinDisplay_locks s ++
      (if GetActiveBuiltinDisplay K s ≠ K.kNumDisplays then scopeLock (.locker display) [] else [])
  else []

/-- Lock trace of `HWCSession::SetPowerMode`, along the branches of `SetPowerMode`. -/
def SetPowerMode_locks (K : HWCCallbacks) (env : Env) (s : HWCSession) (display : Display)
    (int_mode : Int) : List LockOp :=
  match s.hwc_display_ display with
  | none => []
  | some d =>
    if display ≥ K.kNumDisplays then []
    else if int_mode < PowerMode.OFF.toInt ∨ int_mode > PowerMode.ON_SUSPEND.toInt then []
    else if normalizePowerMode int_mode = .ON ∧ IsHWDisplayConnected env s display = false then
      []
    else
      scopeLock (.locker display) [] ++ deferPowerMode_locks K s display d ++
      (if s.secure_session_active_ = true ∧
          d.display_class = DisplayClass.DISPLAY_CLASS_BUILTIN ∧
          d.current_power_mode = PowerMode.OFF ∧
          GetActiveBuiltinDisplay K s ≠ K.kNumDisplays then []
       else powerModeCall_locks K s display d (normalizePowerMode int_mode))

/-- Lock trace of `DestroyPluggableDisplay` and of `DestroyNonPluggableDisplay`: the slot
lock around the locked variant, which takes `hdr_locker_[client_id]` when the slot is
bound. -/
def destroySlot_locks (s : HWCSession) (map_info : MapInfoRef) : List LockOp :=
  scopeLock (.locker (s.mapInfo map_info).client_id)
    (match s.hwc_display_ (s.mapInfo map_info).client_id with
     | none => []
     | some _ => scopeLock (.hdr_locker (s.mapInfo map_info).client_id) [])

/-- Lock trace of `HWCSession::DestroyDisplay`: for a pluggable slot `command_seq_mutex_` is
held around `SetPowerMode` and `DestroyPluggableDisplay`. -/
def DestroyDisplay_locks (K : HWCCallbacks) (env : Env) (s : HWCSession) (map_info : MapInfoRef) :
    List LockOp :=
  match (s.mapInfo map_info).disp_type with
  | .kPluggable =>
    scopeLock .command_seq_mutex
      (SetPowerMode_locks K env (s.emit (.Hotplug (s.mapInfo map_info).client_id false))
          (s.mapInfo map_info).client_id PowerMode.OFF.toInt ++
        destroySlot_locks
          (SetPowerMode K env (s.emit (.Hotplug (s.mapInfo map_info).client_id false))
            (s.mapInfo map_info).client_id PowerMode.OFF.toInt).2 map_info)
  | _ => destroySlot_locks s map_info

/-- The reconfiguration block of `DisconnectPluggableDisplays`: the active built-in display
is looked up and its lock held around the change of configuration. -/
def reconfigAfterDisconnect_locks (K : HWCCallbacks) (s : HWCSession)
    (is_valid_pluggable_display : Bool) : List LockOp :=
  if s.enable_primary_reconfig_req_ ≠ 0 ∧ is_valid_pluggable_display = true then
    GetActiveBuiltinDisplay_locks s ++
      (if GetActiveBuiltinDisplay K s < K.kNumDisplays then
        scopeLock (.locker (GetActiveBuiltinDisplay K s)) []
       else [])
  else []

/-- Lock trace of `HWCSession::DisconnectPluggableDisplays`. -/
def DisconnectPluggableDisplays_locks (K : HWCCallbacks) (env : Env) (s : HWCSession)
    (map_info : MapInfoRef) : List LockOp :=
  DestroyDisplay_locks K env (abortIfBound s (s.mapInfo map_info).client_id) map_info ++
    reconfigAfterDisconnect_locks K
      (DestroyDisplay K env (abortIfBound s (s.mapInfo map_info).client_id) map_info)
      (s.hwc_display_ (s.mapInfo map_info).client_id).isSome

/-- The outer loop of `HandleDisconnectedDisplays` over the pluggable slot indices: the
lock operations of the slots that are disconnected, each on the state the rounds before it
leave. -/
def disconnect_locks (K : HWCCallbacks) (env : Env) (hw_displays_info : List HWDisplayInfo) :
    List Nat → HWCSession → List LockOp
  | [], _ => []
  | i :: rest, s =>
    (if disconnectFlag hw_displays_info (s.mapInfo (.pluggable i)).sdm_id = true then
      DisconnectPluggableDisplays_locks K env s (.pluggable i)
     else []) ++
    disconnect_locks K env hw_displays_info rest (disconnectStep K env hw_displays_info s i)

/-- Lock trace of `HWCSession::HandleDisconnectedDisplays`. -/
def HandleDisconnectedDisplays_locks (K : HWCCallbacks) (env : Env) (s : HWCSession)
    (hw_displays_info : List HWDisplayInfo) : List LockOp :=
  disconnect_locks K env hw_displays_info (List.range s.map_info_pluggable_.length) s

/-- Lock trace of `HWCSession::RemoveDisconnectedPluggableDisplays`. -/
def RemoveDisconnectedPluggableDisplays_locks (K : HWCCallbacks) (env : Env) (s : HWCSession) :
    List LockOp :=
  scopeLock .pluggable_handler_lock
    (match env.displays_status with
     | none => []
     | some hw_displays_info => HandleDisconnectedDisplays_locks K env s hw_displays_info)

/-- The first loop of the main block of `PerformDisplayPowerReset`: `locker_[display].Lock()`
for every display index. -/
def lockAllDisplays (K : HWCCallbacks) : List LockOp :=
  (List.range K.kNumDisplays).map (fun display => LockOp.acquire (.locker display))

/-- The last loop of `PerformDisplayPowerReset`: `locker_[display].Unlock()` for every
display index. -/
def unlockAllDisplays (K : HWCCallbacks) : List LockOp :=
  (List.range K.kNumDisplays).map (fun display => LockOp.release (.locker display))

/-- Lock trace of `HWCSession::PerformDisplayPowerReset`: the removal of the disconnected
pluggable displays, then `command_seq_mutex_` around the block that locks every display,
cycles the power modes and unlocks every display. -/
def PerformDisplayPowerReset_locks (K : HWCCallbacks) (env : Env) (s : HWCSession) :
    List LockOp :=
  RemoveDisconnectedPluggableDisplays_locks K env s ++
    scopeLock .command_seq_mutex (lockAllDisplays K ++ unlockAllDisplays K)

/-- Whether the lock `l` may be acquired while `held` is held: a per-display lock only
above every per-display lock that is held. -/
def Lock.ordered (held l : Lock) : Bool :=
  match held, l with
  | .locker below, .locker display => decide (below < display)
  | _, _ => true

/-- The held locks after a lock trace, starting with the locks `held`; `none` when a
per-display lock is acquired while a per-display lock of the same or a higher index is
held, or a lock is released that is not held. -/
def runLocks : List Lock → List LockOp → Option (List Lock)
  | held, [] => some held
  | held, .acquire l :: rest =>
    if held.all (fun h => h.ordered l) = true then runLocks (l :: held) rest else none
  | held, .release l :: rest =>
    if l ∈ held then runLocks (held.erase l) rest else none

/-- No per-display lock is among the held locks. -/
def NoLocker (held : List Lock) : Prop := ∀ display, Lock.locker display ∉ held

/-- A lock trace that may run whenever no per-display lock is held, and releases every
lock it acquires. -/
def Quiet (t : List LockOp) : Prop := ∀ held, NoLocker held → runLocks held t = some held

/-- A lock trace that may run under any held locks, and releases every lock it acquires. -/
def Inner (t : List LockOp) : Prop := ∀ held, runLocks held t = some held

/-- The locks a trace acquires while the lock `outer` is not held, `outer` itself left out;
`held` tells whether `outer` is held at the start. -/
def acquiredOutside (outer : Lock) : Bool → List LockOp → List Lock
  | _, [] => []
  | held, .acquire l :: rest =>
    if l = outer then acquiredOutside outer true rest
    else if held = true then acquiredOutside outer held rest
    else l :: acquiredOutside outer held rest
  | held, .release l :: rest =>
    if l = outer then acquiredOutside outer false rest else acquiredOutside outer held rest

/-- The locks a trace acquires while the lock `outer` is held; `held` tells whether
`outer` is held at the start. -/
def acquiredUnder (outer : Lock) : Bool → List LockOp → List Lock
  | _, [] => []
  | held, .acquire l :: rest =>
    if l = outer then acquiredUnder outer true rest
    else if held = true then l :: acquiredUnder outer held rest
    else acquiredUnder outer held rest
  | held, .release l :: rest =>
    if l = outer then acquiredUnder outer false rest else acquiredUnder outer held rest

/-- A lock trace without an operation on the lock `l`. -/
def Free (l : Lock) (t : List LockOp) : Prop :=
  LockOp.acquire l ∉ t ∧ LockOp.release l ∉ t

/-- A lock trace of a call that may not complete: every completed trace is without an
operation on the lock `l`. -/
def OptFree (l : Lock) (o : Option (List LockOp)) : Prop :=
  ∀ t, o = some t → Free l t

/-- The lock operations `first`, followed by those of a part that may not complete. -/
def andThen (first : List LockOp) (o : Option (List LockOp)) : Option (List LockOp) :=
  o.map (fun t => first ++ t)

/-! ### Pending power modes -/

/-- The first loop of `HandlePendingPowerMode`: every display but the active built-in one
is looked at under its lock, and the loop stops at the first pending one. -/
def pendingScan_locks (s : HWCSession) (active_builtin_disp_id : Display) :
    List Display → List LockOp
  | [] => []
  | display :: rest =>
    if display ≠ active_builtin_disp_id then
      scopeLock (.locker display) [] ++
        (if s.pending_power_mode_ display = true then []
         else pendingScan_locks s active_builtin_disp_id rest)
    else pendingScan_locks s active_builtin_disp_id rest

/-- The second loop of `HandlePendingPowerMode`: every display but the active built-in one
is handled under its lock. -/
def pendingApply_locks (active_builtin_disp_id : Display) : List Display → List LockOp
  | [] => []
  | display :: rest =>
    if display = active_builtin_disp_id then pendingApply_locks active_builtin_disp_id rest
    else scopeLock (.locker display) [] ++ pendingApply_locks active_builtin_disp_id rest

/-- The part of `HandlePendingPowerMode` under the pluggable-handler lock; `none` when the
call does not complete (`HandlePendingPowerMode` is undefined). -/
def pendingUnderHandler_locks (K : HWCCallbacks) (env : Env) (s : HWCSession) :
    Option (List LockOp) :=
  match env.displays_status with
  | none => some (scopeLock .pluggable_handler_lock [])
  | some hw_displays_info =>
    match applyPendingPowerModes hw_displays_info (GetActiveBuiltinDisplay K s)
        (nonPrimaryDisplays K) s with
    | none => none
    | some _ =>
      some (scopeLock .pluggable_handler_lock
        (pendingApply_locks (GetActiveBuiltinDisplay K s) (nonPrimaryDisplays K)))

/-- Lock trace of `HWCSession::HandlePendingPowerMode`; `none` when the call does not
complete. The lock `lock_d` of the active built-in display is held from its declaration
to the return. -/
def HandlePendingPowerMode_locks (K : HWCCallbacks) (env : Env) (s : HWCSession)
    (disp_id : Display) (retire_fence : Option Nat) : Option (List LockOp) :=
  if s.secure_session_active_ = false then some []
  else if disp_id ≠ GetActiveBuiltinDisplay K s then some (GetActiveBuiltinDisplay_locks s)
  else if GetActiveBuiltinDisplay K s ≥ K.kNumDisplays then none
  else if anyPendingPowerMode K s (GetActiveBuiltinDisplay K s) = false then
    some (GetActiveBuiltinDisplay_locks s ++
      scopeLock (.locker (GetActiveBuiltinDisplay K s))
        (pendingScan_locks s (GetActiveBuiltinDisplay K s) (nonPrimaryDisplays K)))
  else if retire_fence = none then
    some (GetActiveBuiltinDisplay_locks s ++
      scopeLock (.locker (GetActiveBuiltinDisplay K s))
        (pendingScan_locks s (GetActiveBuiltinDisplay K s) (nonPrimaryDisplays K)))
  else
    (pendingUnderHandler_locks K env s).map (fun under =>
      GetActiveBuiltinDisplay_locks s ++
        scopeLock (.locker (GetActiveBuiltinDisplay K s))
          (pendingScan_locks s (GetActiveBuiltinDisplay K s) (nonPrimaryDisplays K) ++ under))

/-! ### Trusted-UI hand-off -/

/-- The look-up of the target display in the Prepare, End and UnPrepare phases:
`GetActiveBuiltinDisplay` runs when `GetDisplayIndex` gives -1. -/
def tuiTargetDisplay_locks (Q : Qdutils) (s : HWCSession) (disp_id : Int) : List LockOp :=
  if toDisplay (GetDisplayIndex s (Q.select disp_id)) = toDisplay (-1) then
    GetActiveBuiltinDisplay_locks s
  else []

/-- The loop over `map_info` that sends a secure event: each descriptor is handled under
its slot lock, and the loop stops at the first display that reports an error. The loop
changes nothing but the call trace, so every round sees the display table of `s`. -/
def sendSecureEvent_locks (env : Env) (event : SecureEvent) (target_display : Display)
    (s : HWCSession) : List DisplayMapInfo → List LockOp
  | [] => []
  | info :: rest =>
    scopeLock (.locker info.client_id) [] ++
      (match s.hwc_display_ info.client_id with
       | none => sendSecureEvent_locks env event target_display s rest
       | some _ =>
         if (env.handle_secure_event info.client_id event
             (decide (info.client_id = target_display))).1 ≠ DisplayError.kErrorNone then []
         else sendSecureEvent_locks env event target_display s rest)

/-- The loop of `TeardownPluggableDisplays`, with the bound of `teardownLoop`; `none` when
the bound is used up. -/
def teardownLoop_locks (K : HWCCallbacks) (env : Env) : Nat → HWCSession → Option (List LockOp)
  | 0, _ => none
  | fuel + 1, s =>
    match s.map_active_displays_.find? (fun disp =>
        (s.mapInfo disp.2).disp_type == DisplayType.kPluggable) with
    | none => some []
    | some it =>
      andThen (DisconnectPluggableDisplays_locks K env s it.2)
        (teardownLoop_locks K env fuel (DisconnectPluggableDisplays K env s it.2).2)

/-- Lock trace of `HWCSession::TeardownPluggableDisplays`. -/
def TeardownPluggableDisplays_locks (K : HWCCallbacks) (env : Env) (s : HWCSession) :
    Option (List LockOp) :=
  teardownLoop_locks K env (s.map_active_displays_.length + 1) s

/-- Lock trace of `HWCSession::TUITransitionPrepare`; `none` when the call does not
complete. -/
def TUITransitionPrepare_locks (Q : Qdutils) (K : HWCCallbacks) (env : Env) (s : HWCSession)
    (disp_id : Int) : Option (List LockOp) :=
  if tuiUnsupported Q (tuiTargetDisplay Q K s disp_id) = true then
    some (tuiTargetDisplay_locks Q s disp_id)
  else if (targetSecureSessions s (tuiTargetDisplay Q K s disp_id)).kSecureCamera = true then
    some (tuiTargetDisplay_locks Q s disp_id ++
      scopeLock (.locker (tuiTargetDisplay Q K s disp_id)) [])
  else if (sendSecureEvent env .kTUITransitionPrepare (tuiTargetDisplay Q K s disp_id)
      (tuiDisplays s) false s).1 = false then
    some (tuiTargetDisplay_locks Q s disp_id ++
      scopeLock (.locker (tuiTargetDisplay Q K s disp_id)) [] ++
      sendSecureEvent_locks env .kTUITransitionPrepare (tuiTargetDisplay Q K s disp_id) s
        (tuiDisplays s))
  else
    andThen
      (tuiTargetDisplay_locks Q s disp_id ++
        scopeLock (.locker (tuiTargetDisplay Q K s disp_id)) [] ++
        sendSecureEvent_locks env .kTUITransitionPrepare (tuiTargetDisplay Q K s disp_id) s
          (tuiDisplays s))
      (TeardownPluggableDisplays_locks K env
        (sendSecureEvent env .kTUITransitionPrepare (tuiTargetDisplay Q K s disp_id)
          (tuiDisplays s) false s).2.2)

/-- Lock trace of `HWCSession::TUITransitionUnPrepare`. -/
def TUITransitionUnPrepare_locks (Q : Qdutils) (K : HWCCallbacks) (env : Env) (s : HWCSession)
    (disp_id : Int) : List LockOp :=
  if tuiUnsupported Q (tuiTargetDisplay Q K s disp_id) = true then
    tuiTargetDisplay_locks Q s disp_id
  else
    tuiTargetDisplay_locks Q s disp_id ++
      sendSecureEvent_locks env .kTUITransitionUnPrepare (tuiTargetDisplay Q K s disp_id) s
        (tuiDisplays s)

/-- Lock trace of `HWCSession::WaitForCommitDone`: the slot lock is held around the wait
(which gives the lock up while it sleeps and has it again when it returns); `none` when
the call does not complete. -/
def WaitForCommitDone_locks (C : HWCSessionConstants) (env : Env) (s : HWCSession)
    (display : Display) (client_id : Nat) : Option (List LockOp) :=
  (WaitForCommitDone C env s display client_id).map (fun _ => scopeLock (.locker display) [])

/-- Lock trace of `HWCSession::WaitForVmRelease`; `none` when the call does not complete. -/
def WaitForVmRelease_locks (C : HWCSessionConstants) (env : Env) (s : HWCSession)
    (display : Display) (timeout_ms : Int) : Option (List LockOp) :=
  (WaitForVmRelease C env s display timeout_ms).map
    (fun _ => scopeLock (.vm_release_locker display) [])

/-- Lock trace of `HWCSession::TeardownConcurrentWriteback`: every real display index is
looked at under its slot lock. -/
def TeardownConcurrentWriteback_locks (K : HWCCallbacks) : List LockOp :=
  (List.range K.kNumRealDisplays).flatMap (fun id => scopeLock (.locker id) [])

/-- The last block of `TUITransitionEndLocked` and the `TUITransitionUnPrepare` after it. -/
def endPostEvent_locks (Q : Qdutils) (K : HWCCallbacks) (env : Env) (s : HWCSession)
    (target_display : Display) (disp_id : Int) : List LockOp :=
  scopeLock (.locker target_display) [] ++
    (match s.hwc_display_ target_display with
     | none => []
     | some _ =>
       if env.post_handle_secure_event target_display .kTUITransitionEnd
           ≠ DisplayError.kErrorNone then []
       else
         TUITransitionUnPrepare_locks Q K env
           (s.emit (.PostHandleSecureEvent target_display .kTUITransitionEnd)) disp_id)

/-- The wait of `TUITransitionEndLocked` for the commit to drain and what follows it. -/
def endDrain_locks (Q : Qdutils) (K : HWCCallbacks) (C : HWCSessionConstants) (env : Env)
    (s : HWCSession) (target_display : Display) (disp_id : Int) : Option (List LockOp) :=
  match WaitForCommitDone C env s target_display C.kClientTrustedUI,
      WaitForCommitDone_locks C env s target_display C.kClientTrustedUI with
  | some w, some wait =>
    some (wait ++
      (if w.1 ≠ 0 then TUITransitionUnPrepare_locks Q K env w.2 disp_id
       else endPostEvent_locks Q K env w.2 target_display disp_id))
  | _, _ => none

/-- Lock trace of `HWCSession::TUITransitionEndLocked`; `none` when the call does not
complete. -/
def TUITransitionEndLocked_locks (Q : Qdutils) (K : HWCCallbacks) (C : HWCSessionConstants)
    (env : Env) (s : HWCSession) (disp_id : Int) : Option (List LockOp) :=
  if tuiUnsupported Q (tuiTargetDisplay Q K s disp_id) = true then
    some (tuiTargetDisplay_locks Q s disp_id)
  else
    match s.hwc_display_ (tuiTargetDisplay Q K s disp_id) with
    | none => none
    | some _ =>
      if (env.handle_secure_event (tuiTargetDisplay Q K s disp_id) .kTUITransitionEnd false).1
          ≠ DisplayError.kErrorNone then
        some (tuiTargetDisplay_locks Q s disp_id ++
          scopeLock (.locker (tuiTargetDisplay Q K s disp_id)) [])
      else if (env.handle_secure_event (tuiTargetDisplay Q K s disp_id) .kTUITransitionEnd
          false).2 = true then
        andThen
          (tuiTargetDisplay_locks Q s disp_id ++
            scopeLock (.locker (tuiTargetDisplay Q K s disp_id)) [])
          (endDrain_locks Q K C env (endEventCalls s (tuiTargetDisplay Q K s disp_id))
            (tuiTargetDisplay Q K s disp_id) disp_id)
      else
        some (tuiTargetDisplay_locks Q s disp_id ++
          scopeLock (.locker (tuiTargetDisplay Q K s disp_id)) [] ++
          endPostEvent_locks Q K env (endEventCalls s (tuiTargetDisplay Q K s disp_id))
            (tuiTargetDisplay Q K s disp_id) disp_id)

/-- Lock trace of `HWCSession::TUITransitionEnd`: the pluggable-handler lock around
`TUITransitionEndLocked`. -/
def TUITransitionEnd_locks (Q : Qdutils) (K : HWCCallbacks) (C : HWCSessionConstants)
    (env : Env) (s : HWCSession) (disp_id : Int) : Option (List LockOp) :=
  (TUITransitionEndLocked_locks Q K C env s disp_id).map (scopeLock .pluggable_handler_lock)
/-- The last block of `TUITransitionStart`: the post-start step under the slot lock. -/
def startPostEvent_locks (target_display : Display) : List LockOp :=
  scopeLock (.locker target_display) []

/-- The `needs_refresh` block of `TUITransitionStart`: the wait for the hand-off release
and what follows it; `none` when the call does not complete. -/
def startHandoff_locks (Q : Qdutils) (K : HWCCallbacks) (C : HWCSessionConstants) (env : Env)
    (s : HWCSession) (target_display : Display) (timeout_ms : Int) : Option (List LockOp) :=
  match WaitForVmRelease C env (s.emit (.Refresh target_display)) target_display timeout_ms,
      WaitForVmRelease_locks C env (s.emit (.Refresh target_display)) target_display
        timeout_ms with
  | some w, some wait =>
    if w.1 = -ENODEV then
      andThen wait (TUITransitionEndLocked_locks Q K C env w.2 (INT target_display))
    else if w.1 ≠ 0 then some wait
    else some (wait ++ startPostEvent_locks target_display)
  | _, _ => none

/-- The part of `TUITransitionStart` after `TUITransitionPrepare` returned 0; `none` when
the call does not complete. The two blocks before the answer of the start event is looked
at each hold the slot lock of the target. -/
def startAfterPrepare_locks (Q : Qdutils) (K : HWCCallbacks) (C : HWCSessionConstants)
    (env : Env) (s : HWCSession) (disp_id : Int) : Option (List LockOp) :=
  if startTargetDisplay Q s disp_id ≥ K.kNumDisplays then none
  else if (TeardownConcurrentWriteback K s (startTargetDisplay Q s disp_id)).1 ≠ HWC3Error.None then
    some (TeardownConcurrentWriteback_locks K)
  else
    match (TeardownConcurrentWriteback K s (startTargetDisplay Q s disp_id)).2.hwc_display_
        (startTargetDisplay Q s disp_id) with
    | none => none
    | some d =>
      andThen
        (TeardownConcurrentWriteback_locks K ++
          scopeLock (.locker (startTargetDisplay Q s disp_id)) [] ++
          scopeLock (.locker (startTargetDisplay Q s disp_id)) [])
        (if (env.handle_secure_event (startTargetDisplay Q s disp_id)
            .kTUITransitionStart false).1 = DisplayError.kErrorPermission then
          some (TUITransitionUnPrepare_locks Q K env
            (startEventCalls (TeardownConcurrentWriteback K s (startTargetDisplay Q s disp_id)).2
              (startTargetDisplay Q s disp_id)) disp_id)
        else if (env.handle_secure_event (startTargetDisplay Q s disp_id)
            .kTUITransitionStart false).1 ≠ DisplayError.kErrorNone then
          some []
        else if (env.handle_secure_event (startTargetDisplay Q s disp_id)
            .kTUITransitionStart false).2 = true then
          startHandoff_locks Q K C env
            (startEventCalls (TeardownConcurrentWriteback K s (startTargetDisplay Q s disp_id)).2
              (startTargetDisplay Q s disp_id))
            (startTargetDisplay Q s disp_id) (handoffTimeoutMs C d)
        else
          some (startPostEvent_locks (startTargetDisplay Q s disp_id)))

/-- The body of `TUITransitionStart` under the pluggable-handler lock. -/
def startBody_locks (Q : Qdutils) (K : HWCCallbacks) (C : HWCSessionConstants) (env : Env)
    (s : HWCSession) (disp_id : Int) : Option (List LockOp) :=
  match TUITransitionPrepare Q K env s disp_id, TUITransitionPrepare_locks Q K env s disp_id with
  | some p, some prepare =>
    if p.1 ≠ 0 then some prepare
    else andThen prepare (startAfterPrepare_locks Q K C env p.2 disp_id)
  | _, _ => none

/-- Lock trace of `HWCSession::TUITransitionStart`: the pluggable-handler lock is held from
the first statement to the return. -/
def TUITransitionStart_locks (Q : Qdutils) (K : HWCCallbacks) (C : HWCSessionConstants)
    (env : Env) (s : HWCSession) (disp_id : Int) : Option (List LockOp) :=
  (startBody_locks Q K C env s disp_id).map (scopeLock .pluggable_handler_lock)

/-! ### Hotplug -/

/-- The loop of `WaitForResources`: each round waits under `hotplug_mutex_` and, when it
was signalled, looks at the new display under its slot lock. -/
def waitLoop_locks (active_builtin_id display_id : Display) :
    List WaitStep → HWCSession → List LockOp
  | [], _ => scopeLock .hotplug_mutex []
  | .timeout :: _, _ => scopeLock .hotplug_mutex []
  | .signalled res_wait needs :: rest, s =>
    scopeLock .hotplug_mutex [] ++ scopeLock (.locker display_id) [] ++
      (match s.hwc_display_ display_id with
       | none => []
       | some _ =>
         if res_wait = true ∨ (needs = true ∧ s.enable_primary_reconfig_req_ ≠ 0) then
           waitLoop_locks active_builtin_id display_id rest (resourceSignalled s active_builtin_id)
         else [])

/-- Lock trace of `HWCSession::WaitForResources`. -/
def WaitForResources_locks (env : Env) (s : HWCSession) (wait_for_resources : Bool)
    (active_builtin_id display_id : Display) : List LockOp :=
  if wait_for_resources = false then []
  else if s.enable_primary_reconfig_req_ = 0 then
    waitLoop_locks active_builtin_id display_id env.wait_script s
  else
    scopeLock (.locker display_id) [] ++
      (match s.hwc_display_ display_id with
       | none => []
       | some _ =>
         if env.first_check.2 = false then
           waitLoop_locks active_builtin_id display_id env.wait_script s
         else
           match s.hwc_display_ active_builtin_id with
           | none => scopeLock (.locker active_builtin_id) []
           | some d =>
             scopeLock (.locker active_builtin_id) [] ++
               (if (d.SetAlternateDisplayConfig true).1 ≠ 0 then []
                else
                  waitLoop_locks active_builtin_id display_id env.wait_script
                    (notifyIfConfigChanged
                      (s.setDisplay active_builtin_id (some (d.SetAlternateDisplayConfig true).2))
                      active_builtin_id d.active_config
                      (d.SetAlternateDisplayConfig true).2.active_config)))

/-- The `for_each` of `HandleConnectedDisplays` over the pluggable slots: each slot is
looked at under its lock. -/
def firstCommitPending_locks (s : HWCSession) : List LockOp :=
  s.map_info_pluggable_.flatMap (fun p => scopeLock (.locker p.client_id) [])

/-- The refresh request made when display creation is deferred: the active built-in
display is looked up when the client is connected. -/
def deferConnect_locks (s : HWCSession) : List LockOp :=
  if s.callbacks_client_connected = true then GetActiveBuiltinDisplay_locks s else []

/-- The slot loop of `HandleConnectedDisplays`: each slot is looked at under its lock, and
the first free one is filled under it, with `hdr_locker_` taken once the display object
exists. -/
def createPluggableInSlots_locks (env : Env) (info : HWDisplayInfo) :
    List DisplayMapInfo → ConnectAcc → List LockOp
  | [], _ => []
  | map_info :: rest, acc =>
    match acc.state.hwc_display_ map_info.client_id with
    | some _ =>
      scopeLock (.locker map_info.client_id) [] ++
        createPluggableInSlots_locks env info rest { acc with client_id := map_info.client_id }
    | none =>
      scopeLock (.locker map_info.client_id)
        (match env.pluggable_create map_info.client_id info.display_id (testPattern acc.state) with
         | .failed _ => []
         | .created _ => scopeLock (.hdr_locker map_info.client_id) [])

/-- The loop of `HandleConnectedDisplays` over the hardware list. -/
def connectLoop_locks (K : HWCCallbacks) (env : Env) :
    List HWDisplayInfo → ConnectAcc → List LockOp
  | [], _ => []
  | info :: rest, acc =>
    if info.is_primary = true ∨ info.display_type ≠ DisplayType.kPluggable ∨
        info.is_connected = false then
      connectLoop_locks K env rest acc
    else if acc.state.map_info_pluggable_.any (fun p => p.sdm_id == info.display_id) = true then
      connectLoop_locks K env rest acc
    else if acc.state.disable_hotplug_bwcheck_ = 0 ∧ firstCommitPending acc.state = true then
      firstCommitPending_locks acc.state ++ deferConnect_locks acc.state
    else
      firstCommitPending_locks acc.state ++
        createPluggableInSlots_locks env info acc.state.map_info_pluggable_ acc ++
        connectLoop_locks K env rest
          (createPluggableInSlots env info 0 acc.state.map_info_pluggable_ acc)

/-- The end of `HandleConnectedDisplays`, after the loop over the hardware list. -/
def finishConnect_locks (K : HWCCallbacks) (env : Env) (acc : ConnectAcc) (delay_hotplug : Bool) :
    List LockOp :=
  if acc.state.pending_hotplugs_ = [] then []
  else
    GetActiveBuiltinDisplay_locks acc.state ++
      (if GetActiveBuiltinDisplay K acc.state < K.kNumDisplays then
        WaitForResources_locks env acc.state delay_hotplug (GetActiveBuiltinDisplay K acc.state)
          acc.client_id
       else [])

/-- Lock trace of `HWCSession::HandleConnectedDisplays`. -/
def HandleConnectedDisplays_locks (K : HWCCallbacks) (env : Env) (s : HWCSession)
    (hw_displays_info : List HWDisplayInfo) (delay_hotplug : Bool) : List LockOp :=
  connectLoop_locks K env hw_displays_info ⟨s, 0, 0⟩ ++
    finishConnect_locks K env (connectLoop K env hw_displays_info ⟨s, 0, 0⟩) delay_hotplug

/-- The two passes of `HandlePluggableDisplays` on a hardware list. -/
def reconcile_locks (K : HWCCallbacks) (env : Env) (s : HWCSession)
    (hw_displays_info : List HWDisplayInfo) (delay_hotplug : Bool) : List LockOp :=
  if (HandleDisconnectedDisplays K env s hw_displays_info).1 ≠ 0 then
    HandleDisconnectedDisplays_locks K env s hw_displays_info
  else
    HandleDisconnectedDisplays_locks K env s hw_displays_info ++
      HandleConnectedDisplays_locks K env (HandleDisconnectedDisplays K env s hw_displays_info).2
        hw_displays_info delay_hotplug

/-- The look-up of the secure sessions at the head of `HandlePluggableDisplays`: the active
built-in display is looked up and read under its lock. -/
def activeSecureSessions_locks (K : HWCCallbacks) (s : HWCSession) : List LockOp :=
  GetActiveBuiltinDisplay_locks s ++
    (if GetActiveBuiltinDisplay K s < K.kNumDisplays then
      scopeLock (.locker (GetActiveBuiltinDisplay K s)) []
     else [])

/-- The body of `HandlePluggableDisplays` under the pluggable-handler lock; `none` when the
call does not complete. -/
def hotplugBody_locks (K : HWCCallbacks) (env : Env) (s : HWCSession) (delay_hotplug : Bool) :
    Option (List LockOp) :=
  if (activeSecureSessions K s).any = true then some (activeSecureSessions_locks K s)
  else if virtualDisplayIndex s ≥ K.kNumDisplays then none
  else if (s.hwc_display_ (virtualDisplayIndex s)).isSome = true then
    some (activeSecureSessions_locks K s)
  else
    match env.displays_status with
    | none => some (activeSecureSessions_locks K s)
    | some hw_displays_info =>
      some (activeSecureSessions_locks K s ++
        reconcile_locks K env s hw_displays_info delay_hotplug)

/-- Lock trace of `HWCSession::HandlePluggableDisplays`: the pluggable-handler lock is held
from the first statement to the return. -/
def HandlePluggableDisplays_locks (K : HWCCallbacks) (env : Env) (s : HWCSession)
    (delay_hotplug : Bool) : Option (List LockOp) :=
  (hotplugBody_locks K env s delay_hotplug).map (scopeLock .pluggable_handler_lock)

/-! ## Theorems -/

theorem cacheLookup_eq_none (width height : Nat) (format : Int)
    (m : List (Display × VirtualDisplayData)) :
    cacheLookup width height format m = none ↔
      ∀ e ∈ m, ¬ (e.2.width = width ∧ e.2.height = height ∧ e.2.format = format ∧
        e.2.in_use = false) := by
  induction m with
  | nil => simp [cacheLookup]
  | cons a rest ih =>
    unfold cacheLookup
    by_cases hk : a.2.width = width ∧ a.2.height = height ∧ a.2.format = format ∧
        a.2.in_use = false
    · rw [if_pos hk]
      constructor
      · intro h; cases h
      · intro h; exact absurd hk (h a (List.mem_cons_self _ _))
    · rw [if_neg hk]
      cases hc : cacheLookup width height format rest with
      | none =>
        simp only [true_iff]
        intro e he
        rcases List.mem_cons.1 he with rfl | he
        · exact hk
        · exact (ih.1 hc) e he
      | some p =>
        obtain ⟨id, rest1⟩ := p
        constructor
        · intro h; cases h
        · intro h
          have := ih.2 (fun e he => h e (List.mem_cons_of_mem _ he))
          rw [hc] at this
          cases this

theorem cacheLookup_eq_some (width height : Nat) (format : Int)
    (m : List (Display × VirtualDisplayData)) (id : Display)
    (m1 : List (Display × VirtualDisplayData))
    (h : cacheLookup width height format m = some (id, m1)) :
    ∃ e ∈ m, e.1 = id ∧ e.2.width = width ∧ e.2.height = height ∧ e.2.format = format ∧
      e.2.in_use = false ∧ (e.1, { e.2 with in_use := true }) ∈ m1 := by
  induction m generalizing m1 with
  | nil => simp [cacheLookup] at h
  | cons a rest ih =>
    unfold cacheLookup at h
    by_cases hk : a.2.width = width ∧ a.2.height = height ∧ a.2.format = format ∧
        a.2.in_use = false
    · rw [if_pos hk] at h
      simp only [Option.some.injEq, Prod.mk.injEq] at h
      obtain ⟨h1, h2⟩ := h
      refine ⟨a, List.mem_cons_self _ _, h1, hk.1, hk.2.1, hk.2.2.1, hk.2.2.2, ?_⟩
      rw [← h2]
      exact List.mem_cons_self _ _
    · rw [if_neg hk] at h
      cases hc : cacheLookup width height format rest with
      | none => rw [hc] at h; cases h
      | some p =>
        obtain ⟨id1, rest1⟩ := p
        rw [hc] at h
        simp only [Option.some.injEq, Prod.mk.injEq] at h
        obtain ⟨h1, h2⟩ := h
        subst h1
        obtain ⟨e, he, h3, h4, h5, h6, h7, h8⟩ := ih rest1 hc
        refine ⟨e, List.mem_cons_of_mem _ he, h3, h4, h5, h6, h7, ?_⟩
        rw [← h2]
        exact List.mem_cons_of_mem _ h8

theorem factoryCalls_emit (s : HWCSession) (e : Event) :
    factoryCalls (s.emit e).trace = factoryCalls s.trace + (if e.isVirtualCreate then 1 else 0) := by
  simp [factoryCalls, HWCSession.emit, List.countP_append, List.countP_cons]

theorem createVirtualInSlots_success (env : Env) (width height : Nat) (format : Int)
    (display_id : Int) (s : HWCSession) (l : List DisplayMapInfo) (i : Nat)
    (h : (createVirtualInSlots env width height format display_id s i l).status = HWC3Error.None) :
    ∃ m ∈ l, s.hwc_display_ m.client_id = none ∧
      ((createVirtualInSlots env width height format display_id s i l).state.hwc_display_
        m.client_id).isSome = true ∧
      (createVirtualInSlots env width height format display_id s i l).out_display_id
        = some m.client_id ∧
      factoryCalls (createVirtualInSlots env width height format display_id s i l).state.trace
        = factoryCalls s.trace + 1 := by
  induction l generalizing i with
  | nil => simp [createVirtualInSlots] at h
  | cons a rest ih =>
    unfold createVirtualInSlots at h ⊢
    cases hd : s.hwc_display_ a.client_id with
    | some d =>
      simp only [hd] at h ⊢
      obtain ⟨m, hm, h1⟩ := ih (i + 1) h
      exact ⟨m, List.mem_cons_of_mem _ hm, h1⟩
    | none =>
      simp only [hd] at h ⊢
      cases ho : (env.virtual_create a.client_id display_id width height format).1 with
      | failed e => simp only [ho] at h; cases h
      | created d =>
        simp only [ho] at h ⊢
        by_cases hid : display_id = -1
        · simp only [hid, if_true] at h; cases h
        · simp only [hid, if_false] at h ⊢
          refine ⟨a, List.mem_cons_self _ _, hd, ?_, rfl, ?_⟩
          · cases i <;> simp [HWCSession.setMapInfo, HWCSession.setDisplay, HWCSession.emit]
          · cases i <;>
              simp [HWCSession.setMapInfo, HWCSession.setDisplay, HWCSession.emit, factoryCalls,
                List.countP_append, List.countP_cons, Event.isVirtualCreate]


theorem CreateVirtualDisplayObj_alloc (K : HWCCallbacks) (env : Env) (s : HWCSession)
    (width height : Nat) (format : Int)
    (hc : cacheLookup width height format s.virtual_id_map_ = none)
    (h : (CreateVirtualDisplayObj K env s width height format).status = HWC3Error.None) :
    ∃ m ∈ s.map_info_virtual_, s.hwc_display_ m.client_id = none ∧
      ((CreateVirtualDisplayObj K env s width height format).state.hwc_display_
        m.client_id).isSome = true ∧
      (CreateVirtualDisplayObj K env s width height format).out_display_id = some m.client_id ∧
      factoryCalls (CreateVirtualDisplayObj K env s width height format).state.trace
        = factoryCalls s.trace + 1 := by
  unfold CreateVirtualDisplayObj at h ⊢
  simp only [hc] at h ⊢
  split_ifs at h ⊢ with h1 h2 h3 h4
  · cases hr : env.request_virtual_display_id with
    | none => simp only [hr] at h; cases h
    | some display_id =>
      simp only [hr] at h ⊢
      split_ifs at h ⊢ with h5
      · have := createVirtualInSlots_success env width height format display_id
          (s.emit .RequestVirtualDisplayId) (s.emit .RequestVirtualDisplayId).map_info_virtual_ 0 h
        simpa [HWCSession.emit, factoryCalls, List.countP_append, List.countP_cons,
          Event.isVirtualCreate] using this
  · exact createVirtualInSlots_success env width height format _ s s.map_info_virtual_ 0 h

theorem cacheLookup_split (width height : Nat) (format : Int)
    (m : List (Display × VirtualDisplayData)) (id : Display)
    (m1 : List (Display × VirtualDisplayData))
    (h : cacheLookup width height format m = some (id, m1)) :
    ∃ pre e post, m = pre ++ e :: post ∧
      e.2.width = width ∧ e.2.height = height ∧ e.2.format = format ∧ e.2.in_use = false ∧
      id = e.1 ∧ m1 = pre ++ (e.1, { e.2 with in_use := true }) :: post := by
  induction m generalizing m1 with
  | nil => simp [cacheLookup] at h
  | cons a rest ih =>
    unfold cacheLookup at h
    by_cases hk : a.2.width = width ∧ a.2.height = height ∧ a.2.format = format ∧
        a.2.in_use = false
    · rw [if_pos hk] at h
      simp only [Option.some.injEq, Prod.mk.injEq] at h
      obtain ⟨h1, h2⟩ := h
      exact ⟨[], a, rest, rfl, hk.1, hk.2.1, hk.2.2.1, hk.2.2.2, h1.symm, h2.symm⟩
    · rw [if_neg hk] at h
      cases hc : cacheLookup width height format rest with
      | none => rw [hc] at h; cases h
      | some p =>
        obtain ⟨id1, rest1⟩ := p
        rw [hc] at h
        simp only [Option.some.injEq, Prod.mk.injEq] at h
        obtain ⟨h1, h2⟩ := h
        subst h1
        obtain ⟨pre, e, post, e1, e2, e3, e4, e5, e6, e7⟩ := ih rest1 hc
        refine ⟨a :: pre, e, post, ?_, e2, e3, e4, e5, e6, ?_⟩
        · rw [e1]; rfl
        · rw [← h2, e7]; rfl

/-- C1. Reuse cache of virtual displays: `CreateVirtualDisplayObj(W, H, F)` returns `None`
with the client id of a cache entry that has the key `(W, H, F)` and was idle, marks exactly
that entry in use, calls the virtual-display factory no further time and changes no slot
binding, if and only if the cache holds an idle entry with the requested width, height and
format; a success without a factory call happens only then. When there is no such idle
entry, the call can only succeed by one factory call that binds a virtual slot which was
unbound before, and it returns that slot's client id. -/
theorem CreateVirtualDisplayObj_reuse_cache (K : HWCCallbacks) (env : Env) (s : HWCSession)
    (width height : Nat) (format : Int) :
    (ReusedFromCache s width height format
        (CreateVirtualDisplayObj K env s width height format) ↔
      CacheHit s width height format) ∧
    ((CreateVirtualDisplayObj K env s width height format).status = HWC3Error.None →
      factoryCalls (CreateVirtualDisplayObj K env s width height format).state.trace
        = factoryCalls s.trace →
      CacheHit s width height format) ∧
    (¬ CacheHit s width height format →
      (CreateVirtualDisplayObj K env s width height format).status = HWC3Error.None →
      ∃ m ∈ s.map_info_virtual_, s.hwc_display_ m.client_id = none ∧
        ((CreateVirtualDisplayObj K env s width height format).state.hwc_display_
          m.client_id).isSome = true ∧
        (CreateVirtualDisplayObj K env s width height format).out_display_id
          = some m.client_id ∧
        factoryCalls (CreateVirtualDisplayObj K env s width height format).state.trace
          = factoryCalls s.trace + 1) := by
  cases hc : cacheLookup width height format s.virtual_id_map_ with
  | none =>
    have hmiss : ¬ CacheHit s width height format := by
      rintro ⟨e, he, hk⟩
      exact (cacheLookup_eq_none width height format s.virtual_id_map_).1 hc e he hk
    refine ⟨⟨?_, fun hh => absurd hh hmiss⟩, ?_, ?_⟩
    · rintro ⟨hs, -, ht, -⟩
      obtain ⟨m, -, -, -, -, hcount⟩ := CreateVirtualDisplayObj_alloc K env s width height format hc hs
      omega
    · intro hs ht
      obtain ⟨m, -, -, -, -, hcount⟩ := CreateVirtualDisplayObj_alloc K env s width height format hc hs
      omega
    · intro _ hs
      exact CreateVirtualDisplayObj_alloc K env s width height format hc hs
  | some p =>
    obtain ⟨id, cache⟩ := p
    obtain ⟨pre, e, post, h0, h2, h3, h4, h5, h1, h6⟩ :=
      cacheLookup_split width height format s.virtual_id_map_ id cache hc
    have hhit : CacheHit s width height format :=
      ⟨e, by rw [h0]; exact List.mem_append_right _ (List.mem_cons_self _ _), h2, h3, h4, h5⟩
    refine ⟨⟨fun _ => hhit, fun _ => ?_⟩, fun _ _ => hhit, fun hh => absurd hhit hh⟩
    unfold CreateVirtualDisplayObj
    simp only [hc]
    exact ⟨rfl, ⟨pre, e, post, h0, h2, h3, h4, h5, by rw [h1], h6⟩, rfl, rfl⟩

theorem SetNewThrottlingRate_effect (s : HWCSession) (n : Nat) :
    ∃ thr tr, SetNewThrottlingRate s n =
      { s with throttling_refresh_rate_ := thr, trace := tr } := by
  unfold SetNewThrottlingRate
  split_ifs
  · exact ⟨_, _, rfl⟩
  · exact ⟨_, _, rfl⟩

theorem UpdateThrottlingRate_effect (K : HWCCallbacks) (s : HWCSession) :
    ∃ thr tr, UpdateThrottlingRate K s =
      { s with throttling_refresh_rate_ := thr, trace := tr } :=
  SetNewThrottlingRate_effect s _

theorem CallDisplayFunction_SetPowerMode_effect (K : HWCCallbacks) (s : HWCSession)
    (display : Display) (mode : PowerMode) :
    ∃ hd, (CallDisplayFunction_SetPowerMode K s display mode).2 = { s with hwc_display_ := hd } ∧
      (∀ c, c ≠ display → hd c = s.hwc_display_ c) ∧
      (hd display).isSome = (s.hwc_display_ display).isSome := by
  unfold CallDisplayFunction_SetPowerMode
  split_ifs
  · exact ⟨_, rfl, fun _ _ => rfl, rfl⟩
  · cases hd : s.hwc_display_ display with
    | none => exact ⟨_, rfl, fun _ _ => rfl, by simp [hd]⟩
    | some d =>
      refine ⟨_, rfl, fun c hc => ?_, ?_⟩
      · simp [Function.update_noteq hc]
      · simp [hd]

theorem updateActiveDisplays_effect (s : HWCSession) (display : Display) (mode : PowerMode) :
    ∃ ad, updateActiveDisplays s display mode = { s with active_displays_ := ad } ∧
      ∀ x ∈ ad, x ∈ s.active_displays_ ∨ x = display := by
  unfold updateActiveDisplays
  split_ifs
  · refine ⟨_, rfl, fun x hx => Or.inl ?_⟩
    exact (List.mem_filter.1 hx).1
  · refine ⟨_, rfl, fun x hx => ?_⟩
    unfold setInsert at hx
    split_ifs at hx
    · exact Or.inl hx
    · rcases List.mem_append.1 hx with h | h
      · exact Or.inl h
      · exact Or.inr (by simpa using h)

theorem finishPowerMode_effect (K : HWCCallbacks) (s : HWCSession) (display : Display)
    (mode : PowerMode) :
    ∃ n thr pr tr, finishPowerMode K s display mode =
      { s with idle_pc_ref_cnt_ := n, throttling_refresh_rate_ := thr, pending_refresh_ := pr,
               trace := tr } := by
  unfold finishPowerMode
  split_ifs
  · obtain ⟨thr, tr, h⟩ := UpdateThrottlingRate_effect K s
    rw [h]
    exact ⟨_, _, _, _, rfl⟩
  · obtain ⟨thr, tr, h⟩ := UpdateThrottlingRate_effect K { s with idle_pc_ref_cnt_ := 0 }
    rw [h]
    exact ⟨_, _, _, _, rfl⟩
  · obtain ⟨thr, tr, h⟩ := UpdateThrottlingRate_effect K s
    rw [h]
    exact ⟨_, _, _, _, rfl⟩

/-- What `SetPowerMode` may change: the display object of the slot (which stays bound or
unbound as it was), the active set (only the slot's own id can be added), the idle
count, the throttling rate, the refresh requests and the trace. -/
theorem SetPowerMode_effect (K : HWCCallbacks) (env : Env) (s : HWCSession) (display : Display)
    (int_mode : Int) :
    ∃ hd ad n thr pr tr, (SetPowerMode K env s display int_mode).2 =
      { s with hwc_display_ := hd, active_displays_ := ad, idle_pc_ref_cnt_ := n,
               throttling_refresh_rate_ := thr, pending_refresh_ := pr, trace := tr } ∧
      (∀ c, c ≠ display → hd c = s.hwc_display_ c) ∧
      (hd display).isSome = (s.hwc_display_ display).isSome ∧
      (∀ x ∈ ad, x ∈ s.active_displays_ ∨ x = display) := by
  have same : ∃ hd ad n thr pr tr, s =
      { s with hwc_display_ := hd, active_displays_ := ad, idle_pc_ref_cnt_ := n,
               throttling_refresh_rate_ := thr, pending_refresh_ := pr, trace := tr } ∧
      (∀ c, c ≠ display → hd c = s.hwc_display_ c) ∧
      (hd display).isSome = (s.hwc_display_ display).isSome ∧
      (∀ x ∈ ad, x ∈ s.active_displays_ ∨ x = display) :=
    ⟨_, _, _, _, _, _, rfl, fun _ _ => rfl, rfl, fun _ hx => Or.inl hx⟩
  unfold SetPowerMode
  split
  · exact same
  · rename_i d hd
    split_ifs
    · exact same
    · exact same
    · exact same
    · refine ⟨_, _, _, _, _, _, rfl, fun c hc => ?_, ?_, fun _ hx => Or.inl hx⟩
      · simp [HWCSession.setDisplay, Function.update_noteq hc]
      · simp [HWCSession.setDisplay, hd]
    · exact same
    · exact same
    · exact same
    · exact same
    · unfold applyPowerMode
      obtain ⟨ad, h1, h2⟩ := updateActiveDisplays_effect s display (normalizePowerMode int_mode)
      obtain ⟨hd1, h3, h4, h5⟩ := CallDisplayFunction_SetPowerMode_effect K
        (updateActiveDisplays s display (normalizePowerMode int_mode)) display
        (normalizePowerMode int_mode)
      split_ifs
      · rw [h3, h1]
        refine ⟨_, _, _, _, _, _, rfl, fun c hc => ?_, ?_, h2⟩
        · simpa [h1] using h4 c hc
        · simpa [h1] using h5
      · obtain ⟨n, thr, pr, tr, h6⟩ := finishPowerMode_effect K
          (CallDisplayFunction_SetPowerMode K
            (updateActiveDisplays s display (normalizePowerMode int_mode)) display
            (normalizePowerMode int_mode)).2 display (normalizePowerMode int_mode)
        rw [h6, h3, h1]
        refine ⟨_, _, _, _, _, _, rfl, fun c hc => ?_, ?_, h2⟩
        · simpa [h1] using h4 c hc
        · simpa [h1] using h5

theorem SetPowerMode_unbound (K : HWCCallbacks) (env : Env) (s : HWCSession) (display : Display)
    (int_mode : Int) (h : s.hwc_display_ display = none) :
    SetPowerMode K env s display int_mode = (HWC3Error.BadDisplay, s) := by
  unfold SetPowerMode
  simp [h]

theorem mem_mapErase {α : Type} (m : List (Display × α)) (k : Display) (x : Display × α) :
    x ∈ mapErase m k ↔ x ∈ m ∧ x.1 ≠ k := by
  simp [mapErase, List.mem_filter]

theorem mem_setErase (m : List Display) (k x : Display) :
    x ∈ setErase m k ↔ x ∈ m ∧ x ≠ k := by
  simp [setErase, List.mem_filter]

theorem DestroyEffect_of_unbound (s : HWCSession) (r : MapInfoRef)
    (h : s.hwc_display_ (s.mapInfo r).client_id = none) : DestroyEffect s s r :=
  ⟨_, _, _, _, _, _, _, _, _, _, _, _, _, _, rfl, by simp [h, descriptors], h, fun _ _ => rfl,
    fun _ _ => rfl, fun hh => by simp [h] at hh, fun _ hx => hx, fun hh => by simp [h] at hh,
    fun _ hx => hx, fun hh => by simp [h] at hh⟩

theorem DestroyPluggableDisplayLocked_effect (s : HWCSession) (r : MapInfoRef) :
    DestroyEffect s (DestroyPluggableDisplayLocked s r) r := by
  unfold DestroyPluggableDisplayLocked
  dsimp only
  cases h : s.hwc_display_ (s.mapInfo r).client_id with
  | none => exact DestroyEffect_of_unbound s r h
  | some d =>
    dsimp only
    cases r <;>
      refine ⟨_, _, _, _, _, _, _, _, _, _, _, _, _, _, rfl, ?_, ?_, ?_, ?_, ?_, ?_, ?_, ?_, ?_⟩ <;>
      (try simp only [h]) <;>
      simp +contextual [HWCSession.emit, mem_mapErase, mem_setErase, Function.update_noteq,
        descriptors, HWCSession.setMapInfo, HWCSession.mapInfo]

theorem DestroyNonPluggableDisplayLocked_effect (s : HWCSession) (r : MapInfoRef) :
    DestroyEffect s (DestroyNonPluggableDisplayLocked s r) r := by
  unfold DestroyNonPluggableDisplayLocked
  dsimp only
  cases h : s.hwc_display_ (s.mapInfo r).client_id with
  | none => exact DestroyEffect_of_unbound s r h
  | some d =>
    dsimp only
    cases r <;>
      refine ⟨_, _, _, _, _, _, _, _, _, _, _, _, _, _, rfl, ?_, ?_, ?_, ?_, ?_, ?_, ?_, ?_, ?_⟩ <;>
      (try simp only [h]) <;>
      simp +contextual [HWCSession.emit, mem_mapErase, mem_setErase, Function.update_noteq,
        descriptors, HWCSession.setMapInfo, HWCSession.mapInfo]

theorem mapInfo_congr (s t : HWCSession) (r : MapInfoRef)
    (h1 : t.map_info_primary_ = s.map_info_primary_)
    (h2 : t.map_info_builtin_ = s.map_info_builtin_)
    (h3 : t.map_info_pluggable_ = s.map_info_pluggable_)
    (h4 : t.map_info_virtual_ = s.map_info_virtual_) : t.mapInfo r = s.mapInfo r := by
  cases r <;> simp [HWCSession.mapInfo, h1, h2, h3, h4]

theorem descriptors_setMapInfo_congr (s t : HWCSession) (r : MapInfoRef) (m : DisplayMapInfo)
    (h : descriptors t = descriptors s) :
    descriptors (t.setMapInfo r m) = descriptors (s.setMapInfo r m) := by
  simp only [descriptors, Prod.mk.injEq] at h
  obtain ⟨h1, h2, h3, h4⟩ := h
  cases r <;> simp [descriptors, HWCSession.setMapInfo, h1, h2, h3, h4]

theorem DestroyDisplay_effect (K : HWCCallbacks) (env : Env) (s : HWCSession) (r : MapInfoRef) :
    DestroyEffect s (DestroyDisplay K env s r) r := by
  unfold DestroyDisplay
  split
  · dsimp only
    have e1 : (s.emit (.Hotplug (s.mapInfo r).client_id false)).mapInfo r = s.mapInfo r :=
      mapInfo_congr _ _ r rfl rfl rfl rfl
    cases hb : s.hwc_display_ (s.mapInfo r).client_id with
    | none =>
      rw [e1, SetPowerMode_unbound K env _ _ _ (by simpa [HWCSession.emit] using hb)]
      unfold DestroyPluggableDisplay DestroyPluggableDisplayLocked
      dsimp only
      rw [e1]
      have e2 : (s.emit (.Hotplug (s.mapInfo r).client_id false)).hwc_display_
          (s.mapInfo r).client_id = none := by simpa [HWCSession.emit] using hb
      rw [e2]
      exact ⟨_, _, _, _, _, _, _, _, _, _, _, _, _, _, rfl, by simp [hb, descriptors], hb,
        fun _ _ => rfl, fun _ _ => rfl,
        fun hh => by simp [hb] at hh, fun _ hx => hx, fun hh => by simp [hb] at hh,
        fun _ hx => hx, fun hh => by simp [hb] at hh⟩
    | some d =>
      rw [e1]
      obtain ⟨hd, ad, n, thr, pr, tr, h1, h2, h3, h4⟩ := SetPowerMode_effect K env
        (s.emit (.Hotplug (s.mapInfo r).client_id false)) (s.mapInfo r).client_id
        PowerMode.OFF.toInt
      have e3 : (SetPowerMode K env (s.emit (.Hotplug (s.mapInfo r).client_id false))
          (s.mapInfo r).client_id PowerMode.OFF.toInt).2.mapInfo r = s.mapInfo r := by
        rw [h1]; exact mapInfo_congr _ _ r rfl rfl rfl rfl
      have e4 : descriptors (SetPowerMode K env (s.emit (.Hotplug (s.mapInfo r).client_id false))
          (s.mapInfo r).client_id PowerMode.OFF.toInt).2 = descriptors s := by
        rw [h1]; rfl
      obtain ⟨mip, mib, mipl, miv, hd2, mad2, ad2, ppm2, pr2, dr2, hdr2, n2, thr2, tr2, g1, g0,
        g2, g3, g4, g5, g6, g7, g8, g9⟩ := DestroyPluggableDisplayLocked_effect
          (SetPowerMode K env (s.emit (.Hotplug (s.mapInfo r).client_id false))
            (s.mapInfo r).client_id PowerMode.OFF.toInt).2 r
      rw [e3] at g0 g2 g3 g4 g5 g7 g9
      rw [descriptors_setMapInfo_congr s _ r _ e4, e4] at g0
      unfold DestroyPluggableDisplay
      rw [g1]
      have hb1 : (hd (s.mapInfo r).client_id).isSome = true := by
        rw [h3]; simp [HWCSession.emit, hb]
      rw [h1] at g0 g3 g4 g5 g6 g7 g8 g9 ⊢
      refine ⟨mip, mib, mipl, miv, hd2, mad2, ad2, ppm2, pr2, dr2, hdr2, n2, thr2, tr2, rfl, ?_,
        g2, fun c hc => ?_, fun c hc => ?_, fun _ => g5 hb1, fun x hx => g6 x hx,
        fun _ => g7 hb1, fun x hx => ?_, fun _ => g9 hb1⟩
      · rw [g0]
        simp only [hb1, hb, Option.isSome_some, if_true]
      · exact (g3 c hc).trans (h2 c hc)
      · exact g4 c hc
      · rcases h4 x (g8 x hx) with h | h
        · exact h
        · exact absurd (h ▸ hx) (g9 hb1)
  · exact DestroyNonPluggableDisplayLocked_effect s r

theorem DestroyEffect_virtual_id_map {s t : HWCSession} {r : MapInfoRef}
    (h : DestroyEffect s t r) : t.virtual_id_map_ = s.virtual_id_map_ := by
  obtain ⟨mip, mib, mipl, miv, hd, mad, ad, ppm, pr, dr, hdr, n, thr, tr, h, -⟩ := h
  rw [h]

theorem destroyVirtualSlot_virtual_id_map (K : HWCCallbacks) (env : Env) (s : HWCSession)
    (display : Display) (l : List DisplayMapInfo) (i : Nat) :
    (destroyVirtualSlot K env s display i l).virtual_id_map_ = s.virtual_id_map_ := by
  induction l generalizing i with
  | nil => rfl
  | cons a rest ih =>
    unfold destroyVirtualSlot
    split_ifs
    · exact DestroyEffect_virtual_id_map (DestroyDisplay_effect K env s (.virt i))
    · exact ih (i + 1)

/-- C2 (amended). For every display id below `kNumDisplays`, `DestroyVirtualDisplay`
succeeds and erases the reuse-cache entry of that id: afterwards `virtual_id_map_` has no
entry for it, and the entries of all other ids are exactly those it had before. -/
theorem DestroyVirtualDisplay_erases_cache_entry (K : HWCCallbacks) (env : Env)
    (s : HWCSession) (display : Display) (h : display < K.kNumDisplays) :
    (DestroyVirtualDisplay K env s display).1 = HWC3Error.None ∧
    (∀ v, (display, v) ∉ (DestroyVirtualDisplay K env s display).2.virtual_id_map_) ∧
    (∀ k v, k ≠ display →
      ((k, v) ∈ (DestroyVirtualDisplay K env s display).2.virtual_id_map_ ↔
        (k, v) ∈ s.virtual_id_map_)) := by
  unfold DestroyVirtualDisplay
  rw [if_neg (not_le.mpr h)]
  dsimp only
  rw [destroyVirtualSlot_virtual_id_map]
  refine ⟨rfl, fun v hv => ?_, fun k v hk => ?_⟩
  · exact ((mem_mapErase _ _ _).1 hv).2 rfl
  · rw [mem_mapErase]
    exact ⟨fun hh => hh.1, fun hh => ⟨hh, hk⟩⟩

/-- Witness for C2 (amended): destroying the bound virtual display 3. -/
theorem DestroyVirtualDisplay_erases_cache_entry_witness :
    3 < exLimits.kNumDisplays ∧
    (DestroyVirtualDisplay exLimits exEnv exVirtualBound 3).1 = HWC3Error.None ∧
    (∀ v, (3, v) ∉ (DestroyVirtualDisplay exLimits exEnv exVirtualBound 3).2.virtual_id_map_) ∧
    (∀ k v, k ≠ 3 →
      ((k, v) ∈ (DestroyVirtualDisplay exLimits exEnv exVirtualBound 3).2.virtual_id_map_ ↔
        (k, v) ∈ exVirtualBound.virtual_id_map_)) :=
  ⟨by decide, DestroyVirtualDisplay_erases_cache_entry exLimits exEnv exVirtualBound 3 (by decide)⟩

/-- C2 as stated fails: display 3 has a cache entry, and after `DestroyVirtualDisplay 3`
the cache holds no entry for 3 at all (so none that is present and idle). -/
theorem DestroyVirtualDisplay_entry_not_kept :
    exVirtualBound.virtual_id_map_.any (fun e => e.1 == 3) = true ∧
    (DestroyVirtualDisplay exLimits exEnv exVirtualBound 3).1 = HWC3Error.None ∧
    (DestroyVirtualDisplay exLimits exEnv exVirtualBound 3).2.virtual_id_map_.any
      (fun e => e.1 == 3) = false := by
  decide

/-- C3 (amended). When no idle reuse-cache entry matches the request and the active
built-in display reports a SecureDisplay or SecureCamera session, `CreateVirtualDisplay`
with non-zero size and non-null pointers returns `Unsupported`, writes no display id and
leaves the whole session state as it was (no slot is bound, no factory is called). -/
theorem CreateVirtualDisplay_secure_refusal (K : HWCCallbacks) (env : Env) (s : HWCSession)
    (width height : Nat) (format : Int) (d : HWCDisplay)
    (hw : width ≠ 0) (hh : height ≠ 0)
    (hmiss : ¬ CacheHit s width height format)
    (hact : GetActiveBuiltinDisplay K s < K.kNumDisplays)
    (hd : s.hwc_display_ (GetActiveBuiltinDisplay K s) = some d)
    (hsec : d.secure_sessions.kSecureDisplay = true ∨ d.secure_sessions.kSecureCamera = true) :
    (CreateVirtualDisplay K env s width height (some format) true).status
      = HWC3Error.Unsupported ∧
    (CreateVirtualDisplay K env s width height (some format) true).out_display_id = none ∧
    (CreateVirtualDisplay K env s width height (some format) true).state = s := by
  have hc : cacheLookup width height format s.virtual_id_map_ = none := by
    rw [cacheLookup_eq_none]
    intro e he hk
    exact hmiss ⟨e, he, hk⟩
  have hany : d.secure_sessions.any = true := by
    unfold SecureSessions.any
    rcases hsec with h | h <;> simp [h]
  unfold CreateVirtualDisplay
  simp only [hw, hh, or_self, if_false, Bool.true_eq_false]
  unfold CreateVirtualDisplayObj
  simp only [hc, hd, hact, hany, and_self, if_true]

/-- Witness for C3 (amended): a 1280x720 request under a secure-display session with an
empty cache. -/
theorem CreateVirtualDisplay_secure_refusal_witness :
    (CreateVirtualDisplay exLimits exEnv exSecureNoEntry 1280 720 (some 1) true).status
      = HWC3Error.Unsupported ∧
    (CreateVirtualDisplay exLimits exEnv exSecureNoEntry 1280 720 (some 1) true).out_display_id
      = none ∧
    (CreateVirtualDisplay exLimits exEnv exSecureNoEntry 1280 720 (some 1) true).state
      = exSecureNoEntry :=
  CreateVirtualDisplay_secure_refusal exLimits exEnv exSecureNoEntry 1280 720 1 exPrimarySecure
    (by decide) (by decide) (by simp [CacheHit, exSecureNoEntry]) (by decide) (by decide)
    (by decide)

/-- C3 as stated fails twice. With a secure-display session active on the primary, a
request that matches an idle cache entry is answered `None` with the cached id 3; and a
secure-camera session reported by a bound display other than the active built-in one
does not stop a new virtual display from being created in slot 3. -/
theorem CreateVirtualDisplay_not_refused :
    (exSecureWithIdleEntry.hwc_display_ 0 = some exPrimarySecure ∧
      exPrimarySecure.secure_sessions.kSecureDisplay = true ∧
      (CreateVirtualDisplay exLimits exEnv exSecureWithIdleEntry 1920 1080 (some 1) true).status
        = HWC3Error.None ∧
      (CreateVirtualDisplay exLimits exEnv exSecureWithIdleEntry 1920 1080 (some 1)
        true).out_display_id = some 3) ∧
    ((exSecureOnSecondBuiltin.hwc_display_ 2).map (fun d => d.secure_sessions.kSecureCamera)
        = some true ∧
      (CreateVirtualDisplay exLimits exEnv exSecureOnSecondBuiltin 1920 1080 (some 1) true).status
        = HWC3Error.None ∧
      exSecureOnSecondBuiltin.hwc_display_ 3 = none ∧
      ((CreateVirtualDisplay exLimits exEnv exSecureOnSecondBuiltin 1920 1080 (some 1)
        true).state.hwc_display_ 3).isSome = true) := by
  decide

/-- Witness for C1: under a secure session the 1920x1080 request is served from the idle
cache entry of display 3. -/
theorem CreateVirtualDisplayObj_reuse_cache_witness :
    ReusedFromCache exSecureWithIdleEntry 1920 1080 1
      (CreateVirtualDisplayObj exLimits exEnv exSecureWithIdleEntry 1920 1080 1) :=
  (CreateVirtualDisplayObj_reuse_cache exLimits exEnv exSecureWithIdleEntry 1920 1080 1).1.2
    ⟨(3, { width := 1920, height := 1080, format := 1 }), by simp [exSecureWithIdleEntry],
      rfl, rfl, rfl, rfl⟩

theorem HandlePluggableDisplays_reconciles (K : HWCCallbacks) (env : Env) (s : HWCSession)
    (delay_hotplug : Bool) (hw : List HWDisplayInfo)
    (hsec : (activeSecureSessions K s).any = false)
    (hidx : virtualDisplayIndex s < K.kNumDisplays)
    (hvirt : s.hwc_display_ (virtualDisplayIndex s) = none)
    (hhw : env.displays_status = some hw) :
    HandlePluggableDisplays K env s delay_hotplug =
      some (hotplugOutcome K (GetActiveBuiltinDisplay K s)
        (HandleConnectedDisplays K env (HandleDisconnectedDisplays K env s hw).2 hw
          delay_hotplug)) := by
  unfold HandlePluggableDisplays
  rw [if_neg (by simp [hsec]), if_neg (not_le.mpr hidx), if_neg (by simp [hvirt])]
  simp only [hhw]
  unfold reconcile
  rw [if_neg (by simp [HandleDisconnectedDisplays])]

/-- C7. When `HandlePluggableDisplays` is not deferred (no secure session on the active
built-in display, first virtual slot in range and unbound, hardware list read) and the
connect pass ends with `-EAGAIN` or `-ENODEV`, the function returns 0, sets
`pending_hotplug_event_` to `kHotPlugEvent`, and the only call it adds after the connect
pass is a refresh of the active built-in display when there is one. -/
theorem HandlePluggableDisplays_absorbs_transient (K : HWCCallbacks) (env : Env)
    (s : HWCSession) (delay_hotplug : Bool) (hw : List HWDisplayInfo)
    (hsec : (activeSecureSessions K s).any = false)
    (hidx : virtualDisplayIndex s < K.kNumDisplays)
    (hvirt : s.hwc_display_ (virtualDisplayIndex s) = none)
    (hhw : env.displays_status = some hw)
    (hst : (HandleConnectedDisplays K env (HandleDisconnectedDisplays K env s hw).2 hw
        delay_hotplug).1 = -EAGAIN ∨
      (HandleConnectedDisplays K env (HandleDisconnectedDisplays K env s hw).2 hw
        delay_hotplug).1 = -ENODEV) :
    ∃ t, HandlePluggableDisplays K env s delay_hotplug = some (0, t) ∧
      t.pending_hotplug_event_ = HotPlugEvent.kHotPlugEvent ∧
      t.trace = (HandleConnectedDisplays K env (HandleDisconnectedDisplays K env s hw).2 hw
          delay_hotplug).2.trace ++
        (if GetActiveBuiltinDisplay K s < K.kNumDisplays then
          [Event.Refresh (GetActiveBuiltinDisplay K s)] else []) := by
  rw [HandlePluggableDisplays_reconciles K env s delay_hotplug hw hsec hidx hvirt hhw]
  unfold hotplugOutcome
  have hne : (HandleConnectedDisplays K env (HandleDisconnectedDisplays K env s hw).2 hw
      delay_hotplug).1 ≠ 0 := by
    rcases hst with h | h <;> rw [h] <;> decide
  rw [if_neg hne, if_pos hst]
  by_cases ha : GetActiveBuiltinDisplay K s < K.kNumDisplays
  · rw [if_pos ha, if_pos ha]
    exact ⟨_, rfl, rfl, rfl⟩
  · rw [if_neg ha, if_neg ha]
    exact ⟨_, rfl, rfl, by simp⟩

/-- Witness for C7: the pluggable factory reports `-ENODEV` for the new display 5. -/
theorem HandlePluggableDisplays_absorbs_transient_witness :
    ∃ t, HandlePluggableDisplays exLimits exEnvNoDevice exIdle true = some (0, t) ∧
      t.pending_hotplug_event_ = HotPlugEvent.kHotPlugEvent ∧
      t.trace = (HandleConnectedDisplays exLimits exEnvNoDevice
          (HandleDisconnectedDisplays exLimits exEnvNoDevice exIdle [{ display_id := 5 }]).2
          [{ display_id := 5 }] true).2.trace ++
        (if GetActiveBuiltinDisplay exLimits exIdle < exLimits.kNumDisplays then
          [Event.Refresh (GetActiveBuiltinDisplay exLimits exIdle)] else []) :=
  HandlePluggableDisplays_absorbs_transient exLimits exEnvNoDevice exIdle true
    [{ display_id := 5 }] (by decide) (by decide) (by decide) rfl (Or.inr (by decide))

/-- C8. When `HandlePluggableDisplays` is not deferred and the connect pass ends with a
status that is neither `-EAGAIN` nor `-ENODEV` (a real error, or 0 after both passes
succeeded), the function returns exactly that status, `pending_hotplug_event_` is
`kHotPlugNone`, and no call is added after the connect pass. -/
theorem HandlePluggableDisplays_final_status (K : HWCCallbacks) (env : Env)
    (s : HWCSession) (delay_hotplug : Bool) (hw : List HWDisplayInfo)
    (hsec : (activeSecureSessions K s).any = false)
    (hidx : virtualDisplayIndex s < K.kNumDisplays)
    (hvirt : s.hwc_display_ (virtualDisplayIndex s) = none)
    (hhw : env.displays_status = some hw)
    (hst : (HandleConnectedDisplays K env (HandleDisconnectedDisplays K env s hw).2 hw
        delay_hotplug).1 ≠ -EAGAIN ∧
      (HandleConnectedDisplays K env (HandleDisconnectedDisplays K env s hw).2 hw
        delay_hotplug).1 ≠ -ENODEV) :
    (HandleDisconnectedDisplays K env s hw).1 = 0 ∧
    ∃ t, HandlePluggableDisplays K env s delay_hotplug =
        some ((HandleConnectedDisplays K env (HandleDisconnectedDisplays K env s hw).2 hw
          delay_hotplug).1, t) ∧
      t.pending_hotplug_event_ = HotPlugEvent.kHotPlugNone ∧
      t.trace = (HandleConnectedDisplays K env (HandleDisconnectedDisplays K env s hw).2 hw
          delay_hotplug).2.trace := by
  refine ⟨rfl, ?_⟩
  rw [HandlePluggableDisplays_reconciles K env s delay_hotplug hw hsec hidx hvirt hhw]
  unfold hotplugOutcome
  by_cases h0 : (HandleConnectedDisplays K env (HandleDisconnectedDisplays K env s hw).2 hw
      delay_hotplug).1 = 0
  · rw [if_pos h0, h0]
    exact ⟨_, rfl, rfl, rfl⟩
  · rw [if_neg h0, if_neg (by intro h; rcases h with h | h; exact hst.1 h; exact hst.2 h)]
    exact ⟨_, rfl, rfl, rfl⟩

/-- Witness for C8: the pluggable factory reports `-EINVAL`, which is returned as is. -/
theorem HandlePluggableDisplays_final_status_witness :
    (HandleDisconnectedDisplays exLimits exEnvCreateFails exIdle [{ display_id := 5 }]).1 = 0 ∧
    ∃ t, HandlePluggableDisplays exLimits exEnvCreateFails exIdle true =
        some ((HandleConnectedDisplays exLimits exEnvCreateFails
          (HandleDisconnectedDisplays exLimits exEnvCreateFails exIdle [{ display_id := 5 }]).2
          [{ display_id := 5 }] true).1, t) ∧
      t.pending_hotplug_event_ = HotPlugEvent.kHotPlugNone ∧
      t.trace = (HandleConnectedDisplays exLimits exEnvCreateFails
          (HandleDisconnectedDisplays exLimits exEnvCreateFails exIdle [{ display_id := 5 }]).2
          [{ display_id := 5 }] true).2.trace :=
  HandlePluggableDisplays_final_status exLimits exEnvCreateFails exIdle true
    [{ display_id := 5 }] (by decide) (by decide) (by decide) rfl (by decide)

theorem WaitEffect_refl (s : HWCSession) (a : Display) : WaitEffect s s a :=
  ⟨_, _, _, _, [], rfl, by simp, fun _ => rfl, fun _ _ => rfl, by simp⟩

theorem WaitEffect_trans {s t u : HWCSession} {a : Display}
    (h1 : WaitEffect s t a) (h2 : WaitEffect t u a) : WaitEffect s u a := by
  obtain ⟨hd1, rr1, crf1, tr1, ev1, e1, f1, p1, q1, r1⟩ := h1
  obtain ⟨hd2, rr2, crf2, tr2, ev2, e2, f2, p2, q2, r2⟩ := h2
  subst e1
  subst e2
  refine ⟨hd2, rr2, crf2, tr2, ev1 ++ ev2, rfl, ?_, fun c => ?_, fun c hc => ?_, fun e he => ?_⟩
  · rw [f2]; simp [f1]
  · exact (p2 c).trans (p1 c)
  · exact (q2 c hc).trans (q1 c hc)
  · rcases List.mem_append.1 he with h | h
    · exact r1 e h
    · exact r2 e h

theorem armResourceWait_effect (s : HWCSession) (a : Display) :
    WaitEffect s (armResourceWait s a) a := by
  unfold armResourceWait
  split_ifs
  · exact ⟨_, _, _, _, [.Refresh a], rfl, rfl, fun _ => rfl, fun _ _ => rfl,
      by simp [Event.isRefreshOrNotice]⟩
  · exact ⟨_, _, _, _, [], rfl, by simp, fun _ => rfl, fun _ _ => rfl, by simp⟩

theorem resourceSignalled_effect (s : HWCSession) (a : Display) :
    WaitEffect s (resourceSignalled s a) a := by
  obtain ⟨hd, rr, crf, tr, ev, e, f, p, q, r⟩ := armResourceWait_effect s a
  unfold resourceSignalled
  rw [e]
  exact ⟨hd, _, _, tr, ev, rfl, f, p, q, r⟩

theorem waitLoop_effect (a display_id : Display) (script : List WaitStep) (s : HWCSession) :
    WaitEffect s (waitLoop a display_id script s).2 a := by
  induction script generalizing s with
  | nil => exact armResourceWait_effect s a
  | cons step rest ih =>
    cases step with
    | timeout => exact armResourceWait_effect s a
    | signalled res_wait needs =>
      unfold waitLoop
      split
      · exact resourceSignalled_effect s a
      · split_ifs
        · exact WaitEffect_trans (resourceSignalled_effect s a) (ih _)
        · exact resourceSignalled_effect s a

theorem NotifyDisplayAttributes_effect (s : HWCSession) (display : Display) (config : Nat)
    (a : Display) : WaitEffect s (NotifyDisplayAttributes s display config) a := by
  unfold NotifyDisplayAttributes
  split
  · split_ifs
    · exact ⟨_, _, _, _, [.NotifyResolutionChange display config], rfl, rfl, fun _ => rfl,
        fun _ _ => rfl, by simp [Event.isRefreshOrNotice]⟩
    · exact WaitEffect_refl s a
  · exact WaitEffect_refl s a

theorem setDisplay_effect (s : HWCSession) (a : Display) (d : HWCDisplay)
    (h : (s.hwc_display_ a).isSome = true) : WaitEffect s (s.setDisplay a (some d)) a := by
  refine ⟨_, _, _, _, [], rfl, by simp [HWCSession.setDisplay], fun c => ?_, fun c hc => ?_,
    by simp⟩
  · by_cases hc : c = a
    · subst hc; simp [h]
    · simp [Function.update_noteq hc]
  · simp [Function.update_noteq hc]

theorem WaitForResources_effect (env : Env) (s : HWCSession) (wait_for_resources : Bool)
    (a display_id : Display) :
    WaitEffect s (WaitForResources env s wait_for_resources a display_id).2 a := by
  unfold WaitForResources
  by_cases h1 : wait_for_resources = false
  · rw [if_pos h1]; exact WaitEffect_refl s a
  rw [if_neg h1]
  by_cases h2 : s.enable_primary_reconfig_req_ = 0
  · rw [if_pos h2]; exact waitLoop_effect _ _ _ _
  rw [if_neg h2]
  cases h3 : s.hwc_display_ display_id with
  | none => exact WaitEffect_refl s a
  | some d0 =>
    dsimp only
    by_cases h4 : env.first_check.2 = false
    · rw [if_pos h4]; exact waitLoop_effect _ _ _ _
    rw [if_neg h4]
    cases h5 : s.hwc_display_ a with
    | none => exact WaitEffect_refl s a
    | some d =>
      dsimp only
      by_cases h6 : (d.SetAlternateDisplayConfig true).1 ≠ 0
      · rw [if_pos h6]; exact WaitEffect_refl s a
      rw [if_neg h6]
      refine WaitEffect_trans ?_ (waitLoop_effect _ _ _ _)
      refine WaitEffect_trans
        (setDisplay_effect s a (d.SetAlternateDisplayConfig true).2 (by simp [h5])) ?_
      unfold notifyIfConfigChanged
      split_ifs
      · exact NotifyDisplayAttributes_effect _ _ _ _
      · exact WaitEffect_refl _ a

theorem connectLoop_deferred (K : HWCCallbacks) (env : Env) (hw : List HWDisplayInfo)
    (acc : ConnectAcc)
    (hbw : acc.state.disable_hotplug_bwcheck_ = 0)
    (hpend : firstCommitPending acc.state = true)
    (hnew : ∃ info ∈ hw, info.is_primary = false ∧ info.display_type = DisplayType.kPluggable ∧
      info.is_connected = true ∧
      ∀ p ∈ acc.state.map_info_pluggable_, p.sdm_id ≠ info.display_id) :
    connectLoop K env hw acc = ⟨deferConnect K acc.state, -EAGAIN, acc.client_id⟩ := by
  induction hw with
  | nil =>
    obtain ⟨info, hmem, -⟩ := hnew
    cases hmem
  | cons a rest ih =>
    obtain ⟨info, hmem, h1, h2, h3, h4⟩ := hnew
    unfold connectLoop
    by_cases c1 : a.is_primary = true ∨ a.display_type ≠ DisplayType.kPluggable ∨
        a.is_connected = false
    · rw [if_pos c1]
      rcases List.mem_cons.1 hmem with rfl | hmem
      · rcases c1 with c | c | c
        · rw [h1] at c; cases c
        · exact absurd h2 c
        · rw [h3] at c; cases c
      · exact ih ⟨info, hmem, h1, h2, h3, h4⟩
    · rw [if_neg c1]
      by_cases c2 : acc.state.map_info_pluggable_.any (fun p => p.sdm_id == a.display_id) = true
      · rw [if_pos c2]
        rcases List.mem_cons.1 hmem with rfl | hmem
        · rw [List.any_eq_true] at c2
          obtain ⟨p, hp, hpe⟩ := c2
          exact absurd (by simpa using hpe) (h4 p hp)
        · exact ih ⟨info, hmem, h1, h2, h3, h4⟩
      · rw [if_neg c2, if_pos ⟨hbw, hpend⟩]

theorem pluggableCreateCalls_append_of_none (tr ev : List Event)
    (h : ∀ e ∈ ev, e.isPluggableCreate = false) :
    pluggableCreateCalls (tr ++ ev) = pluggableCreateCalls tr := by
  unfold pluggableCreateCalls
  rw [List.countP_append]
  have : List.countP Event.isPluggableCreate ev = 0 := by
    rw [List.countP_eq_zero]
    intro e he
    simp [h e he]
  omega

theorem isPluggableCreate_of_isRefreshOrNotice (e : Event) (h : e.isRefreshOrNotice = true) :
    e.isPluggableCreate = false := by
  cases e <;> simp_all [Event.isRefreshOrNotice, Event.isPluggableCreate]

theorem WaitEffect_pluggableCreateCalls {s t : HWCSession} {a : Display}
    (h : WaitEffect s t a) : pluggableCreateCalls t.trace = pluggableCreateCalls s.trace := by
  obtain ⟨hd, rr, crf, tr, ev, e, f, p, q, r⟩ := h
  subst e
  subst f
  exact pluggableCreateCalls_append_of_none _ _
    (fun e he => isPluggableCreate_of_isRefreshOrNotice e (r e he))

theorem WaitEffect_isSome {s t : HWCSession} {a : Display} (h : WaitEffect s t a) (c : Display) :
    (t.hwc_display_ c).isSome = (s.hwc_display_ c).isSome := by
  obtain ⟨hd, rr, crf, tr, ev, e, f, p, q, r⟩ := h
  subst e
  exact p c

theorem WaitEffect_map_info_pluggable {s t : HWCSession} {a : Display} (h : WaitEffect s t a) :
    t.map_info_pluggable_ = s.map_info_pluggable_ := by
  obtain ⟨hd, rr, crf, tr, ev, e, f, p, q, r⟩ := h
  subst e
  rfl

theorem deferConnect_effect (K : HWCCallbacks) (s : HWCSession) (a : Display) :
    WaitEffect s (deferConnect K s) a := by
  unfold deferConnect
  split_ifs
  · exact ⟨_, _, _, _, [_], rfl, rfl, fun _ => rfl, fun _ _ => rfl,
      by simp [Event.isRefreshOrNotice]⟩
  · exact ⟨_, _, _, _, [_], rfl, rfl, fun _ => rfl, fun _ _ => rfl,
      by simp [Event.isRefreshOrNotice]⟩
  · exact WaitEffect_refl s a

theorem notifyPendingHotplugs_pluggableCreateCalls (s : HWCSession) :
    pluggableCreateCalls (notifyPendingHotplugs s).trace = pluggableCreateCalls s.trace := by
  unfold notifyPendingHotplugs
  exact pluggableCreateCalls_append_of_none _ _ (fun e he => by
    obtain ⟨c, -, rfl⟩ := List.mem_map.1 he
    rfl)

/-- C10. With bandwidth gating enabled (`disable_hotplug_bwcheck_ = 0`), a bound pluggable
display whose first commit is still pending, and a connected, non-primary pluggable
display in the hardware list whose id is recorded in no pluggable slot,
`HandleConnectedDisplays` returns `-EAGAIN` and creates no display object: no pluggable
factory is called, every slot is bound or unbound as before, and the pluggable slot
descriptors are unchanged. -/
theorem HandleConnectedDisplays_bandwidth_gate (K : HWCCallbacks) (env : Env) (s : HWCSession)
    (hw : List HWDisplayInfo) (delay_hotplug : Bool)
    (hbw : s.disable_hotplug_bwcheck_ = 0)
    (hpend : ∃ p ∈ s.map_info_pluggable_, ∃ d, s.hwc_display_ p.client_id = some d ∧
      d.first_commit_done = false)
    (hnew : ∃ info ∈ hw, info.is_primary = false ∧ info.display_type = DisplayType.kPluggable ∧
      info.is_connected = true ∧ ∀ p ∈ s.map_info_pluggable_, p.sdm_id ≠ info.display_id) :
    (HandleConnectedDisplays K env s hw delay_hotplug).1 = -EAGAIN ∧
    pluggableCreateCalls (HandleConnectedDisplays K env s hw delay_hotplug).2.trace
      = pluggableCreateCalls s.trace ∧
    (∀ c, ((HandleConnectedDisplays K env s hw delay_hotplug).2.hwc_display_ c).isSome
      = (s.hwc_display_ c).isSome) ∧
    (HandleConnectedDisplays K env s hw delay_hotplug).2.map_info_pluggable_
      = s.map_info_pluggable_ := by
  have hp : firstCommitPending s = true := by
    obtain ⟨p, hp, d, hd, hc⟩ := hpend
    unfold firstCommitPending
    rw [List.any_eq_true]
    exact ⟨p, hp, by simp [hd, hc]⟩
  unfold HandleConnectedDisplays
  rw [connectLoop_deferred K env hw ⟨s, 0, 0⟩ hbw hp hnew]
  have e0 := deferConnect_effect K s (GetActiveBuiltinDisplay K (deferConnect K s))
  unfold finishConnect
  dsimp only
  split_ifs with h1 h2 h3
  · exact ⟨rfl, WaitEffect_pluggableCreateCalls e0, WaitEffect_isSome e0,
      WaitEffect_map_info_pluggable e0⟩
  · have e1 := WaitEffect_trans e0 (WaitForResources_effect env (deferConnect K s) delay_hotplug
      (GetActiveBuiltinDisplay K (deferConnect K s)) 0)
    exact ⟨rfl, WaitEffect_pluggableCreateCalls e1, WaitEffect_isSome e1,
      WaitEffect_map_info_pluggable e1⟩
  · have e1 := WaitEffect_trans e0 (WaitForResources_effect env (deferConnect K s) delay_hotplug
      (GetActiveBuiltinDisplay K (deferConnect K s)) 0)
    have i1 := WaitEffect_isSome e1
    have m1 := WaitEffect_map_info_pluggable e1
    refine ⟨rfl, ?_, i1, m1⟩
    rw [notifyPendingHotplugs_pluggableCreateCalls]
    exact WaitEffect_pluggableCreateCalls e1
  · have i1 := WaitEffect_isSome e0
    have m1 := WaitEffect_map_info_pluggable e0
    refine ⟨rfl, ?_, i1, m1⟩
    rw [notifyPendingHotplugs_pluggableCreateCalls]
    exact WaitEffect_pluggableCreateCalls e0

theorem GetActiveBuiltinDisplay_spec (K : HWCCallbacks) (s : HWCSession)
    (h : GetActiveBuiltinDisplay K s < K.kNumDisplays) :
    GetActiveBuiltinDisplay K s ∈ builtinIds s ∧
    (s.hwc_display_ (GetActiveBuiltinDisplay K s)).isSome = true := by
  unfold GetActiveBuiltinDisplay at h ⊢
  cases hf : (s.map_info_primary_ :: s.map_info_builtin_).find? (fun info =>
      match s.hwc_display_ info.client_id with
      | some d => d.current_power_mode != PowerMode.OFF
      | none => false) with
  | none => rw [hf] at h; exact absurd h (lt_irrefl _)
  | some info =>
    dsimp only
    have hm := List.mem_of_find?_eq_some hf
    have hp := List.find?_some hf
    refine ⟨List.mem_map.2 ⟨info, hm, rfl⟩, ?_⟩
    cases hd : s.hwc_display_ info.client_id with
    | none => rw [hd] at hp; cases hp
    | some d => rfl

theorem DestroyEffect_frame {s t : HWCSession} {r : MapInfoRef} (h : DestroyEffect s t r) :
    descriptors t =
      (if (s.hwc_display_ (s.mapInfo r).client_id).isSome = true then
        descriptors (s.setMapInfo r (s.mapInfo r).Reset) else descriptors s) ∧
    t.hwc_display_ (s.mapInfo r).client_id = none ∧
    (∀ c, c ≠ (s.mapInfo r).client_id → t.hwc_display_ c = s.hwc_display_ c) ∧
    (∀ c, c ≠ (s.mapInfo r).client_id → t.pending_power_mode_ c = s.pending_power_mode_ c) ∧
    ((s.hwc_display_ (s.mapInfo r).client_id).isSome = true →
      t.pending_power_mode_ (s.mapInfo r).client_id = false) ∧
    (∀ x ∈ t.map_active_displays_, x ∈ s.map_active_displays_) ∧
    ((s.hwc_display_ (s.mapInfo r).client_id).isSome = true →
      ∀ x ∈ t.map_active_displays_, x.1 ≠ (s.mapInfo r).client_id) ∧
    (∀ x ∈ t.active_displays_, x ∈ s.active_displays_) ∧
    ((s.hwc_display_ (s.mapInfo r).client_id).isSome = true →
      (s.mapInfo r).client_id ∉ t.active_displays_) ∧
    t.pending_hotplugs_ = s.pending_hotplugs_ ∧
    t.pending_hotplug_event_ = s.pending_hotplug_event_ ∧
    t.enable_primary_reconfig_req_ = s.enable_primary_reconfig_req_ := by
  obtain ⟨mip, mib, mipl, miv, hd, mad, ad, ppm, pr, dr, hdr, n, thr, tr, rfl, g0, g2, g3, g4, g5,
    g6, g7, g8, g9⟩ := h
  exact ⟨g0, g2, g3, g4, g5, g6, g7, g8, g9, rfl, rfl, rfl⟩

theorem WaitEffect_frame {s t : HWCSession} {a : Display} (h : WaitEffect s t a) :
    descriptors t = descriptors s ∧
    (∀ c, (t.hwc_display_ c).isSome = (s.hwc_display_ c).isSome) ∧
    (∀ c, c ≠ a → t.hwc_display_ c = s.hwc_display_ c) ∧
    t.pending_power_mode_ = s.pending_power_mode_ ∧
    t.map_active_displays_ = s.map_active_displays_ ∧
    t.active_displays_ = s.active_displays_ ∧
    t.pending_hotplugs_ = s.pending_hotplugs_ ∧
    t.pending_hotplug_event_ = s.pending_hotplug_event_ := by
  obtain ⟨hd, rr, crf, tr, ev, rfl, f, p, q, r⟩ := h
  exact ⟨rfl, p, q, rfl, rfl, rfl, rfl, rfl⟩

theorem abortIfBound_effect (s : HWCSession) (c a : Display) :
    WaitEffect s (abortIfBound s c) a ∨ ∃ tr, abortIfBound s c = { s with trace := tr } := by
  unfold abortIfBound
  split
  · exact Or.inr ⟨_, rfl⟩
  · exact Or.inr ⟨_, rfl⟩

theorem abortIfBound_frame (s : HWCSession) (c : Display) :
    descriptors (abortIfBound s c) = descriptors s ∧
    (abortIfBound s c).hwc_display_ = s.hwc_display_ ∧
    (abortIfBound s c).pending_power_mode_ = s.pending_power_mode_ ∧
    (abortIfBound s c).map_active_displays_ = s.map_active_displays_ ∧
    (abortIfBound s c).active_displays_ = s.active_displays_ ∧
    (abortIfBound s c).pending_hotplugs_ = s.pending_hotplugs_ ∧
    (abortIfBound s c).pending_hotplug_event_ = s.pending_hotplug_event_ := by
  unfold abortIfBound
  split <;> exact ⟨rfl, rfl, rfl, rfl, rfl, rfl, rfl⟩

theorem restorePrimaryConfig_effect (K : HWCCallbacks) (s : HWCSession) :
    WaitEffect s (restorePrimaryConfig K s) (GetActiveBuiltinDisplay K s) := by
  unfold restorePrimaryConfig
  by_cases h : GetActiveBuiltinDisplay K s < K.kNumDisplays
  · rw [if_pos h]
    cases hd : s.hwc_display_ (GetActiveBuiltinDisplay K s) with
    | none => exact WaitEffect_refl s _
    | some d =>
      dsimp only
      split_ifs
      · exact WaitEffect_trans
          (setDisplay_effect s _ (d.SetAlternateDisplayConfig false).2 (by simp [hd]))
          (NotifyDisplayAttributes_effect _ _ _ _)
      · exact setDisplay_effect s _ (d.SetAlternateDisplayConfig false).2 (by simp [hd])
  · rw [if_neg h]
    exact WaitEffect_refl s _

theorem reconfigAfterDisconnect_effect (K : HWCCallbacks) (s : HWCSession) (b : Bool) :
    WaitEffect s (reconfigAfterDisconnect K s b) (GetActiveBuiltinDisplay K s) := by
  unfold reconfigAfterDisconnect
  split_ifs
  · exact restorePrimaryConfig_effect K s
  · exact WaitEffect_refl s _

theorem reconfigAfterDisconnect_hwc_other (K : HWCCallbacks) (s : HWCSession) (b : Bool)
    (c : Display) (hc : c ∉ builtinIds s) :
    (reconfigAfterDisconnect K s b).hwc_display_ c = s.hwc_display_ c := by
  by_cases h : GetActiveBuiltinDisplay K s < K.kNumDisplays
  · have hne : c ≠ GetActiveBuiltinDisplay K s := by
      intro e
      exact hc (e ▸ (GetActiveBuiltinDisplay_spec K s h).1)
    exact (WaitEffect_frame (reconfigAfterDisconnect_effect K s b)).2.2.1 c hne
  · unfold reconfigAfterDisconnect restorePrimaryConfig
    rw [if_neg h]
    split_ifs <;> rfl

theorem descriptors_pluggable (s : HWCSession) (i : Nat) (m : DisplayMapInfo) :
    descriptors (s.setMapInfo (.pluggable i) m) =
      (s.map_info_primary_, s.map_info_builtin_, s.map_info_pluggable_.set i m,
        s.map_info_virtual_) := rfl

theorem mapInfo_of_descriptors {s t : HWCSession} (h : descriptors t = descriptors s)
    (r : MapInfoRef) : t.mapInfo r = s.mapInfo r := by
  simp only [descriptors, Prod.mk.injEq] at h
  exact mapInfo_congr s t r h.1 h.2.1 h.2.2.1 h.2.2.2

theorem builtinIds_of_descriptors {s t : HWCSession}
    (h1 : t.map_info_primary_ = s.map_info_primary_)
    (h2 : t.map_info_builtin_ = s.map_info_builtin_) : builtinIds t = builtinIds s := by
  unfold builtinIds
  rw [h1, h2]

theorem DestroyDisplay_pluggable_descriptors (K : HWCCallbacks) (env : Env) (s : HWCSession)
    (i : Nat) :
    (DestroyDisplay K env s (.pluggable i)).map_info_primary_ = s.map_info_primary_ ∧
    (DestroyDisplay K env s (.pluggable i)).map_info_builtin_ = s.map_info_builtin_ ∧
    (DestroyDisplay K env s (.pluggable i)).map_info_pluggable_ =
      (if (s.hwc_display_ (s.mapInfo (.pluggable i)).client_id).isSome = true then
        s.map_info_pluggable_.set i (s.mapInfo (.pluggable i)).Reset
      else s.map_info_pluggable_) ∧
    (DestroyDisplay K env s (.pluggable i)).map_info_virtual_ = s.map_info_virtual_ := by
  have d0 := (DestroyEffect_frame (DestroyDisplay_effect K env s (.pluggable i))).1
  by_cases hb : (s.hwc_display_ (s.mapInfo (.pluggable i)).client_id).isSome = true
  · rw [if_pos hb] at d0 ⊢
    simp only [descriptors, HWCSession.setMapInfo, Prod.mk.injEq] at d0
    exact d0
  · rw [if_neg hb] at d0 ⊢
    simp only [descriptors, Prod.mk.injEq] at d0
    exact d0

theorem DisconnectPluggableDisplays_effect (K : HWCCallbacks) (env : Env) (s : HWCSession)
    (i : Nat) :
    DisconnectEffect s (DisconnectPluggableDisplays K env s (.pluggable i)).2 i := by
  unfold DisconnectPluggableDisplays
  dsimp only
  obtain ⟨a1, a2, a3, a4, a5, a6, a7⟩ := abortIfBound_frame s (s.mapInfo (.pluggable i)).client_id
  have am := mapInfo_of_descriptors a1 (.pluggable i)
  simp only [descriptors, Prod.mk.injEq] at a1
  obtain ⟨a11, a12, a13, a14⟩ := a1
  generalize abortIfBound s (s.mapInfo (.pluggable i)).client_id = s0 at *
  obtain ⟨-, d1, d2, d3, d4, d5, d6, d7, d8, d9, d10, d11⟩ :=
    DestroyEffect_frame (DestroyDisplay_effect K env s0 (.pluggable i))
  obtain ⟨e1, e2, e3, e4⟩ := DestroyDisplay_pluggable_descriptors K env s0 i
  simp only [am, a2, a3, a4, a5, a6, a7, a11, a12, a13, a14] at d1 d2 d3 d4 d5 d6 d7 d8 d9 d10 e1 e2 e3 e4
  generalize DestroyDisplay K env s0 (.pluggable i) = s1 at *
  have hb1 : builtinIds s1 = builtinIds s := builtinIds_of_descriptors e1 e2
  obtain ⟨w0, w1, w2, w3, w4, w5, w6, w7⟩ := WaitEffect_frame (reconfigAfterDisconnect_effect K s1
    (s.hwc_display_ (s.mapInfo (.pluggable i)).client_id).isSome)
  have w8 := reconfigAfterDisconnect_hwc_other K s1
    (s.hwc_display_ (s.mapInfo (.pluggable i)).client_id).isSome
  simp only [descriptors, Prod.mk.injEq] at w0
  obtain ⟨w01, w02, w03, w04⟩ := w0
  generalize reconfigAfterDisconnect K s1
    (s.hwc_display_ (s.mapInfo (.pluggable i)).client_id).isSome = s2 at *
  unfold DisconnectEffect erasePendingHotplug
  dsimp only
  refine ⟨by rw [w6, d9], ?_, fun c hc => ?_, fun c hc hcb => ?_, by rw [w03, e3], by rw [w01, e1],
    by rw [w02, e2], by rw [w04, e4], fun c hc => by rw [w3, d3 c hc], fun hb => by rw [w3, d4 hb],
    fun x hx => d5 x (w4 ▸ hx), fun hb x hx => d6 hb x (w4 ▸ hx), fun x hx => d7 x (w5 ▸ hx),
    fun hb hx => d8 hb (w5 ▸ hx)⟩
  · have := w1 (s.mapInfo (.pluggable i)).client_id
    rw [d1] at this
    cases hh : s2.hwc_display_ (s.mapInfo (.pluggable i)).client_id with
    | none => rfl
    | some d => rw [hh] at this; cases this
  · rw [w1 c, d2 c hc]
  · rw [w8 c (by rw [hb1]; exact hcb), d2 c hc]

theorem mapInfo_pluggable_of_getElem? (s : HWCSession) (i : Nat) (m : DisplayMapInfo)
    (hm : s.map_info_pluggable_[i]? = some m) : s.mapInfo (.pluggable i) = m := by
  simp [HWCSession.mapInfo, List.getD_eq_getElem?_getD, hm]

/-- C6. A display that disconnects before its connect notification is delivered leaves the
pending-notification queue. For every pluggable slot whose client id is queued in
`pending_hotplugs_` (a queue without repetitions, as the connect pass builds it), after
`DisconnectPluggableDisplays` on that slot the id no longer occurs in the queue, the queue
is the old one with that id filtered out (so the other ids keep their order), and the
slot is unbound. In the scenario with primary slot 0 and pluggable slots 1 and 2: a
hotplug pass connects hardware id 5 into slot 1 and leaves id 1 queued because the
resource wait times out (no connect notification is sent); the next pass, with id 5
reported disconnected, leaves the queue empty and slot 1 unbound. -/
theorem DisconnectPluggableDisplays_dequeues :
    (∀ (K : HWCCallbacks) (env : Env) (s : HWCSession) (i : Nat) (m : DisplayMapInfo),
      s.map_info_pluggable_[i]? = some m →
      m.client_id ∈ s.pending_hotplugs_ →
      s.pending_hotplugs_.Nodup →
      m.client_id ∉ (DisconnectPluggableDisplays K env s (.pluggable i)).2.pending_hotplugs_ ∧
      (DisconnectPluggableDisplays K env s (.pluggable i)).2.pending_hotplugs_
        = s.pending_hotplugs_.filter (fun c => c != m.client_id) ∧
      (DisconnectPluggableDisplays K env s (.pluggable i)).2.hwc_display_ m.client_id = none) ∧
    ((HandlePluggableDisplays exLimits exEnvPlug5 exIdle true).map
        (fun r => (r.1, r.2.pending_hotplugs_, (r.2.hwc_display_ 1).isSome,
          r.2.map_info_pluggable_.map (fun p => p.sdm_id),
          decide (Event.Hotplug 1 true ∈ r.2.trace)))
        = some (0, [1], true, [5, -1], false) ∧
      ((HandlePluggableDisplays exLimits exEnvPlug5 exIdle true).bind
          (fun r => HandlePluggableDisplays exLimits exEnvUnplug5 r.2 true)).map
        (fun r => (r.2.pending_hotplugs_, (r.2.hwc_display_ 1).isSome,
          decide (Event.Hotplug 1 true ∈ r.2.trace)))
        = some ([], false, false)) := by
  refine ⟨?_, by decide⟩
  intro K env s i m hm hq hnd
  obtain ⟨h1, h2, -⟩ := DisconnectPluggableDisplays_effect K env s i
  rw [mapInfo_pluggable_of_getElem? s i m hm] at h1 h2
  have he : s.pending_hotplugs_.erase m.client_id
      = s.pending_hotplugs_.filter (fun c => c != m.client_id) := hnd.erase_eq_filter _
  refine ⟨?_, by rw [h1, he], h2⟩
  rw [h1, he]
  simp

/-- Witness for C6: slot 1 of the scenario, disconnected while its id is still queued. -/
theorem DisconnectPluggableDisplays_dequeues_witness :
    1 ∉ (DisconnectPluggableDisplays exLimits exEnvUnplug5 exQueued
      (.pluggable 0)).2.pending_hotplugs_ :=
  (DisconnectPluggableDisplays_dequeues.1 exLimits exEnvUnplug5 exQueued 0
    { client_id := 1, sdm_id := 5, disp_type := .kPluggable } rfl (by decide) (by decide)).1

theorem map_client_id_set_reset (l : List DisplayMapInfo) (i : Nat) :
    (l.set i (l.getD i default).Reset).map (fun m => m.client_id)
      = l.map (fun m => m.client_id) := by
  induction l generalizing i with
  | nil => rfl
  | cons a rest ih =>
    cases i with
    | zero => simp [DisplayMapInfo.Reset]
    | succ k =>
      simp only [List.set_cons_succ, List.map_cons, List.getD_cons_succ]
      rw [ih k]

theorem getElem?_pluggable_set_ne (l : List DisplayMapInfo) (i j : Nat) (a : DisplayMapInfo)
    (h : i ≠ j) : (l.set i a)[j]? = l[j]? := by
  simp [List.getElem?_set, h]

theorem getElem?_pluggable_set_eq (l : List DisplayMapInfo) (i : Nat) (a m : DisplayMapInfo)
    (h : l[i]? = some m) : (l.set i a)[i]? = some a := by
  have hi : i < l.length := by
    rcases Nat.lt_or_ge i l.length with h1 | h1
    · exact h1
    · rw [List.getElem?_eq_none h1] at h; cases h
  simp [List.getElem?_set, hi]

theorem client_id_of_getElem? (s : HWCSession) (i : Nat) (m : DisplayMapInfo)
    (h : s.map_info_pluggable_[i]? = some m) : (pluggableIds s)[i]? = some m.client_id := by
  simp [pluggableIds, h]

theorem ne_of_nodup_getElem? (l : List Display) (i j : Nat) (a b : Display) (hn : l.Nodup)
    (hi : l[i]? = some a) (hj : l[j]? = some b) (hij : i ≠ j) : a ≠ b := by
  intro e
  subst e
  have hi1 : i < l.length := by
    rcases Nat.lt_or_ge i l.length with h1 | h1
    · exact h1
    · rw [List.getElem?_eq_none h1] at hi; cases hi
  have hj1 : j < l.length := by
    rcases Nat.lt_or_ge j l.length with h1 | h1
    · exact h1
    · rw [List.getElem?_eq_none h1] at hj; cases hj
  rw [List.getElem?_eq_getElem hi1] at hi
  rw [List.getElem?_eq_getElem hj1] at hj
  exact hij ((List.Nodup.getElem_inj_iff hn).1
    ((Option.some.inj hi).trans (Option.some.inj hj).symm))

theorem disconnectStep_cases (K : HWCCallbacks) (env : Env) (hw : List HWDisplayInfo)
    (s : HWCSession) (i : Nat) :
    (disconnectFlag hw (s.mapInfo (.pluggable i)).sdm_id = false ∧
      disconnectStep K env hw s i = s) ∨
    (disconnectFlag hw (s.mapInfo (.pluggable i)).sdm_id = true ∧
      DisconnectEffect s (disconnectStep K env hw s i) i) := by
  unfold disconnectStep
  by_cases h : disconnectFlag hw (s.mapInfo (.pluggable i)).sdm_id = true
  · rw [if_pos h]
    exact Or.inr ⟨h, DisconnectPluggableDisplays_effect K env s i⟩
  · rw [if_neg h]
    exact Or.inl ⟨by simpa using h, rfl⟩

theorem disconnectStep_ids (K : HWCCallbacks) (env : Env) (hw : List HWDisplayInfo)
    (s : HWCSession) (i : Nat) :
    pluggableIds (disconnectStep K env hw s i) = pluggableIds s ∧
    builtinIds (disconnectStep K env hw s i) = builtinIds s := by
  rcases disconnectStep_cases K env hw s i with ⟨-, h⟩ | ⟨-, h⟩
  · rw [h]; exact ⟨rfl, rfl⟩
  · obtain ⟨-, -, -, -, h5, h6, h7, -⟩ := h
    refine ⟨?_, builtinIds_of_descriptors h6 h7⟩
    unfold pluggableIds
    rw [h5]
    split_ifs
    · exact map_client_id_set_reset _ _
    · rfl

theorem disconnectStep_other_slot (K : HWCCallbacks) (env : Env) (hw : List HWDisplayInfo)
    (s : HWCSession) (i j : Nat) (hij : i ≠ j) :
    (disconnectStep K env hw s i).map_info_pluggable_[j]? = s.map_info_pluggable_[j]? := by
  rcases disconnectStep_cases K env hw s i with ⟨-, h⟩ | ⟨-, h⟩
  · rw [h]
  · obtain ⟨-, -, -, -, h5, -⟩ := h
    rw [h5]
    split_ifs
    · exact getElem?_pluggable_set_ne _ _ _ _ hij
    · rfl

theorem getElem?_pluggable_of_lt (s : HWCSession) (i : Nat)
    (hi : i < s.map_info_pluggable_.length) :
    s.map_info_pluggable_[i]? = some (s.mapInfo (.pluggable i)) := by
  simp [HWCSession.mapInfo, List.getD_eq_getElem?_getD, List.getElem?_eq_getElem hi]

theorem slot_ids_ne (s : HWCSession) (i j : Nat) (m : DisplayMapInfo)
    (hn : (pluggableIds s).Nodup) (hi : i < s.map_info_pluggable_.length)
    (hj : s.map_info_pluggable_[j]? = some m) (hij : i ≠ j) :
    m.client_id ≠ (s.mapInfo (.pluggable i)).client_id := by
  have h1 := client_id_of_getElem? s i _ (getElem?_pluggable_of_lt s i hi)
  have h2 := client_id_of_getElem? s j m hj
  exact (ne_of_nodup_getElem? _ i j _ _ hn h1 h2 hij).symm

theorem disconnectStep_intact (K : HWCCallbacks) (env : Env) (hw : List HWDisplayInfo)
    (s : HWCSession) (i j : Nat) (m : DisplayMapInfo)
    (hn : (pluggableIds s).Nodup) (hi : i < s.map_info_pluggable_.length) (hij : i ≠ j)
    (h : SlotIntact s j m) : SlotIntact (disconnectStep K env hw s i) j m := by
  obtain ⟨h1, h2⟩ := h
  refine ⟨(disconnectStep_other_slot K env hw s i j hij).trans h1, ?_⟩
  rcases disconnectStep_cases K env hw s i with ⟨-, e⟩ | ⟨-, e⟩
  · rw [e]; exact h2
  · obtain ⟨-, -, e3, -⟩ := e
    rw [e3 _ (slot_ids_ne s i j m hn hi h1 hij)]
    exact h2

theorem disconnectStep_gone (K : HWCCallbacks) (env : Env) (hw : List HWDisplayInfo)
    (s : HWCSession) (i j : Nat) (m : DisplayMapInfo)
    (hn : (pluggableIds s).Nodup) (hi : i < s.map_info_pluggable_.length) (hij : i ≠ j)
    (h : SlotGone s j m) : SlotGone (disconnectStep K env hw s i) j m := by
  obtain ⟨h1, h2, h3, h4, h5⟩ := h
  have hne : m.client_id ≠ (s.mapInfo (.pluggable i)).client_id :=
    slot_ids_ne s i j m.Reset hn hi h1 hij
  refine ⟨(disconnectStep_other_slot K env hw s i j hij).trans h1, ?_⟩
  rcases disconnectStep_cases K env hw s i with ⟨-, e⟩ | ⟨-, e⟩
  · rw [e]; exact ⟨h2, h3, h4, h5⟩
  · obtain ⟨-, -, e3, -, -, -, -, -, e9, -, e11, -, e13, -⟩ := e
    refine ⟨?_, by rw [e9 _ hne]; exact h3, fun x hx => h4 x (e11 x hx),
      fun hx => h5 (e13 _ hx)⟩
    have := e3 _ hne
    rw [h2] at this
    cases hh : (disconnectStep K env hw s i).hwc_display_ m.client_id with
    | none => rfl
    | some d => rw [hh] at this; cases this

theorem disconnectStep_hit (K : HWCCallbacks) (env : Env) (hw : List HWDisplayInfo)
    (s : HWCSession) (j : Nat) (m : DisplayMapInfo)
    (hf : disconnectFlag hw m.sdm_id = true)
    (h : SlotIntact s j m) : SlotGone (disconnectStep K env hw s j) j m := by
  obtain ⟨h1, h2⟩ := h
  have hm := mapInfo_pluggable_of_getElem? s j m h1
  rcases disconnectStep_cases K env hw s j with ⟨e0, -⟩ | ⟨-, e⟩
  · rw [hm, hf] at e0; cases e0
  · unfold DisconnectEffect at e
    rw [hm] at e
    obtain ⟨-, e2, -, -, e5, -, -, -, -, e10, -, e12, -, e14⟩ := e
    refine ⟨?_, e2, e10 h2, e12 h2, e14 h2⟩
    rw [e5, if_pos h2]
    exact getElem?_pluggable_set_eq _ _ _ m h1

theorem disconnectStep_kept (K : HWCCallbacks) (env : Env) (hw : List HWDisplayInfo)
    (s : HWCSession) (i j : Nat) (m : DisplayMapInfo) (d : Option HWCDisplay)
    (hn : (pluggableIds s).Nodup) (hi : i < s.map_info_pluggable_.length)
    (hb : m.client_id ∉ builtinIds s)
    (hf : disconnectFlag hw m.sdm_id = false)
    (h : SlotKept s j m d) : SlotKept (disconnectStep K env hw s i) j m d := by
  obtain ⟨h1, h2⟩ := h
  by_cases hij : i = j
  · subst hij
    have hm := mapInfo_pluggable_of_getElem? s i m h1
    rcases disconnectStep_cases K env hw s i with ⟨-, e⟩ | ⟨e0, -⟩
    · rw [e]; exact ⟨h1, h2⟩
    · rw [hm, hf] at e0; cases e0
  · refine ⟨(disconnectStep_other_slot K env hw s i j hij).trans h1, ?_⟩
    rcases disconnectStep_cases K env hw s i with ⟨-, e⟩ | ⟨-, e⟩
    · rw [e]; exact h2
    · obtain ⟨-, -, -, e4, -⟩ := e
      rw [e4 _ (slot_ids_ne s i j m hn hi h1 hij) hb]
      exact h2

theorem disconnectStep_length (K : HWCCallbacks) (env : Env) (hw : List HWDisplayInfo)
    (s : HWCSession) (i : Nat) :
    (disconnectStep K env hw s i).map_info_pluggable_.length = s.map_info_pluggable_.length := by
  have := congrArg List.length (disconnectStep_ids K env hw s i).1
  simpa [pluggableIds] using this

theorem disconnectFold_gone (K : HWCCallbacks) (env : Env) (hw : List HWDisplayInfo)
    (j : Nat) (m : DisplayMapInfo) (l : List Nat) (s : HWCSession)
    (hn : (pluggableIds s).Nodup) (hl : ∀ i ∈ l, i < s.map_info_pluggable_.length)
    (hj : j ∉ l) (h : SlotGone s j m) :
    SlotGone (l.foldl (disconnectStep K env hw) s) j m := by
  induction l generalizing s with
  | nil => exact h
  | cons i rest ih =>
    rw [List.foldl_cons]
    have hi := hl i (List.mem_cons_self _ _)
    have hij : i ≠ j := fun e => hj (e ▸ List.mem_cons_self _ _)
    refine ih _ ?_ ?_ (fun hh => hj (List.mem_cons_of_mem _ hh))
      (disconnectStep_gone K env hw s i j m hn hi hij h)
    · rw [(disconnectStep_ids K env hw s i).1]; exact hn
    · intro k hk
      rw [disconnectStep_length]
      exact hl k (List.mem_cons_of_mem _ hk)

theorem disconnectFold_hit (K : HWCCallbacks) (env : Env) (hw : List HWDisplayInfo)
    (j : Nat) (m : DisplayMapInfo) (hf : disconnectFlag hw m.sdm_id = true)
    (l : List Nat) (s : HWCSession)
    (hn : (pluggableIds s).Nodup) (hl : ∀ i ∈ l, i < s.map_info_pluggable_.length)
    (hnd : l.Nodup) (hj : j ∈ l) (h : SlotIntact s j m) :
    SlotGone (l.foldl (disconnectStep K env hw) s) j m := by
  induction l generalizing s with
  | nil => cases hj
  | cons i rest ih =>
    rw [List.foldl_cons]
    have hi := hl i (List.mem_cons_self _ _)
    have hn1 : (pluggableIds (disconnectStep K env hw s i)).Nodup := by
      rw [(disconnectStep_ids K env hw s i).1]; exact hn
    have hl1 : ∀ k ∈ rest, k < (disconnectStep K env hw s i).map_info_pluggable_.length := by
      intro k hk
      rw [disconnectStep_length]
      exact hl k (List.mem_cons_of_mem _ hk)
    rw [List.nodup_cons] at hnd
    by_cases hij : i = j
    · subst hij
      exact disconnectFold_gone K env hw i m rest _ hn1 hl1 hnd.1
        (disconnectStep_hit K env hw s i m hf h)
    · rcases List.mem_cons.1 hj with e | hj1
      · exact absurd e.symm hij
      · exact ih _ hn1 hl1 hnd.2 hj1 (disconnectStep_intact K env hw s i j m hn hi hij h)

theorem disconnectFold_kept (K : HWCCallbacks) (env : Env) (hw : List HWDisplayInfo)
    (j : Nat) (m : DisplayMapInfo) (d : Option HWCDisplay)
    (hf : disconnectFlag hw m.sdm_id = false)
    (l : List Nat) (s : HWCSession)
    (hn : (pluggableIds s).Nodup) (hl : ∀ i ∈ l, i < s.map_info_pluggable_.length)
    (hb : m.client_id ∉ builtinIds s) (h : SlotKept s j m d) :
    SlotKept (l.foldl (disconnectStep K env hw) s) j m d := by
  induction l generalizing s with
  | nil => exact h
  | cons i rest ih =>
    rw [List.foldl_cons]
    have hi := hl i (List.mem_cons_self _ _)
    refine ih _ ?_ ?_ ?_ (disconnectStep_kept K env hw s i j m d hn hi hb hf h)
    · rw [(disconnectStep_ids K env hw s i).1]; exact hn
    · intro k hk
      rw [disconnectStep_length]
      exact hl k (List.mem_cons_of_mem _ hk)
    · rw [(disconnectStep_ids K env hw s i).2]; exact hb

theorem disconnectFlag_of_not_connected (hw : List HWDisplayInfo) (sdm_id : Int)
    (h : ∀ info ∈ hw, info.display_id = sdm_id → info.is_connected = false) :
    disconnectFlag hw sdm_id = true := by
  induction hw with
  | nil => rfl
  | cons a rest ih =>
    unfold disconnectFlag
    by_cases ha : a.display_id ≠ sdm_id
    · rw [if_pos ha]
      exact ih (fun info hi => h info (List.mem_cons_of_mem _ hi))
    · rw [if_neg ha]
      have := h a (List.mem_cons_self _ _) (not_not.1 ha)
      simp [this]

theorem disconnectFlag_of_connected (hw : List HWDisplayInfo) (sdm_id : Int)
    (hn : (hw.map (fun info => info.display_id)).Nodup)
    (h : ∃ info ∈ hw, info.display_id = sdm_id ∧ info.is_connected = true) :
    disconnectFlag hw sdm_id = false := by
  induction hw with
  | nil =>
    obtain ⟨info, hi, -⟩ := h
    cases hi
  | cons a rest ih =>
    obtain ⟨info, hi, h1, h2⟩ := h
    rw [List.map_cons, List.nodup_cons] at hn
    unfold disconnectFlag
    by_cases ha : a.display_id ≠ sdm_id
    · rw [if_pos ha]
      rcases List.mem_cons.1 hi with e | hi1
      · exact absurd (e ▸ h1) ha
      · exact ih hn.2 ⟨info, hi1, h1, h2⟩
    · rw [if_neg ha]
      rcases List.mem_cons.1 hi with e | hi1
      · subst e; simp [h2]
      · exfalso
        apply hn.1
        rw [not_not.1 ha, ← h1]
        exact List.mem_map.2 ⟨info, hi1, rfl⟩

/-- C5. Disconnect pass. Let the pluggable slots have pairwise distinct client ids, none of
them shared with the primary or a built-in slot, and let `m` be the descriptor of the
pluggable slot at index `j` before the pass. `HandleDisconnectedDisplays` returns 0. If the
slot was bound and its hardware id is absent from the list or reported not connected,
then afterwards the slot is unbound: its `hwc_display_` entry is null, its descriptor is
reset, its pending-power flag is clear, and its client id is a key of neither
`map_active_displays_` nor `active_displays_`. If its hardware id is reported connected
(in a list with distinct display ids), the slot keeps its descriptor and its display
object unchanged. -/
theorem HandleDisconnectedDisplays_pass (K : HWCCallbacks) (env : Env) (s : HWCSession)
    (hw : List HWDisplayInfo) (j : Nat) (m : DisplayMapInfo)
    (hn : (pluggableIds s).Nodup)
    (hdisj : ∀ p ∈ s.map_info_pluggable_, p.client_id ∉ builtinIds s)
    (hm : s.map_info_pluggable_[j]? = some m) :
    (HandleDisconnectedDisplays K env s hw).1 = 0 ∧
    ((s.hwc_display_ m.client_id).isSome = true →
      (∀ info ∈ hw, info.display_id = m.sdm_id → info.is_connected = false) →
      (HandleDisconnectedDisplays K env s hw).2.hwc_display_ m.client_id = none ∧
      (HandleDisconnectedDisplays K env s hw).2.map_info_pluggable_[j]? = some m.Reset ∧
      (HandleDisconnectedDisplays K env s hw).2.pending_power_mode_ m.client_id = false ∧
      (∀ x ∈ (HandleDisconnectedDisplays K env s hw).2.map_active_displays_, x.1 ≠ m.client_id) ∧
      m.client_id ∉ (HandleDisconnectedDisplays K env s hw).2.active_displays_) ∧
    ((hw.map (fun info => info.display_id)).Nodup →
      (∃ info ∈ hw, info.display_id = m.sdm_id ∧ info.is_connected = true) →
      (HandleDisconnectedDisplays K env s hw).2.map_info_pluggable_[j]? = some m ∧
      (HandleDisconnectedDisplays K env s hw).2.hwc_display_ m.client_id
        = s.hwc_display_ m.client_id) := by
  have hj : j < s.map_info_pluggable_.length := by
    rcases Nat.lt_or_ge j s.map_info_pluggable_.length with h1 | h1
    · exact h1
    · rw [List.getElem?_eq_none h1] at hm; cases hm
  have hl : ∀ i ∈ List.range s.map_info_pluggable_.length, i < s.map_info_pluggable_.length :=
    fun i hi => List.mem_range.1 hi
  unfold HandleDisconnectedDisplays
  refine ⟨rfl, fun hb hdis => ?_, fun hnd hcon => ?_⟩
  · obtain ⟨g1, g2, g3, g4, g5⟩ := disconnectFold_hit K env hw j m
      (disconnectFlag_of_not_connected hw m.sdm_id hdis) _ s hn hl (List.nodup_range _)
      (List.mem_range.2 hj) ⟨hm, hb⟩
    exact ⟨g2, g1, g3, g4, g5⟩
  · exact disconnectFold_kept K env hw j m _ (disconnectFlag_of_connected hw m.sdm_id hnd hcon) _ s
      hn hl (hdisj m (List.getElem?_mem hm)) ⟨hm, rfl⟩

/-- Witness for C5: slot 1 holds hardware id 5, which the list reports disconnected. -/
theorem HandleDisconnectedDisplays_pass_witness :
    (exQueued.hwc_display_ 1).isSome = true ∧
    (HandleDisconnectedDisplays exLimits exEnvUnplug5 exQueued
      [{ display_id := 5, is_connected := false }]).2.hwc_display_ 1 = none ∧
    (HandleDisconnectedDisplays exLimits exEnvUnplug5 exQueued
      [{ display_id := 5, is_connected := false }]).2.map_info_pluggable_[0]?
        = some { client_id := 1 } :=
  ⟨by decide,
    ((HandleDisconnectedDisplays_pass exLimits exEnvUnplug5 exQueued
      [{ display_id := 5, is_connected := false }] 0
      { client_id := 1, sdm_id := 5, disp_type := .kPluggable }
      (by decide) (by decide) rfl).2.1 (by decide) (by decide)).1,
    ((HandleDisconnectedDisplays_pass exLimits exEnvUnplug5 exQueued
      [{ display_id := 5, is_connected := false }] 0
      { client_id := 1, sdm_id := 5, disp_type := .kPluggable }
      (by decide) (by decide) rfl).2.1 (by decide) (by decide)).2.1⟩

theorem createPluggableInSlots_cases (env : Env) (info : HWDisplayInfo)
    (slots : List DisplayMapInfo) (i : Nat) (acc : ConnectAcc)
    (hrel : ∀ k, slots[k]? = acc.state.map_info_pluggable_[i + k]?) :
    ((createPluggableInSlots env info i slots acc).state = acc.state ∧
      (createPluggableInSlots env info i slots acc).status = acc.status) ∨
    (∃ k mk, acc.state.map_info_pluggable_[k]? = some mk ∧
      acc.state.hwc_display_ mk.client_id = none ∧
      createPluggableInSlots env info i slots acc =
        createPluggableAt env info acc.state acc.status k mk) := by
  induction slots generalizing i acc with
  | nil => exact Or.inl ⟨rfl, rfl⟩
  | cons a rest ih =>
    unfold createPluggableInSlots
    cases hd : acc.state.hwc_display_ a.client_id with
    | some d =>
      dsimp only
      have := ih (i + 1) { acc with client_id := a.client_id } (fun k => by
        have := hrel (k + 1)
        simp only [List.getElem?_cons_succ] at this
        rw [this]
        congr 1
        omega)
      exact this
    | none =>
      dsimp only
      refine Or.inr ⟨i, a, ?_, hd, rfl⟩
      have := hrel 0
      simpa using this.symm

theorem map_client_id_set (l : List DisplayMapInfo) (k : Nat) (mk a : DisplayMapInfo)
    (hk : l[k]? = some mk) (ha : a.client_id = mk.client_id) :
    (l.set k a).map (fun m => m.client_id) = l.map (fun m => m.client_id) := by
  induction l generalizing k with
  | nil => rfl
  | cons b rest ih =>
    cases k with
    | zero =>
      simp only [List.getElem?_cons_zero, Option.some.injEq] at hk
      simp [ha, hk]
    | succ n =>
      simp only [List.getElem?_cons_succ] at hk
      simp only [List.set_cons_succ, List.map_cons]
      rw [ih n hk]

theorem client_ids_ne (s : HWCSession) (j k : Nat) (m mk : DisplayMapInfo)
    (hn : (pluggableIds s).Nodup) (hj : s.map_info_pluggable_[j]? = some m)
    (hk : s.map_info_pluggable_[k]? = some mk) (hjk : j ≠ k) : m.client_id ≠ mk.client_id :=
  ne_of_nodup_getElem? _ j k _ _ hn (client_id_of_getElem? s j m hj)
    (client_id_of_getElem? s k mk hk) hjk

theorem ConnInv_refl (s0 : HWCSession) (hw : List HWDisplayInfo) : ConnInv s0 hw s0 :=
  ⟨rfl, rfl, fun _ _ h _ => ⟨h, rfl⟩, fun j m _ hb hu => by rw [hu] at hb; cases hb⟩

theorem ConnInv_created (s0 : HWCSession) (hw : List HWDisplayInfo) (s : HWCSession)
    (hn : (pluggableIds s0).Nodup) (hinv : ConnInv s0 hw s)
    (k : Nat) (mk : DisplayMapInfo) (info : HWDisplayInfo) (d : HWCDisplay) (ev : Event)
    (hk : s.map_info_pluggable_[k]? = some mk)
    (hu : s.hwc_display_ mk.client_id = none)
    (hel : Eligible hw info.display_id)
    (hnew : ∀ p ∈ s.map_info_pluggable_, p.sdm_id ≠ info.display_id) :
    ConnInv s0 hw (bindPluggable (s.emit ev) k mk info d) := by
  obtain ⟨i1, i2, i3, i4⟩ := hinv
  have hn1 : (pluggableIds s).Nodup := by rw [i1]; exact hn
  have hmipl : (bindPluggable (s.emit ev) k mk info d).map_info_pluggable_ =
      s.map_info_pluggable_.set k ⟨mk.client_id, info.display_id, info.display_type,
        testPattern (s.emit ev)⟩ := rfl
  have hhwc : (bindPluggable (s.emit ev) k mk info d).hwc_display_ =
      Function.update s.hwc_display_ mk.client_id (some d) := rfl
  refine ⟨?_, ?_, fun j m h0 hb => ?_, fun j m hj hb h0 => ?_⟩
  · unfold pluggableIds
    rw [hmipl]
    refine (map_client_id_set _ k mk _ hk ?_).trans i1
    rfl
  · exact i2
  · obtain ⟨g1, g2⟩ := i3 j m h0 hb
    have hjk : j ≠ k := by
      intro e
      subst e
      rw [hk] at g1
      cases g1
      rw [hu] at g2
      rw [← g2] at hb
      cases hb
    rw [hmipl, hhwc, getElem?_pluggable_set_ne _ _ _ _ hjk.symm,
      Function.update_noteq (client_ids_ne s j k m mk hn1 g1 hk hjk)]
    exact ⟨g1, g2⟩
  · rw [hmipl] at hj ⊢
    by_cases hjk : j = k
    · subst hjk
      rw [getElem?_pluggable_set_eq _ _ _ mk hk] at hj
      cases hj
      refine ⟨hel, fun k2 p hk2 hp => ?_⟩
      rw [getElem?_pluggable_set_ne _ _ _ _ (Ne.symm hk2)] at hp
      exact hnew p (List.getElem?_mem hp)
    · rw [getElem?_pluggable_set_ne _ _ _ _ (Ne.symm hjk)] at hj
      rw [hhwc, Function.update_noteq (client_ids_ne s j k m mk hn1 hj hk hjk)] at hb
      obtain ⟨g1, g2⟩ := i4 j m hj hb h0
      refine ⟨g1, fun k2 p hk2 hp => ?_⟩
      by_cases hk2k : k2 = k
      · subst hk2k
        rw [getElem?_pluggable_set_eq _ _ _ mk hk] at hp
        cases hp
        exact (hnew m (List.getElem?_mem hj)).symm
      · rw [getElem?_pluggable_set_ne _ _ _ _ (Ne.symm hk2k)] at hp
        exact g2 k2 p hk2 hp

theorem ConnInv_failed (s0 : HWCSession) (hw : List HWDisplayInfo) (s : HWCSession)
    (hinv : ConnInv s0 hw s)
    (k : Nat) (mk : DisplayMapInfo) (tp : Bool) (ev : Event)
    (hk : s.map_info_pluggable_[k]? = some mk)
    (hu : s.hwc_display_ mk.client_id = none) :
    ConnInv s0 hw ((s.setMapInfo (.pluggable k) { mk with test_pattern := tp }).emit ev) := by
  obtain ⟨i1, i2, i3, i4⟩ := hinv
  have hmipl : ((s.setMapInfo (.pluggable k) { mk with test_pattern := tp }).emit
      ev).map_info_pluggable_ = s.map_info_pluggable_.set k { mk with test_pattern := tp } := rfl
  have hhwc : ((s.setMapInfo (.pluggable k) { mk with test_pattern := tp }).emit
      ev).hwc_display_ = s.hwc_display_ := rfl
  refine ⟨?_, ?_, fun j m h0 hb => ?_, fun j m hj hb h0 => ?_⟩
  · unfold pluggableIds
    rw [hmipl]
    refine (map_client_id_set _ k mk _ hk ?_).trans i1
    rfl
  · exact i2
  · obtain ⟨g1, g2⟩ := i3 j m h0 hb
    have hjk : j ≠ k := by
      intro e
      subst e
      rw [hk] at g1
      cases g1
      rw [hu] at g2
      rw [← g2] at hb
      cases hb
    rw [hmipl, hhwc, getElem?_pluggable_set_ne _ _ _ _ hjk.symm]
    exact ⟨g1, g2⟩
  · rw [hmipl] at hj ⊢
    rw [hhwc] at hb
    by_cases hjk : j = k
    · subst hjk
      rw [getElem?_pluggable_set_eq _ _ _ mk hk] at hj
      cases hj
      rw [hu] at hb
      cases hb
    · rw [getElem?_pluggable_set_ne _ _ _ _ (Ne.symm hjk)] at hj
      obtain ⟨g1, g2⟩ := i4 j m hj hb h0
      refine ⟨g1, fun k2 p hk2 hp => ?_⟩
      by_cases hk2k : k2 = k
      · subst hk2k
        rw [getElem?_pluggable_set_eq _ _ _ mk hk] at hp
        cases hp
        exact g2 k2 mk hk2 hk
      · rw [getElem?_pluggable_set_ne _ _ _ _ (Ne.symm hk2k)] at hp
        exact g2 k2 p hk2 hp

theorem ConnInv_createPluggableAt (env : Env) (s0 : HWCSession) (hw : List HWDisplayInfo)
    (s : HWCSession) (hn : (pluggableIds s0).Nodup) (hinv : ConnInv s0 hw s)
    (k : Nat) (mk : DisplayMapInfo) (info : HWDisplayInfo) (status : Int)
    (hk : s.map_info_pluggable_[k]? = some mk)
    (hu : s.hwc_display_ mk.client_id = none)
    (hel : Eligible hw info.display_id)
    (hnew : ∀ p ∈ s.map_info_pluggable_, p.sdm_id ≠ info.display_id) :
    ConnInv s0 hw (createPluggableAt env info s status k mk).state := by
  unfold createPluggableAt
  split
  · exact ConnInv_failed s0 hw s hinv k mk _ _ hk hu
  · exact ConnInv_created s0 hw s hn hinv k mk info _ _ hk hu hel hnew

theorem ConnInv_createPluggableInSlots (env : Env) (s0 : HWCSession) (hw : List HWDisplayInfo)
    (acc : ConnectAcc) (hn : (pluggableIds s0).Nodup) (hinv : ConnInv s0 hw acc.state)
    (info : HWDisplayInfo) (hel : Eligible hw info.display_id)
    (hnew : ∀ p ∈ acc.state.map_info_pluggable_, p.sdm_id ≠ info.display_id) :
    ConnInv s0 hw
      (createPluggableInSlots env info 0 acc.state.map_info_pluggable_ acc).state := by
  rcases createPluggableInSlots_cases env info acc.state.map_info_pluggable_ 0 acc
    (fun k => by simp) with ⟨h, -⟩ | ⟨k, mk, hk, hu, h⟩
  · rw [h]; exact hinv
  · rw [h]
    exact ConnInv_createPluggableAt env s0 hw acc.state hn hinv k mk info _ hk hu hel hnew

theorem ConnInv_of_frame (s0 : HWCSession) (hw : List HWDisplayInfo) (s t : HWCSession)
    (hinv : ConnInv s0 hw s)
    (h1 : t.map_info_pluggable_ = s.map_info_pluggable_)
    (h2 : builtinIds t = builtinIds s)
    (h3 : ∀ c ∈ pluggableIds s, t.hwc_display_ c = s.hwc_display_ c) :
    ConnInv s0 hw t := by
  obtain ⟨i1, i2, i3, i4⟩ := hinv
  have hmem : ∀ (j : Nat) (m : DisplayMapInfo), s.map_info_pluggable_[j]? = some m →
      m.client_id ∈ pluggableIds s := fun j m hj =>
    List.mem_map.2 ⟨m, List.getElem?_mem hj, rfl⟩
  refine ⟨?_, h2.trans i2, fun j m h0 hb => ?_, fun j m hj hb h0 => ?_⟩
  · unfold pluggableIds at i1 ⊢
    rw [h1]; exact i1
  · obtain ⟨g1, g2⟩ := i3 j m h0 hb
    rw [h1, h3 _ (hmem j m g1)]
    exact ⟨g1, g2⟩
  · rw [h1] at hj ⊢
    rw [h3 _ (hmem j m hj)] at hb
    exact i4 j m hj hb h0

theorem ConnInv_of_WaitEffect (s0 : HWCSession) (hw : List HWDisplayInfo) (s t : HWCSession)
    (a : Display) (hinv : ConnInv s0 hw s) (hw1 : WaitEffect s t a)
    (ha : a ∉ pluggableIds s) : ConnInv s0 hw t := by
  obtain ⟨w0, -, w2, -⟩ := WaitEffect_frame hw1
  simp only [descriptors, Prod.mk.injEq] at w0
  refine ConnInv_of_frame s0 hw s t hinv w0.2.2.1 (builtinIds_of_descriptors w0.1 w0.2.1)
    (fun c hc => w2 c (fun e => ha (e ▸ hc)))

theorem deferConnect_eq (K : HWCCallbacks) (s : HWCSession) :
    ∃ tr, deferConnect K s = { s with trace := tr } := by
  unfold deferConnect
  split_ifs
  · exact ⟨_, rfl⟩
  · exact ⟨_, rfl⟩
  · exact ⟨_, rfl⟩

theorem connectLoop_inv (K : HWCCallbacks) (env : Env) (s0 : HWCSession)
    (hw : List HWDisplayInfo) (hn : (pluggableIds s0).Nodup)
    (rest : List HWDisplayInfo) (acc : ConnectAcc)
    (hsub : ∀ info ∈ rest, info ∈ hw) (hinv : ConnInv s0 hw acc.state) :
    ConnInv s0 hw (connectLoop K env rest acc).state := by
  induction rest generalizing acc with
  | nil => exact hinv
  | cons info tail ih =>
    have hsub1 : ∀ x ∈ tail, x ∈ hw := fun x hx => hsub x (List.mem_cons_of_mem _ hx)
    unfold connectLoop
    by_cases c1 : info.is_primary = true ∨ info.display_type ≠ DisplayType.kPluggable ∨
        info.is_connected = false
    · rw [if_pos c1]; exact ih acc hsub1 hinv
    rw [if_neg c1]
    by_cases c2 : acc.state.map_info_pluggable_.any (fun p => p.sdm_id == info.display_id) = true
    · rw [if_pos c2]; exact ih acc hsub1 hinv
    rw [if_neg c2]
    by_cases c3 : acc.state.disable_hotplug_bwcheck_ = 0 ∧ firstCommitPending acc.state = true
    · rw [if_pos c3]
      obtain ⟨tr, h⟩ := deferConnect_eq K acc.state
      dsimp only
      rw [h]
      exact ConnInv_of_frame s0 hw acc.state _ hinv rfl rfl (fun _ _ => rfl)
    rw [if_neg c3]
    refine ih _ hsub1 (ConnInv_createPluggableInSlots env s0 hw acc hn hinv info ?_ ?_)
    · refine ⟨info, hsub info (List.mem_cons_self _ _), rfl, ?_, ?_, ?_⟩
      · cases h : info.is_primary with
        | false => rfl
        | true => exact absurd (Or.inl h) c1
      · by_contra h
        exact c1 (Or.inr (Or.inl h))
      · cases h : info.is_connected with
        | true => rfl
        | false => exact absurd (Or.inr (Or.inr h)) c1
    · intro p hp e
      apply c2
      rw [List.any_eq_true]
      exact ⟨p, hp, by simpa using e⟩

theorem HandleConnectedDisplays_inv (K : HWCCallbacks) (env : Env) (s : HWCSession)
    (hw : List HWDisplayInfo) (delay_hotplug : Bool)
    (hn : (pluggableIds s).Nodup)
    (hdisj : ∀ p ∈ s.map_info_pluggable_, p.client_id ∉ builtinIds s) :
    ConnInv s hw (HandleConnectedDisplays K env s hw delay_hotplug).2 := by
  have h0 := connectLoop_inv K env s hw hn hw ⟨s, 0, 0⟩ (fun _ h => h) (ConnInv_refl s hw)
  unfold HandleConnectedDisplays finishConnect
  generalize connectLoop K env hw ⟨s, 0, 0⟩ = acc at h0 ⊢
  have hnotify : ∀ u : HWCSession, ConnInv s hw u → ConnInv s hw (notifyPendingHotplugs u) :=
    fun u hu => ConnInv_of_frame s hw u _ hu rfl rfl (fun _ _ => rfl)
  have hwait : GetActiveBuiltinDisplay K acc.state < K.kNumDisplays →
      ConnInv s hw (WaitForResources env acc.state delay_hotplug
        (GetActiveBuiltinDisplay K acc.state) acc.client_id).2 := by
    intro ha
    refine ConnInv_of_WaitEffect s hw acc.state _ _ h0 (WaitForResources_effect _ _ _ _ _) ?_
    intro hmem
    have hb := (GetActiveBuiltinDisplay_spec K acc.state ha).1
    rw [h0.2.1] at hb
    rw [h0.1] at hmem
    obtain ⟨p, hp, hpe⟩ := List.mem_map.1 hmem
    exact hdisj p hp (hpe ▸ hb)
  split_ifs with c1 c2 c3
  · exact h0
  · exact hwait c2
  · exact hnotify _ (hwait c2)
  · exact hnotify _ h0

theorem getElem?_of_pluggableIds_eq (s t : HWCSession) (h : pluggableIds t = pluggableIds s)
    (i : Nat) (mt : DisplayMapInfo) (ht : t.map_info_pluggable_[i]? = some mt) :
    ∃ ms, s.map_info_pluggable_[i]? = some ms ∧ ms.client_id = mt.client_id := by
  have h1 := client_id_of_getElem? t i mt ht
  rw [h] at h1
  unfold pluggableIds at h1
  rw [List.getElem?_map] at h1
  cases hs : s.map_info_pluggable_[i]? with
  | none => rw [hs] at h1; cases h1
  | some ms =>
    rw [hs] at h1
    exact ⟨ms, rfl, by simpa using h1⟩

/-- C4. No double bind in the connect pass. Let the pluggable slots have pairwise distinct
client ids, none shared with the primary or a built-in slot. After
`HandleConnectedDisplays`: (a) every pluggable slot that was bound before the pass has the
same descriptor (so the same hardware id) and the same display object; (b) every pluggable
slot that is bound after the pass but was unbound before it records the id of a connected,
non-primary pluggable display of the hardware list, and no other pluggable slot records
that id; (c) hence, if the bound pluggable slots recorded pairwise distinct hardware ids
before the pass, they do so after it. -/
theorem HandleConnectedDisplays_no_double_bind (K : HWCCallbacks) (env : Env) (s : HWCSession)
    (hw : List HWDisplayInfo) (delay_hotplug : Bool)
    (hn : (pluggableIds s).Nodup)
    (hdisj : ∀ p ∈ s.map_info_pluggable_, p.client_id ∉ builtinIds s) :
    (∀ (j : Nat) (m : DisplayMapInfo), s.map_info_pluggable_[j]? = some m →
      (s.hwc_display_ m.client_id).isSome = true →
      (HandleConnectedDisplays K env s hw delay_hotplug).2.map_info_pluggable_[j]? = some m ∧
      (HandleConnectedDisplays K env s hw delay_hotplug).2.hwc_display_ m.client_id
        = s.hwc_display_ m.client_id) ∧
    (∀ (j : Nat) (m : DisplayMapInfo),
      (HandleConnectedDisplays K env s hw delay_hotplug).2.map_info_pluggable_[j]? = some m →
      ((HandleConnectedDisplays K env s hw delay_hotplug).2.hwc_display_ m.client_id).isSome
        = true →
      s.hwc_display_ m.client_id = none →
      (∃ info ∈ hw, info.display_id = m.sdm_id ∧ info.is_primary = false ∧
        info.display_type = DisplayType.kPluggable ∧ info.is_connected = true) ∧
      ∀ (k : Nat) (p : DisplayMapInfo), k ≠ j →
        (HandleConnectedDisplays K env s hw delay_hotplug).2.map_info_pluggable_[k]? = some p →
        p.sdm_id ≠ m.sdm_id) ∧
    (BoundIdsDistinct s →
      BoundIdsDistinct (HandleConnectedDisplays K env s hw delay_hotplug).2) := by
  obtain ⟨i1, i2, i3, i4⟩ := HandleConnectedDisplays_inv K env s hw delay_hotplug hn hdisj
  refine ⟨i3, i4, fun hd => ?_⟩
  intro i j mi mj hij hi hj hbi hbj
  obtain ⟨si, hsi, hci⟩ := getElem?_of_pluggableIds_eq s _ i1 i mi hi
  obtain ⟨sj, hsj, hcj⟩ := getElem?_of_pluggableIds_eq s _ i1 j mj hj
  cases hui : s.hwc_display_ mi.client_id with
  | none => exact ((i4 i mi hi hbi hui).2 j mj (Ne.symm hij) hj).symm
  | some di =>
    cases huj : s.hwc_display_ mj.client_id with
    | none => exact (i4 j mj hj hbj huj).2 i mi hij hi
    | some dj =>
      have hbi0 : (s.hwc_display_ si.client_id).isSome = true := by rw [hci, hui]; rfl
      have hbj0 : (s.hwc_display_ sj.client_id).isSome = true := by rw [hcj, huj]; rfl
      have ei := (i3 i si hsi hbi0).1
      have ej := (i3 j sj hsj hbj0).1
      rw [hi] at ei
      rw [hj] at ej
      cases ei
      cases ej
      exact hd i j mi mj hij hsi hsj hbi0 hbj0

/-- Witness for C4: with display 5 bound in slot 1, a pass over the hardware list
`[5, 6]` keeps slot 1 as it is. -/
theorem HandleConnectedDisplays_no_double_bind_witness :
    (HandleConnectedDisplays exLimits exEnvPlug56 exConnected
      [{ display_id := 5 }, { display_id := 6 }] false).2.map_info_pluggable_[0]?
        = some { client_id := 1, sdm_id := 5, disp_type := .kPluggable } ∧
    (HandleConnectedDisplays exLimits exEnvPlug56 exConnected
      [{ display_id := 5 }, { display_id := 6 }] false).2.hwc_display_ 1
        = exConnected.hwc_display_ 1 :=
  (HandleConnectedDisplays_no_double_bind exLimits exEnvPlug56 exConnected
    [{ display_id := 5 }, { display_id := 6 }] false (by decide) (by decide)).1 0
    { client_id := 1, sdm_id := 5, disp_type := .kPluggable } rfl (by decide)

/-- Witness for C10: display 5 is bound in slot 1 with its first commit pending when
display 6 shows up. -/
theorem HandleConnectedDisplays_bandwidth_gate_witness :
    (HandleConnectedDisplays exLimits exEnvPlug56 exQueued
      [{ display_id := 5 }, { display_id := 6 }] true).1 = -EAGAIN ∧
    pluggableCreateCalls (HandleConnectedDisplays exLimits exEnvPlug56 exQueued
      [{ display_id := 5 }, { display_id := 6 }] true).2.trace
      = pluggableCreateCalls exQueued.trace ∧
    (∀ c, ((HandleConnectedDisplays exLimits exEnvPlug56 exQueued
      [{ display_id := 5 }, { display_id := 6 }] true).2.hwc_display_ c).isSome
      = (exQueued.hwc_display_ c).isSome) ∧
    (HandleConnectedDisplays exLimits exEnvPlug56 exQueued
      [{ display_id := 5 }, { display_id := 6 }] true).2.map_info_pluggable_
      = exQueued.map_info_pluggable_ :=
  HandleConnectedDisplays_bandwidth_gate exLimits exEnvPlug56 exQueued
    [{ display_id := 5 }, { display_id := 6 }] true rfl
    ⟨{ client_id := 1, sdm_id := 5, disp_type := .kPluggable }, by decide,
      { display_class := .DISPLAY_CLASS_PLUGGABLE }, by decide, rfl⟩
    ⟨{ display_id := 6 }, by decide, rfl, rfl, rfl, by decide⟩

theorem QueueInv_of_frame (s t : HWCSession) (h : QueueInv s)
    (h1 : t.pending_hotplugs_ = s.pending_hotplugs_)
    (h2 : ∀ c, (t.hwc_display_ c).isSome = (s.hwc_display_ c).isSome) : QueueInv t := by
  obtain ⟨q1, q2⟩ := h
  refine ⟨by rw [h1]; exact q1, fun c hc => ?_⟩
  rw [h2 c]
  exact q2 c (h1 ▸ hc)

theorem QueueInv_createPluggableAt (env : Env) (info : HWDisplayInfo) (s : HWCSession)
    (status : Int) (k : Nat) (mk : DisplayMapInfo) (h : QueueInv s)
    (hu : s.hwc_display_ mk.client_id = none) :
    QueueInv (createPluggableAt env info s status k mk).state := by
  obtain ⟨q1, q2⟩ := h
  unfold createPluggableAt
  split
  · exact ⟨q1, q2⟩
  · rename_i d hd
    have hq : (bindPluggable (s.emit (.PluggableCreate mk.client_id info.display_id
        (testPattern s))) k mk info d).pending_hotplugs_
        = s.pending_hotplugs_ ++ [mk.client_id] := rfl
    have hh : (bindPluggable (s.emit (.PluggableCreate mk.client_id info.display_id
        (testPattern s))) k mk info d).hwc_display_
        = Function.update s.hwc_display_ mk.client_id (some d) := rfl
    have hnot : mk.client_id ∉ s.pending_hotplugs_ := by
      intro hm
      have := q2 _ hm
      rw [hu] at this
      cases this
    refine ⟨?_, fun c hc => ?_⟩
    · rw [hq]
      exact List.Nodup.append q1 (List.nodup_singleton _) (by
        intro a ha hb
        rw [List.mem_singleton] at hb
        exact hnot (hb ▸ ha))
    · rw [hq] at hc
      rw [hh]
      rcases List.mem_append.1 hc with h1 | h1
      · have hne : c ≠ mk.client_id := fun e => hnot (e ▸ h1)
        rw [Function.update_noteq hne]
        exact q2 c h1
      · rw [List.mem_singleton] at h1
        rw [h1, Function.update_same]
        rfl

theorem QueueInv_createPluggableInSlots (env : Env) (info : HWDisplayInfo) (acc : ConnectAcc)
    (h : QueueInv acc.state) :
    QueueInv (createPluggableInSlots env info 0 acc.state.map_info_pluggable_ acc).state := by
  rcases createPluggableInSlots_cases env info acc.state.map_info_pluggable_ 0 acc
    (fun k => by simp) with ⟨e, -⟩ | ⟨k, mk, -, hu, e⟩
  · rw [e]; exact h
  · rw [e]; exact QueueInv_createPluggableAt env info acc.state _ k mk h hu

theorem connectLoop_queue (K : HWCCallbacks) (env : Env) (rest : List HWDisplayInfo)
    (acc : ConnectAcc) (h : QueueInv acc.state) :
    QueueInv (connectLoop K env rest acc).state := by
  induction rest generalizing acc with
  | nil => exact h
  | cons info tail ih =>
    unfold connectLoop
    split_ifs
    · exact ih acc h
    · exact ih acc h
    · obtain ⟨tr, e⟩ := deferConnect_eq K acc.state
      dsimp only
      rw [e]
      exact QueueInv_of_frame acc.state _ h rfl (fun _ => rfl)
    · exact ih _ (QueueInv_createPluggableInSlots env info acc h)

/-- The connect pass keeps the queue invariant. -/
theorem HandleConnectedDisplays_queue (K : HWCCallbacks) (env : Env) (s : HWCSession)
    (hw : List HWDisplayInfo) (delay_hotplug : Bool) (h : QueueInv s) :
    QueueInv (HandleConnectedDisplays K env s hw delay_hotplug).2 := by
  have h0 := connectLoop_queue K env hw ⟨s, 0, 0⟩ h
  unfold HandleConnectedDisplays finishConnect
  generalize connectLoop K env hw ⟨s, 0, 0⟩ = acc at h0 ⊢
  have hnotify : ∀ u : HWCSession, QueueInv (notifyPendingHotplugs u) :=
    fun u => ⟨List.nodup_nil, fun c hc => by cases hc⟩
  have hwait : QueueInv (WaitForResources env acc.state delay_hotplug
      (GetActiveBuiltinDisplay K acc.state) acc.client_id).2 := by
    obtain ⟨-, w1, -, -, -, -, w6, -⟩ := WaitEffect_frame (WaitForResources_effect env acc.state
      delay_hotplug (GetActiveBuiltinDisplay K acc.state) acc.client_id)
    exact QueueInv_of_frame acc.state _ h0 w6 w1
  split_ifs
  · exact h0
  · exact hwait
  · exact hnotify _
  · exact hnotify _

theorem disconnectStep_queue (K : HWCCallbacks) (env : Env) (hw : List HWDisplayInfo)
    (s : HWCSession) (i : Nat) (h : QueueInv s) : QueueInv (disconnectStep K env hw s i) := by
  rcases disconnectStep_cases K env hw s i with ⟨-, e⟩ | ⟨-, e⟩
  · rw [e]; exact h
  · obtain ⟨q1, q2⟩ := h
    obtain ⟨e1, -, e3, -⟩ := e
    refine ⟨by rw [e1]; exact q1.erase _, fun c hc => ?_⟩
    rw [e1] at hc
    have hne : c ≠ (s.mapInfo (.pluggable i)).client_id := fun e => by
      rw [e] at hc
      exact (List.Nodup.not_mem_erase q1) hc
    rw [e3 c hne]
    exact q2 c (List.mem_of_mem_erase hc)

/-- The disconnect pass keeps the queue invariant. -/
theorem HandleDisconnectedDisplays_queue (K : HWCCallbacks) (env : Env) (s : HWCSession)
    (hw : List HWDisplayInfo) (h : QueueInv s) :
    QueueInv (HandleDisconnectedDisplays K env s hw).2 := by
  unfold HandleDisconnectedDisplays
  dsimp only
  generalize List.range s.map_info_pluggable_.length = l
  induction l generalizing s with
  | nil => exact h
  | cons i rest ih =>
    rw [List.foldl_cons]
    exact ih _ (disconnectStep_queue K env hw s i h)

/-- A whole hotplug pass keeps the queue invariant. -/
theorem HandlePluggableDisplays_queue (K : HWCCallbacks) (env : Env) (s : HWCSession)
    (delay_hotplug : Bool) (r : Int × HWCSession) (h : QueueInv s)
    (hr : HandlePluggableDisplays K env s delay_hotplug = some r) : QueueInv r.2 := by
  unfold HandlePluggableDisplays at hr
  have hdefer : QueueInv (deferHotplug s).2 := QueueInv_of_frame s _ h rfl (fun _ => rfl)
  split_ifs at hr
  · cases hr; exact hdefer
  · cases hr; exact hdefer
  · cases hs : env.displays_status with
    | none => rw [hs] at hr; cases hr; exact h
    | some hw =>
      rw [hs] at hr
      cases hr
      unfold reconcile
      rw [if_neg (by simp [HandleDisconnectedDisplays])]
      have h1 := HandleConnectedDisplays_queue K env _ hw delay_hotplug
        (HandleDisconnectedDisplays_queue K env s hw h)
      unfold hotplugOutcome
      split_ifs
      · exact QueueInv_of_frame _ _ h1 rfl (fun _ => rfl)
      · exact QueueInv_of_frame _ _ h1 rfl (fun _ => rfl)
      · exact QueueInv_of_frame _ _ h1 rfl (fun _ => rfl)
      · exact QueueInv_of_frame _ _ h1 rfl (fun _ => rfl)

theorem connectNotices_append (t ev : List Event) :
    connectNotices (t ++ ev) = connectNotices t ++ connectNotices ev := by
  unfold connectNotices
  exact List.filterMap_append _ _ _

theorem connectNotices_of_WaitEffect {s t : HWCSession} {a : Display} (h : WaitEffect s t a) :
    connectNotices t.trace = connectNotices s.trace := by
  obtain ⟨hd, rr, crf, tr, ev, e, f, -, -, r⟩ := h
  subst e
  subst f
  show connectNotices (s.trace ++ ev) = _
  rw [connectNotices_append]
  have : connectNotices ev = [] := by
    unfold connectNotices
    rw [List.filterMap_eq_nil_iff]
    intro e he
    have := r e he
    cases e <;> simp_all [Event.isRefreshOrNotice]
  rw [this, List.append_nil]

theorem createPluggableAt_connectNotices (env : Env) (info : HWDisplayInfo) (s : HWCSession)
    (status : Int) (i : Nat) (m : DisplayMapInfo) :
    connectNotices (createPluggableAt env info s status i m).state.trace
      = connectNotices s.trace := by
  unfold createPluggableAt
  cases env.pluggable_create m.client_id info.display_id (testPattern s) with
  | failed e =>
    show connectNotices (s.trace ++ [_]) = _
    rw [connectNotices_append]
    simp [connectNotices]
  | created d =>
    show connectNotices (s.trace ++ [_]) = _
    rw [connectNotices_append]
    simp [connectNotices]

theorem createPluggableInSlots_connectNotices (env : Env) (info : HWDisplayInfo)
    (slots : List DisplayMapInfo) (i : Nat) (acc : ConnectAcc) :
    connectNotices (createPluggableInSlots env info i slots acc).state.trace
      = connectNotices acc.state.trace := by
  induction slots generalizing i acc with
  | nil => rfl
  | cons a rest ih =>
    unfold createPluggableInSlots
    cases hd : acc.state.hwc_display_ a.client_id with
    | some d => exact ih (i + 1) { acc with client_id := a.client_id }
    | none => exact createPluggableAt_connectNotices env info acc.state acc.status i a

theorem connectLoop_connectNotices (K : HWCCallbacks) (env : Env) (hw : List HWDisplayInfo)
    (acc : ConnectAcc) :
    connectNotices (connectLoop K env hw acc).state.trace = connectNotices acc.state.trace := by
  induction hw generalizing acc with
  | nil => rfl
  | cons a rest ih =>
    unfold connectLoop
    by_cases c1 : a.is_primary = true ∨ a.display_type ≠ DisplayType.kPluggable ∨
        a.is_connected = false
    · rw [if_pos c1]; exact ih acc
    rw [if_neg c1]
    by_cases c2 : acc.state.map_info_pluggable_.any (fun p => p.sdm_id == a.display_id) = true
    · rw [if_pos c2]; exact ih acc
    rw [if_neg c2]
    by_cases c3 : acc.state.disable_hotplug_bwcheck_ = 0 ∧ firstCommitPending acc.state = true
    · rw [if_pos c3]
      exact connectNotices_of_WaitEffect
        (deferConnect_effect K acc.state (GetActiveBuiltinDisplay K acc.state))
    · rw [if_neg c3, ih]
      exact createPluggableInSlots_connectNotices env a _ 0 acc

theorem connectNotices_notifyPendingHotplugs (s : HWCSession) :
    connectNotices (notifyPendingHotplugs s).trace
      = connectNotices s.trace ++ s.pending_hotplugs_ := by
  show connectNotices (s.trace ++ _) = _
  rw [connectNotices_append]
  congr 1
  unfold connectNotices
  induction s.pending_hotplugs_ with
  | nil => rfl
  | cons c rest ih => simp [List.filterMap_cons, ih]
/-- C11 (amended). In every run of `HandleConnectedDisplays` the loop over the hardware
list issues no connect notification. When the queue is not empty after the loop and a
built-in display is active, `WaitForResources` runs: if it fails the function returns
`-EAGAIN`, issues no connect notification and leaves `pending_hotplugs_` as the loop left
it; if it succeeds, `callbacks_.Hotplug(id, true)` is issued after it, once per queue
entry in queue order, and the queue is emptied. When no built-in display is active the
wait is skipped and the queued notifications are issued all the same. -/
theorem HandleConnectedDisplays_notifies_after_wait (K : HWCCallbacks) (env : Env)
    (s : HWCSession) (hw : List HWDisplayInfo) (delay_hotplug : Bool) :
    connectNotices (afterConnectLoop K env s hw).state.trace = connectNotices s.trace ∧
    ((afterConnectLoop K env s hw).state.pending_hotplugs_ = [] →
      HandleConnectedDisplays K env s hw delay_hotplug =
        ((afterConnectLoop K env s hw).status, (afterConnectLoop K env s hw).state)) ∧
    ((afterConnectLoop K env s hw).state.pending_hotplugs_ ≠ [] →
      GetActiveBuiltinDisplay K (afterConnectLoop K env s hw).state < K.kNumDisplays →
      (readinessWait K env (afterConnectLoop K env s hw) delay_hotplug).1 ≠ HWC3Error.None →
      HandleConnectedDisplays K env s hw delay_hotplug =
        (-EAGAIN, (readinessWait K env (afterConnectLoop K env s hw) delay_hotplug).2) ∧
      connectNotices (HandleConnectedDisplays K env s hw delay_hotplug).2.trace
        = connectNotices s.trace ∧
      (HandleConnectedDisplays K env s hw delay_hotplug).2.pending_hotplugs_
        = (afterConnectLoop K env s hw).state.pending_hotplugs_) ∧
    ((afterConnectLoop K env s hw).state.pending_hotplugs_ ≠ [] →
      GetActiveBuiltinDisplay K (afterConnectLoop K env s hw).state < K.kNumDisplays →
      (readinessWait K env (afterConnectLoop K env s hw) delay_hotplug).1 = HWC3Error.None →
      (HandleConnectedDisplays K env s hw delay_hotplug).1 = (afterConnectLoop K env s hw).status ∧
      (HandleConnectedDisplays K env s hw delay_hotplug).2.trace
        = (readinessWait K env (afterConnectLoop K env s hw) delay_hotplug).2.trace ++
          hotplugCalls (afterConnectLoop K env s hw).state.pending_hotplugs_ ∧
      connectNotices (HandleConnectedDisplays K env s hw delay_hotplug).2.trace
        = connectNotices s.trace ++ (afterConnectLoop K env s hw).state.pending_hotplugs_ ∧
      (HandleConnectedDisplays K env s hw delay_hotplug).2.pending_hotplugs_ = []) ∧
    ((afterConnectLoop K env s hw).state.pending_hotplugs_ ≠ [] →
      ¬ GetActiveBuiltinDisplay K (afterConnectLoop K env s hw).state < K.kNumDisplays →
      (HandleConnectedDisplays K env s hw delay_hotplug).1 = (afterConnectLoop K env s hw).status ∧
      (HandleConnectedDisplays K env s hw delay_hotplug).2.trace
        = (afterConnectLoop K env s hw).state.trace ++
          hotplugCalls (afterConnectLoop K env s hw).state.pending_hotplugs_ ∧
      connectNotices (HandleConnectedDisplays K env s hw delay_hotplug).2.trace
        = connectNotices s.trace ++ (afterConnectLoop K env s hw).state.pending_hotplugs_ ∧
      (HandleConnectedDisplays K env s hw delay_hotplug).2.pending_hotplugs_ = []) := by
  have hloop : connectNotices (afterConnectLoop K env s hw).state.trace = connectNotices s.trace :=
    connectLoop_connectNotices K env hw ⟨s, 0, 0⟩
  have hwait := WaitForResources_effect env (afterConnectLoop K env s hw).state delay_hotplug
    (GetActiveBuiltinDisplay K (afterConnectLoop K env s hw).state)
    (afterConnectLoop K env s hw).client_id
  have hrun : HandleConnectedDisplays K env s hw delay_hotplug
      = finishConnect K env (afterConnectLoop K env s hw) delay_hotplug := rfl
  rw [hrun]
  generalize afterConnectLoop K env s hw = acc at hloop hwait ⊢
  have hw1 := connectNotices_of_WaitEffect hwait
  have hw2 := (WaitEffect_frame hwait).2.2.2.2.2.2.1
  unfold readinessWait
  refine ⟨hloop, ?_, ?_, ?_, ?_⟩
  · intro h0
    unfold finishConnect
    rw [if_pos h0]
  · intro h0 ha hf
    unfold finishConnect
    rw [if_neg h0, if_pos ha, if_pos hf]
    exact ⟨rfl, hw1.trans hloop, hw2⟩
  · intro h0 ha hf
    unfold finishConnect
    rw [if_neg h0, if_pos ha, if_neg (not_not.mpr hf)]
    refine ⟨rfl, ?_, ?_, rfl⟩
    · show (notifyPendingHotplugs _).trace = _
      unfold notifyPendingHotplugs hotplugCalls
      dsimp only
      rw [hw2]
    · show connectNotices (notifyPendingHotplugs _).trace = _
      rw [connectNotices_notifyPendingHotplugs, hw1, hw2, hloop]
  · intro h0 ha
    unfold finishConnect
    rw [if_neg h0, if_neg ha]
    refine ⟨rfl, rfl, ?_, rfl⟩
    show connectNotices (notifyPendingHotplugs acc.state).trace = _
    rw [connectNotices_notifyPendingHotplugs, hloop]

/-- Witness for C11 (amended): with the primary active and nobody signalling the resource
wait, the pass binds slot 1, returns `-EAGAIN`, keeps the id queued and notifies
nobody. -/
theorem HandleConnectedDisplays_notifies_after_wait_witness :
    HandleConnectedDisplays exLimits exEnvNoSignal exIdle [{ display_id := 5 }] true =
      (-EAGAIN, (readinessWait exLimits exEnvNoSignal
        (afterConnectLoop exLimits exEnvNoSignal exIdle [{ display_id := 5 }]) true).2) ∧
    connectNotices
      (HandleConnectedDisplays exLimits exEnvNoSignal exIdle [{ display_id := 5 }] true).2.trace
      = connectNotices exIdle.trace ∧
    (HandleConnectedDisplays exLimits exEnvNoSignal exIdle [{ display_id := 5 }] true).2.pending_hotplugs_
      = (afterConnectLoop exLimits exEnvNoSignal exIdle [{ display_id := 5 }]).state.pending_hotplugs_ :=
  (HandleConnectedDisplays_notifies_after_wait exLimits exEnvNoSignal exIdle
    [{ display_id := 5 }] true).2.2.1 (by decide) (by decide) (by decide)

/-- C11 as stated fails: with every built-in display powered off, `WaitForResources` is not
called (the trace shows no refresh request, and the wait would have failed), yet
`callbacks_.Hotplug(1, true)` is issued and the queue is emptied. -/
theorem HandleConnectedDisplays_notifies_without_wait :
    GetActiveBuiltinDisplay exLimits
      (afterConnectLoop exLimits exEnvNoSignal exAllOff [{ display_id := 5 }]).state
      = exLimits.kNumDisplays ∧
    (readinessWait exLimits exEnvNoSignal
      (afterConnectLoop exLimits exEnvNoSignal exAllOff [{ display_id := 5 }]) true).1
      = HWC3Error.NoResources ∧
    (HandleConnectedDisplays exLimits exEnvNoSignal exAllOff [{ display_id := 5 }] true).1 = 0 ∧
    (HandleConnectedDisplays exLimits exEnvNoSignal exAllOff [{ display_id := 5 }] true).2.trace
      = [Event.PluggableCreate 1 5 false, Event.Hotplug 1 true] ∧
    (HandleConnectedDisplays exLimits exEnvNoSignal exAllOff [{ display_id := 5 }] true).2.pending_hotplugs_
      = [] := by
  decide

/-- C13 (amended). Under a secure session with an active built-in display, a power-mode
request in `[OFF, ON_SUSPEND]` for a bound built-in display that is powered off and, when
the normalised mode is `ON`, passes the `IsHWDisplayConnected` check, is deferred:
`SetPowerMode` returns `None`, the only change of the session is that the display object
carries the normalised mode (`ON_SUSPEND` as `ON`) as its pending power mode; its current
power mode, `active_displays_` and the outgoing calls are as before. -/
theorem SetPowerMode_defers_under_secure_session (K : HWCCallbacks) (env : Env) (s : HWCSession)
    (display : Display) (int_mode : Int) (d : HWCDisplay)
    (hbound : s.hwc_display_ display = some d)
    (hidx : display < K.kNumDisplays)
    (hmode : PowerMode.OFF.toInt ≤ int_mode ∧ int_mode ≤ PowerMode.ON_SUSPEND.toInt)
    (hconn : normalizePowerMode int_mode = PowerMode.ON → IsHWDisplayConnected env s display = true)
    (hsec : s.secure_session_active_ = true)
    (hclass : d.display_class = DisplayClass.DISPLAY_CLASS_BUILTIN)
    (hoff : d.current_power_mode = PowerMode.OFF)
    (hactive : GetActiveBuiltinDisplay K s ≠ K.kNumDisplays) :
    SetPowerMode K env s display int_mode =
      (HWC3Error.None,
        s.setDisplay display (some (d.SetPendingPowerMode (normalizePowerMode int_mode)))) ∧
    ((SetPowerMode K env s display int_mode).2.hwc_display_ display).map
      (fun x => x.current_power_mode) = some PowerMode.OFF ∧
    (SetPowerMode K env s display int_mode).2.active_displays_ = s.active_displays_ ∧
    (SetPowerMode K env s display int_mode).2.trace = s.trace := by
  have h : SetPowerMode K env s display int_mode =
      (HWC3Error.None,
        s.setDisplay display (some (d.SetPendingPowerMode (normalizePowerMode int_mode)))) := by
    unfold SetPowerMode
    rw [hbound]
    dsimp only
    rw [if_neg (not_le.mpr hidx), if_neg (by omega)]
    have c3 : ¬ (normalizePowerMode int_mode = PowerMode.ON ∧
        IsHWDisplayConnected env s display = false) := by
      rintro ⟨a, b⟩
      rw [hconn a] at b
      cases b
    rw [if_neg c3, if_pos ⟨hsec, hclass, hoff, hactive⟩]
  rw [h]
  refine ⟨rfl, ?_, rfl, rfl⟩
  simp [HWCSession.setDisplay, HWCDisplay.SetPendingPowerMode, hoff]

/-- Witness for C13 (amended): `DOZE` requested for the powered-off second built-in display
while a secure session runs on the primary. -/
theorem SetPowerMode_defers_under_secure_session_witness :
    SetPowerMode exLimits exEnv exSecureSecondOff 2 1 =
      (HWC3Error.None,
        exSecureSecondOff.setDisplay 2
          (some (HWCDisplay.SetPendingPowerMode {} (normalizePowerMode 1)))) ∧
    ((SetPowerMode exLimits exEnv exSecureSecondOff 2 1).2.hwc_display_ 2).map
      (fun x => x.current_power_mode) = some PowerMode.OFF ∧
    (SetPowerMode exLimits exEnv exSecureSecondOff 2 1).2.active_displays_
      = exSecureSecondOff.active_displays_ ∧
    (SetPowerMode exLimits exEnv exSecureSecondOff 2 1).2.trace = exSecureSecondOff.trace :=
  SetPowerMode_defers_under_secure_session exLimits exEnv exSecureSecondOff 2 1 {}
    (by decide) (by decide) (by decide) (by decide) (by decide) (by decide) (by decide)
    (by decide)

/-- C13 as stated fails: all its conditions hold (secure session, active built-in display,
display 2 bound, built-in and off, mode `ON`), but `GetDisplaysStatus` reports an error, so
`SetPowerMode(2, ON)` returns `BadDisplay` and records no pending power mode. -/
theorem SetPowerMode_not_deferred :
    exSecureSecondOff.secure_session_active_ = true ∧
    GetActiveBuiltinDisplay exLimits exSecureSecondOff ≠ exLimits.kNumDisplays ∧
    exSecureSecondOff.hwc_display_ 2 = some {} ∧
    ({} : HWCDisplay).display_class = DisplayClass.DISPLAY_CLASS_BUILTIN ∧
    ({} : HWCDisplay).current_power_mode = PowerMode.OFF ∧
    (SetPowerMode exLimits exEnvStatusError exSecureSecondOff 2 PowerMode.ON.toInt).1
      = HWC3Error.BadDisplay ∧
    (SetPowerMode exLimits exEnvStatusError exSecureSecondOff 2 PowerMode.ON.toInt).2.hwc_display_ 2
      = some {} := by
  decide

/-- C14 fails on the code: two `CreateVirtualDisplay` calls bind the virtual slots 3 and 4;
with a secure-display session then active on the primary, `HandleSecureSession` destroys
only the display of the last slot, and slot 3 still holds its display object
afterwards. -/
theorem HandleSecureSession_keeps_first_virtual :
    exTwoVirtual.map_info_virtual_.map
      (fun m => (m.client_id, m.disp_type, (exTwoVirtual.hwc_display_ m.client_id).isSome))
      = [(3, DisplayType.kVirtual, true), (4, DisplayType.kVirtual, true)] ∧
    GetActiveBuiltinDisplay exLimits exTwoVirtualSecure = 0 ∧
    (activeSecureSessions exLimits exTwoVirtualSecure).kSecureDisplay = true ∧
    (HandleSecureSession exLimits exEnv exTwoVirtualSecure).secure_session_active_ = true ∧
    ((HandleSecureSession exLimits exEnv exTwoVirtualSecure).map_info_virtual_.map
      (fun m => (m.client_id, m.disp_type,
        ((HandleSecureSession exLimits exEnv exTwoVirtualSecure).hwc_display_ m.client_id).isSome)))
      = [(3, DisplayType.kVirtual, true), (4, DisplayType.kDisplayTypeMax, false)] ∧
    (HandleSecureSession exLimits exEnv exTwoVirtualSecure).trace
      = exTwoVirtualSecure.trace ++ [Event.VirtualDestroy 4] := by
  decide

theorem activatePending_frame (s t : HWCSession) (display : Display) (mode : PowerMode)
    (h : activatePending s display mode = some t) :
    t.map_info_pluggable_ = s.map_info_pluggable_ ∧ t.pending_power_mode_ = s.pending_power_mode_ ∧
    t.hwc_display_ = s.hwc_display_ := by
  unfold activatePending at h
  by_cases c : mode = PowerMode.OFF ∨ mode = PowerMode.DOZE_SUSPEND
  · rw [if_pos c] at h
    cases h
    exact ⟨rfl, rfl, rfl⟩
  · rw [if_neg c] at h
    cases hf : findPluggableSlot display 0 s.map_info_pluggable_ with
    | none => rw [hf] at h; cases h
    | some slot =>
      rw [hf] at h
      cases h
      exact ⟨rfl, rfl, rfl⟩

theorem setPendingMode_frame (s : HWCSession) (display : Display) (d : HWCDisplay) :
    (setPendingMode s display d).map_info_pluggable_ = s.map_info_pluggable_ ∧
    (∀ x, x ≠ display →
      (setPendingMode s display d).pending_power_mode_ x = s.pending_power_mode_ x ∧
      (setPendingMode s display d).hwc_display_ x = s.hwc_display_ x) ∧
    ((setPendingMode s display d).pending_power_mode_ display = true →
      (d.SetPowerMode d.pending_power_mode).1 ≠ HWC3Error.None) := by
  unfold setPendingMode
  by_cases c : (d.SetPowerMode d.pending_power_mode).1 = HWC3Error.None
  · rw [if_pos c]
    refine ⟨rfl, fun x hx => ⟨?_, ?_⟩, ?_⟩
    · exact Function.update_noteq hx _ _
    · exact Function.update_noteq hx _ _
    · intro h
      have : Function.update s.pending_power_mode_ display false display = true := h
      rw [Function.update_same] at this
      cases this
  · rw [if_neg c]
    exact ⟨rfl, fun x _ => ⟨rfl, rfl⟩, fun _ => c⟩

theorem applyPendingPowerMode_spec (hw : List HWDisplayInfo) (a : Display) (s t : HWCSession)
    (display : Display) (h : applyPendingPowerMode hw a s display = some t) :
    t.map_info_pluggable_ = s.map_info_pluggable_ ∧
    (∀ x, x ≠ display →
      t.pending_power_mode_ x = s.pending_power_mode_ x ∧ t.hwc_display_ x = s.hwc_display_ x) ∧
    (display ≠ a → t.pending_power_mode_ display = true → PendingStuck hw s display) := by
  unfold applyPendingPowerMode at h
  by_cases c1 : display = a
  · rw [if_pos c1] at h
    cases h
    exact ⟨rfl, fun x _ => ⟨rfl, rfl⟩, fun hne => absurd c1 hne⟩
  rw [if_neg c1] at h
  by_cases c2 : s.pending_power_mode_ display = false
  · rw [if_pos c2] at h
    cases h
    refine ⟨rfl, fun x _ => ⟨rfl, rfl⟩, fun _ hp => ?_⟩
    rw [c2] at hp
    cases hp
  rw [if_neg c2] at h
  cases hd : s.hwc_display_ display with
  | none =>
    rw [hd] at h
    cases h
    exact ⟨rfl, fun x _ => ⟨rfl, rfl⟩, fun _ _ => Or.inl hd⟩
  | some d =>
    rw [hd] at h
    dsimp only at h
    by_cases c3 : pendingDisconnected hw s display = true
    · rw [if_pos c3] at h
      cases h
      exact ⟨rfl, fun x _ => ⟨rfl, rfl⟩, fun _ _ => Or.inr (Or.inl c3)⟩
    rw [if_neg c3] at h
    cases ha : activatePending s display d.pending_power_mode with
    | none => rw [ha] at h; cases h
    | some s1 =>
      rw [ha] at h
      cases h
      obtain ⟨f1, f2, f3⟩ := activatePending_frame s s1 display _ ha
      obtain ⟨g1, g2, g3⟩ := setPendingMode_frame s1 display d
      refine ⟨g1.trans f1, fun x hx => ?_, fun _ hp => Or.inr (Or.inr ⟨d, hd, g3 hp⟩)⟩
      rw [(g2 x hx).1, (g2 x hx).2, f2, f3]
      exact ⟨rfl, rfl⟩

theorem PendingStuck_congr (hw : List HWDisplayInfo) (s t : HWCSession) (display : Display)
    (h1 : t.map_info_pluggable_ = s.map_info_pluggable_)
    (h2 : t.hwc_display_ display = s.hwc_display_ display) (h : PendingStuck hw t display) :
    PendingStuck hw s display := by
  unfold PendingStuck pendingDisconnected at h ⊢
  rw [h1, h2] at h
  exact h

theorem applyPendingPowerModes_spec (hw : List HWDisplayInfo) (a : Display) (l : List Display)
    (s t : HWCSession) (hn : l.Nodup) (h : applyPendingPowerModes hw a l s = some t) :
    t.map_info_pluggable_ = s.map_info_pluggable_ ∧
    (∀ x, x ∉ l →
      t.pending_power_mode_ x = s.pending_power_mode_ x ∧ t.hwc_display_ x = s.hwc_display_ x) ∧
    (∀ x ∈ l, x ≠ a → t.pending_power_mode_ x = true → PendingStuck hw s x) := by
  induction l generalizing s with
  | nil =>
    cases h
    exact ⟨rfl, fun x _ => ⟨rfl, rfl⟩, fun x hx => absurd hx (List.not_mem_nil x)⟩
  | cons c rest ih =>
    unfold applyPendingPowerModes at h
    cases h1 : applyPendingPowerMode hw a s c with
    | none => rw [h1] at h; cases h
    | some s1 =>
      rw [h1] at h
      obtain ⟨hc, hrest⟩ := List.nodup_cons.1 hn
      obtain ⟨p1, p2, p3⟩ := applyPendingPowerMode_spec hw a s s1 c h1
      obtain ⟨q1, q2, q3⟩ := ih s1 hrest h
      refine ⟨q1.trans p1, fun x hx => ?_, fun x hx hne hp => ?_⟩
      · have hx1 : x ≠ c := fun e => hx (e ▸ List.mem_cons_self _ _)
        have hx2 : x ∉ rest := fun e => hx (List.mem_cons_of_mem _ e)
        exact ⟨(q2 x hx2).1.trans (p2 x hx1).1, (q2 x hx2).2.trans (p2 x hx1).2⟩
      · rcases List.mem_cons.1 hx with rfl | hx
        · rw [(q2 x hc).1] at hp
          exact p3 hne hp
        · have hx1 : x ≠ c := fun e => hc (e ▸ hx)
          exact PendingStuck_congr hw s s1 x p1 (p2 x hx1).2 (q3 x hx hne hp)

theorem mem_range_above_primary (n x : Nat) :
    x ∈ List.range' 1 (n - 1) ↔ 1 ≤ x ∧ x < n := by
  rw [List.mem_range'_1]
  omega

theorem mem_nonPrimaryDisplays (K : HWCCallbacks) (display : Display) :
    display ∈ nonPrimaryDisplays K ↔ 1 ≤ display ∧ display < K.kNumDisplays :=
  mem_range_above_primary K.kNumDisplays display

/-- C12 (amended). When a call of `HandlePendingPowerMode` changes `secure_session_active_`
from true to false, every display index from 1 to `kNumDisplays - 1` other than the active
built-in display whose `pending_power_mode_` flag is still set on return is one the pass
could not resolve: its slot is unbound, or it is a pluggable display whose hardware id the
hardware list reports disconnected, or its display object refused the power-mode
change. -/
theorem HandlePendingPowerMode_clears_after_resolving (K : HWCCallbacks) (env : Env)
    (s : HWCSession) (disp_id : Display) (retire_fence : Option Nat) (display : Display)
    (hwas : s.secure_session_active_ = true)
    (hnow : (HandlePendingPowerMode K env s disp_id retire_fence).map
      (fun t => t.secure_session_active_) = some false)
    (hlow : 1 ≤ display) (hhigh : display < K.kNumDisplays)
    (hother : display ≠ GetActiveBuiltinDisplay K s)
    (hset : (HandlePendingPowerMode K env s disp_id retire_fence).map
      (fun t => t.pending_power_mode_ display) = some true) :
    ∃ hw, env.displays_status = some hw ∧ PendingStuck hw s display := by
  have hmem := (mem_nonPrimaryDisplays K display).2 ⟨hlow, hhigh⟩
  unfold HandlePendingPowerMode at hnow hset
  rw [if_neg (by rw [hwas]; exact Bool.noConfusion)] at hnow hset
  by_cases c1 : disp_id ≠ GetActiveBuiltinDisplay K s
  · rw [if_pos c1] at hnow
    simp [hwas] at hnow
  rw [if_neg c1] at hnow hset
  by_cases c2 : GetActiveBuiltinDisplay K s ≥ K.kNumDisplays
  · rw [if_pos c2] at hnow
    cases hnow
  rw [if_neg c2] at hnow hset
  by_cases c3 : anyPendingPowerMode K s (GetActiveBuiltinDisplay K s) = false
  · rw [if_pos c3] at hset
    have hp : s.pending_power_mode_ display = true := by
      by_cases c4 : (activeSecureSessions K s).any = false
      · rw [if_pos c4] at hset
        simpa using hset
      · rw [if_neg c4] at hset
        simpa using hset
    unfold anyPendingPowerMode at c3
    rw [List.any_eq_false] at c3
    have := c3 display hmem
    simp [hp, hother] at this
  rw [if_neg c3] at hnow hset
  by_cases c5 : retire_fence = none
  · rw [if_pos c5] at hnow
    simp [hwas] at hnow
  rw [if_neg c5] at hnow hset
  cases hs : env.displays_status with
  | none =>
    rw [hs] at hnow
    simp [hwas] at hnow
  | some hw =>
    rw [hs] at hset
    dsimp only at hset
    cases hr : applyPendingPowerModes hw (GetActiveBuiltinDisplay K s) (nonPrimaryDisplays K) s with
    | none => rw [hr] at hset; cases hset
    | some s1 =>
      rw [hr] at hset
      have hp : s1.pending_power_mode_ display = true := by simpa using hset
      exact ⟨hw, rfl, (applyPendingPowerModes_spec hw _ _ s s1 (List.nodup_range' _ _) hr).2.2
        display hmem hother hp⟩

/-- Witness for C12 (amended): the pending flag of the disconnected pluggable display 1
survives the call that clears `secure_session_active_`. -/
theorem HandlePendingPowerMode_clears_after_resolving_witness :
    ∃ hw, exEnvUnplug5.displays_status = some hw ∧ PendingStuck hw exPendingPluggable 1 :=
  HandlePendingPowerMode_clears_after_resolving exLimits exEnvUnplug5 exPendingPluggable 0
    (some 7) 1 (by decide) (by decide) (by decide) (by decide) (by decide) (by decide)
/-- C12 as stated fails: the pluggable display 1 has a deferred power mode and the hardware
list reports its hardware id 5 as disconnected; `HandlePendingPowerMode` on the active
built-in display with a retire fence skips display 1 and clears `secure_session_active_`
while `pending_power_mode_[1]` is still set. -/
theorem HandlePendingPowerMode_clears_with_pending :
    exPendingPluggable.secure_session_active_ = true ∧
    GetActiveBuiltinDisplay exLimits exPendingPluggable = 0 ∧
    (HandlePendingPowerMode exLimits exEnvUnplug5 exPendingPluggable 0 (some 7)).map
      (fun t => (t.secure_session_active_, t.pending_power_mode_ 1)) = some (false, true) := by
  decide

theorem commitTimeoutMs_bound (C : HWCSessionConstants) (s : HWCSession) (display : Display)
    (d : HWCDisplay) (hbound : s.hwc_display_ display = some d) :
    commitTimeoutMs C s display = C.kNumDrawCycles * (Int.tdiv d.vsync_period C.kDenomNstoMs) + 100 := by
  unfold commitTimeoutMs
  rw [hbound]

theorem commitTimeoutMs_nonneg (C : HWCSessionConstants) (s : HWCSession) (display : Display)
    (d : HWCDisplay) (hbound : s.hwc_display_ display = some d)
    (hcycles : 0 ≤ C.kNumDrawCycles) (hdenom : 0 < C.kDenomNstoMs) (hvsync : 0 ≤ d.vsync_period) :
    100 ≤ commitTimeoutMs C s display := by
  rw [commitTimeoutMs_bound C s display d hbound]
  have h1 : 0 ≤ Int.tdiv d.vsync_period C.kDenomNstoMs := Int.tdiv_nonneg hvsync (le_of_lt hdenom)
  have h2 := mul_nonneg hcycles h1
  omega

/-- C20 (amended). For a bound display whose cached vsync period is not negative (and
constants `kNumDrawCycles >= 0`, `kDenomNstoMs > 0`, `kCommitDoneTimeoutMs >= 0`): if no
commit completion is signalled, `WaitForCommitDone` returns the non-zero timeout status
after one wait of exactly `kNumDrawCycles * (vsync_period / kDenomNstoMs) + 100`
milliseconds (truncating division), entered right after the refresh request; and whatever
is signalled, the call returns and none of its waits has a negative timeout. -/
theorem WaitForCommitDone_bounded (C : HWCSessionConstants) (env : Env) (s : HWCSession)
    (display : Display) (client_id : Nat) (d : HWCDisplay)
    (hbound : s.hwc_display_ display = some d)
    (hcycles : 0 ≤ C.kNumDrawCycles) (hdenom : 0 < C.kDenomNstoMs)
    (hmargin : 0 ≤ C.kCommitDoneTimeoutMs) (hvsync : 0 ≤ d.vsync_period) :
    (env.commit_signal = none →
      (WaitForCommitDone C env s display client_id).map (fun r => r.1) = some ETIMEDOUT ∧
      ETIMEDOUT ≠ 0 ∧
      (WaitForCommitDone C env s display client_id).map (fun r => r.2.trace)
        = some (s.trace ++ [Event.Refresh display, Event.WaitFinite display
            (C.kNumDrawCycles * (Int.tdiv d.vsync_period C.kDenomNstoMs) + 100)])) ∧
    0 ≤ C.kNumDrawCycles * (Int.tdiv d.vsync_period C.kDenomNstoMs) + 100 ∧
    (∃ r ev, WaitForCommitDone C env s display client_id = some r ∧
      r.2.trace = s.trace ++ ev ∧ ∀ e ∈ ev, e.isNegativeWait = false) := by
  have hb := commitTimeoutMs_bound C s display d hbound
  have hn := commitTimeoutMs_nonneg C s display d hbound hcycles hdenom hvsync
  refine ⟨fun hsig => ?_, by rw [← hb]; omega, ?_⟩
  · unfold WaitForCommitDone
    rw [hsig, hbound]
    refine ⟨rfl, by decide, ?_⟩
    show some (s.trace ++ [Event.Refresh display, Event.WaitFinite display
      (commitTimeoutMs C s display)]) = _
    rw [hb]
  · unfold WaitForCommitDone
    cases hsig : env.commit_signal with
    | none =>
      rw [hbound]
      refine ⟨_, [Event.Refresh display, Event.WaitFinite display (commitTimeoutMs C s display)],
        rfl, rfl, ?_⟩
      intro e he
      simp only [List.mem_cons, List.mem_singleton, List.not_mem_nil, or_false] at he
      rcases he with rfl | rfl
      · rfl
      · simp only [Event.isNegativeWait, decide_eq_false_iff_not, not_lt]
        omega
    | some published =>
      dsimp only
      unfold finishCommitWait
      by_cases c : (publishCommit (beginCommitWait C s display client_id) display published.1
          published.2).commit_error_ display ≠ 0
      · rw [if_pos c]
        refine ⟨_, [Event.Refresh display, Event.WaitFinite display (commitTimeoutMs C s display)],
          rfl, rfl, ?_⟩
        intro e he
        simp only [List.mem_cons, List.mem_singleton, List.not_mem_nil, or_false] at he
        rcases he with rfl | rfl
        · rfl
        · simp only [Event.isNegativeWait, decide_eq_false_iff_not, not_lt]
          omega
      · rw [if_neg c]
        refine ⟨_, [Event.Refresh display, Event.WaitFinite display (commitTimeoutMs C s display),
          Event.FenceWait (commitTimeoutMs C s display + C.kCommitDoneTimeoutMs)], rfl, ?_, ?_⟩
        · show (s.trace ++ _) ++ _ = _
          rw [List.append_assoc]
          rfl
        · intro e he
          simp only [List.mem_cons, List.mem_singleton, List.not_mem_nil, or_false] at he
          rcases he with rfl | rfl | rfl
          · rfl
          · simp only [Event.isNegativeWait, decide_eq_false_iff_not, not_lt]
            omega
          · simp only [Event.isNegativeWait, decide_eq_false_iff_not, not_lt]
            omega

/-- Witness for C20 (amended): the powered-on primary with a vsync period of 16666666 ns
waits 148 ms. -/
theorem WaitForCommitDone_bounded_witness :
    (exEnv.commit_signal = none →
      (WaitForCommitDone exConstants exEnv exVsync 0 1).map (fun r => r.1) = some ETIMEDOUT ∧
      ETIMEDOUT ≠ 0 ∧
      (WaitForCommitDone exConstants exEnv exVsync 0 1).map (fun r => r.2.trace)
        = some (exVsync.trace ++ [Event.Refresh 0, Event.WaitFinite 0
            (exConstants.kNumDrawCycles *
              (Int.tdiv exVsyncDisplay.vsync_period exConstants.kDenomNstoMs) + 100)])) ∧
    0 ≤ exConstants.kNumDrawCycles *
      (Int.tdiv exVsyncDisplay.vsync_period exConstants.kDenomNstoMs) + 100 ∧
    (∃ r ev, WaitForCommitDone exConstants exEnv exVsync 0 1 = some r ∧
      r.2.trace = exVsync.trace ++ ev ∧ ∀ e ∈ ev, e.isNegativeWait = false) :=
  WaitForCommitDone_bounded exConstants exEnv exVsync 0 1 exVsyncDisplay
    (by decide) (by decide) (by decide) (by decide) (by decide)

/-- C20 as stated fails for an unbound display index below `kNumDisplays`: the wait is
entered with `timeout_ms = -1`, and when nothing is signalled the code goes through the
null display pointer instead of returning a timeout status. -/
theorem WaitForCommitDone_unbound_display :
    (1 : Display) < exLimits.kNumDisplays ∧
    exIdle.hwc_display_ 1 = none ∧
    (beginCommitWait exConstants exIdle 1 1).trace
      = [Event.Refresh 1, Event.WaitFinite 1 (-1)] ∧
    (WaitForCommitDone exConstants exEnv exIdle 1 1).isNone = true := by
  decide

theorem neg_EBUSY_ne_zero : -EBUSY ≠ 0 := by decide

theorem neg_EINVAL_ne_zero : -EINVAL ≠ 0 := by decide

/-- C15. For every event type, `TUIEventHandler` returns `-EBUSY` and leaves the session
as it is (no task is started, nothing is recorded) when the event future holds a task
that has not completed. For the three event types of the switch, when the notification
future holds a task that does not complete within its wait, the handler returns `-EBUSY`
without starting a notification task. A request is never kept for later: when the handler
returns 0, both of its tasks have been started by this call. -/
theorem TUIEventHandler_busy (env : Env) (s : HWCSession) (disp_id : Int)
    (event_type : TUIEventType) :
    (futureBusy s.tui_event_handler_future_ = true →
      TUIEventHandler env s disp_id event_type = (-EBUSY, s)) ∧
    (futureBusy s.tui_event_handler_future_ = false → event_type ≠ TUIEventType.unknown →
      callbackBusy env s.tui_callback_handler_future_ = true →
      (TUIEventHandler env s disp_id event_type).1 = -EBUSY ∧
      (TUIEventHandler env s disp_id event_type).2.tui_callback_handler_future_
        = s.tui_callback_handler_future_ ∧
      (TUIEventHandler env s disp_id event_type).2.trace
        = s.trace ++ [Event.AsyncTUIEvent event_type disp_id]) ∧
    ((TUIEventHandler env s disp_id event_type).1 = 0 →
      (TUIEventHandler env s disp_id event_type).2.trace
        = s.trace ++ [Event.AsyncTUIEvent event_type disp_id,
            Event.AsyncNotifyTUIEventDone disp_id event_type]) := by
  unfold TUIEventHandler
  refine ⟨fun h => by rw [if_pos h], fun h1 h2 h3 => ?_, fun h => ?_⟩
  · rw [if_neg (by rw [h1]; exact Bool.noConfusion), if_neg h2, if_pos h3]
    exact ⟨rfl, rfl, rfl⟩
  · by_cases c1 : futureBusy s.tui_event_handler_future_ = true
    · rw [if_pos c1] at h
      exact absurd h neg_EBUSY_ne_zero
    rw [if_neg c1] at h ⊢
    by_cases c2 : event_type = TUIEventType.unknown
    · rw [if_pos c2] at h
      exact absurd h neg_EINVAL_ne_zero
    rw [if_neg c2] at h ⊢
    by_cases c3 : callbackBusy env s.tui_callback_handler_future_ = true
    · rw [if_pos c3] at h
      exact absurd h neg_EBUSY_ne_zero
    rw [if_neg c3]

/-- Witness for C15: a Start request while the previous Start task is still running, and an
End request while the previous notification task is still running. -/
theorem TUIEventHandler_busy_witness :
    TUIEventHandler exEnv exTuiBusy 0 TUIEventType.END_TUI_TRANSITION = (-EBUSY, exTuiBusy) ∧
    ((TUIEventHandler exEnv exTuiNotifying 0 TUIEventType.END_TUI_TRANSITION).1 = -EBUSY ∧
      (TUIEventHandler exEnv exTuiNotifying 0 TUIEventType.END_TUI_TRANSITION).2.tui_callback_handler_future_
        = exTuiNotifying.tui_callback_handler_future_ ∧
      (TUIEventHandler exEnv exTuiNotifying 0 TUIEventType.END_TUI_TRANSITION).2.trace
        = exTuiNotifying.trace ++ [Event.AsyncTUIEvent TUIEventType.END_TUI_TRANSITION 0]) :=
  ⟨(TUIEventHandler_busy exEnv exTuiBusy 0 TUIEventType.END_TUI_TRANSITION).1 (by decide),
   (TUIEventHandler_busy exEnv exTuiNotifying 0 TUIEventType.END_TUI_TRANSITION).2.1
     (by decide) (by decide) (by decide)⟩

/-- C16. When the resolved target display (the active built-in display when `disp_id`
resolves to no slot) is neither `DISPLAY_PRIMARY` nor `DISPLAY_BUILTIN_2`, or the target
display reports an active secure-camera session, `TUITransitionPrepare` returns `-ENOTSUP`
and leaves the session as it is: no display receives the prepare event and no pluggable
display is torn down. -/
theorem TUITransitionPrepare_rejects (Q : Qdutils) (K : HWCCallbacks) (env : Env)
    (s : HWCSession) (disp_id : Int)
    (h : tuiUnsupported Q (tuiTargetDisplay Q K s disp_id) = true ∨
      (targetSecureSessions s (tuiTargetDisplay Q K s disp_id)).kSecureCamera = true) :
    TUITransitionPrepare Q K env s disp_id = some (-ENOTSUP, s) := by
  unfold TUITransitionPrepare
  by_cases c : tuiUnsupported Q (tuiTargetDisplay Q K s disp_id) = true
  · rw [if_pos c]
  · rw [if_neg c]
    rcases h with h | h
    · exact absurd h c
    · rw [if_pos h]

/-- Witness for C16: the primary reports a secure-camera session. -/
theorem TUITransitionPrepare_rejects_witness :
    TUITransitionPrepare exQdutils exLimits exEnv exCameraSecure 0 = some (-ENOTSUP, exCameraSecure) :=
  TUITransitionPrepare_rejects exQdutils exLimits exEnv exCameraSecure 0 (Or.inr (by decide))
theorem sendSecureEvent_effect (env : Env) (event : SecureEvent) (target : Display)
    (infos : List DisplayMapInfo) (refresh : Bool) (s : HWCSession) :
    ∃ ev, (sendSecureEvent env event target infos refresh s).2.2 = { s with trace := s.trace ++ ev } ∧
      ∀ e ∈ ev, ∃ c b, e = Event.HandleSecureEvent c event b := by
  induction infos generalizing refresh s with
  | nil => exact ⟨[], by simp [sendSecureEvent], fun e he => absurd he (List.not_mem_nil e)⟩
  | cons info rest ih =>
    unfold sendSecureEvent
    cases hd : s.hwc_display_ info.client_id with
    | none => exact ih refresh s
    | some d =>
      dsimp only
      by_cases c : (env.handle_secure_event info.client_id event
          (decide (info.client_id = target))).1 ≠ DisplayError.kErrorNone
      · rw [if_pos c]
        refine ⟨[_], rfl, fun e he => ?_⟩
        rw [List.mem_singleton] at he
        exact ⟨_, _, he⟩
      · rw [if_neg c]
        obtain ⟨ev, h1, h2⟩ := ih
          (refresh || (env.handle_secure_event info.client_id event
            (decide (info.client_id = target))).2)
          (s.emit (.HandleSecureEvent info.client_id event (decide (info.client_id = target))))
        refine ⟨Event.HandleSecureEvent info.client_id event (decide (info.client_id = target))
          :: ev, ?_, fun e he => ?_⟩
        · rw [h1]
          simp [HWCSession.emit]
        · rcases List.mem_cons.1 he with rfl | he
          · exact ⟨_, _, rfl⟩
          · exact h2 e he

theorem TUITransitionUnPrepare_effect (Q : Qdutils) (K : HWCCallbacks) (env : Env)
    (s : HWCSession) (disp_id : Int) :
    ∃ phe ev, (TUITransitionUnPrepare Q K env s disp_id).2
        = { s with pending_hotplug_event_ := phe, trace := s.trace ++ ev } ∧
      ∀ e ∈ ev, e.isUnPrepareCall = true := by
  unfold TUITransitionUnPrepare
  by_cases c1 : tuiUnsupported Q (tuiTargetDisplay Q K s disp_id) = true
  · rw [if_pos c1]
    exact ⟨s.pending_hotplug_event_, [], by simp, fun e he => absurd he (List.not_mem_nil e)⟩
  rw [if_neg c1]
  obtain ⟨ev, h1, h2⟩ := sendSecureEvent_effect env .kTUITransitionUnPrepare
    (tuiTargetDisplay Q K s disp_id) (tuiDisplays s) false s
  have h3 : ∀ e ∈ ev, e.isUnPrepareCall = true := by
    intro e he
    obtain ⟨c, b, rfl⟩ := h2 e he
    rfl
  generalize sendSecureEvent env .kTUITransitionUnPrepare (tuiTargetDisplay Q K s disp_id)
    (tuiDisplays s) false s = r at h1 ⊢
  obtain ⟨ok, refresh, t⟩ := r
  dsimp only at h1 ⊢
  subst h1
  by_cases c2 : ok = false
  · rw [if_pos c2]
    exact ⟨s.pending_hotplug_event_, ev, rfl, h3⟩
  rw [if_neg c2]
  unfold finishUnPrepare
  dsimp only
  by_cases c3 : s.pending_hotplug_event_ = HotPlugEvent.kHotPlugEvent
  · rw [if_pos c3]
    by_cases c4 : refresh = true
    · rw [if_pos c4]
      refine ⟨HotPlugEvent.kHotPlugProcessing, ev ++ [Event.HandlePluggableDisplaysThread true,
        Event.Refresh (tuiTargetDisplay Q K s disp_id)], ?_, ?_⟩
      · simp [HWCSession.emit]
      · intro e he
        rcases List.mem_append.1 he with he | he
        · exact h3 e he
        · simp only [List.mem_cons, List.mem_singleton, List.not_mem_nil, or_false] at he
          rcases he with rfl | rfl <;> rfl
    · rw [if_neg c4]
      refine ⟨HotPlugEvent.kHotPlugProcessing, ev ++ [Event.HandlePluggableDisplaysThread true],
        ?_, ?_⟩
      · simp [HWCSession.emit]
      · intro e he
        rcases List.mem_append.1 he with he | he
        · exact h3 e he
        · rw [List.mem_singleton] at he
          subst he
          rfl
  · rw [if_neg c3]
    by_cases c4 : refresh = true
    · rw [if_pos c4]
      refine ⟨s.pending_hotplug_event_, ev ++ [Event.Refresh (tuiTargetDisplay Q K s disp_id)],
        ?_, ?_⟩
      · simp [HWCSession.emit]
      · intro e he
        rcases List.mem_append.1 he with he | he
        · exact h3 e he
        · rw [List.mem_singleton] at he
          subst he
          rfl
    · rw [if_neg c4]
      exact ⟨s.pending_hotplug_event_, ev, rfl, h3⟩

theorem TeardownConcurrentWriteback_effect (K : HWCCallbacks) (s : HWCSession) (display : Display) :
    (TeardownConcurrentWriteback K s display).1 = HWC3Error.None ∧
    ∃ tr, (TeardownConcurrentWriteback K s display).2 = { s with trace := tr } := by
  refine ⟨rfl, ?_⟩
  unfold TeardownConcurrentWriteback
  dsimp only
  induction List.range K.kNumRealDisplays generalizing s with
  | nil => exact ⟨_, rfl⟩
  | cons a rest ih =>
    rw [List.foldl_cons]
    cases hd : s.hwc_display_ a with
    | none => exact ih s
    | some d =>
      dsimp only
      by_cases c : d.physical = true
      · rw [if_pos c]
        obtain ⟨tr, h⟩ := ih (s.emit (.TeardownConcurrentWriteback a))
        exact ⟨tr, by rw [h]; rfl⟩
      · rw [if_neg c]
        exact ih s
theorem preparedState_eq (Q : Qdutils) (K : HWCCallbacks) (env : Env) (s : HWCSession)
    (disp_id : Int) (status : Int)
    (h : (TUITransitionPrepare Q K env s disp_id).map (fun p => p.1) = some status) :
    TUITransitionPrepare Q K env s disp_id = some (status, preparedState Q K env s disp_id) := by
  unfold preparedState
  cases hp : TUITransitionPrepare Q K env s disp_id with
  | none => rw [hp] at h; cases h
  | some p =>
    rw [hp] at h
    obtain ⟨a, b⟩ := p
    simp only [Option.map_some', Option.some.injEq] at h
    subst h
    rfl

theorem TUITransitionStart_after_prepare (Q : Qdutils) (K : HWCCallbacks) (C : HWCSessionConstants)
    (env : Env) (s : HWCSession) (disp_id : Int)
    (hprep : (TUITransitionPrepare Q K env s disp_id).map (fun p => p.1) = some 0) :
    TUITransitionStart Q K C env s disp_id
      = startAfterPrepare Q K C env (preparedState Q K env s disp_id) disp_id := by
  unfold TUITransitionStart
  rw [preparedState_eq Q K env s disp_id 0 hprep]
  dsimp only
  rw [if_neg (not_not.mpr rfl)]

theorem TeardownConcurrentWriteback_hwc_display (K : HWCCallbacks) (s : HWCSession)
    (display : Display) :
    (TeardownConcurrentWriteback K s display).2.hwc_display_ = s.hwc_display_ ∧
    (TeardownConcurrentWriteback K s display).2.clients_waiting_for_vm_release_
      = s.clients_waiting_for_vm_release_ := by
  obtain ⟨tr, h⟩ := (TeardownConcurrentWriteback_effect K s display).2
  rw [h]
  exact ⟨rfl, rfl⟩

/-- C17. When `TUITransitionPrepare` returns 0 and the target display (a bound display at an
index below `kNumDisplays`) answers the start event with `kErrorPermission`,
`TUITransitionStart` runs `TUITransitionUnPrepare` for the same `disp_id` right after the
start event and returns `-EPERM`: the start event is the last call before the rollback,
every later call is one of `TUITransitionUnPrepare` (so there is no wait for the hand-off
release and no post-start step), and no waiter for the hand-off release is registered. -/
theorem TUITransitionStart_permission_rollback (Q : Qdutils) (K : HWCCallbacks)
    (C : HWCSessionConstants) (env : Env) (s : HWCSession) (disp_id : Int)
    (hprep : (TUITransitionPrepare Q K env s disp_id).map (fun p => p.1) = some 0)
    (hidx : startTargetDisplay Q (preparedState Q K env s disp_id) disp_id < K.kNumDisplays)
    (hbound : ((preparedState Q K env s disp_id).hwc_display_
      (startTargetDisplay Q (preparedState Q K env s disp_id) disp_id)).isSome = true)
    (hperm : (env.handle_secure_event
      (startTargetDisplay Q (preparedState Q K env s disp_id) disp_id)
      SecureEvent.kTUITransitionStart false).1 = DisplayError.kErrorPermission) :
    TUITransitionStart Q K C env s disp_id =
      some (-EPERM,
        (TUITransitionUnPrepare Q K env (startEventState Q K env s disp_id) disp_id).2) ∧
    (startEventState Q K env s disp_id).trace.getLast? =
      some (Event.HandleSecureEvent
        (startTargetDisplay Q (preparedState Q K env s disp_id) disp_id)
        SecureEvent.kTUITransitionStart false) ∧
    (∃ ev, (TUITransitionUnPrepare Q K env (startEventState Q K env s disp_id) disp_id).2.trace
        = (startEventState Q K env s disp_id).trace ++ ev ∧
      ∀ e ∈ ev, e.isUnPrepareCall = true) ∧
    (TUITransitionUnPrepare Q K env (startEventState Q K env s disp_id)
        disp_id).2.clients_waiting_for_vm_release_
      = (preparedState Q K env s disp_id).clients_waiting_for_vm_release_ := by
  refine ⟨?_, ?_, ?_, ?_⟩
  · rw [TUITransitionStart_after_prepare Q K C env s disp_id hprep]
    unfold startAfterPrepare
    rw [if_neg (not_le.mpr hidx),
      if_neg (not_not.mpr (TeardownConcurrentWriteback_effect K _ _).1),
      (TeardownConcurrentWriteback_hwc_display K _ _).1]
    cases hd : (preparedState Q K env s disp_id).hwc_display_
        (startTargetDisplay Q (preparedState Q K env s disp_id) disp_id) with
    | none => rw [hd] at hbound; cases hbound
    | some d =>
      dsimp only
      rw [if_pos hperm]
      rfl
  · unfold startEventState startEventCalls
    dsimp only
    rw [List.getLast?_append]
    rfl
  · obtain ⟨phe, ev, h1, h2⟩ :=
      TUITransitionUnPrepare_effect Q K env (startEventState Q K env s disp_id) disp_id
    exact ⟨ev, by rw [h1], h2⟩
  · obtain ⟨phe, ev, h1, h2⟩ :=
      TUITransitionUnPrepare_effect Q K env (startEventState Q K env s disp_id) disp_id
    rw [h1]
    exact (TeardownConcurrentWriteback_hwc_display K _ _).2

/-- Witness for C17: the primary answers the start event with `kErrorPermission`. -/
theorem TUITransitionStart_permission_rollback_witness :
    TUITransitionStart exQdutils exLimits exConstants exEnvPermission exIdle 0 =
      some (-EPERM,
        (TUITransitionUnPrepare exQdutils exLimits exEnvPermission
          (startEventState exQdutils exLimits exEnvPermission exIdle 0) 0).2) ∧
    (startEventState exQdutils exLimits exEnvPermission exIdle 0).trace.getLast? =
      some (Event.HandleSecureEvent
        (startTargetDisplay exQdutils (preparedState exQdutils exLimits exEnvPermission exIdle 0) 0)
        SecureEvent.kTUITransitionStart false) ∧
    (∃ ev, (TUITransitionUnPrepare exQdutils exLimits exEnvPermission
        (startEventState exQdutils exLimits exEnvPermission exIdle 0) 0).2.trace
        = (startEventState exQdutils exLimits exEnvPermission exIdle 0).trace ++ ev ∧
      ∀ e ∈ ev, e.isUnPrepareCall = true) ∧
    (TUITransitionUnPrepare exQdutils exLimits exEnvPermission
        (startEventState exQdutils exLimits exEnvPermission exIdle 0)
        0).2.clients_waiting_for_vm_release_
      = (preparedState exQdutils exLimits exEnvPermission exIdle 0).clients_waiting_for_vm_release_ :=
  TUITransitionStart_permission_rollback exQdutils exLimits exConstants exEnvPermission exIdle 0
    (by decide) (by decide) (by decide) (by decide)
theorem zero_ne_neg_ENODEV : (0 : Int) ≠ -ENODEV := by decide

theorem ETIMEDOUT_ne_neg_ENODEV : ETIMEDOUT ≠ -ENODEV := by decide

theorem vmReleaseLoop_spec (C : HWCSessionConstants) (display : Display) (timeout_ms : Int)
    (re_try : Nat) (script : List Bool) (s : HWCSession) (d : HWCDisplay)
    (hb : s.hwc_display_ display = some d) :
    ∃ w, vmReleaseLoop C display timeout_ms re_try script s = some w ∧
      (w.1 = -ENODEV ∨ w.1 = 0 ∨ w.1 = ETIMEDOUT) ∧
      (w.1 = -ENODEV ↔ d.current_power_mode = PowerMode.OFF) ∧
      w.2.hwc_display_ = s.hwc_display_ := by
  induction re_try generalizing script s with
  | zero =>
    unfold vmReleaseLoop
    rw [hb]
    dsimp only
    by_cases c1 : d.current_power_mode = PowerMode.OFF
    · rw [if_pos c1]
      exact ⟨_, rfl, Or.inl rfl, ⟨fun _ => c1, fun _ => rfl⟩, rfl⟩
    rw [if_neg c1]
    by_cases c2 : script.headD false = true
    · rw [if_pos c2]
      exact ⟨_, rfl, Or.inr (Or.inl rfl), ⟨fun h => absurd h zero_ne_neg_ENODEV, fun h => absurd h c1⟩,
        rfl⟩
    · rw [if_neg c2]
      exact ⟨_, rfl, Or.inr (Or.inr rfl),
        ⟨fun h => absurd h ETIMEDOUT_ne_neg_ENODEV, fun h => absurd h c1⟩, rfl⟩
  | succ n ih =>
    unfold vmReleaseLoop
    rw [hb]
    dsimp only
    by_cases c1 : d.current_power_mode = PowerMode.OFF
    · rw [if_pos c1]
      exact ⟨_, rfl, Or.inl rfl, ⟨fun _ => c1, fun _ => rfl⟩, rfl⟩
    rw [if_neg c1]
    by_cases c2 : script.headD false = true
    · rw [if_pos c2]
      exact ⟨_, rfl, Or.inr (Or.inl rfl), ⟨fun h => absurd h zero_ne_neg_ENODEV, fun h => absurd h c1⟩,
        rfl⟩
    · rw [if_neg c2]
      exact ih script.tail (vmReleaseWaited C s display timeout_ms) hb

theorem WaitForVmRelease_spec (C : HWCSessionConstants) (env : Env) (s : HWCSession)
    (display : Display) (timeout_ms : Int) (d : HWCDisplay)
    (hb : s.hwc_display_ display = some d) :
    ∃ w, WaitForVmRelease C env s display timeout_ms = some w ∧
      (w.1 = -ENODEV ∨ w.1 = 0 ∨ w.1 = ETIMEDOUT) ∧
      (w.1 = -ENODEV ↔ d.current_power_mode = PowerMode.OFF) ∧
      w.2.hwc_display_ = s.hwc_display_ :=
  vmReleaseLoop_spec C display timeout_ms C.kVmReleaseRetry env.vm_release_script _ d hb

/-- C18 (amended). When `TUITransitionPrepare` returns 0 and the target display (bound, at
an index below `kNumDisplays`) accepts the start event and asks for a hand-off,
`WaitForVmRelease` returns `-ENODEV`, 0 or the timeout status. It returns `-ENODEV` exactly
when the target display is powered off, and then `TUITransitionStart` runs
`TUITransitionEndLocked` with the target display index and returns `-ENODEV`. When the
wait times out, `TUITransitionStart` returns `-EINVAL` straight after the wait, without
running the End phase. -/
theorem TUITransitionStart_handoff_wait (Q : Qdutils) (K : HWCCallbacks)
    (C : HWCSessionConstants) (env : Env) (s : HWCSession) (disp_id : Int) (d : HWCDisplay)
    (hprep : (TUITransitionPrepare Q K env s disp_id).map (fun p => p.1) = some 0)
    (hidx : startTargetDisplay Q (preparedState Q K env s disp_id) disp_id < K.kNumDisplays)
    (hbound : (preparedState Q K env s disp_id).hwc_display_
      (startTargetDisplay Q (preparedState Q K env s disp_id) disp_id) = some d)
    (hstart : env.handle_secure_event
      (startTargetDisplay Q (preparedState Q K env s disp_id) disp_id)
      SecureEvent.kTUITransitionStart false = (DisplayError.kErrorNone, true)) :
    ∃ w, WaitForVmRelease C env
        ((startEventState Q K env s disp_id).emit
          (.Refresh (startTargetDisplay Q (preparedState Q K env s disp_id) disp_id)))
        (startTargetDisplay Q (preparedState Q K env s disp_id) disp_id)
        (handoffTimeoutMs C d) = some w ∧
      (w.1 = -ENODEV ∨ w.1 = 0 ∨ w.1 = ETIMEDOUT) ∧
      (w.1 = -ENODEV ↔ d.current_power_mode = PowerMode.OFF) ∧
      (w.1 = -ENODEV →
        TUITransitionStart Q K C env s disp_id =
          (TUITransitionEndLocked Q K C env w.2
            (INT (startTargetDisplay Q (preparedState Q K env s disp_id) disp_id))).map
            (fun e => (-ENODEV, e.2))) ∧
      (w.1 = ETIMEDOUT → TUITransitionStart Q K C env s disp_id = some (-EINVAL, w.2)) := by
  have hb2 : ((startEventState Q K env s disp_id).emit
      (.Refresh (startTargetDisplay Q (preparedState Q K env s disp_id) disp_id))).hwc_display_
      (startTargetDisplay Q (preparedState Q K env s disp_id) disp_id) = some d := by
    show (TeardownConcurrentWriteback K _ _).2.hwc_display_ _ = _
    rw [(TeardownConcurrentWriteback_hwc_display K _ _).1]
    exact hbound
  obtain ⟨w, hw, hv, hoff, -⟩ := WaitForVmRelease_spec C env _ _ (handoffTimeoutMs C d) d hb2
  have hrun : TUITransitionStart Q K C env s disp_id =
      startHandoff Q K C env (startEventState Q K env s disp_id)
        (startTargetDisplay Q (preparedState Q K env s disp_id) disp_id) (handoffTimeoutMs C d) := by
    rw [TUITransitionStart_after_prepare Q K C env s disp_id hprep]
    unfold startAfterPrepare
    rw [if_neg (not_le.mpr hidx),
      if_neg (not_not.mpr (TeardownConcurrentWriteback_effect K _ _).1),
      (TeardownConcurrentWriteback_hwc_display K _ _).1, hbound]
    dsimp only
    rw [hstart]
    dsimp only
    rw [if_neg (by decide), if_neg (by decide), if_pos rfl]
    rfl
  refine ⟨w, hw, hv, hoff, fun h1 => ?_, fun h1 => ?_⟩
  · rw [hrun]
    unfold startHandoff
    rw [hw]
    dsimp only
    rw [if_pos h1]
    cases TUITransitionEndLocked Q K C env w.2
        (INT (startTargetDisplay Q (preparedState Q K env s disp_id) disp_id)) with
    | none => rfl
    | some e => simp [h1]
  · rw [hrun]
    unfold startHandoff
    rw [hw]
    dsimp only
    rw [if_neg (by rw [h1]; decide), if_pos (by rw [h1]; decide)]

/-- Witness for C18 (amended): the primary is powered off when the wait for the hand-off
release starts. -/
theorem TUITransitionStart_handoff_wait_witness :
    ∃ w, WaitForVmRelease exConstants exEnvHandoff
        ((startEventState exQdutils exLimits exEnvHandoff exVsyncOff 0).emit
          (.Refresh (startTargetDisplay exQdutils
            (preparedState exQdutils exLimits exEnvHandoff exVsyncOff 0) 0)))
        (startTargetDisplay exQdutils (preparedState exQdutils exLimits exEnvHandoff exVsyncOff 0) 0)
        (handoffTimeoutMs exConstants { exVsyncDisplay with current_power_mode := .OFF })
          = some w ∧
      (w.1 = -ENODEV ∨ w.1 = 0 ∨ w.1 = ETIMEDOUT) ∧
      (w.1 = -ENODEV ↔
        ({ exVsyncDisplay with current_power_mode := .OFF } : HWCDisplay).current_power_mode
          = PowerMode.OFF) ∧
      (w.1 = -ENODEV →
        TUITransitionStart exQdutils exLimits exConstants exEnvHandoff exVsyncOff 0 =
          (TUITransitionEndLocked exQdutils exLimits exConstants exEnvHandoff w.2
            (INT (startTargetDisplay exQdutils
              (preparedState exQdutils exLimits exEnvHandoff exVsyncOff 0) 0))).map
            (fun e => (-ENODEV, e.2))) ∧
      (w.1 = ETIMEDOUT →
        TUITransitionStart exQdutils exLimits exConstants exEnvHandoff exVsyncOff 0
          = some (-EINVAL, w.2)) :=
  TUITransitionStart_handoff_wait exQdutils exLimits exConstants exEnvHandoff exVsyncOff 0
    { exVsyncDisplay with current_power_mode := .OFF } (by decide) (by decide) (by decide)
    (by decide)

/-- C18 as stated fails: the primary asks for a hand-off and nobody signals the release;
after the four rounds of the wait `TUITransitionStart` returns `-EINVAL`, and no call of
the End phase has been made (the Prepare side effects are not rolled back). -/
theorem TUITransitionStart_timeout_no_rollback :
    (TUITransitionStart exQdutils exLimits exConstants exEnvHandoff exVsync 0).map
      (fun r => (r.1, r.2.trace)) =
      some (-EINVAL,
        [Event.HandleSecureEvent 0 SecureEvent.kTUITransitionPrepare true,
         Event.TeardownConcurrentWriteback 0,
         Event.SetIdleTimeoutMs 0 0 0,
         Event.SetQSyncMode 0 QSyncMode.kQSyncModeNone,
         Event.HandleSecureEvent 0 SecureEvent.kTUITransitionStart false,
         Event.Refresh 0,
         Event.VmReleaseWaitFinite 0 148,
         Event.VmReleaseWaitFinite 0 148,
         Event.VmReleaseWaitFinite 0 148,
         Event.VmReleaseWaitFinite 0 148]) ∧
    (TUITransitionStart exQdutils exLimits exConstants exEnvHandoff exVsync 0).map
      (fun r => r.2.trace.any Event.isEndCall) = some false := by
  decide
theorem WaitForCommitDone_bound (C : HWCSessionConstants) (env : Env) (s : HWCSession)
    (display : Display) (client_id : Nat) (d : HWCDisplay)
    (hb : s.hwc_display_ display = some d) :
    ∃ w, WaitForCommitDone C env s display client_id = some w ∧
      w.2.hwc_display_ = s.hwc_display_ := by
  unfold WaitForCommitDone
  cases env.commit_signal with
  | none =>
    rw [hb]
    exact ⟨_, rfl, rfl⟩
  | some published =>
    dsimp only
    unfold finishCommitWait
    by_cases c : (publishCommit (beginCommitWait C s display client_id) display published.1
        published.2).commit_error_ display ≠ 0
    · rw [if_pos c]
      exact ⟨_, rfl, rfl⟩
    · rw [if_neg c]
      exact ⟨_, rfl, rfl⟩

/-- C19 (amended). On a permitted, bound target display whose end event succeeds and asks
for a hand-off back, `TUITransitionEndLocked` waits for the commit to drain; the wait
returns. When the wait fails or times out, `TUITransitionUnPrepare` runs on the state the
wait left and the function returns 0. When the wait succeeds and the post step of the end
event succeeds, `TUITransitionUnPrepare` runs after the post step and its status is
returned. -/
theorem TUITransitionEndLocked_unprepares (Q : Qdutils) (K : HWCCallbacks)
    (C : HWCSessionConstants) (env : Env) (s : HWCSession) (disp_id : Int) (d : HWCDisplay)
    (hperm : tuiUnsupported Q (tuiTargetDisplay Q K s disp_id) = false)
    (hbound : s.hwc_display_ (tuiTargetDisplay Q K s disp_id) = some d)
    (hend : env.handle_secure_event (tuiTargetDisplay Q K s disp_id)
      SecureEvent.kTUITransitionEnd false = (DisplayError.kErrorNone, true)) :
    ∃ w, WaitForCommitDone C env (endEventCalls s (tuiTargetDisplay Q K s disp_id))
        (tuiTargetDisplay Q K s disp_id) C.kClientTrustedUI = some w ∧
      (w.1 ≠ 0 →
        TUITransitionEndLocked Q K C env s disp_id =
          some (0, (TUITransitionUnPrepare Q K env w.2 disp_id).2)) ∧
      (w.1 = 0 →
        env.post_handle_secure_event (tuiTargetDisplay Q K s disp_id)
          SecureEvent.kTUITransitionEnd = DisplayError.kErrorNone →
        TUITransitionEndLocked Q K C env s disp_id =
          some (TUITransitionUnPrepare Q K env
            (w.2.emit (.PostHandleSecureEvent (tuiTargetDisplay Q K s disp_id)
              SecureEvent.kTUITransitionEnd)) disp_id)) := by
  have hb2 : (endEventCalls s (tuiTargetDisplay Q K s disp_id)).hwc_display_
      (tuiTargetDisplay Q K s disp_id) = some d := hbound
  obtain ⟨w, hw, hd⟩ := WaitForCommitDone_bound C env _ _ C.kClientTrustedUI d hb2
  have hrun : TUITransitionEndLocked Q K C env s disp_id =
      endDrain Q K C env (endEventCalls s (tuiTargetDisplay Q K s disp_id))
        (tuiTargetDisplay Q K s disp_id) disp_id := by
    unfold TUITransitionEndLocked
    rw [if_neg (by rw [hperm]; exact Bool.noConfusion), hbound]
    dsimp only
    rw [hend]
    dsimp only
    rw [if_neg (not_not.mpr rfl), if_pos rfl]
  refine ⟨w, hw, fun h1 => ?_, fun h1 h2 => ?_⟩
  · rw [hrun]
    unfold endDrain
    rw [hw]
    dsimp only
    rw [if_pos h1]
  · rw [hrun]
    unfold endDrain
    rw [hw]
    dsimp only
    rw [if_neg (not_not.mpr h1)]
    unfold endPostEvent
    rw [hd, hb2]
    dsimp only
    rw [if_neg (not_not.mpr h2)]

/-- Witness for C19 (amended): the end event on the primary asks for a hand-off back and no
commit is signalled. -/
theorem TUITransitionEndLocked_unprepares_witness :
    ∃ w, WaitForCommitDone exConstants exEnvHandoff
        (endEventCalls exVsync (tuiTargetDisplay exQdutils exLimits exVsync 0))
        (tuiTargetDisplay exQdutils exLimits exVsync 0) exConstants.kClientTrustedUI = some w ∧
      (w.1 ≠ 0 →
        TUITransitionEndLocked exQdutils exLimits exConstants exEnvHandoff exVsync 0 =
          some (0, (TUITransitionUnPrepare exQdutils exLimits exEnvHandoff w.2 0).2)) ∧
      (w.1 = 0 →
        exEnvHandoff.post_handle_secure_event (tuiTargetDisplay exQdutils exLimits exVsync 0)
          SecureEvent.kTUITransitionEnd = DisplayError.kErrorNone →
        TUITransitionEndLocked exQdutils exLimits exConstants exEnvHandoff exVsync 0 =
          some (TUITransitionUnPrepare exQdutils exLimits exEnvHandoff
            (w.2.emit (.PostHandleSecureEvent (tuiTargetDisplay exQdutils exLimits exVsync 0)
              SecureEvent.kTUITransitionEnd)) 0)) :=
  TUITransitionEndLocked_unprepares exQdutils exLimits exConstants exEnvHandoff exVsync 0
    exVsyncDisplay (by decide) (by decide) (by decide)

/-- C19 as stated fails: the end event on the primary asks for a hand-off back, the commit
drains (the wait succeeds), and the post step of the end event reports an error;
`TUITransitionEndLocked` returns `-EINVAL` and `TUITransitionUnPrepare` has not run (no
display was sent the unprepare event). -/
theorem TUITransitionEndLocked_skips_unprepare :
    tuiUnsupported exQdutils (tuiTargetDisplay exQdutils exLimits exVsync 0) = false ∧
    exVsync.hwc_display_ (tuiTargetDisplay exQdutils exLimits exVsync 0) = some exVsyncDisplay ∧
    exEnvPostFails.handle_secure_event 0 SecureEvent.kTUITransitionEnd false
      = (DisplayError.kErrorNone, true) ∧
    (WaitForCommitDone exConstants exEnvPostFails
      (endEventCalls exVsync 0) 0 exConstants.kClientTrustedUI).map (fun w => w.1) = some 0 ∧
    (TUITransitionEndLocked exQdutils exLimits exConstants exEnvPostFails exVsync 0).map
      (fun r => (r.1, r.2.trace)) =
      some (-EINVAL,
        [Event.SetIdleTimeoutMs 0 0 0,
         Event.SetQSyncMode 0 QSyncMode.kQSyncModeNone,
         Event.HandleSecureEvent 0 SecureEvent.kTUITransitionEnd false,
         Event.Refresh 0,
         Event.WaitFinite 0 148,
         Event.FenceWait 248,
         Event.PostHandleSecureEvent 0 SecureEvent.kTUITransitionEnd]) := by
  decide

/-- The outcome state of `WaitForCommitDone` on a bound display: when the wait times out,
the function returns the timeout status, and `commit_error_` and `retire_fence_` are what
they were before the call (for every display). When the wait is signalled and the commit
left a non-zero `commit_error_[display]`, the function returns `-EINVAL` and that error is 0
afterwards. -/
theorem WaitForCommitDone_bound_outcome (C : HWCSessionConstants) (env : Env)
    (s : HWCSession) (display : Display) (client_id : Nat) :
    (∀ d, s.hwc_display_ display = some d → env.commit_signal = none →
      ∃ t, WaitForCommitDone C env s display client_id = some (ETIMEDOUT, t) ∧
        ETIMEDOUT ≠ 0 ∧ t.commit_error_ = s.commit_error_ ∧ t.retire_fence_ = s.retire_fence_) ∧
    (∀ commit_error retire_fence, env.commit_signal = some (commit_error, retire_fence) →
      commit_error ≠ 0 →
      ∃ t, WaitForCommitDone C env s display client_id = some (-EINVAL, t) ∧
        t.commit_error_ display = 0) := by
  refine ⟨fun d hb hsig => ?_, fun e f hsig he => ?_⟩
  · unfold WaitForCommitDone
    rw [hsig, hb]
    exact ⟨_, rfl, by decide, rfl, rfl⟩
  · unfold WaitForCommitDone
    rw [hsig]
    dsimp only
    unfold finishCommitWait
    have hc : (publishCommit (beginCommitWait C s display client_id) display e f).commit_error_
        display ≠ 0 := by
      show Function.update (beginCommitWait C s display client_id).commit_error_ display e
        display ≠ 0
      rw [Function.update_same]
      exact he
    rw [if_pos hc]
    refine ⟨_, rfl, ?_⟩
    show Function.update (publishCommit (beginCommitWait C s display client_id) display e
      f).commit_error_ display 0 display = 0
    rw [Function.update_same]

/-- The two cases on the primary of `exVsync`: a timed-out wait, and a wait signalled with
the commit error `-EINVAL`. -/
theorem WaitForCommitDone_bound_outcome_example :
    (∃ t, WaitForCommitDone exConstants exEnv exVsync 0 1 = some (ETIMEDOUT, t) ∧
      ETIMEDOUT ≠ 0 ∧ t.commit_error_ = exVsync.commit_error_ ∧
      t.retire_fence_ = exVsync.retire_fence_) ∧
    (∃ t, WaitForCommitDone exConstants exEnvCommitError exVsync 0 1 = some (-EINVAL, t) ∧
      t.commit_error_ 0 = 0) :=
  ⟨(WaitForCommitDone_bound_outcome exConstants exEnv exVsync 0 1).1 exVsyncDisplay
      (by decide) (by decide),
   (WaitForCommitDone_bound_outcome exConstants exEnvCommitError exVsync 0 1).2
      (-EINVAL) none (by decide) (by decide)⟩

/-- C21 fails on the code: display 2 is an unbound index below `kNumDisplays` and no commit
completion is signalled. `WaitForCommitDone(2, 0)` skips the timeout computation (its own
null check), waits with `timeout_ms = -1`, and on the timeout calls `GetCurrentPowerMode`
through the null pointer instead of returning the timeout status; on the bound primary
the same wait returns the timeout status and leaves the outcome state as it was. -/
theorem WaitForCommitDone_timeout_null_display :
    (2 : Display) < exLimits.kNumDisplays ∧
    exIdle.hwc_display_ 2 = none ∧
    exEnv.commit_signal = none ∧
    commitTimeoutMs exConstants exIdle 2 = -1 ∧
    (WaitForCommitDone exConstants exEnv exIdle 2 0).isNone = true ∧
    (WaitForCommitDone exConstants exEnv exIdle 0 0).map
        (fun w => (w.1, w.2.commit_error_ 0, w.2.retire_fence_ 0))
      = some (ETIMEDOUT, exIdle.commit_error_ 0, exIdle.retire_fence_ 0) := by
  decide

theorem getD_tail_bool (script : List Bool) (k : Nat) :
    script.tail.getD k false = script.getD (k + 1) false := by
  cases script with
  | nil => rfl
  | cons a rest => rfl

theorem headD_eq_getD_zero (script : List Bool) : script.headD false = script.getD 0 false := by
  cases script with
  | nil => rfl
  | cons a rest => rfl

theorem vmReleaseLoop_off (C : HWCSessionConstants) (display : Display) (timeout_ms : Int)
    (re_try : Nat) (script : List Bool) (s : HWCSession) (d : HWCDisplay)
    (hb : s.hwc_display_ display = some d) (hoff : d.current_power_mode = PowerMode.OFF) :
    vmReleaseLoop C display timeout_ms re_try script s = some (-ENODEV, s) := by
  cases re_try with
  | zero =>
    unfold vmReleaseLoop
    rw [hb]
    dsimp only
    rw [if_pos hoff]
  | succ n =>
    unfold vmReleaseLoop
    rw [hb]
    dsimp only
    rw [if_pos hoff]

theorem vmReleaseLoop_rounds (C : HWCSessionConstants) (display : Display) (timeout_ms : Int)
    (re_try : Nat) (script : List Bool) (s : HWCSession) (d : HWCDisplay)
    (hb : s.hwc_display_ display = some d) (hon : d.current_power_mode ≠ PowerMode.OFF) :
    ∃ n w, vmReleaseLoop C display timeout_ms re_try script s = some w ∧
      1 ≤ n ∧ n ≤ re_try + 1 ∧
      w.2.trace = s.trace ++ List.replicate n (vmReleaseWaitCall C display timeout_ms) ∧
      (∀ k, k + 1 < n → script.getD k false = false) ∧
      ((w.1 = 0 ∧ script.getD (n - 1) false = true) ∨
        (w.1 = ETIMEDOUT ∧ n = re_try + 1 ∧ script.getD (n - 1) false = false)) := by
  induction re_try generalizing script s with
  | zero =>
    unfold vmReleaseLoop
    rw [hb]
    dsimp only
    rw [if_neg hon]
    by_cases c : script.headD false = true
    · rw [if_pos c]
      refine ⟨1, _, rfl, le_refl 1, le_refl 1, rfl, fun k hk => absurd hk (by omega), Or.inl ⟨rfl, ?_⟩⟩
      rw [← headD_eq_getD_zero]
      exact c
    · rw [if_neg c]
      refine ⟨1, _, rfl, le_refl 1, le_refl 1, rfl, fun k hk => absurd hk (by omega),
        Or.inr ⟨rfl, rfl, ?_⟩⟩
      rw [← headD_eq_getD_zero]
      exact Bool.eq_false_iff.2 c
  | succ r ih =>
    unfold vmReleaseLoop
    rw [hb]
    dsimp only
    rw [if_neg hon]
    by_cases c : script.headD false = true
    · rw [if_pos c]
      refine ⟨1, _, rfl, le_refl 1, by omega, rfl, fun k hk => absurd hk (by omega), Or.inl ⟨rfl, ?_⟩⟩
      rw [← headD_eq_getD_zero]
      exact c
    · rw [if_neg c]
      have c0 : script.getD 0 false = false := by
        rw [← headD_eq_getD_zero]
        exact Bool.eq_false_iff.2 c
      obtain ⟨n, w, h1, h2, h3, h4, h5, h6⟩ :=
        ih script.tail (vmReleaseWaited C s display timeout_ms) hb
      refine ⟨n + 1, w, h1, by omega, by omega, ?_, ?_, ?_⟩
      · rw [h4]
        show (s.trace ++ [vmReleaseWaitCall C display timeout_ms]) ++ _ = _
        rw [List.append_assoc]
        rfl
      · intro k hk
        cases k with
        | zero => exact c0
        | succ j =>
          rw [← getD_tail_bool]
          exact h5 j (by omega)
      · have hn : n + 1 - 1 = (n - 1) + 1 := by omega
        rw [hn, ← getD_tail_bool]
        rcases h6 with ⟨a, b⟩ | ⟨a, b, c⟩
        · exact Or.inl ⟨a, b⟩
        · exact Or.inr ⟨a, by omega, c⟩

/-- C22. On a bound display `WaitForVmRelease` returns, and it makes at most
`kVmReleaseRetry + 1` waits, each a `WaitFinite(timeout_ms + kVmReleaseTimeoutMs)` on the
release lock of the display. An attempt (at any remaining retry count) that finds the
display powered off returns `-ENODEV` without a wait. Otherwise the waits before the last
one all timed out, and either the last wait was signalled and the result is 0, or all
`kVmReleaseRetry + 1` waits timed out and the result is the non-zero timeout status. -/
theorem WaitForVmRelease_bounded (C : HWCSessionConstants) (env : Env) (s : HWCSession)
    (display : Display) (timeout_ms : Int) (d : HWCDisplay)
    (hbound : s.hwc_display_ display = some d) :
    (∀ re_try script t, t.hwc_display_ display = some d →
      d.current_power_mode = PowerMode.OFF →
      vmReleaseLoop C display timeout_ms re_try script t = some (-ENODEV, t)) ∧
    (d.current_power_mode = PowerMode.OFF →
      (WaitForVmRelease C env s display timeout_ms).map (fun w => (w.1, w.2.trace))
        = some (-ENODEV, s.trace)) ∧
    (d.current_power_mode ≠ PowerMode.OFF →
      ∃ n w, WaitForVmRelease C env s display timeout_ms = some w ∧
        1 ≤ n ∧ n ≤ C.kVmReleaseRetry + 1 ∧
        w.2.trace = s.trace ++ List.replicate n (vmReleaseWaitCall C display timeout_ms) ∧
        (∀ k, k + 1 < n → env.vm_release_script.getD k false = false) ∧
        ((w.1 = 0 ∧ env.vm_release_script.getD (n - 1) false = true) ∨
          (w.1 = ETIMEDOUT ∧ ETIMEDOUT ≠ 0 ∧ n = C.kVmReleaseRetry + 1 ∧
            env.vm_release_script.getD (n - 1) false = false))) := by
  refine ⟨fun r script t ht hoff => vmReleaseLoop_off C display timeout_ms r script t d ht hoff,
    fun hoff => ?_, fun hon => ?_⟩
  · unfold WaitForVmRelease
    rw [vmReleaseLoop_off C display timeout_ms C.kVmReleaseRetry env.vm_release_script
      { s with clients_waiting_for_vm_release_ :=
          Function.update s.clients_waiting_for_vm_release_ display true } d hbound hoff]
    rfl
  · unfold WaitForVmRelease
    obtain ⟨n, w, h1, h2, h3, h4, h5, h6⟩ := vmReleaseLoop_rounds C display timeout_ms
      C.kVmReleaseRetry env.vm_release_script
      { s with clients_waiting_for_vm_release_ :=
          Function.update s.clients_waiting_for_vm_release_ display true } d hbound hon
    refine ⟨n, w, h1, h2, h3, h4, h5, ?_⟩
    rcases h6 with ⟨a, b⟩ | ⟨a, b, c⟩
    · exact Or.inl ⟨a, b⟩
    · exact Or.inr ⟨a, by decide, b, c⟩

/-- Witness for C22: the release is signalled in the third round of the wait on the
powered-on primary. -/
theorem WaitForVmRelease_bounded_witness :
    (WaitForVmRelease exConstants exEnvThirdRound exVsync 0 48).map (fun w => (w.1, w.2.trace))
      = some (0, [Event.VmReleaseWaitFinite 0 148, Event.VmReleaseWaitFinite 0 148,
          Event.VmReleaseWaitFinite 0 148]) ∧
    ((∀ re_try script t, t.hwc_display_ 0 = some exVsyncDisplay →
      exVsyncDisplay.current_power_mode = PowerMode.OFF →
      vmReleaseLoop exConstants 0 48 re_try script t = some (-ENODEV, t)) ∧
    (exVsyncDisplay.current_power_mode = PowerMode.OFF →
      (WaitForVmRelease exConstants exEnvThirdRound exVsync 0 48).map (fun w => (w.1, w.2.trace))
        = some (-ENODEV, exVsync.trace)) ∧
    (exVsyncDisplay.current_power_mode ≠ PowerMode.OFF →
      ∃ n w, WaitForVmRelease exConstants exEnvThirdRound exVsync 0 48 = some w ∧
        1 ≤ n ∧ n ≤ exConstants.kVmReleaseRetry + 1 ∧
        w.2.trace = exVsync.trace ++
          List.replicate n (vmReleaseWaitCall exConstants 0 48) ∧
        (∀ k, k + 1 < n → exEnvThirdRound.vm_release_script.getD k false = false) ∧
        ((w.1 = 0 ∧ exEnvThirdRound.vm_release_script.getD (n - 1) false = true) ∨
          (w.1 = ETIMEDOUT ∧ ETIMEDOUT ≠ 0 ∧ n = exConstants.kVmReleaseRetry + 1 ∧
            exEnvThirdRound.vm_release_script.getD (n - 1) false = false)))) :=
  ⟨by decide, WaitForVmRelease_bounded exConstants exEnvThirdRound exVsync 0 48 exVsyncDisplay
    (by decide)⟩

/-- C25 fails on the code: the pluggable display 1 and the second built-in display 3 both
carry the deferred power mode `ON`. The round for display 1 applies the mode, clears its
pending flag and sets the pending-refresh bit of the primary; the round for display 3
goes through the null `disp_map_info` (display 3 is in no pluggable slot), so its mode is
never applied and the call has no result. -/
theorem HandlePendingPowerMode_builtin_not_applied :
    exBothPending.secure_session_active_ = true ∧
    GetActiveBuiltinDisplay exLimits exBothPending = 0 ∧
    anyPendingPowerMode exLimits exBothPending 0 = true ∧
    (applyPendingPowerMode [{ display_id := 5 }] 0 exBothPending 1).map
      (fun t => (t.pending_power_mode_ 1, t.pending_refresh_ 0,
        (t.hwc_display_ 1).map (fun d => d.current_power_mode), t.active_displays_))
      = some (false, true, some PowerMode.ON, [0, 1]) ∧
    (exBothPending.hwc_display_ 3).map (fun d => (d.display_class, d.pending_power_mode))
      = some (DisplayClass.DISPLAY_CLASS_BUILTIN, PowerMode.ON) ∧
    exBothPending.pending_power_mode_ 3 = true ∧
    pendingDisconnected [{ display_id := 5 }] exBothPending 3 = false ∧
    (applyPendingPowerMode [{ display_id := 5 }] 0 exBothPending 3).isNone = true ∧
    (HandlePendingPowerMode exLimits exEnvPlug5 exBothPending 0 (some 7)).isNone = true := by
  decide

/-- C26 fails on the code: the second built-in display 3 is bound, has its pending flag set
and carries the deferred power mode `ON`; no pluggable slot has client id 3, so
`disp_map_info` is still the null pointer when the round for display 3 inserts into
`map_active_displays_`. -/
theorem HandlePendingPowerMode_null_descriptor :
    (exBuiltinPending.hwc_display_ 3).map (fun d => (d.display_class, d.pending_power_mode))
      = some (DisplayClass.DISPLAY_CLASS_BUILTIN, PowerMode.ON) ∧
    exBuiltinPending.pending_power_mode_ 3 = true ∧
    (findPluggableSlot 3 0 exBuiltinPending.map_info_pluggable_).isNone = true ∧
    (activatePending exBuiltinPending 3 PowerMode.ON).isNone = true ∧
    (HandlePendingPowerMode exLimits exEnv exBuiltinPending 0 (some 7)).isNone = true := by
  decide

/-- C27 fails on the code: without a virtual slot `GetDisplayIndex(DISPLAY_VIRTUAL)` is -1,
the index used for `hwc_display_` is 2^64 - 1, and both `HandlePluggableDisplays` and
`HandlePendingHotplug` read the array there (no secure session is active, the primary is
the active built-in display). -/
theorem HandlePluggableDisplays_index_out_of_bounds :
    GetDisplayIndex exNoVirtual QdutilsDisplay.DISPLAY_VIRTUAL = -1 ∧
    virtualDisplayIndex exNoVirtual = 2 ^ 64 - 1 ∧
    ¬ virtualDisplayIndex exNoVirtual < exLimits.kNumDisplays ∧
    (activeSecureSessions exLimits exNoVirtual).any = false ∧
    GetActiveBuiltinDisplay exLimits exNoVirtual = 0 ∧
    (HandlePluggableDisplays exLimits exEnvPlug5 exNoVirtual false).isNone = true ∧
    (HandlePendingHotplug exLimits exEnvPlug5 exNoVirtual 0 (some 7)).isNone = true := by
  decide

/-- C28 fails on the code: the second built-in slot (client id 3, the value of
`DISPLAY_BUILTIN_2`) is a permitted target and has no display object; `TUITransitionEndLocked`
calls `SetIdleTimeoutMs` through the null pointer before its unbound check, so no
`-ENODEV` is returned. -/
theorem TUITransitionEndLocked_unbound_target :
    tuiTargetDisplay exQdutils exLimits exSecondBuiltinFree 3 = 3 ∧
    tuiUnsupported exQdutils (tuiTargetDisplay exQdutils exLimits exSecondBuiltinFree 3) = false ∧
    exSecondBuiltinFree.hwc_display_ 3 = none ∧
    (TUITransitionEndLocked exQdutils exLimits exConstants exEnv exSecondBuiltinFree 3).isNone
      = true := by
  decide

theorem mem_setInsert (m : List Display) (k x : Display) :
    x ∈ setInsert m k ↔ x ∈ m ∨ x = k := by
  unfold setInsert
  by_cases h : k ∈ m
  · rw [if_pos h]
    constructor
    · exact Or.inl
    · rintro (h1 | rfl)
      · exact h1
      · exact h
  · rw [if_neg h, List.mem_append, List.mem_singleton]

theorem ActiveSetInv_congr (s t : HWCSession) (h1 : t.hwc_display_ = s.hwc_display_)
    (h2 : t.active_displays_ = s.active_displays_) (h : ActiveSetInv s) : ActiveSetInv t := by
  intro c
  unfold ActiveDisplay
  rw [h1, h2]
  exact h c

/-- The step that restores the invariant: the set is updated for `display` and mode `mode`,
and the display object at `display` then has `mode` as its current power mode. -/
theorem ActiveSetInv_update (s : HWCSession) (display : Display) (mode : PowerMode)
    (d : HWCDisplay) (hd : Display → Option HWCDisplay) (ad : List Display)
    (hinv : ActiveSetInv s)
    (hmode : d.current_power_mode = mode)
    (hdisp : hd display = some d)
    (hother : ∀ c, c ≠ display → hd c = s.hwc_display_ c)
    (hset : ∀ x, x ∈ ad ↔
      if mode = PowerMode.OFF ∨ mode = PowerMode.DOZE_SUSPEND then x ∈ s.active_displays_ ∧ x ≠ display
      else x ∈ s.active_displays_ ∨ x = display)
    (t : HWCSession) (ht1 : t.hwc_display_ = hd) (ht2 : t.active_displays_ = ad) :
    ActiveSetInv t := by
  intro c
  unfold ActiveDisplay
  rw [ht1, ht2, hset c]
  by_cases hc : c = display
  · subst hc
    rw [hdisp]
    by_cases hm : mode = PowerMode.OFF ∨ mode = PowerMode.DOZE_SUSPEND
    · rw [if_pos hm]
      constructor
      · rintro ⟨-, h⟩
        exact absurd rfl h
      · rintro ⟨d1, h1, h2, h3⟩
        cases h1
        rw [hmode] at h2 h3
        rcases hm with hm | hm
        · exact absurd hm h2
        · exact absurd hm h3
    · rw [if_neg hm]
      constructor
      · intro _
        refine ⟨d, rfl, ?_, ?_⟩
        · rw [hmode]; exact fun h => hm (Or.inl h)
        · rw [hmode]; exact fun h => hm (Or.inr h)
      · intro _
        exact Or.inr rfl
  · rw [hother c hc]
    have := hinv c
    unfold ActiveDisplay at this
    by_cases hm : mode = PowerMode.OFF ∨ mode = PowerMode.DOZE_SUSPEND
    · rw [if_pos hm, ← this]
      exact ⟨fun h => h.1, fun h => ⟨h, hc⟩⟩
    · rw [if_neg hm, ← this]
      exact ⟨fun h => h.resolve_right hc, Or.inl⟩

theorem updateActiveDisplays_mem (s : HWCSession) (display : Display) (mode : PowerMode)
    (x : Display) :
    x ∈ (updateActiveDisplays s display mode).active_displays_ ↔
      if mode = PowerMode.OFF ∨ mode = PowerMode.DOZE_SUSPEND then x ∈ s.active_displays_ ∧ x ≠ display
      else x ∈ s.active_displays_ ∨ x = display := by
  unfold updateActiveDisplays
  by_cases hm : mode = PowerMode.OFF ∨ mode = PowerMode.DOZE_SUSPEND
  · rw [if_pos hm, if_pos hm]
    exact mem_setErase _ _ _
  · rw [if_neg hm, if_neg hm]
    exact mem_setInsert _ _ _

theorem finishPowerMode_frame (K : HWCCallbacks) (s : HWCSession) (display : Display)
    (mode : PowerMode) :
    (finishPowerMode K s display mode).hwc_display_ = s.hwc_display_ ∧
    (finishPowerMode K s display mode).active_displays_ = s.active_displays_ := by
  obtain ⟨n, thr, pr, tr, h⟩ := finishPowerMode_effect K s display mode
  rw [h]
  exact ⟨rfl, rfl⟩

theorem applyPowerMode_inv (K : HWCCallbacks) (s : HWCSession) (display : Display)
    (mode : PowerMode) (d : HWCDisplay) (hinv : ActiveSetInv s)
    (hidx : display < K.kNumDisplays) (hb : s.hwc_display_ display = some d)
    (hok : (applyPowerMode K s display mode).1 = HWC3Error.None ∨
      d.power_mode_status = HWC3Error.None) :
    ActiveSetInv (applyPowerMode K s display mode).2 := by
  have hcall : CallDisplayFunction_SetPowerMode K (updateActiveDisplays s display mode) display mode
      = ((d.SetPowerMode mode).1,
        (updateActiveDisplays s display mode).setDisplay display (some (d.SetPowerMode mode).2)) := by
    unfold CallDisplayFunction_SetPowerMode
    rw [if_neg (not_le.mpr hidx)]
    have : (updateActiveDisplays s display mode).hwc_display_ display = some d := by
      obtain ⟨ad, h, -⟩ := updateActiveDisplays_effect s display mode
      rw [h]
      exact hb
    rw [this]
  have hacc : d.power_mode_status = HWC3Error.None := by
    rcases hok with h | h
    · unfold applyPowerMode at h
      rw [hcall] at h
      dsimp only at h
      by_cases c : d.power_mode_status = HWC3Error.None
      · exact c
      · exfalso
        have e1 : (d.SetPowerMode mode).1 = d.power_mode_status := by
          unfold HWCDisplay.SetPowerMode
          rw [if_neg c]
        rw [e1, if_pos c] at h
        exact c h
    · exact h
  have e1 : d.SetPowerMode mode = (HWC3Error.None, { d with current_power_mode := mode }) := by
    unfold HWCDisplay.SetPowerMode
    rw [if_pos hacc]
  unfold applyPowerMode
  rw [hcall, e1]
  dsimp only
  rw [if_neg (not_not.mpr rfl)]
  obtain ⟨f1, f2⟩ := finishPowerMode_frame K
    ((updateActiveDisplays s display mode).setDisplay display
      (some { d with current_power_mode := mode })) display mode
  refine ActiveSetInv_update s display mode { d with current_power_mode := mode }
    (Function.update s.hwc_display_ display (some { d with current_power_mode := mode }))
    (updateActiveDisplays s display mode).active_displays_ hinv rfl
    (Function.update_same _ _ _) (fun c hc => Function.update_noteq hc _ _)
    (updateActiveDisplays_mem s display mode) _ ?_ ?_
  · rw [f1]
    obtain ⟨ad, h, -⟩ := updateActiveDisplays_effect s display mode
    rw [h]
    rfl
  · rw [f2]
    rfl
theorem ActiveSetInv_setDisplay (s : HWCSession) (display : Display) (d e : HWCDisplay)
    (hinv : ActiveSetInv s) (hb : s.hwc_display_ display = some d)
    (hmode : e.current_power_mode = d.current_power_mode) :
    ActiveSetInv (s.setDisplay display (some e)) := by
  intro c
  rw [show (s.setDisplay display (some e)).active_displays_ = s.active_displays_ from rfl, hinv c]
  unfold ActiveDisplay
  rw [show (s.setDisplay display (some e)).hwc_display_
    = Function.update s.hwc_display_ display (some e) from rfl]
  by_cases hc : c = display
  · subst hc
    rw [Function.update_same, hb]
    constructor
    · rintro ⟨d1, h1, h2, h3⟩
      cases h1
      exact ⟨e, rfl, hmode ▸ h2, hmode ▸ h3⟩
    · rintro ⟨d1, h1, h2, h3⟩
      cases h1
      exact ⟨d, rfl, hmode ▸ h2, hmode ▸ h3⟩
  · rw [Function.update_noteq hc]

theorem SetPowerMode_inv (K : HWCCallbacks) (env : Env) (s : HWCSession) (display : Display)
    (int_mode : Int) (hinv : ActiveSetInv s)
    (hok : (SetPowerMode K env s display int_mode).1 = HWC3Error.None ∨
      ∀ d, s.hwc_display_ display = some d → d.power_mode_status = HWC3Error.None) :
    ActiveSetInv (SetPowerMode K env s display int_mode).2 := by
  unfold SetPowerMode at hok ⊢
  cases hb : s.hwc_display_ display with
  | none => exact hinv
  | some d =>
    rw [hb] at hok
    dsimp only at hok ⊢
    split_ifs at hok ⊢ with h1 h2 h3 h4 h5 h6 h7 h8
    all_goals first
      | exact hinv
      | exact ActiveSetInv_setDisplay s display d _ hinv hb rfl
      | skip
    refine applyPowerMode_inv K s display _ d hinv (not_le.mp h1) hb ?_
    rcases hok with h | h
    · exact Or.inl h
    · exact Or.inr (h d rfl)

theorem ActiveSetInv_destroy (s t : HWCSession) (client_id : Display) (hinv : ActiveSetInv s)
    (h1 : t.hwc_display_ = Function.update s.hwc_display_ client_id none)
    (h2 : t.active_displays_ = setErase s.active_displays_ client_id) : ActiveSetInv t := by
  intro c
  unfold ActiveDisplay
  rw [h1, h2, mem_setErase, hinv c]
  unfold ActiveDisplay
  by_cases hc : c = client_id
  · subst hc
    rw [Function.update_same]
    constructor
    · rintro ⟨-, h⟩
      exact absurd rfl h
    · rintro ⟨d, h, -⟩
      cases h
  · rw [Function.update_noteq hc]
    exact ⟨fun h => h.1, fun h => ⟨h, hc⟩⟩

theorem DestroyPluggableDisplayLocked_inv (s : HWCSession) (map_info : MapInfoRef)
    (hinv : ActiveSetInv s) : ActiveSetInv (DestroyPluggableDisplayLocked s map_info) := by
  unfold DestroyPluggableDisplayLocked
  dsimp only
  cases hb : s.hwc_display_ (s.mapInfo map_info).client_id with
  | none => exact hinv
  | some d =>
    dsimp only
    refine ActiveSetInv_destroy s _ (s.mapInfo map_info).client_id hinv ?_ ?_
    · cases map_info <;> rfl
    · cases map_info <;> rfl

theorem DestroyNonPluggableDisplayLocked_inv (s : HWCSession) (map_info : MapInfoRef)
    (hinv : ActiveSetInv s) : ActiveSetInv (DestroyNonPluggableDisplayLocked s map_info) := by
  unfold DestroyNonPluggableDisplayLocked
  dsimp only
  cases hb : s.hwc_display_ (s.mapInfo map_info).client_id with
  | none => exact hinv
  | some d =>
    dsimp only
    refine ActiveSetInv_destroy s _ (s.mapInfo map_info).client_id hinv ?_ ?_
    · cases map_info <;> rfl
    · cases map_info <;> rfl
theorem applyPendingPowerMode_inv (hw : List HWDisplayInfo) (a : Display) (s t : HWCSession)
    (display : Display) (hinv : ActiveSetInv s) (hacc : EngineAccepts s)
    (h : applyPendingPowerMode hw a s display = some t) :
    ActiveSetInv t ∧ EngineAccepts t := by
  unfold applyPendingPowerMode at h
  by_cases h1 : display = a
  · rw [if_pos h1] at h
    cases h
    exact ⟨hinv, hacc⟩
  rw [if_neg h1] at h
  by_cases h2 : s.pending_power_mode_ display = false
  · rw [if_pos h2] at h
    cases h
    exact ⟨hinv, hacc⟩
  rw [if_neg h2] at h
  cases hb : s.hwc_display_ display with
  | none =>
    rw [hb] at h
    cases h
    exact ⟨hinv, hacc⟩
  | some d =>
    rw [hb] at h
    dsimp only at h
    by_cases h3 : pendingDisconnected hw s display = true
    · rw [if_pos h3] at h
      cases h
      exact ⟨hinv, hacc⟩
    rw [if_neg h3] at h
    cases ha : activatePending s display d.pending_power_mode with
    | none =>
      rw [ha] at h
      cases h
    | some s1 =>
      rw [ha] at h
      cases h
      have hs1 : s1.hwc_display_ = s.hwc_display_ ∧
          ∀ x, x ∈ s1.active_displays_ ↔
            if d.pending_power_mode = PowerMode.OFF ∨ d.pending_power_mode = PowerMode.DOZE_SUSPEND
            then x ∈ s.active_displays_ ∧ x ≠ display
            else x ∈ s.active_displays_ ∨ x = display := by
        unfold activatePending at ha
        by_cases hm : d.pending_power_mode = PowerMode.OFF ∨
            d.pending_power_mode = PowerMode.DOZE_SUSPEND
        · rw [if_pos hm] at ha
          cases ha
          refine ⟨rfl, fun x => ?_⟩
          rw [if_pos hm]
          exact mem_setErase _ _ _
        · rw [if_neg hm] at ha
          cases hf : findPluggableSlot display 0 s.map_info_pluggable_ with
          | none =>
            rw [hf] at ha
            cases ha
          | some slot =>
            rw [hf] at ha
            cases ha
            refine ⟨rfl, fun x => ?_⟩
            rw [if_neg hm]
            exact mem_setInsert _ _ _
      have hd : d.power_mode_status = HWC3Error.None := hacc display d hb
      have e1 : d.SetPowerMode d.pending_power_mode
          = (HWC3Error.None, { d with current_power_mode := d.pending_power_mode }) := by
        unfold HWCDisplay.SetPowerMode
        rw [if_pos hd]
      unfold setPendingMode
      rw [e1]
      dsimp only
      rw [if_pos rfl]
      constructor
      · refine ActiveSetInv_update s display d.pending_power_mode
          (HWCDisplay.ClearPendingPowerMode { d with current_power_mode := d.pending_power_mode })
          (Function.update s.hwc_display_ display
            (some (HWCDisplay.ClearPendingPowerMode
              { d with current_power_mode := d.pending_power_mode })))
          s1.active_displays_ hinv rfl (Function.update_same _ _ _)
          (fun c hc => Function.update_noteq hc _ _) hs1.2 _ ?_ rfl
        show Function.update s1.hwc_display_ display _ = _
        rw [hs1.1]
      · intro c e he
        change Function.update s1.hwc_display_ display _ c = some e at he
        rw [hs1.1] at he
        by_cases hc : c = display
        · subst hc
          rw [Function.update_same] at he
          cases he
          exact hd
        · rw [Function.update_noteq hc] at he
          exact hacc c e he

theorem applyPendingPowerModes_inv (hw : List HWDisplayInfo) (a : Display) (l : List Display) :
    ∀ (s t : HWCSession), ActiveSetInv s → EngineAccepts s →
      applyPendingPowerModes hw a l s = some t → ActiveSetInv t ∧ EngineAccepts t := by
  induction l with
  | nil =>
    intro s t hinv hacc h
    unfold applyPendingPowerModes at h
    cases h
    exact ⟨hinv, hacc⟩
  | cons display rest ih =>
    intro s t hinv hacc h
    unfold applyPendingPowerModes at h
    cases h1 : applyPendingPowerMode hw a s display with
    | none =>
      rw [h1] at h
      cases h
    | some s1 =>
      rw [h1] at h
      obtain ⟨i1, i2⟩ := applyPendingPowerMode_inv hw a s s1 display hinv hacc h1
      exact ih s1 t i1 i2 h

theorem HandlePendingPowerMode_inv (K : HWCCallbacks) (env : Env) (s t : HWCSession)
    (disp_id : Display) (retire_fence : Option Nat) (hinv : ActiveSetInv s)
    (hacc : EngineAccepts s)
    (h : HandlePendingPowerMode K env s disp_id retire_fence = some t) : ActiveSetInv t := by
  unfold HandlePendingPowerMode at h
  split_ifs at h with h1 h2 h3 h4 h5 h6
  · cases h; exact hinv
  · cases h; exact hinv
  · cases h
    exact ActiveSetInv_congr s _ rfl rfl hinv
  · cases h; exact hinv
  · cases h; exact hinv
  · cases hs : env.displays_status with
    | none =>
      rw [hs] at h
      cases h
      exact hinv
    | some hw =>
      rw [hs] at h
      dsimp only at h
      cases hp : applyPendingPowerModes hw (GetActiveBuiltinDisplay K s) (nonPrimaryDisplays K) s with
      | none =>
        rw [hp] at h
        cases h
      | some s1 =>
        rw [hp] at h
        cases h
        exact ActiveSetInv_congr s1 _ rfl rfl
          (applyPendingPowerModes_inv hw _ _ s s1 hinv hacc hp).1
/-- C29 (amended): the set `active_displays_` holds exactly the ids of the bound displays that
are neither off nor in doze-suspend after every `SetPowerMode` that succeeds or whose display
object accepts power-mode changes, after `DestroyPluggableDisplayLocked` and
`DestroyNonPluggableDisplayLocked`, and after every `HandlePendingPowerMode` that returns
while no bound display object refuses a power-mode change. -/
theorem active_displays_tracks_power_modes (K : HWCCallbacks) (env : Env) (s : HWCSession)
    (hinv : ActiveSetInv s) :
    (∀ display int_mode,
      ((SetPowerMode K env s display int_mode).1 = HWC3Error.None ∨
        ∀ d, s.hwc_display_ display = some d → d.power_mode_status = HWC3Error.None) →
      ActiveSetInv (SetPowerMode K env s display int_mode).2) ∧
    (∀ map_info, ActiveSetInv (DestroyPluggableDisplayLocked s map_info)) ∧
    (∀ map_info, ActiveSetInv (DestroyNonPluggableDisplayLocked s map_info)) ∧
    (∀ disp_id retire_fence t, EngineAccepts s →
      HandlePendingPowerMode K env s disp_id retire_fence = some t → ActiveSetInv t) :=
  ⟨fun display int_mode hok => SetPowerMode_inv K env s display int_mode hinv hok,
   fun map_info => DestroyPluggableDisplayLocked_inv s map_info hinv,
   fun map_info => DestroyNonPluggableDisplayLocked_inv s map_info hinv,
   fun disp_id retire_fence t hacc h =>
     HandlePendingPowerMode_inv K env s t disp_id retire_fence hinv hacc h⟩

theorem ActiveSetInv_exIdle : ActiveSetInv exIdle := by
  intro c
  unfold ActiveDisplay
  by_cases hc : c = 0
  · subst hc
    exact ⟨fun _ => ⟨exPrimaryOn, rfl, by decide, by decide⟩, fun _ => by decide⟩
  · constructor
    · intro h
      exact absurd (List.mem_singleton.mp h) hc
    · rintro ⟨d, h, -⟩
      have : exIdle.hwc_display_ c = none := if_neg hc
      rw [this] at h
      cases h

/-- Witness for C29 (amended): the session `exIdle`, whose only bound display is the powered-on
primary and whose active set is `{0}`. -/
theorem active_displays_tracks_power_modes_witness :
    ActiveSetInv exIdle ∧
    ((∀ display int_mode,
      ((SetPowerMode exLimits exEnv exIdle display int_mode).1 = HWC3Error.None ∨
        ∀ d, exIdle.hwc_display_ display = some d → d.power_mode_status = HWC3Error.None) →
      ActiveSetInv (SetPowerMode exLimits exEnv exIdle display int_mode).2) ∧
    (∀ map_info, ActiveSetInv (DestroyPluggableDisplayLocked exIdle map_info)) ∧
    (∀ map_info, ActiveSetInv (DestroyNonPluggableDisplayLocked exIdle map_info)) ∧
    (∀ disp_id retire_fence t, EngineAccepts exIdle →
      HandlePendingPowerMode exLimits exEnv exIdle disp_id retire_fence = some t →
      ActiveSetInv t)) :=
  ⟨ActiveSetInv_exIdle, active_displays_tracks_power_modes exLimits exEnv exIdle ActiveSetInv_exIdle⟩

theorem ActiveSetInv_exRefusing : ActiveSetInv exRefusing := by
  intro c
  unfold ActiveDisplay
  by_cases hc : c = 0
  · subst hc
    exact ⟨fun _ => ⟨_, rfl, by decide, by decide⟩, fun _ => by decide⟩
  · constructor
    · intro h
      exact absurd (List.mem_singleton.mp h) hc
    · rintro ⟨d, h, -⟩
      have : exRefusing.hwc_display_ c = none := if_neg hc
      rw [this] at h
      cases h

/-- C29 as stated fails: the primary display is powered on and in `active_displays_`, and its
display object refuses power-mode changes. `SetPowerMode(0, OFF)` erases the id from the set
before the engine call, returns the engine error, and leaves the display powered on outside
the set. -/
theorem SetPowerMode_failure_breaks_active_set :
    ActiveSetInv exRefusing ∧
    (SetPowerMode exLimits exEnv exRefusing 0 PowerMode.OFF.toInt).1 = HWC3Error.BadParameter ∧
    (SetPowerMode exLimits exEnv exRefusing 0 PowerMode.OFF.toInt).2.active_displays_ = [] ∧
    ((SetPowerMode exLimits exEnv exRefusing 0 PowerMode.OFF.toInt).2.hwc_display_ 0).map
      (fun d => d.current_power_mode) = some PowerMode.ON ∧
    ¬ ActiveSetInv (SetPowerMode exLimits exEnv exRefusing 0 PowerMode.OFF.toInt).2 := by
  have h1 : (SetPowerMode exLimits exEnv exRefusing 0 PowerMode.OFF.toInt).1
      = HWC3Error.BadParameter := by decide
  have h2 : (SetPowerMode exLimits exEnv exRefusing 0 PowerMode.OFF.toInt).2.active_displays_
      = [] := by decide
  have h3 : ((SetPowerMode exLimits exEnv exRefusing 0 PowerMode.OFF.toInt).2.hwc_display_ 0).map
      (fun d => d.current_power_mode) = some PowerMode.ON := by decide
  refine ⟨ActiveSetInv_exRefusing, h1, h2, h3, fun h => ?_⟩
  have h4 : (0 : Display) ∈
      (SetPowerMode exLimits exEnv exRefusing 0 PowerMode.OFF.toInt).2.active_displays_ := by
    refine (h 0).mpr ?_
    cases hd : (SetPowerMode exLimits exEnv exRefusing 0 PowerMode.OFF.toInt).2.hwc_display_ 0 with
    | none =>
      rw [hd] at h3
      cases h3
    | some d =>
      rw [hd] at h3
      have h5 : d.current_power_mode = PowerMode.ON := Option.some.inj h3
      exact ⟨d, hd, by rw [h5]; decide, by rw [h5]; decide⟩
  rw [h2] at h4
  cases h4

theorem resizeSlots_length (n : Nat) (l : List DisplayMapInfo) :
    (resizeSlots n l).length = n := by
  unfold resizeSlots
  rw [List.length_append, List.length_take, List.length_replicate]
  omega

theorem assignClientIds_length (l : List DisplayMapInfo) :
    ∀ base_id, (assignClientIds base_id l).1.length = l.length := by
  induction l with
  | nil => intro base_id; rfl
  | cons m rest ih =>
    intro base_id
    unfold assignClientIds
    rw [List.length_cons, List.length_cons, ih]

theorem initSlots_lengths (K : HWCCallbacks) (Q : Qdutils) (s : HWCSession)
    (max_builtin max_pluggable max_virtual : Int) :
    (initSlots K Q s max_builtin max_pluggable max_virtual).1.map_info_pluggable_.length
      = UINT32 (min max_pluggable K.kNumPluggable) ∧
    (initSlots K Q s max_builtin max_pluggable max_virtual).1.map_info_builtin_.length
      = UINT32 (min max_builtin K.kNumBuiltIn) ∧
    (initSlots K Q s max_builtin max_pluggable max_virtual).1.map_info_virtual_.length
      = UINT32 (min max_virtual K.kNumVirtual) := by
  unfold initSlots
  dsimp only
  rw [assignClientIds_length, assignClientIds_length, assignClientIds_length,
    resizeSlots_length, resizeSlots_length, resizeSlots_length]
  exact ⟨rfl, rfl, rfl⟩

theorem InitSupportedDisplaySlots_queried (K : HWCCallbacks) (Q : Qdutils) (env : Env)
    (core : CoreAnswers) (s : HWCSession) (hdr_size : Nat)
    (h1 : core.create_core = .kErrorNone)
    (h2 : core.first_display_interface.1 = .kErrorNone)
    (h3 : core.max_builtin.1 = .kErrorNone)
    (h4 : core.max_pluggable.1 = .kErrorNone)
    (h5 : core.max_virtual.1 = .kErrorNone) :
    InitSupportedDisplaySlots K Q env core s hdr_size
      = initSlots K Q
          { s with map_info_primary_ :=
              { s.map_info_primary_ with client_id := toDisplay Q.DISPLAY_PRIMARY } }
          (adjustedMaxBuiltin core.first_display_interface.2 core.max_builtin.2)
          (adjustedMaxPluggable core.first_display_interface.2 core.max_pluggable.2)
          (adjustedMaxVirtual env core.max_virtual.2) := by
  unfold InitSupportedDisplaySlots
  dsimp only
  rw [if_neg (not_not.mpr h1), if_neg (not_not.mpr h2), if_neg (not_not.mpr h3),
    if_neg (not_not.mpr h4), if_neg (not_not.mpr h5)]

/-- C30: with a built-in primary and a core that reports zero built-in displays (and two
pluggable, one virtual), `max_builtin--` gives -1, `UINT32(std::min(-1, kNumBuiltIn))` is
4294967295, and the built-in table is resized to that many slots although `kNumBuiltIn`
is 1. -/
theorem InitSupportedDisplaySlots_builtin_underflow :
    exCoreNoBuiltin.max_builtin = (DisplayError.kErrorNone, 0) ∧
    exLimits.kNumBuiltIn = 1 ∧
    (InitSupportedDisplaySlots exLimits exQdutils exEnv exCoreNoBuiltin {} 0).1.map_info_builtin_.length
      = 4294967295 := by
  refine ⟨rfl, rfl, ?_⟩
  rw [InitSupportedDisplaySlots_queried _ _ _ _ _ _ rfl rfl rfl rfl rfl,
    (initSlots_lengths _ _ _ _ _ _).2.1]
  decide
theorem UINT32_min_le (m : Int) (k : Nat) (hm : 0 ≤ m) : UINT32 (min m k) ≤ k := by
  unfold UINT32
  have h1 : 0 ≤ min m (k : Int) := le_min hm (Int.ofNat_nonneg k)
  have h3 : min m (k : Int) ≤ k := min_le_right _ _
  omega

theorem assignClientIds_ids (l : List DisplayMapInfo) :
    ∀ base_id,
      (assignClientIds base_id l).1.map (fun m => m.client_id)
        = (List.range l.length).map (fun i => if i = 0 then base_id else (base_id + i) % 2 ^ 64) ∧
      (assignClientIds base_id l).2
        = if l.length = 0 then base_id else (base_id + l.length) % 2 ^ 64 := by
  induction l with
  | nil => intro base_id; exact ⟨rfl, rfl⟩
  | cons m rest ih =>
    intro base_id
    obtain ⟨i1, i2⟩ := ih ((base_id + 1) % 2 ^ 64)
    unfold assignClientIds
    constructor
    · rw [List.map_cons, i1, List.length_cons, List.range_succ_eq_map, List.map_cons, List.map_map]
      refine congrArg₂ List.cons rfl (List.map_congr_left fun i _ => ?_)
      rw [Function.comp_apply, if_neg (Nat.succ_ne_zero i)]
      by_cases hi : i = 0
      · subst hi; rfl
      · rw [if_neg hi, Nat.succ_eq_add_one, Nat.add_mod, Nat.mod_mod, ← Nat.add_mod]
        congr 1
        omega
    · rw [i2, List.length_cons, if_neg (Nat.succ_ne_zero _)]
      by_cases hr : rest.length = 0
      · rw [if_pos hr, hr]
      · rw [if_neg hr, Nat.add_mod, Nat.mod_mod, ← Nat.add_mod]
        congr 1
        omega

/-- The sizing of the slot tables when every query succeeds, the reported maxima are not
negative and the maximum of the primary display's own type is at least one: no table is
longer than its limit in `HWCCallbacks`. -/
theorem InitSupportedDisplaySlots_sizes (K : HWCCallbacks) (Q : Qdutils) (env : Env)
    (core : CoreAnswers) (s : HWCSession) (hdr_size : Nat)
    (h1 : core.create_core = .kErrorNone)
    (h2 : core.first_display_interface.1 = .kErrorNone)
    (h3 : core.max_builtin.1 = .kErrorNone)
    (h4 : core.max_pluggable.1 = .kErrorNone)
    (h5 : core.max_virtual.1 = .kErrorNone)
    (hb : 0 ≤ core.max_builtin.2) (hp : 0 ≤ core.max_pluggable.2) (hv : 0 ≤ core.max_virtual.2)
    (hprimary : if core.first_display_interface.2 = .kPluggable then 1 ≤ core.max_pluggable.2
      else 1 ≤ core.max_builtin.2) :
    (InitSupportedDisplaySlots K Q env core s hdr_size).1.map_info_pluggable_.length
      ≤ K.kNumPluggable ∧
    (InitSupportedDisplaySlots K Q env core s hdr_size).1.map_info_builtin_.length
      ≤ K.kNumBuiltIn ∧
    (InitSupportedDisplaySlots K Q env core s hdr_size).1.map_info_virtual_.length
      ≤ K.kNumVirtual := by
  rw [InitSupportedDisplaySlots_queried K Q env core s hdr_size h1 h2 h3 h4 h5]
  obtain ⟨l1, l2, l3⟩ := initSlots_lengths K Q
    { s with map_info_primary_ :=
        { s.map_info_primary_ with client_id := toDisplay Q.DISPLAY_PRIMARY } }
    (adjustedMaxBuiltin core.first_display_interface.2 core.max_builtin.2)
    (adjustedMaxPluggable core.first_display_interface.2 core.max_pluggable.2)
    (adjustedMaxVirtual env core.max_virtual.2)
  rw [l1, l2, l3]
  refine ⟨UINT32_min_le _ _ ?_, UINT32_min_le _ _ ?_, UINT32_min_le _ _ ?_⟩
  · unfold adjustedMaxPluggable
    split_ifs with h
    · rw [if_pos h] at hprimary
      omega
    · exact hp
  · unfold adjustedMaxBuiltin
    split_ifs with h
    · exact hb
    · rw [if_neg h] at hprimary
      omega
  · unfold adjustedMaxVirtual
    split_ifs <;> omega

theorem runLocks_acquire (held : List Lock) (l : Lock) (rest : List LockOp) :
    runLocks held (LockOp.acquire l :: rest)
      = if held.all (fun h => h.ordered l) = true then runLocks (l :: held) rest else none := by
  rw [runLocks]

theorem runLocks_release_cons (held : List Lock) (l : Lock) (rest : List LockOp) :
    runLocks held (LockOp.release l :: rest)
      = if l ∈ held then runLocks (held.erase l) rest else none := by
  rw [runLocks]

theorem runLocks_append (a : List LockOp) :
    ∀ (held : List Lock) (b : List LockOp),
      runLocks held (a ++ b) = (runLocks held a).bind (fun h => runLocks h b) := by
  induction a with
  | nil => intro held b; rfl
  | cons op rest ih =>
    intro held b
    cases op with
    | acquire l =>
      rw [List.cons_append, runLocks_acquire, runLocks_acquire]
      by_cases h : held.all (fun h => h.ordered l) = true
      · rw [if_pos h, if_pos h, ih]
      · rw [if_neg h, if_neg h]
        rfl
    | release l =>
      rw [List.cons_append, runLocks_release_cons, runLocks_release_cons]
      by_cases h : l ∈ held
      · rw [if_pos h, if_pos h, ih]
      · rw [if_neg h, if_neg h]
        rfl

theorem runLocks_release (held : List Lock) (l : Lock) :
    runLocks (l :: held) [LockOp.release l] = some held := by
  rw [runLocks_release_cons, if_pos (List.mem_cons_self l held), List.erase_cons_head]
  rfl

theorem runLocks_scopeLock (held : List Lock) (l : Lock) (t : List LockOp)
    (hord : held.all (fun h => h.ordered l) = true)
    (ht : runLocks (l :: held) t = some (l :: held)) :
    runLocks held (scopeLock l t) = some held := by
  unfold scopeLock
  rw [List.cons_append, runLocks_acquire, if_pos hord, runLocks_append, ht]
  exact runLocks_release held l

theorem ordered_of_not_locker (h l : Lock) (hl : ∀ display, l ≠ Lock.locker display) :
    h.ordered l = true := by
  cases l with
  | locker display => exact absurd rfl (hl display)
  | _ => cases h <;> rfl

theorem ordered_of_held_not_locker (h l : Lock) (hh : ∀ display, h ≠ Lock.locker display) :
    h.ordered l = true := by
  cases h with
  | locker display => exact absurd rfl (hh display)
  | _ => cases l <;> rfl

theorem NoLocker_all_ordered (held : List Lock) (l : Lock) (h : NoLocker held) :
    held.all (fun h => h.ordered l) = true := by
  rw [List.all_eq_true]
  intro x hx
  exact ordered_of_held_not_locker x l (fun display e => h display (e ▸ hx))

theorem Quiet_nil : Quiet [] := fun _ _ => rfl

theorem Inner_nil : Inner [] := fun _ => rfl

theorem Quiet_append (a b : List LockOp) (ha : Quiet a) (hb : Quiet b) : Quiet (a ++ b) := by
  intro held h
  rw [runLocks_append, ha held h]
  exact hb held h

theorem Inner_scopeLock (l : Lock) (hl : ∀ display, l ≠ Lock.locker display) :
    Inner (scopeLock l []) := by
  intro held
  refine runLocks_scopeLock held l [] ?_ rfl
  rw [List.all_eq_true]
  intro x _
  exact ordered_of_not_locker x l hl

theorem Quiet_scopeLock_locker (display : Display) (t : List LockOp) (ht : Inner t) :
    Quiet (scopeLock (.locker display) t) := by
  intro held h
  exact runLocks_scopeLock held _ t (NoLocker_all_ordered held _ h) (ht _)

theorem Quiet_scopeLock (l : Lock) (hl : ∀ display, l ≠ Lock.locker display) (t : List LockOp)
    (ht : Quiet t) : Quiet (scopeLock l t) := by
  intro held h
  refine runLocks_scopeLock held l t (NoLocker_all_ordered held l h) (ht _ ?_)
  intro display hm
  rcases List.mem_cons.mp hm with e | e
  · exact hl display e.symm
  · exact h display e

theorem Quiet_ite (c : Prop) [Decidable c] (a b : List LockOp) (ha : Quiet a) (hb : Quiet b) :
    Quiet (if c then a else b) := by
  split_ifs
  · exact ha
  · exact hb

theorem activeBuiltinScan_locks_quiet (s : HWCSession) (l : List DisplayMapInfo) :
    Quiet (activeBuiltinScan_locks s l) := by
  induction l with
  | nil => exact Quiet_nil
  | cons info rest ih =>
    unfold activeBuiltinScan_locks
    refine Quiet_append _ _ (Quiet_scopeLock_locker _ _ Inner_nil) ?_
    cases s.hwc_display_ info.client_id with
    | none => exact ih
    | some d => exact Quiet_ite _ _ _ Quiet_nil ih

theorem GetActiveBuiltinDisplay_locks_quiet (s : HWCSession) :
    Quiet (GetActiveBuiltinDisplay_locks s) :=
  activeBuiltinScan_locks_quiet s _

theorem CallDisplayFunction_locks_quiet (K : HWCCallbacks) (display : Display) :
    Quiet (CallDisplayFunction_locks K display) :=
  Quiet_ite _ _ _ Quiet_nil (Quiet_scopeLock_locker _ _ Inner_nil)

theorem powerModeCall_locks_quiet (K : HWCCallbacks) (s : HWCSession) (display : Display)
    (d : HWCDisplay) (mode : PowerMode) : Quiet (powerModeCall_locks K s display d mode) :=
  Quiet_ite _ _ _ Quiet_nil (Quiet_ite _ _ _ Quiet_nil (Quiet_ite _ _ _ Quiet_nil
    (Quiet_ite _ _ _ Quiet_nil (CallDisplayFunction_locks_quiet K display))))

theorem deferPowerMode_locks_quiet (K : HWCCallbacks) (s : HWCSession) (display : Display)
    (d : HWCDisplay) : Quiet (deferPowerMode_locks K s display d) :=
  Quiet_ite _ _ _
    (Quiet_append _ _ (GetActiveBuiltinDisplay_locks_quiet s)
      (Quiet_ite _ _ _ (Quiet_scopeLock_locker _ _ Inner_nil) Quiet_nil))
    Quiet_nil

theorem SetPowerMode_locks_quiet (K : HWCCallbacks) (env : Env) (s : HWCSession)
    (display : Display) (int_mode : Int) : Quiet (SetPowerMode_locks K env s display int_mode) := by
  unfold SetPowerMode_locks
  cases s.hwc_display_ display with
  | none => exact Quiet_nil
  | some d =>
    exact Quiet_ite _ _ _ Quiet_nil (Quiet_ite _ _ _ Quiet_nil (Quiet_ite _ _ _ Quiet_nil
      (Quiet_append _ _
        (Quiet_append _ _ (Quiet_scopeLock_locker _ _ Inner_nil)
          (deferPowerMode_locks_quiet K s display d))
        (Quiet_ite _ _ _ Quiet_nil (powerModeCall_locks_quiet K s display d _)))))

theorem destroySlot_locks_quiet (s : HWCSession) (map_info : MapInfoRef) :
    Quiet (destroySlot_locks s map_info) := by
  unfold destroySlot_locks
  refine Quiet_scopeLock_locker _ _ ?_
  cases s.hwc_display_ (s.mapInfo map_info).client_id with
  | none => exact Inner_nil
  | some d => exact Inner_scopeLock _ (fun _ e => by cases e)

theorem DestroyDisplay_locks_quiet (K : HWCCallbacks) (env : Env) (s : HWCSession)
    (map_info : MapInfoRef) : Quiet (DestroyDisplay_locks K env s map_info) := by
  unfold DestroyDisplay_locks
  cases (s.mapInfo map_info).disp_type with
  | kPluggable =>
    exact Quiet_scopeLock _ (fun _ e => by cases e) _
      (Quiet_append _ _ (SetPowerMode_locks_quiet K env _ _ _) (destroySlot_locks_quiet _ map_info))
  | _ => exact destroySlot_locks_quiet s map_info

theorem reconfigAfterDisconnect_locks_quiet (K : HWCCallbacks) (s : HWCSession) (b : Bool) :
    Quiet (reconfigAfterDisconnect_locks K s b) :=
  Quiet_ite _ _ _
    (Quiet_append _ _ (GetActiveBuiltinDisplay_locks_quiet s)
      (Quiet_ite _ _ _ (Quiet_scopeLock_locker _ _ Inner_nil) Quiet_nil))
    Quiet_nil

theorem DisconnectPluggableDisplays_locks_quiet (K : HWCCallbacks) (env : Env) (s : HWCSession)
    (map_info : MapInfoRef) : Quiet (DisconnectPluggableDisplays_locks K env s map_info) :=
  Quiet_append _ _ (DestroyDisplay_locks_quiet K env _ map_info)
    (reconfigAfterDisconnect_locks_quiet K _ _)

theorem disconnect_locks_quiet (K : HWCCallbacks) (env : Env) (hw : List HWDisplayInfo)
    (l : List Nat) : ∀ s, Quiet (disconnect_locks K env hw l s) := by
  induction l with
  | nil => intro s; exact Quiet_nil
  | cons i rest ih =>
    intro s
    unfold disconnect_locks
    exact Quiet_append _ _
      (Quiet_ite _ _ _ (DisconnectPluggableDisplays_locks_quiet K env s _) Quiet_nil) (ih _)

theorem RemoveDisconnectedPluggableDisplays_locks_quiet (K : HWCCallbacks) (env : Env)
    (s : HWCSession) : Quiet (RemoveDisconnectedPluggableDisplays_locks K env s) := by
  unfold RemoveDisconnectedPluggableDisplays_locks
  refine Quiet_scopeLock _ (fun _ e => by cases e) _ ?_
  cases env.displays_status with
  | none => exact Quiet_nil
  | some hw => exact disconnect_locks_quiet K env hw _ s
theorem runLocks_lock_range (n : Nat) :
    ∀ held, NoLocker held →
      runLocks held ((List.range n).map (fun display => LockOp.acquire (.locker display)))
        = some ((List.range n).reverse.map Lock.locker ++ held) := by
  induction n with
  | zero => intro held _; rfl
  | succ n ih =>
    intro held h
    rw [List.range_succ, List.map_append, runLocks_append, ih held h, List.reverse_append]
    change runLocks _ [LockOp.acquire (Lock.locker n)] = _
    rw [runLocks_acquire, if_pos]
    · rfl
    · rw [List.all_eq_true]
      intro x hx
      rcases List.mem_append.mp hx with hx | hx
      · obtain ⟨j, hj, rfl⟩ := List.mem_map.mp hx
        have : j < n := List.mem_range.mp (List.mem_reverse.mp hj)
        exact decide_eq_true this
      · exact ordered_of_held_not_locker x _ (fun display e => h display (e ▸ hx))

theorem runLocks_unlock_list (l : List Lock) :
    l.Nodup → ∀ held, runLocks (l.reverse ++ held) (l.map LockOp.release) = some held := by
  induction l with
  | nil => intro _ held; rfl
  | cons a rest ih =>
    intro hnd held
    have ha : a ∉ rest.reverse := fun h => (List.nodup_cons.mp hnd).1 (List.mem_reverse.mp h)
    rw [List.map_cons, runLocks_release_cons, List.reverse_cons, List.append_assoc,
      List.singleton_append,
      if_pos (List.mem_append_right _ (List.mem_cons_self a held)),
      List.erase_append_right _ ha, List.erase_cons_head]
    exact ih (List.nodup_cons.mp hnd).2 held

theorem runLocks_all_displays (K : HWCCallbacks) (held : List Lock) (h : NoLocker held) :
    runLocks held (lockAllDisplays K) = some ((List.range K.kNumDisplays).reverse.map Lock.locker ++ held) ∧
    runLocks held (lockAllDisplays K ++ unlockAllDisplays K) = some held := by
  have h1 := runLocks_lock_range K.kNumDisplays held h
  refine ⟨h1, ?_⟩
  rw [runLocks_append]
  unfold lockAllDisplays
  rw [h1]
  have h2 := runLocks_unlock_list ((List.range K.kNumDisplays).map Lock.locker)
    ((List.nodup_range _).map (fun a b e => Lock.locker.inj e)) held
  rw [List.map_map, ← List.map_reverse] at h2
  exact h2

/-- C23: in every execution of `PerformDisplayPowerReset` each per-display lock is acquired
only while every per-display lock already held has a lower index, each release is of a held
lock, and no lock is held at the end; the main block holds `command_seq_mutex_` and, after
its first loop, the per-display locks of all indices `0 .. kNumDisplays - 1` at once,
acquired in ascending order. -/
theorem PerformDisplayPowerReset_lock_order (K : HWCCallbacks) (env : Env) (s : HWCSession) :
    runLocks [] (PerformDisplayPowerReset_locks K env s) = some [] ∧
    runLocks []
      (RemoveDisconnectedPluggableDisplays_locks K env s ++
        LockOp.acquire .command_seq_mutex :: lockAllDisplays K)
      = some ((List.range K.kNumDisplays).reverse.map Lock.locker ++ [Lock.command_seq_mutex]) ∧
    PerformDisplayPowerReset_locks K env s
      = (RemoveDisconnectedPluggableDisplays_locks K env s ++
          LockOp.acquire .command_seq_mutex :: lockAllDisplays K) ++
        (unlockAllDisplays K ++ [LockOp.release .command_seq_mutex]) := by
  have hq := RemoveDisconnectedPluggableDisplays_locks_quiet K env s [] (fun _ h => by cases h)
  have hcs : NoLocker [Lock.command_seq_mutex] := by
    intro display h
    cases h with
    | tail _ h => cases h
  obtain ⟨a1, a2⟩ := runLocks_all_displays K [Lock.command_seq_mutex] hcs
  refine ⟨?_, ?_, ?_⟩
  · unfold PerformDisplayPowerReset_locks
    rw [runLocks_append, hq]
    exact runLocks_scopeLock [] _ _ rfl a2
  · rw [runLocks_append, hq]
    change runLocks [] (LockOp.acquire Lock.command_seq_mutex :: lockAllDisplays K) = _
    rw [runLocks_acquire, if_pos (by rfl)]
    exact a1
  · unfold PerformDisplayPowerReset_locks scopeLock
    simp only [List.append_assoc, List.cons_append]

/-- Witness for C23: the lock trace of `PerformDisplayPowerReset` on the session `exQueued`,
whose pluggable display 1 is reported disconnected, with eight display indices. -/
theorem PerformDisplayPowerReset_lock_order_witness :
    runLocks [] (PerformDisplayPowerReset_locks exLimits exEnvUnplug5 exQueued) = some [] ∧
    runLocks []
      (RemoveDisconnectedPluggableDisplays_locks exLimits exEnvUnplug5 exQueued ++
        LockOp.acquire .command_seq_mutex :: lockAllDisplays exLimits)
      = some ((List.range exLimits.kNumDisplays).reverse.map Lock.locker ++
          [Lock.command_seq_mutex]) ∧
    PerformDisplayPowerReset_locks exLimits exEnvUnplug5 exQueued
      = (RemoveDisconnectedPluggableDisplays_locks exLimits exEnvUnplug5 exQueued ++
          LockOp.acquire .command_seq_mutex :: lockAllDisplays exLimits) ++
        (unlockAllDisplays exLimits ++ [LockOp.release .command_seq_mutex]) :=
  PerformDisplayPowerReset_lock_order exLimits exEnvUnplug5 exQueued

theorem Free_nil (l : Lock) : Free l [] :=
  ⟨List.not_mem_nil _, List.not_mem_nil _⟩

theorem Free_append (l : Lock) (a b : List LockOp) (ha : Free l a) (hb : Free l b) :
    Free l (a ++ b) :=
  ⟨fun h => (List.mem_append.mp h).elim ha.1 hb.1, fun h => (List.mem_append.mp h).elim ha.2 hb.2⟩

theorem Free_scopeLock (l l' : Lock) (body : List LockOp) (hne : l' ≠ l) (hb : Free l body) :
    Free l (scopeLock l' body) := by
  unfold scopeLock
  constructor
  · intro h
    rcases List.mem_append.mp h with h | h
    · rcases List.mem_cons.mp h with e | e
      · exact hne (LockOp.acquire.inj e).symm
      · exact hb.1 e
    · cases List.mem_singleton.mp h
  · intro h
    rcases List.mem_append.mp h with h | h
    · rcases List.mem_cons.mp h with e | e
      · cases e
      · exact hb.2 e
    · exact hne (LockOp.release.inj (List.mem_singleton.mp h)).symm

theorem Free_ite (l : Lock) (c : Prop) [Decidable c] (a b : List LockOp) (ha : Free l a)
    (hb : Free l b) : Free l (if c then a else b) := by
  split_ifs
  · exact ha
  · exact hb

theorem Free_flatMap {α : Type} (l : Lock) (xs : List α) (f : α → List LockOp)
    (h : ∀ x ∈ xs, Free l (f x)) : Free l (xs.flatMap f) := by
  constructor
  · intro hm
    obtain ⟨x, hx, hm⟩ := List.mem_flatMap.mp hm
    exact (h x hx).1 hm
  · intro hm
    obtain ⟨x, hx, hm⟩ := List.mem_flatMap.mp hm
    exact (h x hx).2 hm

theorem OptFree_some (l : Lock) (t : List LockOp) (h : Free l t) : OptFree l (some t) := by
  intro u e
  cases e
  exact h

theorem OptFree_none (l : Lock) : OptFree l none := by
  intro u e
  cases e

theorem OptFree_ite (l : Lock) (c : Prop) [Decidable c] (a b : Option (List LockOp))
    (ha : OptFree l a) (hb : OptFree l b) : OptFree l (if c then a else b) := by
  split_ifs
  · exact ha
  · exact hb

theorem OptFree_andThen (l : Lock) (first : List LockOp) (o : Option (List LockOp))
    (hf : Free l first) (ho : OptFree l o) : OptFree l (andThen first o) := by
  intro u e
  unfold andThen at e
  cases o with
  | none => cases e
  | some t =>
    cases e
    exact Free_append l _ _ hf (ho t rfl)

theorem OptFree_map_const {α : Type} (l : Lock) (o : Option α) (t : List LockOp) (h : Free l t) :
    OptFree l (o.map (fun _ => t)) := by
  intro u e
  cases o with
  | none => cases e
  | some x =>
    cases e
    exact h

theorem locker_ne_handler (display : Display) :
    Lock.locker display ≠ Lock.pluggable_handler_lock := fun e => by cases e

theorem Free_scopeLock_locker (display : Display) :
    Free .pluggable_handler_lock (scopeLock (.locker display) []) :=
  Free_scopeLock _ _ _ (locker_ne_handler display) (Free_nil _)

theorem activeBuiltinScan_locks_free (s : HWCSession) (l : List DisplayMapInfo) :
    Free .pluggable_handler_lock (activeBuiltinScan_locks s l) := by
  induction l with
  | nil => exact Free_nil _
  | cons info rest ih =>
    unfold activeBuiltinScan_locks
    refine Free_append _ _ _ (Free_scopeLock_locker _) ?_
    cases s.hwc_display_ info.client_id with
    | none => exact ih
    | some d => exact Free_ite _ _ _ _ (Free_nil _) ih

theorem GetActiveBuiltinDisplay_locks_free (s : HWCSession) :
    Free .pluggable_handler_lock (GetActiveBuiltinDisplay_locks s) :=
  activeBuiltinScan_locks_free s _

theorem CallDisplayFunction_locks_free (K : HWCCallbacks) (display : Display) :
    Free .pluggable_handler_lock (CallDisplayFunction_locks K display) :=
  Free_ite _ _ _ _ (Free_nil _) (Free_scopeLock_locker _)

theorem powerModeCall_locks_free (K : HWCCallbacks) (s : HWCSession) (display : Display)
    (d : HWCDisplay) (mode : PowerMode) :
    Free .pluggable_handler_lock (powerModeCall_locks K s display d mode) :=
  Free_ite _ _ _ _ (Free_nil _) (Free_ite _ _ _ _ (Free_nil _) (Free_ite _ _ _ _ (Free_nil _)
    (Free_ite _ _ _ _ (Free_nil _) (CallDisplayFunction_locks_free K display))))

theorem deferPowerMode_locks_free (K : HWCCallbacks) (s : HWCSession) (display : Display)
    (d : HWCDisplay) : Free .pluggable_handler_lock (deferPowerMode_locks K s display d) :=
  Free_ite _ _ _ _
    (Free_append _ _ _ (GetActiveBuiltinDisplay_locks_free s)
      (Free_ite _ _ _ _ (Free_scopeLock_locker _) (Free_nil _)))
    (Free_nil _)

theorem SetPowerMode_locks_free (K : HWCCallbacks) (env : Env) (s : HWCSession)
    (display : Display) (int_mode : Int) :
    Free .pluggable_handler_lock (SetPowerMode_locks K env s display int_mode) := by
  unfold SetPowerMode_locks
  cases s.hwc_display_ display with
  | none => exact Free_nil _
  | some d =>
    exact Free_ite _ _ _ _ (Free_nil _) (Free_ite _ _ _ _ (Free_nil _) (Free_ite _ _ _ _ (Free_nil _)
      (Free_append _ _ _
        (Free_append _ _ _ (Free_scopeLock_locker _) (deferPowerMode_locks_free K s display d))
        (Free_ite _ _ _ _ (Free_nil _) (powerModeCall_locks_free K s display d _)))))

theorem destroySlot_locks_free (s : HWCSession) (map_info : MapInfoRef) :
    Free .pluggable_handler_lock (destroySlot_locks s map_info) := by
  unfold destroySlot_locks
  refine Free_scopeLock _ _ _ (locker_ne_handler _) ?_
  cases s.hwc_display_ (s.mapInfo map_info).client_id with
  | none => exact Free_nil _
  | some d => exact Free_scopeLock _ _ _ (fun e => by cases e) (Free_nil _)

theorem DestroyDisplay_locks_free (K : HWCCallbacks) (env : Env) (s : HWCSession)
    (map_info : MapInfoRef) :
    Free .pluggable_handler_lock (DestroyDisplay_locks K env s map_info) := by
  unfold DestroyDisplay_locks
  cases (s.mapInfo map_info).disp_type with
  | kPluggable =>
    exact Free_scopeLock _ _ _ (fun e => by cases e)
      (Free_append _ _ _ (SetPowerMode_locks_free K env _ _ _) (destroySlot_locks_free _ map_info))
  | _ => exact destroySlot_locks_free s map_info

theorem reconfigAfterDisconnect_locks_free (K : HWCCallbacks) (s : HWCSession) (b : Bool) :
    Free .pluggable_handler_lock (reconfigAfterDisconnect_locks K s b) :=
  Free_ite _ _ _ _
    (Free_append _ _ _ (GetActiveBuiltinDisplay_locks_free s)
      (Free_ite _ _ _ _ (Free_scopeLock_locker _) (Free_nil _)))
    (Free_nil _)

theorem DisconnectPluggableDisplays_locks_free (K : HWCCallbacks) (env : Env) (s : HWCSession)
    (map_info : MapInfoRef) :
    Free .pluggable_handler_lock (DisconnectPluggableDisplays_locks K env s map_info) :=
  Free_append _ _ _ (DestroyDisplay_locks_free K env _ map_info)
    (reconfigAfterDisconnect_locks_free K _ _)

theorem disconnect_locks_free (K : HWCCallbacks) (env : Env) (hw : List HWDisplayInfo)
    (l : List Nat) : ∀ s, Free .pluggable_handler_lock (disconnect_locks K env hw l s) := by
  induction l with
  | nil => intro s; exact Free_nil _
  | cons i rest ih =>
    intro s
    unfold disconnect_locks
    exact Free_append _ _ _
      (Free_ite _ _ _ _ (DisconnectPluggableDisplays_locks_free K env s _) (Free_nil _)) (ih _)

theorem HandleDisconnectedDisplays_locks_free (K : HWCCallbacks) (env : Env) (s : HWCSession)
    (hw : List HWDisplayInfo) :
    Free .pluggable_handler_lock (HandleDisconnectedDisplays_locks K env s hw) :=
  disconnect_locks_free K env hw _ s
theorem tuiTargetDisplay_locks_free (Q : Qdutils) (s : HWCSession) (disp_id : Int) :
    Free .pluggable_handler_lock (tuiTargetDisplay_locks Q s disp_id) :=
  Free_ite _ _ _ _ (GetActiveBuiltinDisplay_locks_free s) (Free_nil _)

theorem sendSecureEvent_locks_free (env : Env) (event : SecureEvent) (target_display : Display)
    (s : HWCSession) (l : List DisplayMapInfo) :
    Free .pluggable_handler_lock (sendSecureEvent_locks env event target_display s l) := by
  induction l with
  | nil => exact Free_nil _
  | cons info rest ih =>
    unfold sendSecureEvent_locks
    refine Free_append _ _ _ (Free_scopeLock_locker _) ?_
    cases s.hwc_display_ info.client_id with
    | none => exact ih
    | some d => exact Free_ite _ _ _ _ (Free_nil _) ih

theorem teardownLoop_locks_free (K : HWCCallbacks) (env : Env) (fuel : Nat) :
    ∀ s, OptFree .pluggable_handler_lock (teardownLoop_locks K env fuel s) := by
  induction fuel with
  | zero => intro s; exact OptFree_none _
  | succ fuel ih =>
    intro s
    unfold teardownLoop_locks
    cases s.map_active_displays_.find? (fun disp =>
        (s.mapInfo disp.2).disp_type == DisplayType.kPluggable) with
    | none => exact OptFree_some _ _ (Free_nil _)
    | some it =>
      exact OptFree_andThen _ _ _ (DisconnectPluggableDisplays_locks_free K env s it.2) (ih _)

theorem TUITransitionPrepare_locks_free (Q : Qdutils) (K : HWCCallbacks) (env : Env)
    (s : HWCSession) (disp_id : Int) :
    OptFree .pluggable_handler_lock (TUITransitionPrepare_locks Q K env s disp_id) := by
  have h1 := tuiTargetDisplay_locks_free Q s disp_id
  have h2 : Free .pluggable_handler_lock (tuiTargetDisplay_locks Q s disp_id ++
      scopeLock (.locker (tuiTargetDisplay Q K s disp_id)) []) :=
    Free_append _ _ _ h1 (Free_scopeLock_locker _)
  have h3 := Free_append _ _ _ h2
    (sendSecureEvent_locks_free env .kTUITransitionPrepare (tuiTargetDisplay Q K s disp_id) s
      (tuiDisplays s))
  exact OptFree_ite _ _ _ _ (OptFree_some _ _ h1) (OptFree_ite _ _ _ _ (OptFree_some _ _ h2)
    (OptFree_ite _ _ _ _ (OptFree_some _ _ h3)
      (OptFree_andThen _ _ _ h3 (teardownLoop_locks_free K env _ _))))

theorem TUITransitionUnPrepare_locks_free (Q : Qdutils) (K : HWCCallbacks) (env : Env)
    (s : HWCSession) (disp_id : Int) :
    Free .pluggable_handler_lock (TUITransitionUnPrepare_locks Q K env s disp_id) :=
  Free_ite _ _ _ _ (tuiTargetDisplay_locks_free Q s disp_id)
    (Free_append _ _ _ (tuiTargetDisplay_locks_free Q s disp_id)
      (sendSecureEvent_locks_free env _ _ s _))

theorem WaitForCommitDone_locks_free (C : HWCSessionConstants) (env : Env) (s : HWCSession)
    (display : Display) (client_id : Nat) :
    OptFree .pluggable_handler_lock (WaitForCommitDone_locks C env s display client_id) :=
  OptFree_map_const _ _ _ (Free_scopeLock_locker _)

theorem WaitForVmRelease_locks_free (C : HWCSessionConstants) (env : Env) (s : HWCSession)
    (display : Display) (timeout_ms : Int) :
    OptFree .pluggable_handler_lock (WaitForVmRelease_locks C env s display timeout_ms) :=
  OptFree_map_const _ _ _ (Free_scopeLock _ _ _ (fun e => by cases e) (Free_nil _))

theorem TeardownConcurrentWriteback_locks_free (K : HWCCallbacks) :
    Free .pluggable_handler_lock (TeardownConcurrentWriteback_locks K) :=
  Free_flatMap _ _ _ (fun _ _ => Free_scopeLock_locker _)

theorem endPostEvent_locks_free (Q : Qdutils) (K : HWCCallbacks) (env : Env) (s : HWCSession)
    (target_display : Display) (disp_id : Int) :
    Free .pluggable_handler_lock (endPostEvent_locks Q K env s target_display disp_id) := by
  unfold endPostEvent_locks
  refine Free_append _ _ _ (Free_scopeLock_locker _) ?_
  cases s.hwc_display_ target_display with
  | none => exact Free_nil _
  | some d => exact Free_ite _ _ _ _ (Free_nil _) (TUITransitionUnPrepare_locks_free Q K env _ _)

theorem endDrain_locks_free (Q : Qdutils) (K : HWCCallbacks) (C : HWCSessionConstants)
    (env : Env) (s : HWCSession) (target_display : Display) (disp_id : Int) :
    OptFree .pluggable_handler_lock (endDrain_locks Q K C env s target_display disp_id) := by
  unfold endDrain_locks
  have hw := WaitForCommitDone_locks_free C env s target_display C.kClientTrustedUI
  cases WaitForCommitDone C env s target_display C.kClientTrustedUI with
  | none => exact OptFree_none _
  | some w =>
    cases hl : WaitForCommitDone_locks C env s target_display C.kClientTrustedUI with
    | none => exact OptFree_none _
    | some wait =>
      exact OptFree_some _ _ (Free_append _ _ _ (hw wait hl)
        (Free_ite _ _ _ _ (TUITransitionUnPrepare_locks_free Q K env _ _)
          (endPostEvent_locks_free Q K env _ _ _)))

theorem TUITransitionEndLocked_locks_free (Q : Qdutils) (K : HWCCallbacks)
    (C : HWCSessionConstants) (env : Env) (s : HWCSession) (disp_id : Int) :
    OptFree .pluggable_handler_lock (TUITransitionEndLocked_locks Q K C env s disp_id) := by
  have h1 := tuiTargetDisplay_locks_free Q s disp_id
  have h2 : Free .pluggable_handler_lock (tuiTargetDisplay_locks Q s disp_id ++
      scopeLock (.locker (tuiTargetDisplay Q K s disp_id)) []) :=
    Free_append _ _ _ h1 (Free_scopeLock_locker _)
  unfold TUITransitionEndLocked_locks
  refine OptFree_ite _ _ _ _ (OptFree_some _ _ h1) ?_
  cases s.hwc_display_ (tuiTargetDisplay Q K s disp_id) with
  | none => exact OptFree_none _
  | some d =>
    exact OptFree_ite _ _ _ _ (OptFree_some _ _ h2) (OptFree_ite _ _ _ _
      (OptFree_andThen _ _ _ h2 (endDrain_locks_free Q K C env _ _ _))
      (OptFree_some _ _ (Free_append _ _ _ h2 (endPostEvent_locks_free Q K env _ _ _))))

theorem startHandoff_locks_free (Q : Qdutils) (K : HWCCallbacks) (C : HWCSessionConstants)
    (env : Env) (s : HWCSession) (target_display : Display) (timeout_ms : Int) :
    OptFree .pluggable_handler_lock (startHandoff_locks Q K C env s target_display timeout_ms) := by
  unfold startHandoff_locks
  have hw := WaitForVmRelease_locks_free C env (s.emit (.Refresh target_display)) target_display
    timeout_ms
  cases WaitForVmRelease C env (s.emit (.Refresh target_display)) target_display timeout_ms with
  | none => exact OptFree_none _
  | some w =>
    cases hl : WaitForVmRelease_locks C env (s.emit (.Refresh target_display)) target_display
        timeout_ms with
    | none => exact OptFree_none _
    | some wait =>
      exact OptFree_ite _ _ _ _
        (OptFree_andThen _ _ _ (hw wait hl) (TUITransitionEndLocked_locks_free Q K C env _ _))
        (OptFree_ite _ _ _ _ (OptFree_some _ _ (hw wait hl))
          (OptFree_some _ _ (Free_append _ _ _ (hw wait hl) (Free_scopeLock_locker _))))

theorem startAfterPrepare_locks_free (Q : Qdutils) (K : HWCCallbacks) (C : HWCSessionConstants)
    (env : Env) (s : HWCSession) (disp_id : Int) :
    OptFree .pluggable_handler_lock (startAfterPrepare_locks Q K C env s disp_id) := by
  have h1 := TeardownConcurrentWriteback_locks_free K
  unfold startAfterPrepare_locks
  refine OptFree_ite _ _ _ _ (OptFree_none _) (OptFree_ite _ _ _ _ (OptFree_some _ _ h1) ?_)
  cases (TeardownConcurrentWriteback K s (startTargetDisplay Q s disp_id)).2.hwc_display_
      (startTargetDisplay Q s disp_id) with
  | none => exact OptFree_none _
  | some d =>
    exact OptFree_andThen _ _ _
      (Free_append _ _ _ (Free_append _ _ _ h1 (Free_scopeLock_locker _)) (Free_scopeLock_locker _))
      (OptFree_ite _ _ _ _ (OptFree_some _ _ (TUITransitionUnPrepare_locks_free Q K env _ _))
        (OptFree_ite _ _ _ _ (OptFree_some _ _ (Free_nil _))
          (OptFree_ite _ _ _ _ (startHandoff_locks_free Q K C env _ _ _)
            (OptFree_some _ _ (Free_scopeLock_locker _)))))

theorem startBody_locks_free (Q : Qdutils) (K : HWCCallbacks) (C : HWCSessionConstants)
    (env : Env) (s : HWCSession) (disp_id : Int) :
    OptFree .pluggable_handler_lock (startBody_locks Q K C env s disp_id) := by
  unfold startBody_locks
  have hp := TUITransitionPrepare_locks_free Q K env s disp_id
  cases TUITransitionPrepare Q K env s disp_id with
  | none => exact OptFree_none _
  | some p =>
    cases hl : TUITransitionPrepare_locks Q K env s disp_id with
    | none => exact OptFree_none _
    | some prepare =>
      exact OptFree_ite _ _ _ _ (OptFree_some _ _ (hp prepare hl))
        (OptFree_andThen _ _ _ (hp prepare hl) (startAfterPrepare_locks_free Q K C env _ _))
theorem waitLoop_locks_free (a display_id : Display) (script : List WaitStep) :
    ∀ s, Free .pluggable_handler_lock (waitLoop_locks a display_id script s) := by
  have hm : Free .pluggable_handler_lock (scopeLock .hotplug_mutex []) :=
    Free_scopeLock _ _ _ (fun e => by cases e) (Free_nil _)
  induction script with
  | nil => intro s; exact hm
  | cons step rest ih =>
    intro s
    cases step with
    | timeout => exact hm
    | signalled res_wait needs =>
      unfold waitLoop_locks
      refine Free_append _ _ _ (Free_append _ _ _ hm (Free_scopeLock_locker _)) ?_
      cases s.hwc_display_ display_id with
      | none => exact Free_nil _
      | some d => exact Free_ite _ _ _ _ (ih _) (Free_nil _)

theorem WaitForResources_locks_free (env : Env) (s : HWCSession) (wait_for_resources : Bool)
    (a display_id : Display) :
    Free .pluggable_handler_lock (WaitForResources_locks env s wait_for_resources a display_id) := by
  unfold WaitForResources_locks
  refine Free_ite _ _ _ _ (Free_nil _) (Free_ite _ _ _ _ (waitLoop_locks_free _ _ _ _) ?_)
  refine Free_append _ _ _ (Free_scopeLock_locker _) ?_
  cases s.hwc_display_ display_id with
  | none => exact Free_nil _
  | some d0 =>
    refine Free_ite _ _ _ _ (waitLoop_locks_free _ _ _ _) ?_
    cases s.hwc_display_ a with
    | none => exact Free_scopeLock_locker _
    | some d =>
      exact Free_append _ _ _ (Free_scopeLock_locker _)
        (Free_ite _ _ _ _ (Free_nil _) (waitLoop_locks_free _ _ _ _))

theorem firstCommitPending_locks_free (s : HWCSession) :
    Free .pluggable_handler_lock (firstCommitPending_locks s) :=
  Free_flatMap _ _ _ (fun _ _ => Free_scopeLock_locker _)

theorem deferConnect_locks_free (s : HWCSession) :
    Free .pluggable_handler_lock (deferConnect_locks s) :=
  Free_ite _ _ _ _ (GetActiveBuiltinDisplay_locks_free s) (Free_nil _)

theorem createPluggableInSlots_locks_free (env : Env) (info : HWDisplayInfo)
    (l : List DisplayMapInfo) :
    ∀ acc, Free .pluggable_handler_lock (createPluggableInSlots_locks env info l acc) := by
  induction l with
  | nil => intro acc; exact Free_nil _
  | cons map_info rest ih =>
    intro acc
    unfold createPluggableInSlots_locks
    cases acc.state.hwc_display_ map_info.client_id with
    | some d => exact Free_append _ _ _ (Free_scopeLock_locker _) (ih _)
    | none =>
      refine Free_scopeLock _ _ _ (locker_ne_handler _) ?_
      cases env.pluggable_create map_info.client_id info.display_id (testPattern acc.state) with
      | failed e => exact Free_nil _
      | created d => exact Free_scopeLock _ _ _ (fun e => by cases e) (Free_nil _)

theorem connectLoop_locks_free (K : HWCCallbacks) (env : Env) (hw : List HWDisplayInfo) :
    ∀ acc, Free .pluggable_handler_lock (connectLoop_locks K env hw acc) := by
  induction hw with
  | nil => intro acc; exact Free_nil _
  | cons info rest ih =>
    intro acc
    unfold connectLoop_locks
    exact Free_ite _ _ _ _ (ih _) (Free_ite _ _ _ _ (ih _) (Free_ite _ _ _ _
      (Free_append _ _ _ (firstCommitPending_locks_free _) (deferConnect_locks_free _))
      (Free_append _ _ _
        (Free_append _ _ _ (firstCommitPending_locks_free _)
          (createPluggableInSlots_locks_free env info _ _))
        (ih _))))

theorem finishConnect_locks_free (K : HWCCallbacks) (env : Env) (acc : ConnectAcc)
    (delay_hotplug : Bool) :
    Free .pluggable_handler_lock (finishConnect_locks K env acc delay_hotplug) :=
  Free_ite _ _ _ _ (Free_nil _)
    (Free_append _ _ _ (GetActiveBuiltinDisplay_locks_free _)
      (Free_ite _ _ _ _ (WaitForResources_locks_free env _ _ _ _) (Free_nil _)))

theorem HandleConnectedDisplays_locks_free (K : HWCCallbacks) (env : Env) (s : HWCSession)
    (hw : List HWDisplayInfo) (delay_hotplug : Bool) :
    Free .pluggable_handler_lock (HandleConnectedDisplays_locks K env s hw delay_hotplug) :=
  Free_append _ _ _ (connectLoop_locks_free K env hw _) (finishConnect_locks_free K env _ _)

theorem reconcile_locks_free (K : HWCCallbacks) (env : Env) (s : HWCSession)
    (hw : List HWDisplayInfo) (delay_hotplug : Bool) :
    Free .pluggable_handler_lock (reconcile_locks K env s hw delay_hotplug) :=
  Free_ite _ _ _ _ (HandleDisconnectedDisplays_locks_free K env s hw)
    (Free_append _ _ _ (HandleDisconnectedDisplays_locks_free K env s hw)
      (HandleConnectedDisplays_locks_free K env _ hw delay_hotplug))

theorem activeSecureSessions_locks_free (K : HWCCallbacks) (s : HWCSession) :
    Free .pluggable_handler_lock (activeSecureSessions_locks K s) :=
  Free_append _ _ _ (GetActiveBuiltinDisplay_locks_free s)
    (Free_ite _ _ _ _ (Free_scopeLock_locker _) (Free_nil _))

theorem hotplugBody_locks_free (K : HWCCallbacks) (env : Env) (s : HWCSession)
    (delay_hotplug : Bool) :
    OptFree .pluggable_handler_lock (hotplugBody_locks K env s delay_hotplug) := by
  have h1 := activeSecureSessions_locks_free K s
  unfold hotplugBody_locks
  refine OptFree_ite _ _ _ _ (OptFree_some _ _ h1) (OptFree_ite _ _ _ _ (OptFree_none _)
    (OptFree_ite _ _ _ _ (OptFree_some _ _ h1) ?_))
  cases env.displays_status with
  | none => exact OptFree_some _ _ h1
  | some hw =>
    exact OptFree_some _ _ (Free_append _ _ _ h1 (reconcile_locks_free K env s hw delay_hotplug))

theorem pendingScan_locks_free (s : HWCSession) (a : Display) (l : List Display) :
    Free .pluggable_handler_lock (pendingScan_locks s a l) ∧
    Free (.locker a) (pendingScan_locks s a l) := by
  induction l with
  | nil => exact ⟨Free_nil _, Free_nil _⟩
  | cons display rest ih =>
    unfold pendingScan_locks
    by_cases h : display ≠ a
    · rw [if_pos h]
      exact ⟨Free_append _ _ _ (Free_scopeLock_locker _) (Free_ite _ _ _ _ (Free_nil _) ih.1),
        Free_append _ _ _ (Free_scopeLock _ _ _ (fun e => h (Lock.locker.inj e)) (Free_nil _))
          (Free_ite _ _ _ _ (Free_nil _) ih.2)⟩
    · rw [if_neg h]
      exact ih

theorem pendingApply_locks_free (a : Display) (l : List Display) :
    Free (.locker a) (pendingApply_locks a l) := by
  induction l with
  | nil => exact Free_nil _
  | cons display rest ih =>
    unfold pendingApply_locks
    by_cases h : display = a
    · rw [if_pos h]
      exact ih
    · rw [if_neg h]
      exact Free_append _ _ _ (Free_scopeLock _ _ _ (fun e => h (Lock.locker.inj e)) (Free_nil _)) ih

theorem pendingUnderHandler_locks_free (K : HWCCallbacks) (env : Env) (s : HWCSession) :
    OptFree (.locker (GetActiveBuiltinDisplay K s)) (pendingUnderHandler_locks K env s) := by
  have hne : Lock.pluggable_handler_lock ≠ Lock.locker (GetActiveBuiltinDisplay K s) :=
    fun e => by cases e
  unfold pendingUnderHandler_locks
  cases env.displays_status with
  | none => exact OptFree_some _ _ (Free_scopeLock _ _ _ hne (Free_nil _))
  | some hw =>
    dsimp only
    cases applyPendingPowerModes hw (GetActiveBuiltinDisplay K s) (nonPrimaryDisplays K) s with
    | none => exact OptFree_none _
    | some t =>
      exact OptFree_some _ _ (Free_scopeLock _ _ _ hne (pendingApply_locks_free _ _))

theorem acquiredOutside_acquired (outer l : Lock) (t : List LockOp) :
    ∀ held, l ∈ acquiredOutside outer held t → LockOp.acquire l ∈ t := by
  induction t with
  | nil => intro held h; cases h
  | cons op rest ih =>
    intro held h
    cases op with
    | acquire m =>
      rw [acquiredOutside] at h
      split_ifs at h with h1 h2
      · exact List.mem_cons_of_mem _ (ih _ h)
      · exact List.mem_cons_of_mem _ (ih _ h)
      · rcases List.mem_cons.mp h with e | e
        · rw [e]; exact List.mem_cons_self _ _
        · exact List.mem_cons_of_mem _ (ih _ e)
    | release m =>
      rw [acquiredOutside] at h
      split_ifs at h with h1
      · exact List.mem_cons_of_mem _ (ih _ h)
      · exact List.mem_cons_of_mem _ (ih _ h)

theorem acquiredOutside_append (outer l : Lock) (a b : List LockOp) :
    ∀ held, l ∈ acquiredOutside outer held (a ++ b) →
      l ∈ acquiredOutside outer held a ∨ ∃ held', l ∈ acquiredOutside outer held' b := by
  induction a with
  | nil => intro held h; exact Or.inr ⟨held, h⟩
  | cons op rest ih =>
    intro held h
    cases op with
    | acquire m =>
      rw [List.cons_append, acquiredOutside] at h
      rw [acquiredOutside]
      split_ifs at h ⊢ with h1 h2
      · exact ih _ h
      · exact ih _ h
      · rcases List.mem_cons.mp h with e | e
        · exact Or.inl (e ▸ List.mem_cons_self _ _)
        · exact (ih _ e).imp (List.mem_cons_of_mem _) id
    | release m =>
      rw [List.cons_append, acquiredOutside] at h
      rw [acquiredOutside]
      split_ifs at h ⊢ with h1
      · exact ih _ h
      · exact ih _ h

theorem acquiredOutside_free (outer : Lock) (body rest : List LockOp) (h : Free outer body) :
    acquiredOutside outer true (body ++ rest) = acquiredOutside outer true rest := by
  induction body with
  | nil => rfl
  | cons op tail ih =>
    have ht : Free outer tail :=
      ⟨fun m => h.1 (List.mem_cons_of_mem _ m), fun m => h.2 (List.mem_cons_of_mem _ m)⟩
    cases op with
    | acquire m =>
      have hne : m ≠ outer := fun e => h.1 (e ▸ List.mem_cons_self _ _)
      rw [List.cons_append, acquiredOutside, if_neg hne, if_pos rfl]
      exact ih ht
    | release m =>
      have hne : m ≠ outer := fun e => h.2 (e ▸ List.mem_cons_self _ _)
      rw [List.cons_append, acquiredOutside, if_neg hne]
      exact ih ht

theorem acquiredOutside_scopeLock (outer : Lock) (body : List LockOp) (held : Bool)
    (h : Free outer body) : acquiredOutside outer held (scopeLock outer body) = [] := by
  unfold scopeLock
  rw [List.cons_append, acquiredOutside, if_pos rfl, acquiredOutside_free outer body _ h,
    acquiredOutside, if_pos rfl]
  rfl

theorem acquiredOutside_map_scopeLock (outer : Lock) (o : Option (List LockOp))
    (h : OptFree outer o) (t : List LockOp) (ht : o.map (scopeLock outer) = some t) :
    acquiredOutside outer false t = [] := by
  cases o with
  | none => cases ht
  | some body =>
    cases ht
    exact acquiredOutside_scopeLock outer body false (h body rfl)
theorem HandlePendingPowerMode_locks_handler_inside (K : HWCCallbacks) (env : Env)
    (s : HWCSession) (disp_id : Display) (retire_fence : Option Nat) (t : List LockOp)
    (ht : HandlePendingPowerMode_locks K env s disp_id retire_fence = some t) :
    Lock.pluggable_handler_lock ∉
      acquiredOutside (.locker (GetActiveBuiltinDisplay K s)) false t := by
  have hg := GetActiveBuiltinDisplay_locks_free s
  have hscan := pendingScan_locks_free s (GetActiveBuiltinDisplay K s) (nonPrimaryDisplays K)
  have hpre : Free .pluggable_handler_lock (GetActiveBuiltinDisplay_locks s ++
      scopeLock (.locker (GetActiveBuiltinDisplay K s))
        (pendingScan_locks s (GetActiveBuiltinDisplay K s) (nonPrimaryDisplays K))) :=
    Free_append _ _ _ hg (Free_scopeLock _ _ _ (locker_ne_handler _) hscan.1)
  unfold HandlePendingPowerMode_locks at ht
  split_ifs at ht with h1 h2 h3 h4 h5
  · cases ht
    exact List.not_mem_nil _
  · cases ht
    exact fun h => hg.1 (acquiredOutside_acquired _ _ _ _ h)
  · cases ht
    exact fun h => hpre.1 (acquiredOutside_acquired _ _ _ _ h)
  · cases ht
    exact fun h => hpre.1 (acquiredOutside_acquired _ _ _ _ h)
  · have hu := pendingUnderHandler_locks_free K env s
    cases hp : pendingUnderHandler_locks K env s with
    | none =>
      rw [hp] at ht
      cases ht
    | some under =>
      rw [hp] at ht
      cases ht
      intro h
      rcases acquiredOutside_append _ _ _ _ _ h with h | ⟨held, h⟩
      · exact hg.1 (acquiredOutside_acquired _ _ _ _ h)
      · rw [acquiredOutside_scopeLock _ _ _ (Free_append _ _ _ hscan.2 (hu under hp))] at h
        cases h

/-- The place of the pluggable-handler lock in the lock traces of the code: in
`HandlePluggableDisplays`, `RemoveDisconnectedPluggableDisplays`, `TUITransitionStart` and
`TUITransitionEnd` no lock is acquired while the pluggable-handler lock is not held (it is
taken first and the per-display locks under it); in `HandlePendingPowerMode` the
pluggable-handler lock is acquired only while the lock of the active built-in display is
held. -/
theorem pluggable_handler_lock_held_first (Q : Qdutils) (K : HWCCallbacks)
    (C : HWCSessionConstants) (env : Env) (s : HWCSession) :
    (∀ delay_hotplug t, HandlePluggableDisplays_locks K env s delay_hotplug = some t →
      acquiredOutside .pluggable_handler_lock false t = []) ∧
    acquiredOutside .pluggable_handler_lock false
      (RemoveDisconnectedPluggableDisplays_locks K env s) = [] ∧
    (∀ disp_id t, TUITransitionStart_locks Q K C env s disp_id = some t →
      acquiredOutside .pluggable_handler_lock false t = []) ∧
    (∀ disp_id t, TUITransitionEnd_locks Q K C env s disp_id = some t →
      acquiredOutside .pluggable_handler_lock false t = []) ∧
    (∀ disp_id retire_fence t,
      HandlePendingPowerMode_locks K env s disp_id retire_fence = some t →
      Lock.pluggable_handler_lock ∉
        acquiredOutside (.locker (GetActiveBuiltinDisplay K s)) false t) := by
  refine ⟨?_, ?_, ?_, ?_, ?_⟩
  · intro delay_hotplug t ht
    exact acquiredOutside_map_scopeLock _ _ (hotplugBody_locks_free K env s delay_hotplug) t ht
  · unfold RemoveDisconnectedPluggableDisplays_locks
    refine acquiredOutside_scopeLock _ _ _ ?_
    cases env.displays_status with
    | none => exact Free_nil _
    | some hw => exact HandleDisconnectedDisplays_locks_free K env s hw
  · intro disp_id t ht
    exact acquiredOutside_map_scopeLock _ _ (startBody_locks_free Q K C env s disp_id) t ht
  · intro disp_id t ht
    exact acquiredOutside_map_scopeLock _ _
      (TUITransitionEndLocked_locks_free Q K C env s disp_id) t ht
  · intro disp_id retire_fence t ht
    exact HandlePendingPowerMode_locks_handler_inside K env s disp_id retire_fence t ht

/-- On the session `exPendingPluggable` every one of the five operations completes, so
the statements about their lock traces are about actual traces. -/
theorem pluggable_handler_lock_held_first_example :
    ((HandlePluggableDisplays_locks exLimits exEnvUnplug5 exPendingPluggable false).isSome = true ∧
      (TUITransitionStart_locks exQdutils exLimits exConstants exEnvUnplug5 exPendingPluggable
        0).isSome = true ∧
      (TUITransitionEnd_locks exQdutils exLimits exConstants exEnvUnplug5 exPendingPluggable
        0).isSome = true ∧
      (HandlePendingPowerMode_locks exLimits exEnvUnplug5 exPendingPluggable 0 (some 7)).isSome
        = true) ∧
    ((∀ delay_hotplug t,
        HandlePluggableDisplays_locks exLimits exEnvUnplug5 exPendingPluggable delay_hotplug
          = some t →
        acquiredOutside .pluggable_handler_lock false t = []) ∧
      acquiredOutside .pluggable_handler_lock false
        (RemoveDisconnectedPluggableDisplays_locks exLimits exEnvUnplug5 exPendingPluggable) = [] ∧
      (∀ disp_id t,
        TUITransitionStart_locks exQdutils exLimits exConstants exEnvUnplug5 exPendingPluggable
          disp_id = some t →
        acquiredOutside .pluggable_handler_lock false t = []) ∧
      (∀ disp_id t,
        TUITransitionEnd_locks exQdutils exLimits exConstants exEnvUnplug5 exPendingPluggable
          disp_id = some t →
        acquiredOutside .pluggable_handler_lock false t = []) ∧
      (∀ disp_id retire_fence t,
        HandlePendingPowerMode_locks exLimits exEnvUnplug5 exPendingPluggable disp_id
          retire_fence = some t →
        Lock.pluggable_handler_lock ∉
          acquiredOutside (.locker (GetActiveBuiltinDisplay exLimits exPendingPluggable)) false
            t)) :=
  ⟨by decide,
    pluggable_handler_lock_held_first exQdutils exLimits exConstants exEnvUnplug5
      exPendingPluggable⟩

/-- C24 fails on the code: the primary (index 0) is the active built-in display, a secure
session is winding down with the pluggable display 1 pending and reported disconnected.
`HandlePluggableDisplays` takes the pluggable-handler lock first and acquires `locker_[0]`
(and later `locker_[1]`, `locker_[2]`) while it holds it; `HandlePendingPowerMode(0, fence)`
on the same session holds `locker_[0]` when it acquires the pluggable-handler lock. The
two operations take the same two locks in opposite orders.
`RemoveDisconnectedPluggableDisplays` acquires per-display locks under the pluggable-handler
lock as well. -/
theorem pluggable_handler_lock_order_inversion :
    GetActiveBuiltinDisplay exLimits exPendingPluggable = 0 ∧
    (HandlePluggableDisplays_locks exLimits exEnvUnplug5 exPendingPluggable false).map
        (fun t => t.take 2)
      = some [.acquire .pluggable_handler_lock, .acquire (.locker 0)] ∧
    (HandlePluggableDisplays_locks exLimits exEnvUnplug5 exPendingPluggable false).map
        (acquiredUnder .pluggable_handler_lock false)
      = some [.locker 0, .locker 0, .command_seq_mutex, .locker 1, .locker 1, .hdr_locker 1,
          .locker 2] ∧
    (HandlePendingPowerMode_locks exLimits exEnvUnplug5 exPendingPluggable 0 (some 7)).map
        (fun t => t.take 7)
      = some [.acquire (.locker 0), .release (.locker 0), .acquire (.locker 0),
          .acquire (.locker 1), .release (.locker 1), .acquire .pluggable_handler_lock,
          .acquire (.locker 1)] ∧
    (HandlePendingPowerMode_locks exLimits exEnvUnplug5 exPendingPluggable 0 (some 7)).map
        (acquiredUnder (.locker 0) false)
      = some [.locker 1, .pluggable_handler_lock, .locker 1, .locker 2, .locker 3, .locker 4,
          .locker 5, .locker 6, .locker 7] ∧
    (HandlePendingPowerMode_locks exLimits exEnvUnplug5 exPendingPluggable 0 (some 7)).map
        (acquiredUnder .pluggable_handler_lock false)
      = some [.locker 1, .locker 2, .locker 3, .locker 4, .locker 5, .locker 6, .locker 7] ∧
    RemoveDisconnectedPluggableDisplays_locks exLimits exEnvUnplug5 exQueued
      = [.acquire .pluggable_handler_lock, .acquire .command_seq_mutex,
         .acquire (.locker 1), .release (.locker 1),
         .acquire (.locker 1), .acquire (.hdr_locker 1), .release (.hdr_locker 1),
         .release (.locker 1), .release .command_seq_mutex,
         .acquire (.locker 2), .release (.locker 2), .release .pluggable_handler_lock] := by
  decide

end sdm
